import Mathlib

/-!
# Vireio Perception: stereo view adjustment and dual-eye render state

A shallow embedding of `ViewAdjustment.cpp` and of the eye-switching, drawing, copying,
resource-binding, resource-getter, state-capture, teardown and restore parts of
`D3DProxyDevice.cpp`.

Conventions of the embedding:

* C++ `float` values are modelled as exact rationals (`ℚ`): rounding, infinities and NaN
  are not represented, and a division by zero yields `0` as in Mathlib.
* Where rounding decides a property, the operation is embedded a second time in binary32
  (names ending in `32`): every arithmetic operation is followed by `round32`, rounding to
  nearest with ties to even, a significand of 24 bits and gradual underflow; overflow is not
  represented, and the theorems bound the operands where it could occur. `D3DXMatrixInverse`,
  whose code and rounding belong to the D3DX library, is a parameter of these operations.
* `D3DXMATRIX` is a 4x4 rational matrix, with the row-vector convention of D3DX
  (`operator*` and `D3DXMatrixMultiply` are the ordinary matrix product).
* The D3DX helpers are an external library; they are written down from their
  documented formulas.
* The wrapped `IDirect3DDevice9` is an environment: every call issued to it is appended to a
  log, and its answer is given by a `Device` function of the position in the log and the call.
* A dereference of a null pointer or an out-of-range vector access makes an operation
  return `none`; so do the `exit(1)` and a failing `assert` of `OnCreateOrRestore`.
* `AddRef()` and `Release()` on wrapped resources are entries of the same log; a reference
  count is read off the log as the number of `AddRef()` minus the number of `Release()`.
* The two `std::map` members are kept as the list of their entries.
-/

namespace Vireio

/-! ## D3DX matrices -/

/-- The D3DX matrix type: four rows of four numbers. -/
abbrev D3DXMATRIX := Matrix (Fin 4) (Fin 4) ℚ

/-- D3DX helper `D3DXMatrixIdentity`. -/
def D3DXMatrixIdentity : D3DXMATRIX := 1

/-- D3DX helper `D3DXMatrixTranslation`: the offsets sit in the fourth row. -/
def D3DXMatrixTranslation (x y z : ℚ) : D3DXMATRIX :=
  !![1, 0, 0, 0;
     0, 1, 0, 0;
     0, 0, 1, 0;
     x, y, z, 1]

/-- D3DX helper `D3DXMatrixScaling`. -/
def D3DXMatrixScaling (sx sy sz : ℚ) : D3DXMATRIX :=
  !![sx, 0, 0, 0;
     0, sy, 0, 0;
     0, 0, sz, 0;
     0, 0, 0, 1]

/-- D3DX helper `D3DXMatrixRotationZ`; the cosine and the sine of the angle are passed in,
since they are not rational in general. -/
def D3DXMatrixRotationZ (cosAngle sinAngle : ℚ) : D3DXMATRIX :=
  !![cosAngle, sinAngle, 0, 0;
     -sinAngle, cosAngle, 0, 0;
     0, 0, 1, 0;
     0, 0, 0, 1]

/-- D3DX helper `D3DXMatrixIsIdentity`. -/
def D3DXMatrixIsIdentity (M : D3DXMATRIX) : Bool := decide (M = 1)

/-- D3DX helper `D3DXMatrixMultiply(out, M1, M2)`: `out = M1 * M2`. -/
def D3DXMatrixMultiply (M1 M2 : D3DXMATRIX) : D3DXMATRIX := M1 * M2

/-- D3DX helper `D3DXMatrixPerspectiveOffCenterLH(out, l, r, b, t, zn, zf)`. -/
def D3DXMatrixPerspectiveOffCenterLH (l r b t zn zf : ℚ) : D3DXMATRIX :=
  !![2 * zn / (r - l), 0, 0, 0;
     0, 2 * zn / (t - b), 0, 0;
     (l + r) / (l - r), (t + b) / (b - t), zf / (zf - zn), 1;
     0, 0, zn * zf / (zn - zf), 0]

/-- D3DX helper `D3DXMatrixInverse(out, NULL, M)` in exact arithmetic: writes the inverse of
`M` (adjugate divided by the determinant); when the determinant is zero the call fails and
`out` keeps its value. The routine of the library works in binary32 and its code is not part of
the repository, so no theorem relies on the product of the result with `M` being the
identity. -/
def D3DXMatrixInverse (out M : D3DXMATRIX) : D3DXMATRIX :=
  if M.det = 0 then out else (M.det)⁻¹ • M.adjugate

/-! ## ViewAdjustment -/

/-- Modelled from the spec: the eye constant of the left eye, declared in the missing header
`ViewAdjustment.h`; the spec gives `LEFT_CONSTANT = -1`. -/
def LEFT_CONSTANT : ℚ := -1

/-- Modelled from the spec: the eye constant of the right eye, declared in the missing header
`ViewAdjustment.h`; the spec gives `RIGHT_CONSTANT = +1`. -/
def RIGHT_CONSTANT : ℚ := 1

/-- Modelled from the spec: the default interpupillary distance `IPD_DEFAULT`, declared in the
missing header `ViewAdjustment.h`; the spec scenario has an IPD of 0.064 m equal to the
default. -/
def IPD_DEFAULT : ℚ := 64 / 1000

/-- Modelled from the spec: the helper `vireio::clamp(&x, min, max)`, whose definition is
missing; it brings `x` back into the bounds `[min, max]`. -/
def clamp (toClamp min max : ℚ) : ℚ :=
  if toClamp < min then min else if toClamp > max then max else toClamp

/-- The fields of `HMDisplayInfo` read by `ViewAdjustment`. -/
structure HMDisplayInfo where
  screenAspectRatio : ℚ
  lensXCenterOffset : ℚ

/-- The member variables of class `ViewAdjustment`. -/
structure ViewAdjustment where
  hmdInfo : HMDisplayInfo
  metersToWorldMultiplier : ℚ
  rollEnabled : Bool
  bulletLabyrinth : Bool
  convergence : ℚ
  minConvergence : ℚ
  maxConvergence : ℚ
  ipd : ℚ
  stereoType : Int
  n : ℚ
  f : ℚ
  l : ℚ
  r : ℚ
  t : ℚ
  b : ℚ
  squash : ℚ
  gui3DDepth : ℚ
  hudDistance : ℚ
  hud3DDepth : ℚ
  matProjection : D3DXMATRIX
  matProjectionInv : D3DXMATRIX
  leftShiftProjection : D3DXMATRIX
  rightShiftProjection : D3DXMATRIX
  projectLeft : D3DXMATRIX
  projectRight : D3DXMATRIX
  transformLeft : D3DXMATRIX
  transformRight : D3DXMATRIX
  matViewProjTransformLeft : D3DXMATRIX
  matViewProjTransformRight : D3DXMATRIX
  matGatheredLeft : D3DXMATRIX
  matGatheredRight : D3DXMATRIX
  rollMatrix : D3DXMATRIX
  matSquash : D3DXMATRIX
  matHudDistance : D3DXMATRIX
  matLeftHud3DDepth : D3DXMATRIX
  matRightHud3DDepth : D3DXMATRIX
  matLeftHud3DDepthShifted : D3DXMATRIX
  matRightHud3DDepthShifted : D3DXMATRIX
  matLeftGui3DDepth : D3DXMATRIX
  matRightGui3DDepth : D3DXMATRIX
  matBulletLabyrinth : D3DXMATRIX

namespace ViewAdjustment

/-- Method `ViewAdjustment::SeparationInWorldUnits`. -/
def SeparationInWorldUnits (va : ViewAdjustment) : ℚ :=
  (va.ipd / 2) * va.metersToWorldMultiplier

/-- Method `ViewAdjustment::SeparationIPDAdjustment`. -/
def SeparationIPDAdjustment (va : ViewAdjustment) : ℚ :=
  ((va.ipd - IPD_DEFAULT) / 2) * va.metersToWorldMultiplier

/-- The test `stereoType == 26 || stereoType == 27 || stereoType == 25` of
`UpdateProjectionMatrices` (the HMD stereo modes). -/
def isRiftStereoType (stereoType : Int) : Bool :=
  stereoType == 26 || stereoType == 27 || stereoType == 25

/-- The assumed near clipping plane distance, local constant of `UpdateProjectionMatrices`. -/
def nearClippingPlaneDistance : ℚ := 1

/-- The assumed physical screen size, local constant of `UpdateProjectionMatrices`. -/
def physicalScreenSizeInMeters : ℚ := 1

/-- Method `ViewAdjustment::UpdateProjectionMatrices`. -/
def UpdateProjectionMatrices (va : ViewAdjustment) (aspectRatio : ℚ) : ViewAdjustment :=
  let t : ℚ := (1 / 2) / aspectRatio
  let b : ℚ := (-(1 / 2)) / aspectRatio
  let matProjection := D3DXMatrixPerspectiveOffCenterLH va.l va.r b t va.n va.f
  let matProjectionInv := D3DXMatrixInverse va.matProjectionInv matProjection
  let convergence : ℚ :=
    if va.convergence ≤ nearClippingPlaneDistance then nearClippingPlaneDistance + 1 / 1000
    else va.convergence
  let frustumAsymmetryInMeters : ℚ := ((va.ipd / 2) * nearClippingPlaneDistance) / convergence
  let frustumAsymmetryLeftInMeters : ℚ :=
    (frustumAsymmetryInMeters * LEFT_CONSTANT) / physicalScreenSizeInMeters
  let frustumAsymmetryRightInMeters : ℚ :=
    (frustumAsymmetryInMeters * RIGHT_CONSTANT) / physicalScreenSizeInMeters
  let screenSpaceXSize : ℚ := |va.l| + |va.r|
  let multiplier : ℚ := screenSpaceXSize / 1
  let frustumAsymmetryLeft : ℚ := frustumAsymmetryLeftInMeters * multiplier
  let frustumAsymmetryRight : ℚ := frustumAsymmetryRightInMeters * multiplier
  let projectLeft := D3DXMatrixPerspectiveOffCenterLH
    (va.l + frustumAsymmetryLeft) (va.r + frustumAsymmetryLeft) b t va.n va.f
  let projectRight := D3DXMatrixPerspectiveOffCenterLH
    (va.l + frustumAsymmetryRight) (va.r + frustumAsymmetryRight) b t va.n va.f
  if isRiftStereoType va.stereoType then
    let leftShiftProjection :=
      D3DXMatrixTranslation (va.hmdInfo.lensXCenterOffset * LEFT_CONSTANT) 0 0
    let rightShiftProjection :=
      D3DXMatrixTranslation (va.hmdInfo.lensXCenterOffset * RIGHT_CONSTANT) 0 0
    { va with
      t := t, b := b, matProjection := matProjection, matProjectionInv := matProjectionInv,
      convergence := convergence,
      leftShiftProjection := leftShiftProjection,
      rightShiftProjection := rightShiftProjection,
      projectLeft := projectLeft * leftShiftProjection,
      projectRight := projectRight * rightShiftProjection }
  else
    { va with
      t := t, b := b, matProjection := matProjection, matProjectionInv := matProjectionInv,
      convergence := convergence,
      projectLeft := projectLeft,
      projectRight := projectRight }

/-- Method `ViewAdjustment::ComputeViewTransforms`. -/
def ComputeViewTransforms (va : ViewAdjustment) : ViewAdjustment :=
  let transformLeft0 := D3DXMatrixTranslation (va.SeparationInWorldUnits * LEFT_CONSTANT) 0 0
  let transformRight0 := D3DXMatrixTranslation (va.SeparationInWorldUnits * RIGHT_CONSTANT) 0 0
  let transformLeft :=
    if va.rollEnabled then D3DXMatrixMultiply va.rollMatrix transformLeft0 else transformLeft0
  let transformRight :=
    if va.rollEnabled then D3DXMatrixMultiply va.rollMatrix transformRight0 else transformRight0
  let additionalSeparation : ℚ := (3 / 2 - va.hudDistance) * va.hmdInfo.lensXCenterOffset
  { va with
    transformLeft := transformLeft,
    transformRight := transformRight,
    matViewProjTransformLeft := va.matProjectionInv * transformLeft * va.projectLeft,
    matViewProjTransformRight := va.matProjectionInv * transformRight * va.projectRight,
    matSquash := D3DXMatrixScaling va.squash va.squash 1,
    matHudDistance := D3DXMatrixTranslation 0 0 va.hudDistance,
    matLeftHud3DDepth := D3DXMatrixTranslation va.hud3DDepth 0 0,
    matRightHud3DDepth := D3DXMatrixTranslation (-va.hud3DDepth) 0 0,
    matLeftHud3DDepthShifted := D3DXMatrixTranslation (va.hud3DDepth + additionalSeparation) 0 0,
    matRightHud3DDepthShifted :=
      D3DXMatrixTranslation (-va.hud3DDepth - additionalSeparation) 0 0,
    matLeftGui3DDepth := D3DXMatrixTranslation (va.gui3DDepth + va.SeparationIPDAdjustment) 0 0,
    matRightGui3DDepth :=
      D3DXMatrixTranslation (-(va.gui3DDepth + va.SeparationIPDAdjustment)) 0 0 }

/-- The constructor `ViewAdjustment::ViewAdjustment(displayInfo, metersToWorldUnits, enableRoll)`.
The argument `raw` stands for the contents of the object before construction: the members the
constructor does not assign (`stereoType`, `matBulletLabyrinth`) keep their value from it. -/
def ctor (raw : ViewAdjustment) (displayInfo : HMDisplayInfo) (metersToWorldUnits : ℚ)
    (enableRoll : Bool) : ViewAdjustment :=
  let va0 : ViewAdjustment :=
    { raw with
      hmdInfo := displayInfo,
      metersToWorldMultiplier := metersToWorldUnits,
      rollEnabled := enableRoll,
      bulletLabyrinth := false,
      convergence := 0,
      minConvergence := -10,
      maxConvergence := 10,
      ipd := IPD_DEFAULT,
      n := 1 / 10,
      f := 10,
      l := -(1 / 2),
      r := 1 / 2,
      squash := 1,
      gui3DDepth := 0,
      hudDistance := 0,
      hud3DDepth := 0,
      matProjection := D3DXMatrixIdentity,
      matProjectionInv := D3DXMatrixIdentity,
      leftShiftProjection := D3DXMatrixIdentity,
      rightShiftProjection := D3DXMatrixIdentity,
      projectLeft := D3DXMatrixIdentity,
      projectRight := D3DXMatrixIdentity,
      transformLeft := D3DXMatrixIdentity,
      transformRight := D3DXMatrixIdentity,
      matViewProjTransformRight := D3DXMatrixIdentity,
      matViewProjTransformLeft := D3DXMatrixIdentity,
      matGatheredLeft := D3DXMatrixIdentity,
      matGatheredRight := D3DXMatrixIdentity }
  let va1 := va0.UpdateProjectionMatrices displayInfo.screenAspectRatio
  ComputeViewTransforms { va1 with rollMatrix := D3DXMatrixIdentity }

/-- Method `ViewAdjustment::Load`; `cfg` is passed field by field. -/
def Load (va : ViewAdjustment) (cfgRollEnabled : Bool) (cfgWorldScaleFactor cfgConvergence
    cfgIpd : ℚ) (cfgStereoMode : Int) : ViewAdjustment :=
  { va with
    rollEnabled := cfgRollEnabled,
    metersToWorldMultiplier := cfgWorldScaleFactor,
    convergence := cfgConvergence,
    ipd := cfgIpd,
    stereoType := cfgStereoMode }

/-- Method `ViewAdjustment::ChangeWorldScale`: the new state and the returned value. -/
def ChangeWorldScale (va : ViewAdjustment) (toAdd : ℚ) : ViewAdjustment × ℚ :=
  let v := clamp (va.metersToWorldMultiplier + toAdd) (1 / 10000) 1000000
  ({ va with metersToWorldMultiplier := v }, v)

/-- Method `ViewAdjustment::ChangeConvergence`: the new state and the returned value. -/
def ChangeConvergence (va : ViewAdjustment) (toAdd : ℚ) : ViewAdjustment × ℚ :=
  let v := clamp (va.convergence + toAdd) va.minConvergence va.maxConvergence
  ({ va with convergence := v }, v)

/-- Method `ViewAdjustment::UpdateRoll`; the cosine and the sine of `roll` are passed in. -/
def UpdateRoll (va : ViewAdjustment) (cosRoll sinRoll : ℚ) : ViewAdjustment :=
  { va with rollMatrix := D3DXMatrixRotationZ cosRoll sinRoll }

/-- Method `ViewAdjustment::UpdatePitchYaw`. -/
def UpdatePitchYaw (va : ViewAdjustment) (pitch yaw : ℚ) : ViewAdjustment :=
  { va with matBulletLabyrinth := D3DXMatrixTranslation (-yaw) pitch 0 }

/-- Method `ViewAdjustment::GatherMatrix`. -/
def GatherMatrix (va : ViewAdjustment) (matrixLeft matrixRight : D3DXMATRIX) : ViewAdjustment :=
  { va with matGatheredLeft := matrixLeft, matGatheredRight := matrixRight }

/-- Method `ViewAdjustment::WorldScale`. -/
def WorldScale (va : ViewAdjustment) : ℚ := va.metersToWorldMultiplier

/-- Method `ViewAdjustment::ChangeGUISquash`. -/
def ChangeGUISquash (va : ViewAdjustment) (newSquash : ℚ) : ViewAdjustment :=
  { va with squash := newSquash, matSquash := D3DXMatrixScaling newSquash newSquash 1 }

/-- Method `ViewAdjustment::ChangeGUI3DDepth`. -/
def ChangeGUI3DDepth (va : ViewAdjustment) (newGui3DDepth : ℚ) : ViewAdjustment :=
  { va with
    gui3DDepth := newGui3DDepth,
    matLeftGui3DDepth := D3DXMatrixTranslation (newGui3DDepth + va.SeparationIPDAdjustment) 0 0,
    matRightGui3DDepth :=
      D3DXMatrixTranslation (-(newGui3DDepth + va.SeparationIPDAdjustment)) 0 0 }

/-- Method `ViewAdjustment::ChangeHUDDistance`. -/
def ChangeHUDDistance (va : ViewAdjustment) (newHudDistance : ℚ) : ViewAdjustment :=
  { va with
    hudDistance := newHudDistance,
    matHudDistance := D3DXMatrixTranslation 0 0 newHudDistance }

/-- Method `ViewAdjustment::ChangeHUD3DDepth`. -/
def ChangeHUD3DDepth (va : ViewAdjustment) (newHud3DDepth : ℚ) : ViewAdjustment :=
  let additionalSeparation : ℚ := (3 / 2 - va.hudDistance) * va.hmdInfo.lensXCenterOffset
  { va with
    hud3DDepth := newHud3DDepth,
    matLeftHud3DDepth := D3DXMatrixTranslation (-newHud3DDepth) 0 0,
    matRightHud3DDepth := D3DXMatrixTranslation newHud3DDepth 0 0,
    matLeftHud3DDepthShifted := D3DXMatrixTranslation (newHud3DDepth + additionalSeparation) 0 0,
    matRightHud3DDepthShifted :=
      D3DXMatrixTranslation (-newHud3DDepth - additionalSeparation) 0 0 }

/-- Method `ViewAdjustment::SetBulletLabyrinthMode`. -/
def SetBulletLabyrinthMode (va : ViewAdjustment) (newMode : Bool) : ViewAdjustment :=
  { va with bulletLabyrinth := newMode }

/-- Method `ViewAdjustment::BulletLabyrinthMode`. -/
def BulletLabyrinthMode (va : ViewAdjustment) : Bool := va.bulletLabyrinth

/-- Method `ViewAdjustment::ResetWorldScale`. -/
def ResetWorldScale (va : ViewAdjustment) : ViewAdjustment :=
  { va with metersToWorldMultiplier := 3 }

/-- Method `ViewAdjustment::ResetConvergence`. -/
def ResetConvergence (va : ViewAdjustment) : ViewAdjustment :=
  { va with convergence := 3 }

/-- Method `ViewAdjustment::Convergence`. -/
def Convergence (va : ViewAdjustment) : ℚ := va.convergence

/-- Method `ViewAdjustment::ConvergenceInWorldUnits`. -/
def ConvergenceInWorldUnits (va : ViewAdjustment) : ℚ :=
  va.convergence * va.metersToWorldMultiplier

/-- Method `ViewAdjustment::RollEnabled`. -/
def RollEnabled (va : ViewAdjustment) : Bool := va.rollEnabled

/-- Method `ViewAdjustment::LeftAdjustmentMatrix`. -/
def LeftAdjustmentMatrix (va : ViewAdjustment) : D3DXMATRIX := va.matViewProjTransformLeft

/-- Method `ViewAdjustment::RightAdjustmentMatrix`. -/
def RightAdjustmentMatrix (va : ViewAdjustment) : D3DXMATRIX := va.matViewProjTransformRight

/-- Method `ViewAdjustment::LeftViewTransform`. -/
def LeftViewTransform (va : ViewAdjustment) : D3DXMATRIX := va.transformLeft

/-- Method `ViewAdjustment::RightViewTransform`. -/
def RightViewTransform (va : ViewAdjustment) : D3DXMATRIX := va.transformRight

/-- Method `ViewAdjustment::LeftShiftProjection`. -/
def LeftShiftProjection (va : ViewAdjustment) : D3DXMATRIX := va.leftShiftProjection

/-- Method `ViewAdjustment::RightShiftProjection`. -/
def RightShiftProjection (va : ViewAdjustment) : D3DXMATRIX := va.rightShiftProjection

/-- Method `ViewAdjustment::Projection`. -/
def Projection (va : ViewAdjustment) : D3DXMATRIX := va.matProjection

/-- Method `ViewAdjustment::ProjectionInverse`. -/
def ProjectionInverse (va : ViewAdjustment) : D3DXMATRIX := va.matProjectionInv

end ViewAdjustment

/-! ## The proxy device: data -/

/-- Enumeration `vireio::RenderPosition`: the eye a call is rendered for. -/
inductive RenderPosition
  | Left
  | Right
  deriving DecidableEq, Repr

/-- The other eye. -/
def RenderPosition.flip : RenderPosition → RenderPosition
  | .Left => .Right
  | .Right => .Left

/-- Result codes of Direct3D calls. -/
abbrev HRESULT := Int

/-- Result code `D3D_OK`. -/
def D3D_OK : HRESULT := 0

/-- Result code `D3DERR_INVALIDCALL` (0x8876086C as a signed 32-bit value). -/
def D3DERR_INVALIDCALL : HRESULT := -2005530516

/-- Result code `D3DERR_NOTFOUND` (0x88760866 as a signed 32-bit value). -/
def D3DERR_NOTFOUND : HRESULT := -2005530522

/-- Windows test `SUCCEEDED(hr)`: the result code is not negative. -/
def SUCCEEDED (hr : HRESULT) : Bool := decide (0 ≤ hr)

/-- Windows test `FAILED(hr)`: the result code is negative. -/
def FAILED (hr : HRESULT) : Bool := decide (hr < 0)

/-- The identity of an object of the wrapped (actual) device. -/
abbrev Handle := Nat

/-- Modelled from the spec: class `D3D9ProxySurface`, whose definition is missing: a surface
with a left instance that is always present and an optional right instance. -/
structure D3D9ProxySurface where
  m_pActualSurface : Handle
  m_pActualSurfaceRight : Option Handle
  deriving DecidableEq, Repr

/-- Accessor `D3D9ProxySurface::getActualLeft`. -/
def D3D9ProxySurface.getActualLeft (p : D3D9ProxySurface) : Option Handle :=
  some p.m_pActualSurface

/-- Accessor `D3D9ProxySurface::getActualRight`: null for a mono surface. -/
def D3D9ProxySurface.getActualRight (p : D3D9ProxySurface) : Option Handle :=
  p.m_pActualSurfaceRight

/-- Accessor `D3D9ProxySurface::IsStereo`: true iff the right instance is not null. -/
def D3D9ProxySurface.IsStereo (p : D3D9ProxySurface) : Bool :=
  p.m_pActualSurfaceRight.isSome

/-- Modelled from the spec: a wrapped texture (`D3D9ProxyTexture`, `D3D9ProxyVolumeTexture`,
`D3D9ProxyCubeTexture`, whose definitions are missing) with a left instance and an optional
right one. -/
structure ProxyTexture where
  m_pActualTexture : Handle
  m_pActualTextureRight : Option Handle
  deriving DecidableEq, Repr

/-- Modelled from the spec: helper `vireio::UnWrapTexture`, whose definition is missing; it
yields the actual left texture and the actual right texture (null for a mono texture). -/
def UnWrapTexture (p : ProxyTexture) : Option Handle × Option Handle :=
  (some p.m_pActualTexture, p.m_pActualTextureRight)

/-- Direct3D structure `D3DVIEWPORT9`. -/
structure D3DVIEWPORT9 where
  X : Nat
  Y : Nat
  Width : Nat
  Height : Nat
  MinZ : ℚ
  MaxZ : ℚ
  deriving DecidableEq

/-- Direct3D structure `D3DSURFACE_DESC`: the two fields the proxy compares. -/
structure D3DSURFACE_DESC where
  Width : Nat
  Height : Nat
  deriving DecidableEq

/-- The transform states of `D3DTRANSFORMSTATETYPE` used by the proxy. -/
inductive D3DTRANSFORMSTATETYPE
  | D3DTS_VIEW
  | D3DTS_PROJECTION
  | D3DTS_OTHER (n : Nat)
  deriving DecidableEq

/-- Modelled from the spec: class `BaseDirect3DVertexBuffer9`, whose definition is missing: a
wrapper around one actual vertex buffer. -/
structure BaseDirect3DVertexBuffer9 where
  m_pActual : Handle
  deriving DecidableEq, Repr

/-- Accessor `BaseDirect3DVertexBuffer9::getActual`. -/
def BaseDirect3DVertexBuffer9.getActual (p : BaseDirect3DVertexBuffer9) : Option Handle :=
  some p.m_pActual

/-- Modelled from the spec: class `BaseDirect3DIndexBuffer9`, whose definition is missing: a
wrapper around one actual index buffer. -/
structure BaseDirect3DIndexBuffer9 where
  m_pActual : Handle
  deriving DecidableEq, Repr

/-- Accessor `BaseDirect3DIndexBuffer9::getActual`. -/
def BaseDirect3DIndexBuffer9.getActual (p : BaseDirect3DIndexBuffer9) : Option Handle :=
  some p.m_pActual

/-- Modelled from the spec: class `BaseDirect3DVertexDeclaration9`, whose definition is
missing: a wrapper around one actual vertex declaration. -/
structure BaseDirect3DVertexDeclaration9 where
  m_pActual : Handle
  deriving DecidableEq, Repr

/-- Accessor `BaseDirect3DVertexDeclaration9::getActual`. -/
def BaseDirect3DVertexDeclaration9.getActual (p : BaseDirect3DVertexDeclaration9) :
    Option Handle :=
  some p.m_pActual

/-- Modelled from the spec: class `D3D9ProxyVertexShader`, whose definition is missing: a
wrapper around one actual vertex shader. -/
structure D3D9ProxyVertexShader where
  m_pActual : Handle
  deriving DecidableEq, Repr

/-- Accessor `D3D9ProxyVertexShader::getActual`. -/
def D3D9ProxyVertexShader.getActual (p : D3D9ProxyVertexShader) : Option Handle :=
  some p.m_pActual

/-- Modelled from the spec: class `D3D9ProxyPixelShader`, whose definition is missing: a
wrapper around one actual pixel shader. -/
structure D3D9ProxyPixelShader where
  m_pActual : Handle
  deriving DecidableEq, Repr

/-- Accessor `D3D9ProxyPixelShader::getActual`. -/
def D3D9ProxyPixelShader.getActual (p : D3D9ProxyPixelShader) : Option Handle :=
  some p.m_pActual

/-- Modelled from the spec: class `D3D9ProxySwapChain`, whose definition is missing: a wrapper
around one actual swap chain, with the wrapped surface its `GetBackBuffer(0, ...)` yields
(null when that call fails). -/
structure D3D9ProxySwapChain where
  m_pActual : Handle
  backBuffer : Option D3D9ProxySurface
  deriving DecidableEq, Repr

/-- The objects on which the proxy calls `AddRef()` and `Release()`. -/
inductive Resource
  | surface (p : D3D9ProxySurface)
  | texture (p : ProxyTexture)
  | vertexBuffer (p : BaseDirect3DVertexBuffer9)
  | indexBuffer (p : BaseDirect3DIndexBuffer9)
  | vertexShader (p : D3D9ProxyVertexShader)
  | pixelShader (p : D3D9ProxyPixelShader)
  | vertexDeclaration (p : BaseDirect3DVertexDeclaration9)
  | swapChain (p : D3D9ProxySwapChain)
  | stateBlock
  | font (h : Handle)
  | actual (h : Handle)
  deriving DecidableEq, Repr

/-- What a state block has captured of one setter call. -/
inductive CapturedState
  | Texture (Stage : Nat) (pTexture : Option ProxyTexture)
  | StreamSource (StreamNumber : Nat) (pStreamData : Option BaseDirect3DVertexBuffer9)
  | Indices (pIndexData : Option BaseDirect3DIndexBuffer9)
  | VertexShader (pShader : Option D3D9ProxyVertexShader)
  | PixelShader (pShader : Option D3D9ProxyPixelShader)
  | VertexDeclaration (pDecl : Option BaseDirect3DVertexDeclaration9)
  | Viewport (viewport : D3DVIEWPORT9)
  | ViewTransform (left right : D3DXMATRIX)
  | ProjectionTransform (left right : D3DXMATRIX)

/-- The capture types of `D3D9ProxyStateBlock::CaptureType`. -/
inductive CaptureType
  | Cap_Type_Full
  | Cap_Type_Vertex
  | Cap_Type_Pixel
  | Cap_Type_Selected
  deriving DecidableEq, Repr

/-- Modelled from the spec: class `D3D9ProxyStateBlock`, whose definition is missing: the
capture target of a state block. It is built from the actual state block, the capture type and
whether Left is the active eye, and it keeps, oldest first, what the setters divert into it;
capturing does not touch the device that owns the block. -/
structure D3D9ProxyStateBlock where
  pActualStateBlock : Option Handle
  type : CaptureType
  isSideLeft : Bool
  captured : List CapturedState

/-- Modelled from the spec: the methods `SelectAndCaptureState`,
`SelectAndCaptureViewTransform` and `SelectAndCaptureProjectionTransform` of
`D3D9ProxyStateBlock`, whose definitions are missing: the value is recorded in the block. -/
def D3D9ProxyStateBlock.SelectAndCaptureState (sb : D3D9ProxyStateBlock) (c : CapturedState) :
    D3D9ProxyStateBlock :=
  { sb with captured := sb.captured ++ [c] }

/-- Modelled from the spec: method `D3D9ProxyStateBlock::EndStateBlock`, whose definition is
missing: the block receives the actual state block the device returned. -/
def D3D9ProxyStateBlock.EndStateBlock (sb : D3D9ProxyStateBlock)
    (pActualStateBlock : Option Handle) : D3D9ProxyStateBlock :=
  { sb with pActualStateBlock := pActualStateBlock }

/-- The six primitive-submission calls with their arguments (pointers are identities). -/
inductive DrawOp
  | DrawPrimitive (PrimitiveType StartVertex PrimitiveCount : Nat)
  | DrawIndexedPrimitive (PrimitiveType : Nat) (BaseVertexIndex : Int)
      (MinVertexIndex NumVertices startIndex primCount : Nat)
  | DrawPrimitiveUP (PrimitiveType PrimitiveCount pVertexStreamZeroData
      VertexStreamZeroStride : Nat)
  | DrawIndexedPrimitiveUP (PrimitiveType MinVertexIndex NumVertices PrimitiveCount pIndexData
      IndexDataFormat pVertexStreamZeroData VertexStreamZeroStride : Nat)
  | DrawRectPatch (Handle pNumSegs pRectPatchInfo : Nat)
  | DrawTriPatch (Handle pNumSegs pTriPatchInfo : Nat)
  deriving DecidableEq

/-- The calls the proxy issues: methods of the wrapped device (`BaseDirect3DDevice9::...`),
calls on the managed shader registers (`m_spManagedShaderRegisters->...`) and on the stereo
view (`stereoView->...`), and `AddRef()` / `Release()` on wrapped resources. A `SetTransform`
with a null matrix pointer is `SetTransformNull`. -/
inductive DeviceCall
  | SetRenderTarget (RenderTargetIndex : Nat) (pRenderTarget : Option Handle)
  | SetViewport (pViewport : D3DVIEWPORT9)
  | SetDepthStencilSurface (pNewZStencil : Option Handle)
  | SetTexture (Stage : Nat) (pTexture : Option Handle)
  | SetTransform (State : D3DTRANSFORMSTATETYPE) (pMatrix : D3DXMATRIX)
  | Draw (op : DrawOp)
  | Clear (Count pRects Flags Color : Nat) (Z : ℚ) (Stencil : Nat)
  | ColorFill (pSurface : Option Handle) (pRect color : Nat)
  | UpdateSurface (pSourceSurface : Option Handle) (pSourceRect : Nat)
      (pDestinationSurface : Option Handle) (pDestPoint : Nat)
  | UpdateTexture (pSourceTexture pDestinationTexture : Option Handle)
  | GetRenderTargetData (pRenderTarget pDestSurface : Option Handle)
  | StretchRect (pSourceSurface : Option Handle) (pSourceRect : Nat)
      (pDestSurface : Option Handle) (pDestRect Filter : Nat)
  | ApplyAllDirty (side : RenderPosition)
  | ApplyAllStereoConstants (side : RenderPosition)
  | SetTransformNull (State : D3DTRANSFORMSTATETYPE)
  | SetStreamSource (StreamNumber : Nat) (pStreamData : Option Handle)
      (OffsetInBytes Stride : Nat)
  | SetIndices (pIndexData : Option Handle)
  | SetVertexShader (pShader : Option Handle)
  | SetPixelShader (pShader : Option Handle)
  | SetVertexDeclaration (pDecl : Option Handle)
  | ProcessVertices (SrcStartIndex DestIndex VertexCount : Nat) (pDestBuffer : Option Handle)
      (pVertexDecl : Option Handle) (Flags : Nat)
  | BeginStateBlock
  | EndStateBlock
  | Reset (pPresentationParameters : Nat)
  | GetSwapChain (iSwapChain : Nat)
  | GetViewport
  | GetDepthStencilSurface
  | CreateDepthStencilSurface
  | AddRef (r : Resource)
  | Release (r : Resource)
  | ActiveVertexShaderChanged (pShader : Option D3D9ProxyVertexShader)
  | ActivePixelShaderChanged (pShader : Option D3D9ProxyPixelShader)
  | ReleaseResources
  | StereoViewReleaseEverything
  | StereoViewPostReset
  | StereoViewInit

/-- An entry of the call log: the call and the eye that was active when it was issued. -/
structure Event where
  side : RenderPosition
  call : DeviceCall

/-- The call log, oldest call first. -/
abbrev Log := List Event

/-- The wrapped device as an environment: its answer to a call may depend on the call and on
the number of calls logged before it. -/
abbrev Device := Nat → DeviceCall → HRESULT

/-- The member variables of `D3DProxyDevice` that take part in eye switching and in the
binding of resources. The three `m_pCurrent...` pointers are recorded by the eye whose matrix
they point to, the two maps by their entries in iteration order, and the pointer `stereoView`
by whether it is not null. -/
structure D3DProxyDevice where
  m_currentRenderingSide : RenderPosition
  m_activeRenderTargets : List (Option D3D9ProxySurface)
  m_pActiveStereoDepthStencil : Option D3D9ProxySurface
  m_activeTextureStages : List (Nat × Option ProxyTexture)
  m_bActiveViewportIsDefault : Bool
  m_LastViewportSet : D3DVIEWPORT9
  m_bViewTransformSet : Bool
  m_bProjectionTransformSet : Bool
  m_leftView : D3DXMATRIX
  m_rightView : D3DXMATRIX
  m_leftProjection : D3DXMATRIX
  m_rightProjection : D3DXMATRIX
  m_pCurrentView : RenderPosition
  m_pCurrentProjection : RenderPosition
  m_pCurrentMatViewTransform : RenderPosition
  m_spShaderViewAdjustment : ViewAdjustment
  m_activeVertexBuffers : List (Nat × Option BaseDirect3DVertexBuffer9)
  m_pActiveIndicies : Option BaseDirect3DIndexBuffer9
  m_pActivePixelShader : Option D3D9ProxyPixelShader
  m_pActiveVertexShader : Option D3D9ProxyVertexShader
  m_pActiveVertexDeclaration : Option BaseDirect3DVertexDeclaration9
  m_bInBeginEndStateBlock : Bool
  m_pCapturingStateTo : Option D3D9ProxyStateBlock
  m_activeSwapChains : List D3D9ProxySwapChain
  hudFont : Option Handle
  stereoView : Bool

/-- True for the log entries that are one of the six underlying draw calls. -/
def Event.isDraw (e : Event) : Bool :=
  match e.call with
  | .Draw _ => true
  | _ => false

/-- True for the log entries that flush the dirty shader registers
(`m_spManagedShaderRegisters->ApplyAllDirty`). -/
def Event.isFlush (e : Event) : Bool :=
  match e.call with
  | .ApplyAllDirty _ => true
  | _ => false

/-- True for the log entries that are an underlying draw, clear or colour fill. -/
def Event.isRender (e : Event) : Bool :=
  match e.call with
  | .Draw _ => true
  | .Clear .. => true
  | .ColorFill .. => true
  | _ => false

namespace D3DProxyDevice

/-- The matrix `*m_pCurrentView` points to. -/
def currentView (s : D3DProxyDevice) : D3DXMATRIX :=
  match s.m_pCurrentView with
  | .Left => s.m_leftView
  | .Right => s.m_rightView

/-- The matrix `*m_pCurrentProjection` points to. -/
def currentProjection (s : D3DProxyDevice) : D3DXMATRIX :=
  match s.m_pCurrentProjection with
  | .Left => s.m_leftProjection
  | .Right => s.m_rightProjection

/-- The constructor `D3DProxyDevice::D3DProxyDevice`, for a device that reports
`maxRenderTargets` simultaneous render targets. The argument `raw` stands for the contents of
the object before construction (`m_LastViewportSet` and `stereoView` are not assigned by the
constructor), and
`defaultInfo` for the default-constructed `HMDisplayInfo`. The enumerators `HUD_DEFAULT` and
`GUI_DEFAULT` (declared in the header) are taken to be the first of their enumerations, so
that the presets of index 0 are applied and `GUI_DEFAULT` is not `GUI_FULL`. -/
def ctor (raw : D3DProxyDevice) (defaultInfo : HMDisplayInfo) (maxRenderTargets : Nat) :
    D3DProxyDevice :=
  { raw with
    m_activeRenderTargets := List.replicate maxRenderTargets none,
    m_activeTextureStages := [],
    m_spShaderViewAdjustment :=
      -- ChangeHUD3DDepthMode(HUD_DEFAULT) and ChangeGUI3DDepthMode(GUI_DEFAULT), preset 0
      ((((((ViewAdjustment.ctor raw.m_spShaderViewAdjustment defaultInfo 1 false)
        |>.ChangeHUDDistance (1 / 2))
        |>.ChangeHUD3DDepth 0)
        |>.ChangeGUISquash (6 / 10))
        |>.ChangeGUI3DDepth 0)
        |>.SetBulletLabyrinthMode false),
    m_leftView := D3DXMatrixIdentity,
    m_rightView := D3DXMatrixIdentity,
    m_leftProjection := D3DXMatrixIdentity,
    m_rightProjection := D3DXMatrixIdentity,
    m_currentRenderingSide := .Left,
    m_pCurrentMatViewTransform := .Left,
    m_pCurrentView := .Left,
    m_pCurrentProjection := .Left,
    m_pActiveStereoDepthStencil := none,
    m_pActiveIndicies := none,
    m_pActivePixelShader := none,
    m_pActiveVertexShader := none,
    m_pActiveVertexDeclaration := none,
    hudFont := none,
    m_bActiveViewportIsDefault := true,
    m_bViewTransformSet := false,
    m_bProjectionTransformSet := false,
    m_bInBeginEndStateBlock := false,
    m_pCapturingStateTo := none,
    m_activeVertexBuffers := [],
    m_activeSwapChains := [] }

end D3DProxyDevice

/-! ## The proxy device: eye switching -/

/-- The render-target loop of `setDrawingSide`: for every slot `i` that is not null, issue
`SetRenderTarget(i, actual surface of the slot for side)`; `renderTargetChanged` becomes true
as soon as one of these calls returns `D3D_OK`. -/
def setDrawingSide_renderTargets (dev : Device) (side : RenderPosition) :
    Nat → List (Option D3D9ProxySurface) → Bool → Log → Bool × Log
  | _, [], renderTargetChanged, log => (renderTargetChanged, log)
  | i, none :: rest, renderTargetChanged, log =>
      setDrawingSide_renderTargets dev side (i + 1) rest renderTargetChanged log
  | i, some pCurrentRT :: rest, renderTargetChanged, log =>
      let call := DeviceCall.SetRenderTarget i
        (match side with
         | .Left => pCurrentRT.getActualLeft
         | .Right => pCurrentRT.getActualRight)
      let result := dev log.length call
      setDrawingSide_renderTargets dev side (i + 1) rest
        (if result ≠ D3D_OK then renderTargetChanged else true) (log ++ [⟨side, call⟩])

/-- The texture loop of `setDrawingSide`: every entry of the stage map that holds a texture
whose right instance is not null is set again on its stage, with the instance for `side`. -/
def setDrawingSide_textures (side : RenderPosition) :
    List (Nat × Option ProxyTexture) → Log → Log
  | [], log => log
  | (_, none) :: rest, log => setDrawingSide_textures side rest log
  | (stage, some tex) :: rest, log =>
      match (UnWrapTexture tex).2 with
      | some pActualRightTexture =>
          let call := DeviceCall.SetTexture stage
            (match side with
             | .Left => (UnWrapTexture tex).1
             | .Right => some pActualRightTexture)
          setDrawingSide_textures side rest (log ++ [⟨side, call⟩])
      | none => setDrawingSide_textures side rest log

/-- The part of `setDrawingSide` after the two early returns. -/
def setDrawingSide_switch (dev : Device) (side : RenderPosition) (s : D3DProxyDevice)
    (log : Log) : D3DProxyDevice × Log :=
  -- switch render targets to new side
  let (renderTargetChanged, log1) :=
    setDrawingSide_renderTargets dev side 0 s.m_activeRenderTargets false log
  -- reapply the viewport if a non-fullsurface viewport is active and a render target changed
  let log2 :=
    if renderTargetChanged && !s.m_bActiveViewportIsDefault then
      log1 ++ [⟨side, .SetViewport s.m_LastViewportSet⟩]
    else log1
  -- switch depth stencil to new side
  let log3 :=
    match s.m_pActiveStereoDepthStencil with
    | some ds =>
        log2 ++ [⟨side, .SetDepthStencilSurface
          (match side with
           | .Left => ds.getActualLeft
           | .Right => ds.getActualRight)⟩]
    | none => log2
  -- switch textures to new side
  let log4 := setDrawingSide_textures side s.m_activeTextureStages log3
  -- update view transform for new side
  let sView := if s.m_bViewTransformSet then side else s.m_pCurrentView
  let log5 :=
    if s.m_bViewTransformSet then
      log4 ++ [⟨side, .SetTransform .D3DTS_VIEW
        (match side with
         | .Left => s.m_leftView
         | .Right => s.m_rightView)⟩]
    else log4
  -- update projection transform for new side
  let sProj := if s.m_bProjectionTransformSet then side else s.m_pCurrentProjection
  let log6 :=
    if s.m_bProjectionTransformSet then
      log5 ++ [⟨side, .SetTransform .D3DTS_PROJECTION
        (match side with
         | .Left => s.m_leftProjection
         | .Right => s.m_rightProjection)⟩]
    else log5
  -- apply active stereo shader constants
  let log7 := log6 ++ [⟨side, .ApplyAllStereoConstants side⟩]
  ({ s with
     m_currentRenderingSide := side,
     m_pCurrentView := sView,
     m_pCurrentProjection := sProj,
     m_pCurrentMatViewTransform := side }, log7)

namespace D3DProxyDevice

/-- Method `D3DProxyDevice::setDrawingSide`: the returned flag, the new state and the new log.
The result is `none` when `m_activeRenderTargets[0]` is dereferenced while it is null or
missing. -/
def setDrawingSide (dev : Device) (side : RenderPosition) (s : D3DProxyDevice) (log : Log) :
    Option (Bool × D3DProxyDevice × Log) :=
  -- already on the correct eye
  if side = s.m_currentRenderingSide then some (true, s, log)
  else
    match s.m_activeRenderTargets.head? with
    | some (some rt0) =>
        if !rt0.IsStereo && side == .Right then some (false, s, log)
        else
          let r := setDrawingSide_switch dev side s log
          some (true, r.1, r.2)
    | _ => none

/-- Method `D3DProxyDevice::switchDrawingSide`. -/
def switchDrawingSide (dev : Device) (s : D3DProxyDevice) (log : Log) :
    Option (Bool × D3DProxyDevice × Log) :=
  match s.m_currentRenderingSide with
  | .Left => setDrawingSide dev .Right s log
  | .Right => setDrawingSide dev .Left s log

/-- The pattern shared by the draw, clear and fill methods: issue `call` for the active eye;
if it succeeded try `switchDrawingSide()`, and if that switched issue `call` once more. The
result of the first call is returned. -/
def issueForBothSides (dev : Device) (call : DeviceCall) (s : D3DProxyDevice) (log : Log) :
    Option (HRESULT × D3DProxyDevice × Log) :=
  let result := dev log.length call
  let log1 := log ++ [⟨s.m_currentRenderingSide, call⟩]
  if SUCCEEDED result then
    match switchDrawingSide dev s log1 with
    | none => none
    | some (switched, s2, log2) =>
        if switched then some (result, s2, log2 ++ [⟨s2.m_currentRenderingSide, call⟩])
        else some (result, s2, log2)
  else some (result, s, log1)

/-- The body common to the six draw methods: flush the dirty shader registers of the active
eye, then draw for both sides. -/
def draw (dev : Device) (op : DrawOp) (s : D3DProxyDevice) (log : Log) :
    Option (HRESULT × D3DProxyDevice × Log) :=
  issueForBothSides dev (.Draw op) s
    (log ++ [⟨s.m_currentRenderingSide, .ApplyAllDirty s.m_currentRenderingSide⟩])

/-- Method `D3DProxyDevice::DrawPrimitive`. -/
def DrawPrimitive (dev : Device) (PrimitiveType StartVertex PrimitiveCount : Nat) :=
  draw dev (.DrawPrimitive PrimitiveType StartVertex PrimitiveCount)

/-- Method `D3DProxyDevice::DrawIndexedPrimitive`. -/
def DrawIndexedPrimitive (dev : Device) (PrimitiveType : Nat) (BaseVertexIndex : Int)
    (MinVertexIndex NumVertices startIndex primCount : Nat) :=
  draw dev (.DrawIndexedPrimitive PrimitiveType BaseVertexIndex MinVertexIndex NumVertices
    startIndex primCount)

/-- Method `D3DProxyDevice::DrawPrimitiveUP`. -/
def DrawPrimitiveUP (dev : Device) (PrimitiveType PrimitiveCount pVertexStreamZeroData
    VertexStreamZeroStride : Nat) :=
  draw dev (.DrawPrimitiveUP PrimitiveType PrimitiveCount pVertexStreamZeroData
    VertexStreamZeroStride)

/-- Method `D3DProxyDevice::DrawIndexedPrimitiveUP`. -/
def DrawIndexedPrimitiveUP (dev : Device) (PrimitiveType MinVertexIndex NumVertices
    PrimitiveCount pIndexData IndexDataFormat pVertexStreamZeroData
    VertexStreamZeroStride : Nat) :=
  draw dev (.DrawIndexedPrimitiveUP PrimitiveType MinVertexIndex NumVertices PrimitiveCount
    pIndexData IndexDataFormat pVertexStreamZeroData VertexStreamZeroStride)

/-- Method `D3DProxyDevice::DrawRectPatch`. -/
def DrawRectPatch (dev : Device) (Handle pNumSegs pRectPatchInfo : Nat) :=
  draw dev (.DrawRectPatch Handle pNumSegs pRectPatchInfo)

/-- Method `D3DProxyDevice::DrawTriPatch`. -/
def DrawTriPatch (dev : Device) (Handle pNumSegs pTriPatchInfo : Nat) :=
  draw dev (.DrawTriPatch Handle pNumSegs pTriPatchInfo)

/-- Method `D3DProxyDevice::Clear`. -/
def Clear (dev : Device) (Count pRects Flags Color : Nat) (Z : ℚ) (Stencil : Nat) :=
  issueForBothSides dev (.Clear Count pRects Flags Color Z Stencil)

/-- Method `D3DProxyDevice::ColorFill`; the surface pointer is handed on as it is. -/
def ColorFill (dev : Device) (pSurface : Option Handle) (pRect color : Nat) :=
  issueForBothSides dev (.ColorFill pSurface pRect color)

/-- Method `D3DProxyDevice::SetRenderTarget`. The result is `none` when the slot table is
accessed at an index outside it. -/
def SetRenderTarget (dev : Device) (RenderTargetIndex : Nat)
    (pRenderTarget : Option D3D9ProxySurface) (s : D3DProxyDevice) (log : Log) :
    Option (HRESULT × D3DProxyDevice × Log) :=
  let (result, log1) : HRESULT × Log :=
    match pRenderTarget with
    | none =>
        -- main render target should never be set to NULL
        if RenderTargetIndex = 0 then (D3DERR_INVALIDCALL, log)
        else
          (dev log.length (.SetRenderTarget RenderTargetIndex none),
            log ++ [⟨s.m_currentRenderingSide, .SetRenderTarget RenderTargetIndex none⟩])
    | some newRenderTarget =>
        let call := DeviceCall.SetRenderTarget RenderTargetIndex
          (match s.m_currentRenderingSide with
           | .Left => newRenderTarget.getActualLeft
           | .Right => newRenderTarget.getActualRight)
        (dev log.length call, log ++ [⟨s.m_currentRenderingSide, call⟩])
  if result = D3D_OK then
    match s.m_activeRenderTargets[RenderTargetIndex]? with
    | some pOld =>
        some (result,
          { s with
            m_bActiveViewportIsDefault := true,
            m_activeRenderTargets :=
              s.m_activeRenderTargets.set RenderTargetIndex pRenderTarget },
          log1
            -- release old render target
            ++ (pOld.map (fun p => Event.mk s.m_currentRenderingSide
                  (.Release (.surface p)))).toList
            -- replace with new render target (may be NULL)
            ++ (pRenderTarget.map (fun p => Event.mk s.m_currentRenderingSide
                  (.AddRef (.surface p)))).toList)
    | none => none
  else some (result, s, log1)

/-! ## The proxy device: copies between wrapped resources -/

/-- The pattern shared by the four copy methods, after the null checks and the unwrapping:
`copy src dst` is the device call that copies `src` to `dst`. -/
def copyBothSides (dev : Device) (copy : Option Handle → Option Handle → DeviceCall)
    (pSourceLeft pSourceRight pDestLeft pDestRight : Option Handle) (s : D3DProxyDevice)
    (log : Log) : HRESULT × Log :=
  let result := dev log.length (copy pSourceLeft pDestLeft)
  let log1 := log ++ [⟨s.m_currentRenderingSide, copy pSourceLeft pDestLeft⟩]
  if SUCCEEDED result then
    if pSourceRight.isNone && pDestRight.isSome then
      -- source is not stereo, destination is stereo: copy source to both sides of destination
      (result, log1 ++ [⟨s.m_currentRenderingSide, copy pSourceLeft pDestRight⟩])
    else if pSourceRight.isSome && pDestRight.isNone then
      -- source is stereo, destination is not stereo: copied left side only
      (result, log1)
    else if pSourceRight.isSome && pDestRight.isSome then
      (result, log1 ++ [⟨s.m_currentRenderingSide, copy pSourceRight pDestRight⟩])
    else (result, log1)
  else (result, log1)

/-- Method `D3DProxyDevice::UpdateSurface`. -/
def UpdateSurface (dev : Device) (pSourceSurface : Option D3D9ProxySurface)
    (pSourceRect : Nat) (pDestinationSurface : Option D3D9ProxySurface) (pDestPoint : Nat)
    (s : D3DProxyDevice) (log : Log) : HRESULT × Log :=
  match pSourceSurface, pDestinationSurface with
  | some src, some dst =>
      copyBothSides dev (fun a b => .UpdateSurface a pSourceRect b pDestPoint)
        src.getActualLeft src.getActualRight dst.getActualLeft dst.getActualRight s log
  | _, _ => (D3DERR_INVALIDCALL, log)

/-- Method `D3DProxyDevice::UpdateTexture`. -/
def UpdateTexture (dev : Device) (pSourceTexture pDestinationTexture : Option ProxyTexture)
    (s : D3DProxyDevice) (log : Log) : HRESULT × Log :=
  match pSourceTexture, pDestinationTexture with
  | some src, some dst =>
      copyBothSides dev (fun a b => .UpdateTexture a b)
        (UnWrapTexture src).1 (UnWrapTexture src).2 (UnWrapTexture dst).1 (UnWrapTexture dst).2
        s log
  | _, _ => (D3DERR_INVALIDCALL, log)

/-- Method `D3DProxyDevice::GetRenderTargetData`. -/
def GetRenderTargetData (dev : Device) (pRenderTarget pDestSurface : Option D3D9ProxySurface)
    (s : D3DProxyDevice) (log : Log) : HRESULT × Log :=
  match pRenderTarget, pDestSurface with
  | some src, some dst =>
      copyBothSides dev (fun a b => .GetRenderTargetData a b)
        src.getActualLeft src.getActualRight dst.getActualLeft dst.getActualRight s log
  | _, _ => (D3DERR_INVALIDCALL, log)

/-- Method `D3DProxyDevice::StretchRect`. -/
def StretchRect (dev : Device) (pSourceSurface : Option D3D9ProxySurface) (pSourceRect : Nat)
    (pDestSurface : Option D3D9ProxySurface) (pDestRect Filter : Nat)
    (s : D3DProxyDevice) (log : Log) : HRESULT × Log :=
  match pSourceSurface, pDestSurface with
  | some src, some dst =>
      copyBothSides dev (fun a b => .StretchRect a pSourceRect b pDestRect Filter)
        src.getActualLeft src.getActualRight dst.getActualLeft dst.getActualRight s log
  | _, _ => (D3DERR_INVALIDCALL, log)

/-! ## The proxy device: binding of resources -/

/-- The entries of a map after `erase(key)`; a map is kept as the list of its entries. -/
def mapErase {α : Type} (m : List (Nat × α)) (key : Nat) : List (Nat × α) :=
  m.filter (fun p => p.1 != key)

/-- The entries of a map after `insert(pair(key, value))`, and the flag `.second` of the
result: an entry whose key is already present is not replaced. -/
def mapInsert {α : Type} (m : List (Nat × α)) (key : Nat) (value : α) :
    List (Nat × α) × Bool :=
  if (m.lookup key).isSome then (m, false) else (m ++ [(key, value)], true)

/-- The log entries of `p->Release()` when `p` is not null; `wrap` says what kind of object
`p` is. -/
def releaseIfSet {α : Type} (side : RenderPosition) (wrap : α → Resource) (p : Option α) :
    Log :=
  (p.map (fun x => Event.mk side (.Release (wrap x)))).toList

/-- The log entries of `p->AddRef()` when `p` is not null. -/
def addRefIfSet {α : Type} (side : RenderPosition) (wrap : α → Resource) (p : Option α) :
    Log :=
  (p.map (fun x => Event.mk side (.AddRef (wrap x)))).toList

/-- Method `D3DProxyDevice::SetDepthStencilSurface`. -/
def SetDepthStencilSurface (dev : Device) (pNewZStencil : Option D3D9ProxySurface)
    (s : D3DProxyDevice) (log : Log) : HRESULT × D3DProxyDevice × Log :=
  let pActualStencilForCurrentSide : Option Handle :=
    match pNewZStencil with
    | some pNewDepthStencil =>
        (match s.m_currentRenderingSide with
         | .Left => pNewDepthStencil.getActualLeft
         | .Right => pNewDepthStencil.getActualRight)
    | none => none
  -- update actual depth stencil
  let result := dev log.length (.SetDepthStencilSurface pActualStencilForCurrentSide)
  let log1 := log ++ [⟨s.m_currentRenderingSide,
    .SetDepthStencilSurface pActualStencilForCurrentSide⟩]
  -- update stored proxy depth stencil
  if SUCCEEDED result then
    (result, { s with m_pActiveStereoDepthStencil := pNewZStencil },
      log1 ++ releaseIfSet s.m_currentRenderingSide .surface s.m_pActiveStereoDepthStencil
        ++ addRefIfSet s.m_currentRenderingSide .surface pNewZStencil)
  else (result, s, log1)

/-- Method `D3DProxyDevice::SetTexture`. The branch taken when the insertion into the map
fails is the one of a build without assertions (`assert(false)` does nothing). -/
def SetTexture (dev : Device) (Stage : Nat) (pTexture : Option ProxyTexture)
    (s : D3DProxyDevice) (log : Log) : HRESULT × D3DProxyDevice × Log :=
  let call := DeviceCall.SetTexture Stage
    (match pTexture with
     | some tex =>
         -- use left (mono) if not stereo or on left side
         if (UnWrapTexture tex).2.isNone || s.m_currentRenderingSide == .Left
         then (UnWrapTexture tex).1 else (UnWrapTexture tex).2
     | none => none)
  let result := dev log.length call
  let log1 := log ++ [⟨s.m_currentRenderingSide, call⟩]
  -- update m_activeTextureStages if new texture was successfully set
  if SUCCEEDED result then
    match s.m_pCapturingStateTo with
    | some sb =>
        (result,
          { s with m_pCapturingStateTo := some (sb.SelectAndCaptureState
              (.Texture Stage pTexture)) },
          log1)
    | none =>
        -- remove existing texture that was active at Stage if there is one
        let removed : List (Nat × Option ProxyTexture) × Log :=
          match s.m_activeTextureStages.lookup Stage with
          | some pOldTexture =>
              (mapErase s.m_activeTextureStages Stage,
                log1 ++ releaseIfSet s.m_currentRenderingSide .texture pOldTexture)
          | none => (s.m_activeTextureStages, log1)
        -- insert new texture (can be a NULL pointer)
        let inserted := mapInsert removed.1 Stage pTexture
        if inserted.2 then
          (result, { s with m_activeTextureStages := inserted.1 },
            removed.2 ++ addRefIfSet s.m_currentRenderingSide .texture pTexture)
        else
          (D3DERR_INVALIDCALL, { s with m_activeTextureStages := inserted.1 }, removed.2)
  else (result, s, log1)

/-- Method `D3DProxyDevice::SetStreamSource`. The branch taken when the insertion into the
map fails is the one of a build without assertions (`assert(false)` does nothing). -/
def SetStreamSource (dev : Device) (StreamNumber : Nat)
    (pStreamData : Option BaseDirect3DVertexBuffer9) (OffsetInBytes Stride : Nat)
    (s : D3DProxyDevice) (log : Log) : HRESULT × D3DProxyDevice × Log :=
  let call := DeviceCall.SetStreamSource StreamNumber
    (match pStreamData with
     | some pCastStreamData => pCastStreamData.getActual
     | none => none)
    OffsetInBytes Stride
  let result := dev log.length call
  let log1 := log ++ [⟨s.m_currentRenderingSide, call⟩]
  -- update m_activeVertexBuffers if new vertex buffer was successfully set
  if SUCCEEDED result then
    match s.m_pCapturingStateTo with
    | some sb =>
        (result,
          { s with m_pCapturingStateTo := some (sb.SelectAndCaptureState
              (.StreamSource StreamNumber pStreamData)) },
          log1)
    | none =>
        let insertNew (buffers : List (Nat × Option BaseDirect3DVertexBuffer9)) (log2 : Log) :
            HRESULT × D3DProxyDevice × Log :=
          let inserted := mapInsert buffers StreamNumber pStreamData
          if inserted.2 then
            (result, { s with m_activeVertexBuffers := inserted.1 },
              log2 ++ addRefIfSet s.m_currentRenderingSide .vertexBuffer pStreamData)
          else (D3DERR_INVALIDCALL, { s with m_activeVertexBuffers := inserted.1 }, log2)
        -- remove existing vertex buffer that was active at StreamNumber if there is one
        match s.m_activeVertexBuffers.lookup StreamNumber with
        | some pOldBuffer =>
            if pOldBuffer = pStreamData then (result, s, log1)
            else
              insertNew (mapErase s.m_activeVertexBuffers StreamNumber)
                (log1 ++ releaseIfSet s.m_currentRenderingSide .vertexBuffer pOldBuffer)
        | none => insertNew s.m_activeVertexBuffers log1
  else (result, s, log1)

/-- Method `D3DProxyDevice::SetIndices`. -/
def SetIndices (dev : Device) (pIndexData : Option BaseDirect3DIndexBuffer9)
    (s : D3DProxyDevice) (log : Log) : HRESULT × D3DProxyDevice × Log :=
  let call := DeviceCall.SetIndices
    (match pIndexData with
     | some pWrappedNewIndexData => pWrappedNewIndexData.getActual
     | none => none)
  let result := dev log.length call
  let log1 := log ++ [⟨s.m_currentRenderingSide, call⟩]
  if SUCCEEDED result then
    match s.m_pCapturingStateTo with
    | some sb =>
        (result,
          { s with m_pCapturingStateTo := some (sb.SelectAndCaptureState
              (.Indices pIndexData)) },
          log1)
    | none =>
        (result, { s with m_pActiveIndicies := pIndexData },
          log1 ++ releaseIfSet s.m_currentRenderingSide .indexBuffer s.m_pActiveIndicies
            ++ addRefIfSet s.m_currentRenderingSide .indexBuffer pIndexData)
  else (result, s, log1)

/-- Method `D3DProxyDevice::SetVertexShader`. -/
def SetVertexShader (dev : Device) (pShader : Option D3D9ProxyVertexShader)
    (s : D3DProxyDevice) (log : Log) : HRESULT × D3DProxyDevice × Log :=
  let call := DeviceCall.SetVertexShader
    (match pShader with
     | some pWrappedVShaderData => pWrappedVShaderData.getActual
     | none => none)
  let result := dev log.length call
  let log1 := log ++ [⟨s.m_currentRenderingSide, call⟩]
  if SUCCEEDED result then
    match s.m_pCapturingStateTo with
    | some sb =>
        (result,
          { s with m_pCapturingStateTo := some (sb.SelectAndCaptureState
              (.VertexShader pShader)) },
          log1)
    | none =>
        (result, { s with m_pActiveVertexShader := pShader },
          log1 ++ releaseIfSet s.m_currentRenderingSide .vertexShader s.m_pActiveVertexShader
            ++ addRefIfSet s.m_currentRenderingSide .vertexShader pShader
            ++ [⟨s.m_currentRenderingSide, .ActiveVertexShaderChanged pShader⟩])
  else (result, s, log1)

/-- Method `D3DProxyDevice::SetPixelShader`. -/
def SetPixelShader (dev : Device) (pShader : Option D3D9ProxyPixelShader)
    (s : D3DProxyDevice) (log : Log) : HRESULT × D3DProxyDevice × Log :=
  let call := DeviceCall.SetPixelShader
    (match pShader with
     | some pWrappedPShaderData => pWrappedPShaderData.getActual
     | none => none)
  let result := dev log.length call
  let log1 := log ++ [⟨s.m_currentRenderingSide, call⟩]
  if SUCCEEDED result then
    match s.m_pCapturingStateTo with
    | some sb =>
        (result,
          { s with m_pCapturingStateTo := some (sb.SelectAndCaptureState
              (.PixelShader pShader)) },
          log1)
    | none =>
        (result, { s with m_pActivePixelShader := pShader },
          log1 ++ releaseIfSet s.m_currentRenderingSide .pixelShader s.m_pActivePixelShader
            ++ addRefIfSet s.m_currentRenderingSide .pixelShader pShader
            ++ [⟨s.m_currentRenderingSide, .ActivePixelShaderChanged pShader⟩])
  else (result, s, log1)

/-- Method `D3DProxyDevice::SetVertexDeclaration`. -/
def SetVertexDeclaration (dev : Device) (pDecl : Option BaseDirect3DVertexDeclaration9)
    (s : D3DProxyDevice) (log : Log) : HRESULT × D3DProxyDevice × Log :=
  let call := DeviceCall.SetVertexDeclaration
    (match pDecl with
     | some pWrappedVDeclarationData => pWrappedVDeclarationData.getActual
     | none => none)
  let result := dev log.length call
  let log1 := log ++ [⟨s.m_currentRenderingSide, call⟩]
  if SUCCEEDED result then
    match s.m_pCapturingStateTo with
    | some sb =>
        (result,
          { s with m_pCapturingStateTo := some (sb.SelectAndCaptureState
              (.VertexDeclaration pDecl)) },
          log1)
    | none =>
        (result, { s with m_pActiveVertexDeclaration := pDecl },
          log1
            ++ releaseIfSet s.m_currentRenderingSide .vertexDeclaration
                s.m_pActiveVertexDeclaration
            ++ addRefIfSet s.m_currentRenderingSide .vertexDeclaration pDecl)
  else (result, s, log1)

/-- Method `D3DProxyDevice::isViewportDefaultForMainRT`. `getDesc` gives the description
`GetDesc` yields for a wrapped surface; `SMALL_FLOAT` and `SLIGHTLY_LESS_THAN_ONE` are the
constants of those names, whose definitions are missing. The result is `none` when
`m_activeRenderTargets[0]` is null or missing. -/
def isViewportDefaultForMainRT (getDesc : D3D9ProxySurface → D3DSURFACE_DESC)
    (SMALL_FLOAT SLIGHTLY_LESS_THAN_ONE : ℚ) (pViewport : D3DVIEWPORT9) (s : D3DProxyDevice) :
    Option Bool :=
  match s.m_activeRenderTargets.head? with
  | some (some pPrimaryRenderTarget) =>
      let pRTDesc := getDesc pPrimaryRenderTarget
      some (pViewport.Height == pRTDesc.Height && pViewport.Width == pRTDesc.Width
        && decide (pViewport.MinZ ≤ SMALL_FLOAT)
        && decide (pViewport.MaxZ ≥ SLIGHTLY_LESS_THAN_ONE))
  | _ => none

/-- Method `D3DProxyDevice::SetViewport`. -/
def SetViewport (dev : Device) (getDesc : D3D9ProxySurface → D3DSURFACE_DESC)
    (SMALL_FLOAT SLIGHTLY_LESS_THAN_ONE : ℚ) (pViewport : D3DVIEWPORT9)
    (s : D3DProxyDevice) (log : Log) : Option (HRESULT × D3DProxyDevice × Log) :=
  let result := dev log.length (.SetViewport pViewport)
  let log1 := log ++ [⟨s.m_currentRenderingSide, .SetViewport pViewport⟩]
  if SUCCEEDED result then
    match s.m_pCapturingStateTo with
    | some sb =>
        some (result,
          { s with m_pCapturingStateTo := some (sb.SelectAndCaptureState
              (.Viewport pViewport)) },
          log1)
    | none =>
        match isViewportDefaultForMainRT getDesc SMALL_FLOAT SLIGHTLY_LESS_THAN_ONE pViewport s
        with
        | some isDefault =>
            some (result,
              { s with m_bActiveViewportIsDefault := isDefault, m_LastViewportSet := pViewport },
              log1)
        | none => none
  else some (result, s, log1)

/-- Method `D3DProxyDevice::SetTransform`; `pMatrix` is `none` for a null pointer. -/
def SetTransform (dev : Device) (State : D3DTRANSFORMSTATETYPE) (pMatrix : Option D3DXMATRIX)
    (s : D3DProxyDevice) (log : Log) : HRESULT × D3DProxyDevice × Log :=
  match State with
  | .D3DTS_VIEW =>
      let temp : D3DXMATRIX × D3DXMATRIX × Bool :=
        match pMatrix with
        | none => (D3DXMatrixIdentity, D3DXMatrixIdentity, false)
        | some sourceMatrix =>
            -- if the view is set to the identity no adjustment is needed
            if D3DXMatrixIsIdentity sourceMatrix then
              (D3DXMatrixIdentity, D3DXMatrixIdentity, false)
            else
              (sourceMatrix * s.m_spShaderViewAdjustment.LeftViewTransform,
               sourceMatrix * s.m_spShaderViewAdjustment.RightViewTransform, true)
      let pViewToSet : D3DXMATRIX :=
        match s.m_currentRenderingSide with
        | .Left => temp.1
        | .Right => temp.2.1
      let s2 : D3DProxyDevice :=
        match s.m_pCapturingStateTo with
        | some sb =>
            -- if capturing state block capture without updating proxy device
            { s with m_pCapturingStateTo := some (sb.SelectAndCaptureState
                (.ViewTransform temp.1 temp.2.1)) }
        | none =>
            { s with
              m_bViewTransformSet := temp.2.2,
              m_leftView := temp.1,
              m_rightView := temp.2.1,
              m_pCurrentView := s.m_currentRenderingSide }
      (dev log.length (.SetTransform State pViewToSet), s2,
        log ++ [⟨s.m_currentRenderingSide, .SetTransform State pViewToSet⟩])
  | .D3DTS_PROJECTION =>
      let temp : D3DXMATRIX × D3DXMATRIX × Bool :=
        match pMatrix with
        | none => (D3DXMatrixIdentity, D3DXMatrixIdentity, false)
        | some sourceMatrix =>
            if D3DXMatrixIsIdentity sourceMatrix then
              (D3DXMatrixIdentity, D3DXMatrixIdentity, false)
            else
              (sourceMatrix * s.m_spShaderViewAdjustment.LeftShiftProjection,
               sourceMatrix * s.m_spShaderViewAdjustment.RightShiftProjection, true)
      let pProjectionToSet : D3DXMATRIX :=
        match s.m_currentRenderingSide with
        | .Left => temp.1
        | .Right => temp.2.1
      let s2 : D3DProxyDevice :=
        match s.m_pCapturingStateTo with
        | some sb =>
            { s with m_pCapturingStateTo := some (sb.SelectAndCaptureState
                (.ProjectionTransform temp.1 temp.2.1)) }
        | none =>
            { s with
              m_bProjectionTransformSet := temp.2.2,
              m_leftProjection := temp.1,
              m_rightProjection := temp.2.1,
              m_pCurrentProjection := s.m_currentRenderingSide }
      (dev log.length (.SetTransform State pProjectionToSet), s2,
        log ++ [⟨s.m_currentRenderingSide, .SetTransform State pProjectionToSet⟩])
  | .D3DTS_OTHER n =>
      let call : DeviceCall :=
        match pMatrix with
        | some M => .SetTransform (.D3DTS_OTHER n) M
        | none => .SetTransformNull (.D3DTS_OTHER n)
      (dev log.length call, s, log ++ [⟨s.m_currentRenderingSide, call⟩])

/-- Method `D3DProxyDevice::ProcessVertices`. -/
def ProcessVertices (dev : Device) (SrcStartIndex DestIndex VertexCount : Nat)
    (pDestBuffer : Option BaseDirect3DVertexBuffer9)
    (pVertexDecl : Option BaseDirect3DVertexDeclaration9) (Flags : Nat)
    (s : D3DProxyDevice) (log : Log) : HRESULT × D3DProxyDevice × Log :=
  match pDestBuffer with
  | none => (D3DERR_INVALIDCALL, s, log)
  | some pCastDestBuffer =>
      let log1 := log ++ [⟨s.m_currentRenderingSide, .ApplyAllDirty s.m_currentRenderingSide⟩]
      let call := DeviceCall.ProcessVertices SrcStartIndex DestIndex VertexCount
        pCastDestBuffer.getActual
        (match pVertexDecl with
         | some pCastVertexDeclaration => pCastVertexDeclaration.getActual
         | none => none)
        Flags
      (dev log1.length call, s, log1 ++ [⟨s.m_currentRenderingSide, call⟩])

/-- Method `D3DProxyDevice::BeginStateBlock`. -/
def BeginStateBlock (dev : Device) (s : D3DProxyDevice) (log : Log) :
    HRESULT × D3DProxyDevice × Log :=
  let result := dev log.length .BeginStateBlock
  let log1 := log ++ [⟨s.m_currentRenderingSide, .BeginStateBlock⟩]
  if SUCCEEDED result then
    (result,
      { s with
        m_bInBeginEndStateBlock := true,
        m_pCapturingStateTo := some
          { pActualStateBlock := none, type := .Cap_Type_Selected,
            isSideLeft := decide (s.m_currentRenderingSide = .Left), captured := [] } },
      log1)
  else (result, s, log1)

/-- Method `D3DProxyDevice::EndStateBlock`: the result, the state block handed back through
`ppSB` (if any), the new state and the new log. `pActualStateBlock` is the actual state block
the device yields when its call succeeds. The result is `none` when `m_pCapturingStateTo` is
dereferenced while it is null. -/
def EndStateBlock (dev : Device) (pActualStateBlock : Option Handle) (s : D3DProxyDevice)
    (log : Log) : Option (HRESULT × Option D3D9ProxyStateBlock × D3DProxyDevice × Log) :=
  let creationResult := dev log.length .EndStateBlock
  let log1 := log ++ [⟨s.m_currentRenderingSide, .EndStateBlock⟩]
  match s.m_pCapturingStateTo with
  | none => none
  | some sb =>
      if SUCCEEDED creationResult then
        some (creationResult, some (sb.EndStateBlock pActualStateBlock),
          { s with m_pCapturingStateTo := none, m_bInBeginEndStateBlock := false }, log1)
      else
        some (creationResult, none,
          { s with m_pCapturingStateTo := none, m_bInBeginEndStateBlock := false },
          log1 ++ [⟨s.m_currentRenderingSide, .Release .stateBlock⟩])

/-! ## The proxy device: teardown and restore -/

/-- The loop of `ReleaseEverything` over the render-target slots: one `Release()` for every
slot that is not null. -/
def releaseRenderTargets (side : RenderPosition) (slots : List (Option D3D9ProxySurface)) :
    Log :=
  slots.flatMap (fun o => releaseIfSet side .surface o)

/-- The loops of `ReleaseEverything` over the two maps: one `Release()` for every entry that
is not null. -/
def releaseMapEntries {α : Type} (side : RenderPosition) (wrap : α → Resource)
    (m : List (Nat × Option α)) : Log :=
  m.flatMap (fun p => releaseIfSet side wrap p.2)

/-- Method `D3DProxyDevice::ReleaseEverything`. -/
def ReleaseEverything (s : D3DProxyDevice) (log : Log) : D3DProxyDevice × Log :=
  let side := s.m_currentRenderingSide
  ({ s with
     hudFont := none,
     m_pCapturingStateTo := none,
     m_activeRenderTargets := s.m_activeRenderTargets.map (fun _ => none),
     m_activeTextureStages := [],
     m_activeVertexBuffers := [],
     m_pActiveStereoDepthStencil := none,
     m_pActiveIndicies := none,
     m_pActivePixelShader := none,
     m_pActiveVertexShader := none,
     m_pActiveVertexDeclaration := none },
   log
     ++ releaseIfSet side .font s.hudFont
     ++ [⟨side, .ReleaseResources⟩]
     ++ (if s.m_pCapturingStateTo.isSome then [⟨side, .Release .stateBlock⟩] else [])
     ++ releaseRenderTargets side s.m_activeRenderTargets
     ++ releaseMapEntries side .texture s.m_activeTextureStages
     ++ releaseMapEntries side .vertexBuffer s.m_activeVertexBuffers
     ++ releaseIfSet side .surface s.m_pActiveStereoDepthStencil
     ++ releaseIfSet side .indexBuffer s.m_pActiveIndicies
     ++ releaseIfSet side .pixelShader s.m_pActivePixelShader
     ++ releaseIfSet side .vertexShader s.m_pActiveVertexShader
     ++ releaseIfSet side .vertexDeclaration s.m_pActiveVertexDeclaration)

end D3DProxyDevice

/-- What the environment hands to `OnCreateOrRestore` through output parameters: the actual
primary swap chain and the wrapped back buffer of its wrapper, the viewport `GetViewport`
writes, the actual depth-stencil `GetDepthStencilSurface` yields, the wrapped surface that
`CreateDepthStencilSurface` stores in `pTemp` (null when the creation fails), the font
`SetupHUD` creates, and the quotient of width and height of the viewport of the stereo
view. -/
structure RestoreAnswers where
  pActualPrimarySwapChain : Handle
  pWrappedBackBuffer : Option D3D9ProxySurface
  viewport : D3DVIEWPORT9
  pDepthStencil : Handle
  pTemp : Option D3D9ProxySurface
  hudFont : Option Handle
  stereoViewAspect : ℚ

namespace D3DProxyDevice

/-- Method `D3DProxyDevice::OnCreateOrRestore`. The result is `none` when the process exits
(the swap chain cannot be fetched), an assertion fails, or a null pointer is dereferenced. -/
def OnCreateOrRestore (dev : Device) (ans : RestoreAnswers) (s : D3DProxyDevice) (log : Log) :
    Option (D3DProxyDevice × Log) :=
  let s1 : D3DProxyDevice :=
    { s with
      m_currentRenderingSide := .Left,
      m_pCurrentMatViewTransform := .Left,
      m_pCurrentView := .Left,
      m_pCurrentProjection := .Left }
  -- wrap the swap chain
  let log1 := log ++ [⟨.Left, .GetSwapChain 0⟩]
  if FAILED (dev log.length (.GetSwapChain 0)) then none
  else if s1.m_activeSwapChains.length ≠ 0 then none
  else
    let s2 : D3DProxyDevice :=
      { s1 with m_activeSwapChains :=
          s1.m_activeSwapChains ++ [⟨ans.pActualPrimarySwapChain, ans.pWrappedBackBuffer⟩] }
    -- set the primary render target to the first stereo back buffer
    match s2.m_activeSwapChains.head? with
    | none => none
    | some chain0 =>
      match s2.SetRenderTarget dev 0 chain0.backBuffer log1 with
      | none => none
      | some (_, s3, log3) =>
        match chain0.backBuffer with
        | none => none
        | some pWrappedBackBuffer =>
          let log4 := log3 ++ [⟨.Left, .Release (.surface pWrappedBackBuffer)⟩]
          let log5 := log4 ++ [⟨.Left, .GetViewport⟩]
          let s5 : D3DProxyDevice := { s3 with m_LastViewportSet := ans.viewport }
          -- if there is an initial depth stencil
          let log6 := log5 ++ [⟨.Left, .GetDepthStencilSurface⟩]
          let afterStencil : Option (D3DProxyDevice × Log) :=
            if SUCCEEDED (dev log5.length .GetDepthStencilSurface) then
              let log7 := log6 ++ [⟨.Left, .Release (.actual ans.pDepthStencil)⟩,
                ⟨.Left, .CreateDepthStencilSurface⟩]
              let r := s5.SetDepthStencilSurface dev ans.pTemp log7
              match ans.pTemp with
              | none => none
              | some pTemp => some (r.2.1, r.2.2 ++ [⟨.Left, .Release (.surface pTemp)⟩])
            else some (s5, log6)
          match afterStencil with
          | none => none
          | some (s8, log8) =>
            -- SetupHUD(); stereoView->Init(getActual());
            if s8.stereoView then
              some ({ s8 with
                      hudFont := ans.hudFont,
                      m_spShaderViewAdjustment :=
                        (s8.m_spShaderViewAdjustment.UpdateProjectionMatrices
                          ans.stereoViewAspect).ComputeViewTransforms },
                    log8 ++ [⟨.Left, .StereoViewInit⟩])
            else none

/-- The loop of `Reset` over the swap chains: one `Release()` for each. -/
def releaseSwapChains (side : RenderPosition) (chains : List D3D9ProxySwapChain) : Log :=
  chains.map (fun c => Event.mk side (.Release (.swapChain c)))

/-- Method `D3DProxyDevice::Reset`. -/
def Reset (dev : Device) (ans : RestoreAnswers) (pPresentationParameters : Nat)
    (s : D3DProxyDevice) (log : Log) : Option (HRESULT × D3DProxyDevice × Log) :=
  let side := s.m_currentRenderingSide
  let log1 := if s.stereoView then log ++ [⟨side, .StereoViewReleaseEverything⟩] else log
  let r := s.ReleaseEverything log1
  let s2 : D3DProxyDevice :=
    { r.1 with m_bInBeginEndStateBlock := false, m_activeSwapChains := [] }
  let log2 := r.2 ++ releaseSwapChains side s.m_activeSwapChains
  let hr := dev log2.length (.Reset pPresentationParameters)
  let log3 := log2 ++ [⟨side, .Reset pPresentationParameters⟩]
  -- if the device has been successfully reset the resources are recreated
  if hr = D3D_OK then
    match s2.OnCreateOrRestore dev ans log3 with
    | none => none
    | some (s4, log4) =>
        if s4.stereoView then some (hr, s4, log4 ++ [⟨.Left, .StereoViewPostReset⟩])
        else none
  else some (hr, s2, log3)

end D3DProxyDevice

/-! ## The proxy device: getters of bound resources -/

namespace D3DProxyDevice

/-- Method `D3DProxyDevice::GetRenderTarget`: the result, the pointer written to
`*ppRenderTarget` (none when nothing is written), the state and the new log. `capacity` is the
value of `m_activeRenderTargets.capacity()`; the test `RenderTargetIndex < 0` of an unsigned
index is never true. The result is `none` when the slot table is accessed at an index outside
it. -/
def GetRenderTarget (capacity : Nat) (RenderTargetIndex : Nat) (s : D3DProxyDevice)
    (log : Log) : Option (HRESULT × Option D3D9ProxySurface × D3DProxyDevice × Log) :=
  if RenderTargetIndex ≥ capacity then some (D3DERR_INVALIDCALL, none, s, log)
  else
    match s.m_activeRenderTargets[RenderTargetIndex]? with
    | none => none
    | some none => some (D3DERR_NOTFOUND, none, s, log)
    | some (some targetToReturn) =>
        some (D3D_OK, some targetToReturn, s,
          log ++ [⟨s.m_currentRenderingSide, .AddRef (.surface targetToReturn)⟩])

/-- Method `D3DProxyDevice::GetDepthStencilSurface`: the result, the pointer written to
`*ppZStencilSurface` (none when nothing is written), the state and the new log. -/
def GetDepthStencilSurface (s : D3DProxyDevice) (log : Log) :
    HRESULT × Option D3D9ProxySurface × D3DProxyDevice × Log :=
  match s.m_pActiveStereoDepthStencil with
  | none => (D3DERR_NOTFOUND, none, s, log)
  | some pZStencilSurface =>
      (D3D_OK, some pZStencilSurface, s,
        log ++ [⟨s.m_currentRenderingSide, .AddRef (.surface pZStencilSurface)⟩])

/-- Method `D3DProxyDevice::GetTexture`: the result, what is written to `*ppTexture` (none when
nothing is written, `some none` when a null pointer is written), the state and the new log. -/
def GetTexture (Stage : Nat) (s : D3DProxyDevice) (log : Log) :
    HRESULT × Option (Option ProxyTexture) × D3DProxyDevice × Log :=
  match s.m_activeTextureStages.lookup Stage with
  | none => (D3DERR_INVALIDCALL, none, s, log)
  | some pTexture =>
      (D3D_OK, some pTexture, s, log ++ addRefIfSet s.m_currentRenderingSide .texture pTexture)

/-- Method `D3DProxyDevice::GetStreamSource`: the result, what is written to `*ppStreamData`
(none when nothing is written, `some none` when a null pointer is written), the state and the
new log; `*pOffsetInBytes` and `*pStride` are never written. -/
def GetStreamSource (StreamNumber : Nat) (s : D3DProxyDevice) (log : Log) :
    HRESULT × Option (Option BaseDirect3DVertexBuffer9) × D3DProxyDevice × Log :=
  match s.m_activeVertexBuffers.lookup StreamNumber with
  | none => (D3DERR_INVALIDCALL, none, s, log)
  | some pStreamData =>
      (D3D_OK, some pStreamData, s,
        log ++ addRefIfSet s.m_currentRenderingSide .vertexBuffer pStreamData)

/-- Method `D3DProxyDevice::GetIndices`: the result, the pointer written to `*ppIndexData`
(none when nothing is written), the state and the new log. -/
def GetIndices (s : D3DProxyDevice) (log : Log) :
    HRESULT × Option BaseDirect3DIndexBuffer9 × D3DProxyDevice × Log :=
  match s.m_pActiveIndicies with
  | none => (D3DERR_INVALIDCALL, none, s, log)
  | some pIndexData =>
      (D3D_OK, some pIndexData, s,
        log ++ [⟨s.m_currentRenderingSide, .AddRef (.indexBuffer pIndexData)⟩])

/-- Method `D3DProxyDevice::GetVertexShader`: the result, the pointer written to `*ppShader`
(none when nothing is written), the state and the new log. -/
def GetVertexShader (s : D3DProxyDevice) (log : Log) :
    HRESULT × Option D3D9ProxyVertexShader × D3DProxyDevice × Log :=
  match s.m_pActiveVertexShader with
  | none => (D3DERR_INVALIDCALL, none, s, log)
  | some pShader => (D3D_OK, some pShader, s, log)

/-- Method `D3DProxyDevice::GetPixelShader`: the result, the pointer written to `*ppShader`
(none when nothing is written), the state and the new log. -/
def GetPixelShader (s : D3DProxyDevice) (log : Log) :
    HRESULT × Option D3D9ProxyPixelShader × D3DProxyDevice × Log :=
  match s.m_pActivePixelShader with
  | none => (D3DERR_INVALIDCALL, none, s, log)
  | some pShader => (D3D_OK, some pShader, s, log)

/-- Method `D3DProxyDevice::GetVertexDeclaration`: the result, the pointer written to `*ppDecl`
(none when nothing is written), the state and the new log. -/
def GetVertexDeclaration (s : D3DProxyDevice) (log : Log) :
    HRESULT × Option BaseDirect3DVertexDeclaration9 × D3DProxyDevice × Log :=
  match s.m_pActiveVertexDeclaration with
  | none => (D3DERR_INVALIDCALL, none, s, log)
  | some pDecl => (D3D_OK, some pDecl, s, log)

end D3DProxyDevice

/-! ## Descriptions of the calls of an eye switch, used in the statements -/

/-- The actual surface of a wrapped surface for an eye: `getActualLeft()` for the left eye and
`getActualRight()` (null when the surface is mono) for the right eye. -/
def D3D9ProxySurface.actualFor (p : D3D9ProxySurface) : RenderPosition → Option Handle
  | .Left => p.getActualLeft
  | .Right => p.getActualRight

/-- For every slot of the table that is not null, numbered from `i`, the call
`SetRenderTarget(slot number, surface of the slot for side)`, in slot order. -/
def renderTargetRebinds (side : RenderPosition) (i : Nat)
    (slots : List (Option D3D9ProxySurface)) : List DeviceCall :=
  (slots.enumFrom i).filterMap
    (fun p => p.2.map (fun rt => DeviceCall.SetRenderTarget p.1 (rt.actualFor side)))

/-- True iff the device answers `D3D_OK` to at least one of `calls`, issued one after the
other from log position `pos` on. -/
def anyAnsweredOk (dev : Device) (pos : Nat) (calls : List DeviceCall) : Bool :=
  (calls.enumFrom pos).any (fun p => decide (dev p.1 p.2 = D3D_OK))

/-- The actual texture of a wrapped texture for an eye: the left instance for the left eye,
the right instance (null when the texture is mono) for the right eye. -/
def ProxyTexture.actualFor (p : ProxyTexture) : RenderPosition → Option Handle
  | .Left => some p.m_pActualTexture
  | .Right => p.m_pActualTextureRight

/-- The stored view matrix of an eye (`m_leftView` or `m_rightView`). -/
def D3DProxyDevice.storedView (s : D3DProxyDevice) : RenderPosition → D3DXMATRIX
  | .Left => s.m_leftView
  | .Right => s.m_rightView

/-- The stored projection matrix of an eye (`m_leftProjection` or `m_rightProjection`). -/
def D3DProxyDevice.storedProjection (s : D3DProxyDevice) : RenderPosition → D3DXMATRIX
  | .Left => s.m_leftProjection
  | .Right => s.m_rightProjection

/-- For every bound texture that is stereo, the call `SetTexture(stage, instance for side)`,
in the order of the stage map; nothing for a null entry or a mono texture. -/
def textureRebinds (side : RenderPosition) (stages : List (Nat × Option ProxyTexture)) :
    List DeviceCall :=
  stages.filterMap (fun p => p.2.bind (fun tex =>
    if tex.m_pActualTextureRight.isSome
    then some (DeviceCall.SetTexture p.1 (tex.actualFor side)) else none))

/-- All the calls of a successful eye switch to `side`, from log position `pos` on. -/
def switchCalls (dev : Device) (side : RenderPosition) (s : D3DProxyDevice) (pos : Nat) :
    List DeviceCall :=
  renderTargetRebinds side 0 s.m_activeRenderTargets
  ++ (if anyAnsweredOk dev pos (renderTargetRebinds side 0 s.m_activeRenderTargets)
        && !s.m_bActiveViewportIsDefault
      then [DeviceCall.SetViewport s.m_LastViewportSet] else [])
  ++ (match s.m_pActiveStereoDepthStencil with
      | some ds => [DeviceCall.SetDepthStencilSurface (ds.actualFor side)]
      | none => [])
  ++ textureRebinds side s.m_activeTextureStages
  ++ (if s.m_bViewTransformSet
      then [DeviceCall.SetTransform .D3DTS_VIEW (s.storedView side)] else [])
  ++ (if s.m_bProjectionTransformSet
      then [DeviceCall.SetTransform .D3DTS_PROJECTION (s.storedProjection side)] else [])
  ++ [DeviceCall.ApplyAllStereoConstants side]

/-- The state after a successful eye switch to `side`. -/
def switchedState (side : RenderPosition) (s : D3DProxyDevice) : D3DProxyDevice :=
  { s with
    m_currentRenderingSide := side,
    m_pCurrentView := if s.m_bViewTransformSet then side else s.m_pCurrentView,
    m_pCurrentProjection := if s.m_bProjectionTransformSet then side else s.m_pCurrentProjection,
    m_pCurrentMatViewTransform := side }

/-- The underlying draw calls logged by an operation that extended `log` to `log2`. -/
def issuedDraws (log log2 : Log) : List Event :=
  (log2.drop log.length).filter Event.isDraw

/-- The underlying draw, clear and fill calls logged by an operation that extended `log` to
`log2`. -/
def issuedRenders (log log2 : Log) : List Event :=
  (log2.drop log.length).filter Event.isRender

/-- The clear and fill operations of the proxy device, with their arguments. -/
inductive ClearOp
  | Clear (Count pRects Flags Color : Nat) (Z : ℚ) (Stencil : Nat)
  | ColorFill (pSurface : Option Handle) (pRect color : Nat)

/-- The call a clear or fill operation issues to the wrapped device. -/
def ClearOp.call : ClearOp → DeviceCall
  | .Clear Count pRects Flags Color Z Stencil => .Clear Count pRects Flags Color Z Stencil
  | .ColorFill pSurface pRect color => .ColorFill pSurface pRect color

/-- The method of the proxy device a clear or fill operation names, applied to its
arguments: `Clear` or `ColorFill`. -/
def D3DProxyDevice.clearOrFill (dev : Device) (op : ClearOp) (s : D3DProxyDevice) (log : Log) :
    Option (HRESULT × D3DProxyDevice × Log) :=
  match op with
  | .Clear Count pRects Flags Color Z Stencil =>
      s.Clear dev Count pRects Flags Color Z Stencil log
  | .ColorFill pSurface pRect color => s.ColorFill dev pSurface pRect color log

/-- The flushes of dirty shader registers a call added to the log. -/
def issuedFlushes (log log2 : Log) : List Event :=
  (log2.drop log.length).filter Event.isFlush

/-! ## Reference counts and binding slots, used in the statements -/

/-- The change a log entry makes to the number of references taken on `r`: one more for
`r->AddRef()`, one less for `r->Release()`, none for any other call. -/
def Event.refDelta (r : Resource) (e : Event) : Int :=
  match e.call with
  | .AddRef x => if x = r then 1 else 0
  | .Release x => if x = r then -1 else 0
  | _ => 0

/-- The references on `r` that a log leaves open: the number of its `AddRef()` calls on `r`
minus the number of its `Release()` calls on `r`. -/
def refBalance (log : Log) (r : Resource) : Int :=
  (log.map (Event.refDelta r)).sum

/-- The number of `Release()` calls on `r` among log entries. -/
def releasesOf (r : Resource) (evs : Log) : Nat :=
  evs.countP (fun e =>
    match e.call with
    | .Release x => decide (x = r)
    | _ => false)

/-- The number of `AddRef()` calls on `r` among log entries. -/
def addRefsOf (r : Resource) (evs : Log) : Nat :=
  evs.countP (fun e =>
    match e.call with
    | .AddRef x => decide (x = r)
    | _ => false)

/-- One when the pointer `p`, seen as a resource through `wrap`, points to `r`; zero when it
points elsewhere or is null. -/
def holds {α : Type} (wrap : α → Resource) (p : Option α) (r : Resource) : Nat :=
  if p.map wrap = some r then 1 else 0

/-- The number of binding slots of the proxy that hold `r`: render-target slots, the
depth-stencil, texture stages, vertex streams, the index buffer, the two shaders and the
vertex declaration. -/
def D3DProxyDevice.slotCount (s : D3DProxyDevice) (r : Resource) : Nat :=
  (s.m_activeRenderTargets.map (fun o => holds .surface o r)).sum
    + holds .surface s.m_pActiveStereoDepthStencil r
    + (s.m_activeTextureStages.map (fun p => holds .texture p.2 r)).sum
    + (s.m_activeVertexBuffers.map (fun p => holds .vertexBuffer p.2 r)).sum
    + holds .indexBuffer s.m_pActiveIndicies r
    + holds .pixelShader s.m_pActivePixelShader r
    + holds .vertexShader s.m_pActiveVertexShader r
    + holds .vertexDeclaration s.m_pActiveVertexDeclaration r

/-- The number of pointers released by `ReleaseEverything` that hold `r`: the binding slots,
the HUD font and the capture target. -/
def D3DProxyDevice.heldCount (s : D3DProxyDevice) (r : Resource) : Nat :=
  s.slotCount r + holds .font s.hudFont r
    + holds (fun _ => Resource.stateBlock) s.m_pCapturingStateTo r

/-- The keys of each of the two maps are pairwise distinct, as they are in a `std::map`. -/
def D3DProxyDevice.keysDistinct (s : D3DProxyDevice) : Prop :=
  (s.m_activeTextureStages.map Prod.fst).Nodup ∧ (s.m_activeVertexBuffers.map Prod.fst).Nodup

instance (s : D3DProxyDevice) : Decidable s.keysDistinct := by
  unfold D3DProxyDevice.keysDistinct
  infer_instance

/-- Every resource has as many references open in the log as there are binding slots that
hold it. -/
def Balanced (s : D3DProxyDevice) (log : Log) : Prop :=
  ∀ r : Resource, refBalance log r = (s.slotCount r : Int)

/-- No binding slot holds a resource: every render-target slot is null, the two maps are
empty, and the depth-stencil, index buffer, shaders, vertex declaration and capture target are
null. -/
def D3DProxyDevice.bindingsEmpty (s : D3DProxyDevice) : Prop :=
  (∀ o ∈ s.m_activeRenderTargets, o = none) ∧
  s.m_activeTextureStages = [] ∧
  s.m_activeVertexBuffers = [] ∧
  s.m_pActiveStereoDepthStencil = none ∧
  s.m_pActiveIndicies = none ∧
  s.m_pActiveVertexShader = none ∧
  s.m_pActivePixelShader = none ∧
  s.m_pActiveVertexDeclaration = none ∧
  s.m_pCapturingStateTo = none

/-- A call of one of the eight binding setters with its arguments. -/
inductive SetterCall
  | SetRenderTarget (RenderTargetIndex : Nat) (pRenderTarget : Option D3D9ProxySurface)
  | SetDepthStencilSurface (pNewZStencil : Option D3D9ProxySurface)
  | SetTexture (Stage : Nat) (pTexture : Option ProxyTexture)
  | SetStreamSource (StreamNumber : Nat) (pStreamData : Option BaseDirect3DVertexBuffer9)
      (OffsetInBytes Stride : Nat)
  | SetIndices (pIndexData : Option BaseDirect3DIndexBuffer9)
  | SetVertexShader (pShader : Option D3D9ProxyVertexShader)
  | SetPixelShader (pShader : Option D3D9ProxyPixelShader)
  | SetVertexDeclaration (pDecl : Option BaseDirect3DVertexDeclaration9)

/-- The resource a setter call asks to bind (none for a null pointer). -/
def SetterCall.newResource : SetterCall → Option Resource
  | .SetRenderTarget _ p => p.map .surface
  | .SetDepthStencilSurface p => p.map .surface
  | .SetTexture _ p => p.map .texture
  | .SetStreamSource _ p _ _ => p.map .vertexBuffer
  | .SetIndices p => p.map .indexBuffer
  | .SetVertexShader p => p.map .vertexShader
  | .SetPixelShader p => p.map .pixelShader
  | .SetVertexDeclaration p => p.map .vertexDeclaration

/-- The resource held, before the call, by the slot a setter call addresses (none when the
slot is null or absent). -/
def D3DProxyDevice.oldResource (s : D3DProxyDevice) : SetterCall → Option Resource
  | .SetRenderTarget i _ => (s.m_activeRenderTargets[i]?).join.map .surface
  | .SetDepthStencilSurface _ => s.m_pActiveStereoDepthStencil.map .surface
  | .SetTexture Stage _ => (s.m_activeTextureStages.lookup Stage).join.map .texture
  | .SetStreamSource StreamNumber _ _ _ =>
      (s.m_activeVertexBuffers.lookup StreamNumber).join.map .vertexBuffer
  | .SetIndices _ => s.m_pActiveIndicies.map .indexBuffer
  | .SetVertexShader _ => s.m_pActiveVertexShader.map .vertexShader
  | .SetPixelShader _ => s.m_pActivePixelShader.map .pixelShader
  | .SetVertexDeclaration _ => s.m_pActiveVertexDeclaration.map .vertexDeclaration

/-- The test each setter applies to its result before it touches the binding table:
`result == D3D_OK` in `SetRenderTarget`, `SUCCEEDED(result)` in the seven others. -/
def SetterCall.succeeded (c : SetterCall) (hr : HRESULT) : Bool :=
  match c with
  | .SetRenderTarget _ _ => decide (hr = D3D_OK)
  | _ => SUCCEEDED hr

/-- The setter call `c` made on the proxy device. -/
def D3DProxyDevice.applySetter (dev : Device) (c : SetterCall) (s : D3DProxyDevice)
    (log : Log) : Option (HRESULT × D3DProxyDevice × Log) :=
  match c with
  | .SetRenderTarget i p => s.SetRenderTarget dev i p log
  | .SetDepthStencilSurface p => some (s.SetDepthStencilSurface dev p log)
  | .SetTexture Stage p => some (s.SetTexture dev Stage p log)
  | .SetStreamSource n p off stride => some (s.SetStreamSource dev n p off stride log)
  | .SetIndices p => some (s.SetIndices dev p log)
  | .SetVertexShader p => some (s.SetVertexShader dev p log)
  | .SetPixelShader p => some (s.SetPixelShader dev p log)
  | .SetVertexDeclaration p => some (s.SetVertexDeclaration dev p log)

/-- A sequence of setter calls made one after the other. -/
def runSetters (dev : Device) : List SetterCall → D3DProxyDevice → Log →
    Option (D3DProxyDevice × Log)
  | [], s, log => some (s, log)
  | c :: cs, s, log =>
      match s.applySetter dev c log with
      | some (_, s2, log2) => runSetters dev cs s2 log2
      | none => none

/-- The state `s` with another capture target and nothing else changed. -/
def D3DProxyDevice.withCapture (s : D3DProxyDevice) (sb : D3D9ProxyStateBlock) :
    D3DProxyDevice :=
  { s with m_pCapturingStateTo := some sb }

/-- The matrix a view or projection transform is multiplied with for an eye: the view
transform of that eye for `D3DTS_VIEW`, the projection shift of that eye for
`D3DTS_PROJECTION`. -/
def D3DProxyDevice.eyeAdjustmentFor (s : D3DProxyDevice) :
    D3DTRANSFORMSTATETYPE → RenderPosition → D3DXMATRIX
  | .D3DTS_VIEW, .Left => s.m_spShaderViewAdjustment.LeftViewTransform
  | .D3DTS_VIEW, .Right => s.m_spShaderViewAdjustment.RightViewTransform
  | .D3DTS_PROJECTION, .Left => s.m_spShaderViewAdjustment.LeftShiftProjection
  | .D3DTS_PROJECTION, .Right => s.m_spShaderViewAdjustment.RightShiftProjection
  | .D3DTS_OTHER _, _ => 1

/-- The matrix derived for an eye from the matrix handed to `SetTransform`: the identity for a
null pointer or an identity matrix, else the matrix times the adjustment of that eye. -/
def D3DProxyDevice.derivedTransform (s : D3DProxyDevice) (State : D3DTRANSFORMSTATETYPE)
    (pMatrix : Option D3DXMATRIX) (side : RenderPosition) : D3DXMATRIX :=
  match pMatrix with
  | none => 1
  | some M => if M = 1 then 1 else M * s.eyeAdjustmentFor State side

/-- Left is the active eye and the current view, projection and adjustment-matrix pointers
select the left matrices. -/
def D3DProxyDevice.leftSelected (s : D3DProxyDevice) : Prop :=
  s.m_currentRenderingSide = .Left ∧ s.m_pCurrentView = .Left ∧
    s.m_pCurrentProjection = .Left ∧ s.m_pCurrentMatViewTransform = .Left

instance (s : D3DProxyDevice) : Decidable s.leftSelected := by
  unfold D3DProxyDevice.leftSelected
  infer_instance

/-! ## Concrete values used in the examples -/

/-- A `ViewAdjustment` with every member zero: an object before its construction. -/
def ViewAdjustment.zeroed : ViewAdjustment where
  hmdInfo := ⟨0, 0⟩
  metersToWorldMultiplier := 0
  rollEnabled := false
  bulletLabyrinth := false
  convergence := 0
  minConvergence := 0
  maxConvergence := 0
  ipd := 0
  stereoType := 0
  n := 0
  f := 0
  l := 0
  r := 0
  t := 0
  b := 0
  squash := 0
  gui3DDepth := 0
  hudDistance := 0
  hud3DDepth := 0
  matProjection := 0
  matProjectionInv := 0
  leftShiftProjection := 0
  rightShiftProjection := 0
  projectLeft := 0
  projectRight := 0
  transformLeft := 0
  transformRight := 0
  matViewProjTransformLeft := 0
  matViewProjTransformRight := 0
  matGatheredLeft := 0
  matGatheredRight := 0
  rollMatrix := 0
  matSquash := 0
  matHudDistance := 0
  matLeftHud3DDepth := 0
  matRightHud3DDepth := 0
  matLeftHud3DDepthShifted := 0
  matRightHud3DDepthShifted := 0
  matLeftGui3DDepth := 0
  matRightGui3DDepth := 0
  matBulletLabyrinth := 0

/-- The frustum values the constructor of `ViewAdjustment` assigns to `n`, `f`, `l` and `r`;
no method changes them afterwards. -/
def ViewAdjustment.hasCtorFrustum (va : ViewAdjustment) : Prop :=
  va.n = 1 / 10 ∧ va.f = 10 ∧ va.l = -(1 / 2) ∧ va.r = 1 / 2

instance (va : ViewAdjustment) : Decidable va.hasCtorFrustum := by
  unfold ViewAdjustment.hasCtorFrustum
  infer_instance

/-- The frustum shift named in the projection claim, without its sign:
`((IPD/2) * nearClipDistance / convergence) * (|l| + |r|)`. -/
def ViewAdjustment.frustumAsymmetry (va : ViewAdjustment) : ℚ :=
  ((va.ipd / 2) * ViewAdjustment.nearClippingPlaneDistance / va.convergence)
    * (|va.l| + |va.r|)

/-- Every matrix member of `ViewAdjustment`, in the order of their declaration. -/
def ViewAdjustment.matrices (va : ViewAdjustment) : List D3DXMATRIX :=
  [va.matProjection, va.matProjectionInv, va.leftShiftProjection, va.rightShiftProjection,
   va.projectLeft, va.projectRight, va.transformLeft, va.transformRight,
   va.matViewProjTransformLeft, va.matViewProjTransformRight, va.matGatheredLeft,
   va.matGatheredRight, va.rollMatrix, va.matSquash, va.matHudDistance, va.matLeftHud3DDepth,
   va.matRightHud3DDepth, va.matLeftHud3DDepthShifted, va.matRightHud3DDepthShifted,
   va.matLeftGui3DDepth, va.matRightGui3DDepth, va.matBulletLabyrinth]

/-- The lens offset applied to the eye projections: `hmdInfo.lensXCenterOffset` in the HMD
stereo modes (25, 26, 27), nothing in the other modes. -/
def ViewAdjustment.lensShift (va : ViewAdjustment) : ℚ :=
  if ViewAdjustment.isRiftStereoType va.stereoType then va.hmdInfo.lensXCenterOffset else 0

/-- The eye transform of `ComputeViewTransforms` for an eye constant: the X-translation by
`SeparationInWorldUnits() * eyeConstant`, left-multiplied by the roll matrix iff roll is
enabled. -/
def ViewAdjustment.eyeTransform (va : ViewAdjustment) (eyeConstant : ℚ) : D3DXMATRIX :=
  if va.rollEnabled
  then va.rollMatrix * D3DXMatrixTranslation (va.SeparationInWorldUnits * eyeConstant) 0 0
  else D3DXMatrixTranslation (va.SeparationInWorldUnits * eyeConstant) 0 0

/-- A constructed `ViewAdjustment` for a display of aspect ratio 8/5 with a lens offset of
3/20, world scale 1 and roll disabled. -/
def ViewAdjustment.created : ViewAdjustment :=
  ViewAdjustment.ctor ViewAdjustment.zeroed ⟨8 / 5, 3 / 20⟩ 1 false

/-- The constructed `ViewAdjustment` after loading a configuration with world scale 1,
convergence 2, IPD 0.064 and stereo mode 26 (an HMD mode). -/
def ViewAdjustment.riftExample : ViewAdjustment :=
  ViewAdjustment.created.Load false 1 2 (64 / 1000) 26

/-- The constructed `ViewAdjustment` after loading a configuration with roll enabled, world
scale 1, convergence 2, IPD 0.064 and stereo mode 0 (not an HMD mode). -/
def ViewAdjustment.monitorExample : ViewAdjustment :=
  ViewAdjustment.created.Load true 1 2 (64 / 1000) 0

/-- A `D3DProxyDevice` with every member zero: an object before its construction. -/
def D3DProxyDevice.zeroed : D3DProxyDevice where
  m_currentRenderingSide := .Left
  m_activeRenderTargets := []
  m_pActiveStereoDepthStencil := none
  m_activeTextureStages := []
  m_bActiveViewportIsDefault := false
  m_LastViewportSet := ⟨0, 0, 0, 0, 0, 0⟩
  m_bViewTransformSet := false
  m_bProjectionTransformSet := false
  m_leftView := 0
  m_rightView := 0
  m_leftProjection := 0
  m_rightProjection := 0
  m_pCurrentView := .Left
  m_pCurrentProjection := .Left
  m_pCurrentMatViewTransform := .Left
  m_spShaderViewAdjustment := ViewAdjustment.zeroed
  m_activeVertexBuffers := []
  m_pActiveIndicies := none
  m_pActivePixelShader := none
  m_pActiveVertexShader := none
  m_pActiveVertexDeclaration := none
  m_bInBeginEndStateBlock := false
  m_pCapturingStateTo := none
  m_activeSwapChains := []
  hudFont := none
  stereoView := false

/-- A wrapped device that answers `D3D_OK` to every call. -/
def Device.allOk : Device := fun _ _ => D3D_OK

/-- A wrapped device that answers `D3D_OK` to every call except the one at log position
`pos`, which it answers with `D3DERR_INVALIDCALL`. -/
def Device.failingAt (pos : Nat) : Device :=
  fun k _ => if k = pos then D3DERR_INVALIDCALL else D3D_OK

/-- A mono surface: left instance 1, no right instance. -/
def exampleMonoSurface : D3D9ProxySurface := ⟨1, none⟩

/-- A stereo surface: left instance 1, right instance 2. -/
def exampleStereoSurface : D3D9ProxySurface := ⟨1, some 2⟩

/-- A mono texture: left instance 3, no right instance. -/
def exampleMonoTexture : ProxyTexture := ⟨3, none⟩

/-- A stereo texture: left instance 4, right instance 5. -/
def exampleStereoTexture : ProxyTexture := ⟨4, some 5⟩

/-- A freshly constructed proxy device with one render-target slot. -/
def D3DProxyDevice.created : D3DProxyDevice :=
  D3DProxyDevice.ctor D3DProxyDevice.zeroed ⟨8 / 5, 3 / 20⟩ 1

/-- A freshly constructed proxy device whose slot 0 holds the mono example surface. -/
def D3DProxyDevice.monoBound : D3DProxyDevice :=
  { D3DProxyDevice.created with m_activeRenderTargets := [some exampleMonoSurface] }

/-- A freshly constructed proxy device whose slot 0 holds the stereo example surface. -/
def D3DProxyDevice.stereoBound : D3DProxyDevice :=
  { D3DProxyDevice.created with m_activeRenderTargets := [some exampleStereoSurface] }

/-- A device with Left active, a stereo surface in slot 0, a stereo depth-stencil, a mono
texture on stage 0 and a stereo texture on stage 1, a viewport that is not the default one and
a view transform that has been set. -/
def D3DProxyDevice.richBound : D3DProxyDevice :=
  { D3DProxyDevice.created with
    m_activeRenderTargets := [some exampleStereoSurface],
    m_pActiveStereoDepthStencil := some ⟨6, some 7⟩,
    m_activeTextureStages := [(0, some exampleMonoTexture), (1, some exampleStereoTexture)],
    m_bActiveViewportIsDefault := false,
    m_LastViewportSet := ⟨0, 0, 640, 400, 0, 1⟩,
    m_bViewTransformSet := true }

/-- A mono depth-stencil surface: left instance 6, no right instance. -/
def exampleMonoDepthStencil : D3D9ProxySurface := ⟨6, none⟩

/-- A mono render target: left instance 10, no right instance. -/
def exampleMonoTarget : D3D9ProxySurface := ⟨10, none⟩

/-- A vertex buffer wrapping the actual buffer 8. -/
def exampleVertexBuffer : BaseDirect3DVertexBuffer9 := ⟨8⟩

/-- An index buffer wrapping the actual buffer 9. -/
def exampleIndexBuffer : BaseDirect3DIndexBuffer9 := ⟨9⟩

/-- A constructed proxy device with two render-target slots, the stereo surface in slot 0 and
Right as the active eye (the state after binding the surface and one draw). -/
def D3DProxyDevice.rightActive : D3DProxyDevice :=
  switchedState .Right
    { D3DProxyDevice.ctor D3DProxyDevice.zeroed ⟨8 / 5, 3 / 20⟩ 2 with
      m_activeRenderTargets := [some exampleStereoSurface, none] }

/-- A constructed proxy device with two render-target slots, Left active, the stereo surface
in slot 0, a mono surface in slot 1, a mono depth-stencil and a mono texture on stage 0. -/
def D3DProxyDevice.mixedBound : D3DProxyDevice :=
  { D3DProxyDevice.ctor D3DProxyDevice.zeroed ⟨8 / 5, 3 / 20⟩ 2 with
    m_activeRenderTargets := [some exampleStereoSurface, some exampleMonoTarget],
    m_pActiveStereoDepthStencil := some exampleMonoDepthStencil,
    m_activeTextureStages := [(0, some exampleMonoTexture)] }

/-- The device `richBound` after a successful `BeginStateBlock`: a capture is active. -/
def D3DProxyDevice.capturing : D3DProxyDevice :=
  (D3DProxyDevice.richBound.BeginStateBlock Device.allOk []).2.1

/-- The device `richBound` with an index buffer and a vertex buffer on stream 0 bound. -/
def D3DProxyDevice.buffersBound : D3DProxyDevice :=
  { D3DProxyDevice.richBound with
    m_activeVertexBuffers := [(0, some exampleVertexBuffer)],
    m_pActiveIndicies := some exampleIndexBuffer }

/-- A wrapped device that answers `D3DERR_INVALIDCALL` to every `Reset` and `D3D_OK` to every
other call. -/
def Device.failingReset : Device :=
  fun _ c =>
    match c with
    | .Reset _ => D3DERR_INVALIDCALL
    | _ => D3D_OK

/-- Answers of the environment to a restore: swap chain 20 whose back buffer is the stereo
example surface, a 640 by 400 viewport, the actual depth-stencil 21, a fresh stereo
depth-stencil (22, 23), the font 24 and a stereo view of aspect 8/5. -/
def exampleRestoreAnswers : RestoreAnswers :=
  { pActualPrimarySwapChain := 20,
    pWrappedBackBuffer := some exampleStereoSurface,
    viewport := ⟨0, 0, 640, 400, 0, 1⟩,
    pDepthStencil := 21,
    pTemp := some ⟨22, some 23⟩,
    hudFont := some 24,
    stereoViewAspect := 8 / 5 }

/-- The device `rightActive` (Right is the active eye) with a stereo view attached. -/
def D3DProxyDevice.restorable : D3DProxyDevice :=
  { D3DProxyDevice.rightActive with stereoView := true }

/-- The states and logs reachable from device construction through the operations
`SetRenderTarget`, the six draws, `Clear` and `ColorFill`, against the wrapped device `dev`. -/
inductive Reachable (dev : Device) : D3DProxyDevice → Log → Prop
  | created (raw : D3DProxyDevice) (defaultInfo : HMDisplayInfo) (maxRenderTargets : Nat) :
      Reachable dev (D3DProxyDevice.ctor raw defaultInfo maxRenderTargets) []
  | setRenderTarget {s s2 : D3DProxyDevice} {log log2 : Log} {hr : HRESULT}
      (RenderTargetIndex : Nat) (pRenderTarget : Option D3D9ProxySurface) :
      Reachable dev s log →
      s.SetRenderTarget dev RenderTargetIndex pRenderTarget log = some (hr, s2, log2) →
      Reachable dev s2 log2
  | draw {s s2 : D3DProxyDevice} {log log2 : Log} {hr : HRESULT} (op : DrawOp) :
      Reachable dev s log →
      s.draw dev op log = some (hr, s2, log2) →
      Reachable dev s2 log2
  | clear {s s2 : D3DProxyDevice} {log log2 : Log} {hr : HRESULT}
      (Count pRects Flags Color : Nat) (Z : ℚ) (Stencil : Nat) :
      Reachable dev s log →
      s.Clear dev Count pRects Flags Color Z Stencil log = some (hr, s2, log2) →
      Reachable dev s2 log2
  | colorFill {s s2 : D3DProxyDevice} {log log2 : Log} {hr : HRESULT}
      (pSurface : Option Handle) (pRect color : Nat) :
      Reachable dev s log →
      s.ColorFill dev pSurface pRect color log = some (hr, s2, log2) →
      Reachable dev s2 log2

/-! ## Binary32 arithmetic

The operations of `ViewAdjustment` whose result depends on rounding are embedded a second time
with every arithmetic operation rounded to binary32. -/

/-- The integer nearest to a rational, the even one when two are equally near. -/
def roundTiesToEven (x : ℚ) : ℤ :=
  if x - ⌊x⌋ < 1 / 2 then ⌊x⌋
  else if 1 / 2 < x - ⌊x⌋ then ⌊x⌋ + 1
  else if ⌊x⌋ % 2 = 0 then ⌊x⌋ else ⌊x⌋ + 1

/-- The binary32 exponent of a non-zero rational: the exponent of its leading bit, and -126
throughout the subnormal range. -/
def exponent32 (q : ℚ) : ℤ := max (Int.log 2 |q|) (-126)

/-- Rounding of a real result to binary32, round to nearest, ties to even: the result is the
nearest multiple of `2 ^ (exponent32 q - 23)`, so it has a significand of 24 bits in the normal
range and is a multiple of `2^-149` in the subnormal range. Overflow is not represented: a
result of magnitude `2^128` or more is returned rounded where the hardware returns an
infinity. -/
def round32 (q : ℚ) : ℚ :=
  if q = 0 then 0
  else roundTiesToEven (q / 2 ^ (exponent32 q - 23)) * 2 ^ (exponent32 q - 23)

/-- Binary32 addition `x + y` of two `float` values. -/
def add32 (x y : ℚ) : ℚ := round32 (x + y)

/-- Binary32 subtraction `x - y` of two `float` values. -/
def sub32 (x y : ℚ) : ℚ := round32 (x - y)

/-- Binary32 multiplication `x * y` of two `float` values. -/
def mul32 (x y : ℚ) : ℚ := round32 (x * y)

/-- Binary32 division `x / y` of two `float` values; a division by zero yields `0` here, where
the hardware yields an infinity or a NaN. -/
def div32 (x y : ℚ) : ℚ := round32 (x / y)

/-- D3DX helper `D3DXMatrixMultiply` (and `operator*` of `D3DXMATRIX`) in binary32: every
product and every sum of the row-by-column formula is rounded. -/
def D3DXMatrixMultiply32 (M1 M2 : D3DXMATRIX) : D3DXMATRIX :=
  Matrix.of fun i j =>
    add32 (add32 (add32 (mul32 (M1 i 0) (M2 0 j)) (mul32 (M1 i 1) (M2 1 j)))
      (mul32 (M1 i 2) (M2 2 j))) (mul32 (M1 i 3) (M2 3 j))

/-- D3DX helper `D3DXMatrixPerspectiveOffCenterLH` in binary32: every operation of its
documented formula is rounded. -/
def D3DXMatrixPerspectiveOffCenterLH32 (l r b t zn zf : ℚ) : D3DXMATRIX :=
  !![div32 (mul32 2 zn) (sub32 r l), 0, 0, 0;
     0, div32 (mul32 2 zn) (sub32 t b), 0, 0;
     div32 (add32 l r) (sub32 l r), div32 (add32 t b) (sub32 b t), div32 zf (sub32 zf zn), 1;
     0, 0, div32 (mul32 zn zf) (sub32 zn zf), 0]

/-- The divisors of the divisions of `D3DXMatrixPerspectiveOffCenterLH` in binary32, in the
order of its entries. -/
def D3DXMatrixPerspectiveOffCenterLH32_divisors (l r b t zn zf : ℚ) : List ℚ :=
  [sub32 r l, sub32 t b, sub32 l r, sub32 b t, sub32 zf zn, sub32 zn zf]

/-- An instance of the inverse routine for the binary32 operations: the exact inverse with
every entry rounded to binary32. -/
def D3DXMatrixInverseRounded (out M : D3DXMATRIX) : D3DXMATRIX :=
  Matrix.of fun i j => round32 (D3DXMatrixInverse out M i j)

namespace ViewAdjustment

/-- Method `ViewAdjustment::SeparationInWorldUnits` in binary32. -/
def SeparationInWorldUnits32 (va : ViewAdjustment) : ℚ :=
  mul32 (div32 va.ipd 2) va.metersToWorldMultiplier

/-- Method `ViewAdjustment::SeparationIPDAdjustment` in binary32. -/
def SeparationIPDAdjustment32 (va : ViewAdjustment) : ℚ :=
  mul32 (div32 (sub32 va.ipd (round32 IPD_DEFAULT)) 2) va.metersToWorldMultiplier

/-- Method `ViewAdjustment::UpdateProjectionMatrices` with every arithmetic operation rounded
to binary32. `inverse out M` stands for `D3DXMatrixInverse(out, 0, M)`: the routine belongs to
the D3DX library, whose code and rounding are not part of the repository. -/
def UpdateProjectionMatrices32 (inverse : D3DXMATRIX → D3DXMATRIX → D3DXMATRIX)
    (va : ViewAdjustment) (aspectRatio : ℚ) : ViewAdjustment :=
  let t : ℚ := div32 (1 / 2) aspectRatio
  let b : ℚ := div32 (-(1 / 2)) aspectRatio
  let matProjection := D3DXMatrixPerspectiveOffCenterLH32 va.l va.r b t va.n va.f
  let matProjectionInv := inverse va.matProjectionInv matProjection
  let convergence : ℚ :=
    if va.convergence ≤ nearClippingPlaneDistance
    then add32 nearClippingPlaneDistance (round32 (1 / 1000))
    else va.convergence
  let frustumAsymmetryInMeters : ℚ :=
    div32 (mul32 (div32 va.ipd 2) nearClippingPlaneDistance) convergence
  let frustumAsymmetryLeftInMeters : ℚ :=
    div32 (mul32 frustumAsymmetryInMeters LEFT_CONSTANT) physicalScreenSizeInMeters
  let frustumAsymmetryRightInMeters : ℚ :=
    div32 (mul32 frustumAsymmetryInMeters RIGHT_CONSTANT) physicalScreenSizeInMeters
  let screenSpaceXSize : ℚ := add32 |va.l| |va.r|
  let multiplier : ℚ := div32 screenSpaceXSize 1
  let frustumAsymmetryLeft : ℚ := mul32 frustumAsymmetryLeftInMeters multiplier
  let frustumAsymmetryRight : ℚ := mul32 frustumAsymmetryRightInMeters multiplier
  let projectLeft := D3DXMatrixPerspectiveOffCenterLH32
    (add32 va.l frustumAsymmetryLeft) (add32 va.r frustumAsymmetryLeft) b t va.n va.f
  let projectRight := D3DXMatrixPerspectiveOffCenterLH32
    (add32 va.l frustumAsymmetryRight) (add32 va.r frustumAsymmetryRight) b t va.n va.f
  if isRiftStereoType va.stereoType then
    let leftShiftProjection :=
      D3DXMatrixTranslation (mul32 va.hmdInfo.lensXCenterOffset LEFT_CONSTANT) 0 0
    let rightShiftProjection :=
      D3DXMatrixTranslation (mul32 va.hmdInfo.lensXCenterOffset RIGHT_CONSTANT) 0 0
    { va with
      t := t, b := b, matProjection := matProjection, matProjectionInv := matProjectionInv,
      convergence := convergence,
      leftShiftProjection := leftShiftProjection,
      rightShiftProjection := rightShiftProjection,
      projectLeft := D3DXMatrixMultiply32 projectLeft leftShiftProjection,
      projectRight := D3DXMatrixMultiply32 projectRight rightShiftProjection }
  else
    { va with
      t := t, b := b, matProjection := matProjection, matProjectionInv := matProjectionInv,
      convergence := convergence,
      projectLeft := projectLeft,
      projectRight := projectRight }

/-- Method `ViewAdjustment::ComputeViewTransforms` with every arithmetic operation rounded to
binary32. -/
def ComputeViewTransforms32 (va : ViewAdjustment) : ViewAdjustment :=
  let transformLeft0 :=
    D3DXMatrixTranslation (mul32 va.SeparationInWorldUnits32 LEFT_CONSTANT) 0 0
  let transformRight0 :=
    D3DXMatrixTranslation (mul32 va.SeparationInWorldUnits32 RIGHT_CONSTANT) 0 0
  let transformLeft :=
    if va.rollEnabled then D3DXMatrixMultiply32 va.rollMatrix transformLeft0 else transformLeft0
  let transformRight :=
    if va.rollEnabled then D3DXMatrixMultiply32 va.rollMatrix transformRight0
    else transformRight0
  let additionalSeparation : ℚ :=
    mul32 (sub32 (3 / 2) va.hudDistance) va.hmdInfo.lensXCenterOffset
  { va with
    transformLeft := transformLeft,
    transformRight := transformRight,
    matViewProjTransformLeft :=
      D3DXMatrixMultiply32 (D3DXMatrixMultiply32 va.matProjectionInv transformLeft)
        va.projectLeft,
    matViewProjTransformRight :=
      D3DXMatrixMultiply32 (D3DXMatrixMultiply32 va.matProjectionInv transformRight)
        va.projectRight,
    matSquash := D3DXMatrixScaling va.squash va.squash 1,
    matHudDistance := D3DXMatrixTranslation 0 0 va.hudDistance,
    matLeftHud3DDepth := D3DXMatrixTranslation va.hud3DDepth 0 0,
    matRightHud3DDepth := D3DXMatrixTranslation (-va.hud3DDepth) 0 0,
    matLeftHud3DDepthShifted :=
      D3DXMatrixTranslation (add32 va.hud3DDepth additionalSeparation) 0 0,
    matRightHud3DDepthShifted :=
      D3DXMatrixTranslation (sub32 (-va.hud3DDepth) additionalSeparation) 0 0,
    matLeftGui3DDepth :=
      D3DXMatrixTranslation (add32 va.gui3DDepth va.SeparationIPDAdjustment32) 0 0,
    matRightGui3DDepth :=
      D3DXMatrixTranslation (-(add32 va.gui3DDepth va.SeparationIPDAdjustment32)) 0 0 }

/-- The constructor of `ViewAdjustment` in binary32: the decimal literals `0.1f` and
`IPD_DEFAULT` are rounded, the other literals are binary32 values as written. -/
def ctor32 (inverse : D3DXMATRIX → D3DXMATRIX → D3DXMATRIX) (raw : ViewAdjustment)
    (displayInfo : HMDisplayInfo) (metersToWorldUnits : ℚ) (enableRoll : Bool) :
    ViewAdjustment :=
  let va0 : ViewAdjustment :=
    { raw with
      hmdInfo := displayInfo,
      metersToWorldMultiplier := metersToWorldUnits,
      rollEnabled := enableRoll,
      bulletLabyrinth := false,
      convergence := 0,
      minConvergence := -10,
      maxConvergence := 10,
      ipd := round32 IPD_DEFAULT,
      n := round32 (1 / 10),
      f := 10,
      l := -(1 / 2),
      r := 1 / 2,
      squash := 1,
      gui3DDepth := 0,
      hudDistance := 0,
      hud3DDepth := 0,
      matProjection := D3DXMatrixIdentity,
      matProjectionInv := D3DXMatrixIdentity,
      leftShiftProjection := D3DXMatrixIdentity,
      rightShiftProjection := D3DXMatrixIdentity,
      projectLeft := D3DXMatrixIdentity,
      projectRight := D3DXMatrixIdentity,
      transformLeft := D3DXMatrixIdentity,
      transformRight := D3DXMatrixIdentity,
      matViewProjTransformRight := D3DXMatrixIdentity,
      matViewProjTransformLeft := D3DXMatrixIdentity,
      matGatheredLeft := D3DXMatrixIdentity,
      matGatheredRight := D3DXMatrixIdentity }
  let va1 := va0.UpdateProjectionMatrices32 inverse displayInfo.screenAspectRatio
  ComputeViewTransforms32 { va1 with rollMatrix := D3DXMatrixIdentity }

end ViewAdjustment

/-- The frustum members as the binary32 constructor sets them: `n = 0.1f`, `f = 10`,
`l = -0.5`, `r = 0.5`. -/
def ViewAdjustment.hasCtorFrustum32 (va : ViewAdjustment) : Prop :=
  va.n = round32 (1 / 10) ∧ va.f = 10 ∧ va.l = -(1 / 2) ∧ va.r = 1 / 2

instance (va : ViewAdjustment) : Decidable va.hasCtorFrustum32 := by
  unfold ViewAdjustment.hasCtorFrustum32
  infer_instance

/-- The eye transform of `ComputeViewTransforms` in binary32 for an eye constant: the
X-translation by `SeparationInWorldUnits() * eyeConstant`, left-multiplied by the roll matrix
iff roll is enabled. -/
def ViewAdjustment.eyeTransform32 (va : ViewAdjustment) (eyeConstant : ℚ) : D3DXMATRIX :=
  if va.rollEnabled
  then D3DXMatrixMultiply32 va.rollMatrix
    (D3DXMatrixTranslation (mul32 va.SeparationInWorldUnits32 eyeConstant) 0 0)
  else D3DXMatrixTranslation (mul32 va.SeparationInWorldUnits32 eyeConstant) 0 0

/-- The divisors of the divisions `UpdateProjectionMatrices` performs in binary32, in the
order of the code: `aspectRatio` for `t` and for `b`, the six divisors of the base projection,
the 2 of `ipd/2`, the convergence (after its guard), `physicalScreenSizeInMeters` for each eye,
the constant 1 of the multiplier, then the six divisors of the left and of the right
projection. -/
def ViewAdjustment.updateProjectionDivisors32 (va : ViewAdjustment) (aspectRatio : ℚ) :
    List ℚ :=
  let t : ℚ := div32 (1 / 2) aspectRatio
  let b : ℚ := div32 (-(1 / 2)) aspectRatio
  let convergence : ℚ :=
    if va.convergence ≤ ViewAdjustment.nearClippingPlaneDistance
    then add32 ViewAdjustment.nearClippingPlaneDistance (round32 (1 / 1000))
    else va.convergence
  let frustumAsymmetryInMeters : ℚ :=
    div32 (mul32 (div32 va.ipd 2) ViewAdjustment.nearClippingPlaneDistance) convergence
  let shift : ℚ → ℚ := fun eyeConstant =>
    mul32 (div32 (mul32 frustumAsymmetryInMeters eyeConstant)
      ViewAdjustment.physicalScreenSizeInMeters) (div32 (add32 |va.l| |va.r|) 1)
  [aspectRatio, aspectRatio]
    ++ D3DXMatrixPerspectiveOffCenterLH32_divisors va.l va.r b t va.n va.f
    ++ [2, convergence, ViewAdjustment.physicalScreenSizeInMeters,
        ViewAdjustment.physicalScreenSizeInMeters, 1]
    ++ D3DXMatrixPerspectiveOffCenterLH32_divisors (add32 va.l (shift LEFT_CONSTANT))
        (add32 va.r (shift LEFT_CONSTANT)) b t va.n va.f
    ++ D3DXMatrixPerspectiveOffCenterLH32_divisors (add32 va.l (shift RIGHT_CONSTANT))
        (add32 va.r (shift RIGHT_CONSTANT)) b t va.n va.f

/-- A `ViewAdjustment` constructed in binary32 for a display of aspect ratio 8/5 with a lens
offset of 3/20, world scale 1 and roll disabled. -/
def ViewAdjustment.created32 (inverse : D3DXMATRIX → D3DXMATRIX → D3DXMATRIX) :
    ViewAdjustment :=
  ViewAdjustment.ctor32 inverse ViewAdjustment.zeroed ⟨round32 (8 / 5), round32 (3 / 20)⟩ 1
    false

/-- The `ViewAdjustment` constructed in binary32 after loading a configuration with roll
disabled, world scale 3, convergence 2, IPD 0 and stereo mode 0 (not an HMD mode). -/
def ViewAdjustment.zeroIpdExample32 (inverse : D3DXMATRIX → D3DXMATRIX → D3DXMATRIX) :
    ViewAdjustment :=
  (ViewAdjustment.created32 inverse).Load false 3 2 0 0

/-! ## The device calls and the early return of the buffer setters -/

/-- The early return of `SetStreamSource` (lines 1735-1737): the map has an entry for the
stream and the pointer it holds is the one passed in; the method then returns after the device
call without `Release()` and without `AddRef()`. No other setter has such a test. -/
def D3DProxyDevice.rebindsSameBuffer (s : D3DProxyDevice) : SetterCall → Bool
  | .SetStreamSource StreamNumber pStreamData _ _ =>
      decide (s.m_activeVertexBuffers.lookup StreamNumber = some pStreamData)
  | _ => false

/-- The call `SetTexture` passes to the wrapped device: the stage with the actual texture for
the active eye (the left one when the texture is mono or Left is active), or with null. -/
def D3DProxyDevice.setTextureCall (s : D3DProxyDevice) (Stage : Nat)
    (pTexture : Option ProxyTexture) : DeviceCall :=
  DeviceCall.SetTexture Stage
    (match pTexture with
     | some tex =>
         if (UnWrapTexture tex).2.isNone || s.m_currentRenderingSide == .Left
         then (UnWrapTexture tex).1 else (UnWrapTexture tex).2
     | none => none)

/-- The call `SetStreamSource` passes to the wrapped device: the actual buffer of the wrapper,
or null. -/
def D3DProxyDevice.setStreamSourceCall (StreamNumber : Nat)
    (pStreamData : Option BaseDirect3DVertexBuffer9) (OffsetInBytes Stride : Nat) :
    DeviceCall :=
  DeviceCall.SetStreamSource StreamNumber
    (match pStreamData with
     | some pCastStreamData => pCastStreamData.getActual
     | none => none)
    OffsetInBytes Stride

/-- The call `SetIndices` passes to the wrapped device: the actual buffer of the wrapper, or
null. -/
def D3DProxyDevice.setIndicesCall (pIndexData : Option BaseDirect3DIndexBuffer9) :
    DeviceCall :=
  DeviceCall.SetIndices
    (match pIndexData with
     | some pWrappedNewIndexData => pWrappedNewIndexData.getActual
     | none => none)

/-! ## Lemmas on the eye switch -/

theorem setDrawingSide_renderTargets_eq (dev : Device) (side : RenderPosition)
    (slots : List (Option D3D9ProxySurface)) :
    ∀ (i : Nat) (changed : Bool) (log : Log),
      setDrawingSide_renderTargets dev side i slots changed log
        = (changed || anyAnsweredOk dev log.length (renderTargetRebinds side i slots),
           log ++ (renderTargetRebinds side i slots).map (Event.mk side)) := by
  induction slots with
  | nil =>
      intro i changed log
      simp [setDrawingSide_renderTargets, renderTargetRebinds, anyAnsweredOk]
  | cons o rest ih =>
      intro i changed log
      cases o with
      | none =>
          simp only [setDrawingSide_renderTargets, ih]
          simp [renderTargetRebinds, List.enumFrom]
      | some rt =>
          simp only [setDrawingSide_renderTargets, ih]
          have hcalls : renderTargetRebinds side i (some rt :: rest)
              = DeviceCall.SetRenderTarget i (rt.actualFor side)
                :: renderTargetRebinds side (i + 1) rest := by
            simp [renderTargetRebinds, List.enumFrom]
          rw [hcalls]
          cases side <;>
            simp only [anyAnsweredOk, List.enumFrom, List.any_cons, List.length_append,
              List.length_singleton, List.map_cons, List.append_assoc, List.singleton_append,
              D3D9ProxySurface.actualFor] <;>
            split_ifs with h <;> simp_all

theorem setDrawingSide_textures_eq (side : RenderPosition)
    (stages : List (Nat × Option ProxyTexture)) :
    ∀ log : Log,
      setDrawingSide_textures side stages log
        = log ++ (textureRebinds side stages).map (Event.mk side) := by
  induction stages with
  | nil => intro log; simp [setDrawingSide_textures, textureRebinds]
  | cons p rest ih =>
      intro log
      obtain ⟨stage, o⟩ := p
      cases o with
      | none => simp [setDrawingSide_textures, ih, textureRebinds]
      | some tex =>
          cases hr : tex.m_pActualTextureRight with
          | none => simp [setDrawingSide_textures, UnWrapTexture, hr, ih, textureRebinds]
          | some right =>
              cases side <;>
                simp [setDrawingSide_textures, UnWrapTexture, hr, ih, textureRebinds,
                  ProxyTexture.actualFor]

theorem setDrawingSide_switch_eq (dev : Device) (side : RenderPosition) (s : D3DProxyDevice)
    (log : Log) :
    setDrawingSide_switch dev side s log
      = (switchedState side s, log ++ (switchCalls dev side s log.length).map (Event.mk side)) := by
  simp only [setDrawingSide_switch, setDrawingSide_renderTargets_eq, setDrawingSide_textures_eq,
    switchCalls, switchedState, Bool.false_or]
  cases hds : s.m_pActiveStereoDepthStencil <;>
    cases hv : s.m_bViewTransformSet <;>
    cases hp : s.m_bProjectionTransformSet <;>
    cases hvp : (anyAnsweredOk dev log.length
        (renderTargetRebinds side 0 s.m_activeRenderTargets) && !s.m_bActiveViewportIsDefault) <;>
    cases side <;>
    simp [D3D9ProxySurface.actualFor, D3DProxyDevice.storedView,
      D3DProxyDevice.storedProjection]

theorem switchCalls_not_render (dev : Device) (side : RenderPosition) (s : D3DProxyDevice)
    (pos : Nat) :
    ∀ c ∈ switchCalls dev side s pos, (Event.mk side c).isRender = false := by
  intro c hc
  simp only [switchCalls, List.mem_append, renderTargetRebinds, textureRebinds,
    List.mem_filterMap, Option.map_eq_some', Option.bind_eq_some, List.mem_singleton] at hc
  rcases hc with (((((h | h) | h) | h) | h) | h) | h
  · obtain ⟨_, _, _, _, rfl⟩ := h; rfl
  · split_ifs at h
    · simp only [List.mem_singleton] at h; subst h; rfl
    · simp at h
  · cases hds : s.m_pActiveStereoDepthStencil <;> rw [hds] at h <;> simp at h
    subst h; rfl
  · obtain ⟨_, _, _, _, h2⟩ := h
    split_ifs at h2
    simp only [Option.some.injEq] at h2
    subst h2; rfl
  · split_ifs at h
    · simp only [List.mem_singleton] at h; subst h; rfl
    · simp at h
  · split_ifs at h
    · simp only [List.mem_singleton] at h; subst h; rfl
    · simp at h
  · subst h; rfl

theorem switchEvents_filter_isRender (dev : Device) (side : RenderPosition)
    (s : D3DProxyDevice) (pos : Nat) :
    ((switchCalls dev side s pos).map (Event.mk side)).filter Event.isRender = [] := by
  rw [List.filter_eq_nil_iff]
  intro e he
  obtain ⟨c, hc, rfl⟩ := List.mem_map.1 he
  simp [switchCalls_not_render dev side s pos c hc]

theorem switchEvents_filter_isDraw (dev : Device) (side : RenderPosition)
    (s : D3DProxyDevice) (pos : Nat) :
    ((switchCalls dev side s pos).map (Event.mk side)).filter Event.isDraw = [] := by
  rw [List.filter_eq_nil_iff]
  intro e he
  obtain ⟨c, hc, rfl⟩ := List.mem_map.1 he
  have h := switchCalls_not_render dev side s pos c hc
  cases c <;> simp_all [Event.isRender, Event.isDraw]

theorem setDrawingSide_eq (dev : Device) (side : RenderPosition) (s : D3DProxyDevice)
    (log : Log) (rt0 : D3D9ProxySurface)
    (h0 : s.m_activeRenderTargets.head? = some (some rt0)) :
    s.setDrawingSide dev side log =
      if side = s.m_currentRenderingSide then some (true, s, log)
      else if rt0.IsStereo = false ∧ side = .Right then some (false, s, log)
      else some (true, switchedState side s,
        log ++ (switchCalls dev side s log.length).map (Event.mk side)) := by
  simp only [D3DProxyDevice.setDrawingSide, h0, setDrawingSide_switch_eq]
  by_cases h1 : side = s.m_currentRenderingSide
  · simp [h1]
  · cases hst : rt0.IsStereo <;> cases side <;> simp [h1]

theorem issueForBothSides_eq (dev : Device) (call : DeviceCall) (s : D3DProxyDevice)
    (log : Log) (rt0 : D3D9ProxySurface)
    (h0 : s.m_activeRenderTargets.head? = some (some rt0)) :
    s.issueForBothSides dev call log =
      if SUCCEEDED (dev log.length call) = true then
        if s.m_currentRenderingSide = .Left ∧ rt0.IsStereo = false then
          some (dev log.length call, s, log ++ [⟨s.m_currentRenderingSide, call⟩])
        else
          some (dev log.length call, switchedState s.m_currentRenderingSide.flip s,
            log ++ [⟨s.m_currentRenderingSide, call⟩]
              ++ (switchCalls dev s.m_currentRenderingSide.flip s (log.length + 1)).map
                  (Event.mk s.m_currentRenderingSide.flip)
              ++ [⟨s.m_currentRenderingSide.flip, call⟩])
      else some (dev log.length call, s, log ++ [⟨s.m_currentRenderingSide, call⟩]) := by
  simp only [D3DProxyDevice.issueForBothSides, D3DProxyDevice.switchDrawingSide]
  cases hs : SUCCEEDED (dev log.length call)
  · simp
  · cases hside : s.m_currentRenderingSide <;> cases hst : rt0.IsStereo <;>
      simp [setDrawingSide_eq dev _ s _ rt0 h0, hside, hst, RenderPosition.flip, switchedState]

theorem issuedDraws_append (log evs : Log) :
    issuedDraws log (log ++ evs) = evs.filter Event.isDraw := by
  simp [issuedDraws]

theorem issuedRenders_append (log evs : Log) :
    issuedRenders log (log ++ evs) = evs.filter Event.isRender := by
  simp [issuedRenders]

theorem switchDrawingSide_eq (dev : Device) (s : D3DProxyDevice) (log : Log)
    (rt0 : D3D9ProxySurface) (h0 : s.m_activeRenderTargets.head? = some (some rt0)) :
    s.switchDrawingSide dev log =
      if s.m_currentRenderingSide = .Left ∧ rt0.IsStereo = false then some (false, s, log)
      else some (true, switchedState s.m_currentRenderingSide.flip s,
        log ++ (switchCalls dev s.m_currentRenderingSide.flip s log.length).map
          (Event.mk s.m_currentRenderingSide.flip)) := by
  simp only [D3DProxyDevice.switchDrawingSide]
  cases hside : s.m_currentRenderingSide <;> cases hst : rt0.IsStereo <;>
    simp [setDrawingSide_eq dev _ s _ rt0 h0, hside, hst, RenderPosition.flip]

theorem draw_eq (dev : Device) (op : DrawOp) (s : D3DProxyDevice) (log : Log)
    (rt0 : D3D9ProxySurface) (h0 : s.m_activeRenderTargets.head? = some (some rt0)) :
    s.draw dev op log =
      if SUCCEEDED (dev (log.length + 1) (.Draw op)) = true then
        if s.m_currentRenderingSide = .Left ∧ rt0.IsStereo = false then
          some (dev (log.length + 1) (.Draw op), s,
            log ++ [⟨s.m_currentRenderingSide, .ApplyAllDirty s.m_currentRenderingSide⟩,
              ⟨s.m_currentRenderingSide, .Draw op⟩])
        else
          some (dev (log.length + 1) (.Draw op), switchedState s.m_currentRenderingSide.flip s,
            log ++ ([⟨s.m_currentRenderingSide, .ApplyAllDirty s.m_currentRenderingSide⟩,
                ⟨s.m_currentRenderingSide, .Draw op⟩]
              ++ (switchCalls dev s.m_currentRenderingSide.flip s (log.length + 2)).map
                  (Event.mk s.m_currentRenderingSide.flip)
              ++ [⟨s.m_currentRenderingSide.flip, .Draw op⟩]))
      else some (dev (log.length + 1) (.Draw op), s,
        log ++ [⟨s.m_currentRenderingSide, .ApplyAllDirty s.m_currentRenderingSide⟩,
          ⟨s.m_currentRenderingSide, .Draw op⟩]) := by
  simp only [D3DProxyDevice.draw, issueForBothSides_eq dev _ s _ rt0 h0, List.length_append,
    List.length_singleton, List.append_assoc, List.singleton_append, List.cons_append,
    List.nil_append]

theorem anyAnsweredOk_congr (dev dev2 : Device) (calls : List DeviceCall) :
    ∀ pos : Nat, (∀ k c, k < pos + calls.length → dev2 k c = dev k c) →
      anyAnsweredOk dev2 pos calls = anyAnsweredOk dev pos calls := by
  induction calls with
  | nil => intro pos _; rfl
  | cons c rest ih =>
      intro pos h
      have hrest := ih (pos + 1) (fun k c hk => h k c (by simp only [List.length_cons]; omega))
      have hhead := h pos c (by simp only [List.length_cons]; omega)
      simp only [anyAnsweredOk, List.enumFrom, List.any_cons] at hrest ⊢
      rw [hrest, hhead]

theorem switchCalls_length (dev : Device) (side : RenderPosition) (s : D3DProxyDevice)
    (pos : Nat) :
    (renderTargetRebinds side 0 s.m_activeRenderTargets).length + 1
      ≤ (switchCalls dev side s pos).length := by
  simp only [switchCalls, List.length_append, List.length_singleton]
  omega

theorem switchCalls_congr (dev dev2 : Device) (side : RenderPosition) (s : D3DProxyDevice)
    (pos : Nat)
    (h : ∀ k c, k < pos + (renderTargetRebinds side 0 s.m_activeRenderTargets).length →
      dev2 k c = dev k c) :
    switchCalls dev2 side s pos = switchCalls dev side s pos := by
  simp only [switchCalls, anyAnsweredOk_congr dev dev2 _ pos h]

theorem draw_eq_two (dev : Device) (op : DrawOp) (s : D3DProxyDevice) (log : Log)
    (rt0 : D3D9ProxySurface) (h0 : s.m_activeRenderTargets.head? = some (some rt0))
    (hs : SUCCEEDED (dev (log.length + 1) (.Draw op)) = true)
    (hm : ¬ (s.m_currentRenderingSide = .Left ∧ rt0.IsStereo = false)) :
    s.draw dev op log =
      some (dev (log.length + 1) (.Draw op), switchedState s.m_currentRenderingSide.flip s,
        log ++ ([⟨s.m_currentRenderingSide, .ApplyAllDirty s.m_currentRenderingSide⟩,
            ⟨s.m_currentRenderingSide, .Draw op⟩]
          ++ (switchCalls dev s.m_currentRenderingSide.flip s (log.length + 2)).map
              (Event.mk s.m_currentRenderingSide.flip)
          ++ [⟨s.m_currentRenderingSide.flip, .Draw op⟩])) := by
  rw [draw_eq dev op s log rt0 h0, if_pos hs, if_neg hm]

theorem issueForBothSides_renders (dev : Device) (call : DeviceCall) (s : D3DProxyDevice)
    (log : Log) (rt0 : D3D9ProxySurface)
    (h0 : s.m_activeRenderTargets.head? = some (some rt0))
    (hc : (Event.mk s.m_currentRenderingSide call).isRender = true) :
    ∃ hr s2 log2, s.issueForBothSides dev call log = some (hr, s2, log2) ∧
      ((issuedRenders log log2).length = 2 →
        issuedRenders log log2
          = [⟨s.m_currentRenderingSide, call⟩, ⟨s.m_currentRenderingSide.flip, call⟩]) := by
  have hc2 : (Event.mk s.m_currentRenderingSide.flip call).isRender = true := by
    cases call <;> simp_all [Event.isRender]
  rw [issueForBothSides_eq dev call s log rt0 h0]
  cases hs : SUCCEEDED (dev log.length call)
  · refine ⟨_, _, _, by rw [if_neg (by simp)], ?_⟩
    simp [issuedRenders_append, hc]
  · by_cases hm : s.m_currentRenderingSide = .Left ∧ rt0.IsStereo = false
    · refine ⟨_, _, _, by rw [if_pos rfl, if_pos hm], ?_⟩
      simp [issuedRenders_append, hc]
    · refine ⟨_, _, _, by rw [if_pos rfl, if_neg hm], ?_⟩
      intro _
      rw [List.append_assoc, List.append_assoc, issuedRenders_append]
      simp only [List.filter_append, switchEvents_filter_isRender]
      simp [hc, hc2]

theorem draw_renders (dev : Device) (op : DrawOp) (s : D3DProxyDevice)
    (log : Log) (rt0 : D3D9ProxySurface)
    (h0 : s.m_activeRenderTargets.head? = some (some rt0)) :
    ∃ hr s2 log2, s.draw dev op log = some (hr, s2, log2) ∧
      ((issuedRenders log log2).length = 2 →
        issuedRenders log log2
          = [⟨s.m_currentRenderingSide, .Draw op⟩, ⟨s.m_currentRenderingSide.flip, .Draw op⟩]) := by
  rw [draw_eq dev op s log rt0 h0]
  cases hs : SUCCEEDED (dev (log.length + 1) (.Draw op))
  · refine ⟨_, _, _, by rw [if_neg (by simp)], ?_⟩
    simp [issuedRenders_append, Event.isRender]
  · by_cases hm : s.m_currentRenderingSide = .Left ∧ rt0.IsStereo = false
    · refine ⟨_, _, _, by rw [if_pos rfl, if_pos hm], ?_⟩
      simp [issuedRenders_append, Event.isRender]
    · refine ⟨_, _, _, by rw [if_pos rfl, if_neg hm], ?_⟩
      intro _
      rw [issuedRenders_append]
      simp only [List.filter_append, switchEvents_filter_isRender]
      simp [Event.isRender]

theorem mem_renderTargetRebinds (side : RenderPosition)
    (slots : List (Option D3D9ProxySurface)) (c : DeviceCall) :
    c ∈ renderTargetRebinds side 0 slots ↔
      ∃ i rt, slots[i]? = some (some rt) ∧ c = .SetRenderTarget i (rt.actualFor side) := by
  simp only [renderTargetRebinds, List.mem_filterMap, Option.map_eq_some', Prod.exists,
    List.mk_mem_enumFrom_iff_le_and_getElem?_sub, Nat.zero_le, Nat.sub_zero, true_and]
  constructor
  · rintro ⟨i, o, hi, rt, rfl, rfl⟩
    exact ⟨i, rt, hi, rfl⟩
  · rintro ⟨i, rt, hi, rfl⟩
    exact ⟨i, some rt, hi, rt, rfl, rfl⟩

theorem mem_textureRebinds (side : RenderPosition)
    (stages : List (Nat × Option ProxyTexture)) (c : DeviceCall) :
    c ∈ textureRebinds side stages ↔
      ∃ stage tex, (stage, some tex) ∈ stages ∧ tex.m_pActualTextureRight ≠ none ∧
        c = .SetTexture stage (tex.actualFor side) := by
  simp only [textureRebinds, List.mem_filterMap, Option.bind_eq_some, Prod.exists]
  constructor
  · rintro ⟨stage, o, hmem, tex, rfl, h⟩
    split_ifs at h with hs
    simp only [Option.some.injEq] at h
    refine ⟨stage, tex, hmem, ?_, h.symm⟩
    intro hn
    simp [hn] at hs
  · rintro ⟨stage, tex, hmem, hright, rfl⟩
    refine ⟨stage, some tex, hmem, tex, rfl, ?_⟩
    rw [if_pos (Option.isSome_iff_ne_none.2 hright)]

theorem anyAnsweredOk_iff (dev : Device) (calls : List DeviceCall) :
    ∀ pos : Nat, anyAnsweredOk dev pos calls = true ↔
      ∃ k c, calls[k]? = some c ∧ dev (pos + k) c = D3D_OK := by
  induction calls with
  | nil => intro pos; simp [anyAnsweredOk]
  | cons c0 rest ih =>
      intro pos
      have hrest := ih (pos + 1)
      simp only [anyAnsweredOk, List.enumFrom, List.any_cons, Bool.or_eq_true,
        decide_eq_true_eq] at hrest ⊢
      rw [hrest]
      constructor
      · rintro (h | ⟨k, c, hk, hc⟩)
        · exact ⟨0, c0, by simp, h⟩
        · refine ⟨k + 1, c, by simpa using hk, ?_⟩
          rw [← hc]; congr 1; omega
      · rintro ⟨k, c, hk, hc⟩
        cases k with
        | zero =>
            left
            simp only [List.getElem?_cons_zero, Option.some.injEq] at hk
            subst hk
            exact hc
        | succ k =>
            right
            refine ⟨k, c, by simpa using hk, ?_⟩
            rw [← hc]; congr 1; omega

/-! ## Lemmas on the D3DX matrices -/

theorem perspective_mul_translation (l r b t zn zf x : ℚ) :
    D3DXMatrixPerspectiveOffCenterLH l r b t zn zf * D3DXMatrixTranslation x 0 0
      = !![2 * zn / (r - l), 0, 0, 0;
           0, 2 * zn / (t - b), 0, 0;
           (l + r) / (l - r) + x, (t + b) / (b - t), zf / (zf - zn), 1;
           0, 0, zn * zf / (zn - zf), 0] := by
  ext i j
  fin_cases i <;> fin_cases j <;>
    simp [D3DXMatrixPerspectiveOffCenterLH, D3DXMatrixTranslation, Matrix.mul_apply,
      Fin.sum_univ_four, Matrix.vecHead, Matrix.vecTail]

theorem translation_zero : D3DXMatrixTranslation 0 0 0 = 1 := by
  ext i j
  fin_cases i <;> fin_cases j <;> rfl

/-! ## Lemmas on ViewAdjustment -/

theorem clamp_eq_max_min (x lo hi : ℚ) (h : lo ≤ hi) : clamp x lo hi = max lo (min hi x) := by
  unfold clamp
  split_ifs with h1 h2
  · rw [max_eq_left]
    exact le_trans (min_le_right _ _) (le_of_lt h1)
  · rw [min_eq_left (le_of_lt h2), max_eq_right h]
  · rw [min_eq_right (not_lt.1 h2), max_eq_right (not_lt.1 h1)]

theorem clamp_bounds (x lo hi : ℚ) (h : lo ≤ hi) : lo ≤ clamp x lo hi ∧ clamp x lo hi ≤ hi := by
  rw [clamp_eq_max_min x lo hi h]
  exact ⟨le_max_left _ _, max_le h (min_le_left _ _)⟩

theorem clamp_of_mem (x lo hi : ℚ) (h1 : lo ≤ x) (h2 : x ≤ hi) : clamp x lo hi = x := by
  unfold clamp
  rw [if_neg (not_lt.2 h1), if_neg (not_lt.2 h2)]

theorem updateProjectionMatrices_projectLeft (va : ViewAdjustment) (a : ℚ)
    (hc : ViewAdjustment.nearClippingPlaneDistance < va.convergence) :
    (va.UpdateProjectionMatrices a).projectLeft
      = D3DXMatrixPerspectiveOffCenterLH (va.l + va.frustumAsymmetry * LEFT_CONSTANT)
          (va.r + va.frustumAsymmetry * LEFT_CONSTANT) (-(1 / 2) / a) ((1 / 2) / a) va.n va.f
        * D3DXMatrixTranslation (va.lensShift * LEFT_CONSTANT) 0 0 := by
  have hshift : va.ipd / 2 * ViewAdjustment.nearClippingPlaneDistance / va.convergence
      * LEFT_CONSTANT / ViewAdjustment.physicalScreenSizeInMeters * ((|va.l| + |va.r|) / 1)
      = va.frustumAsymmetry * LEFT_CONSTANT := by
    simp only [ViewAdjustment.frustumAsymmetry, ViewAdjustment.physicalScreenSizeInMeters]
    ring
  unfold ViewAdjustment.UpdateProjectionMatrices
  simp only [if_neg (not_le.2 hc), hshift, ViewAdjustment.lensShift]
  split_ifs with h
  · rfl
  · simp only [zero_mul, translation_zero, mul_one]

theorem updateProjectionMatrices_projectRight (va : ViewAdjustment) (a : ℚ)
    (hc : ViewAdjustment.nearClippingPlaneDistance < va.convergence) :
    (va.UpdateProjectionMatrices a).projectRight
      = D3DXMatrixPerspectiveOffCenterLH (va.l + va.frustumAsymmetry * RIGHT_CONSTANT)
          (va.r + va.frustumAsymmetry * RIGHT_CONSTANT) (-(1 / 2) / a) ((1 / 2) / a) va.n va.f
        * D3DXMatrixTranslation (va.lensShift * RIGHT_CONSTANT) 0 0 := by
  have hshift : va.ipd / 2 * ViewAdjustment.nearClippingPlaneDistance / va.convergence
      * RIGHT_CONSTANT / ViewAdjustment.physicalScreenSizeInMeters * ((|va.l| + |va.r|) / 1)
      = va.frustumAsymmetry * RIGHT_CONSTANT := by
    simp only [ViewAdjustment.frustumAsymmetry, ViewAdjustment.physicalScreenSizeInMeters]
    ring
  unfold ViewAdjustment.UpdateProjectionMatrices
  simp only [if_neg (not_le.2 hc), hshift, ViewAdjustment.lensShift]
  split_ifs with h
  · rfl
  · simp only [zero_mul, translation_zero, mul_one]

theorem perspective_shift (l r b t zn zf d x : ℚ) (hlr : l - r = -1) :
    D3DXMatrixPerspectiveOffCenterLH (l + d) (r + d) b t zn zf * D3DXMatrixTranslation x 0 0
      = D3DXMatrixPerspectiveOffCenterLH (l + (d - x / 2)) (r + (d - x / 2)) b t zn zf := by
  have h1 : r + d - (l + d) = r + (d - x / 2) - (l + (d - x / 2)) := by ring
  have h2 : (l + d + (r + d)) / (l + d - (r + d)) + x
      = (l + (d - x / 2) + (r + (d - x / 2))) / (l + (d - x / 2) - (r + (d - x / 2))) := by
    have e1 : l + d - (r + d) = -1 := by linarith
    have e2 : l + (d - x / 2) - (r + (d - x / 2)) = -1 := by linarith
    rw [e1, e2]
    ring
  rw [perspective_mul_translation, D3DXMatrixPerspectiveOffCenterLH, h1, h2]

theorem updateProjectionMatrices_tb (va : ViewAdjustment) (a : ℚ) :
    (va.UpdateProjectionMatrices a).t = (1 / 2) / a ∧
    (va.UpdateProjectionMatrices a).b = -(1 / 2) / a := by
  unfold ViewAdjustment.UpdateProjectionMatrices
  split_ifs <;> exact ⟨rfl, rfl⟩

theorem perspective_translation_entries (l r b t zn zf d x : ℚ) (hlr : l + r = 0) :
    (∀ i j : Fin 4, (i, j) ≠ (2, 0) →
      (D3DXMatrixPerspectiveOffCenterLH (l + d) (r + d) b t zn zf
          * D3DXMatrixTranslation x 0 0) i j
        = (D3DXMatrixPerspectiveOffCenterLH (l + -d) (r + -d) b t zn zf
          * D3DXMatrixTranslation (-x) 0 0) i j) ∧
    (D3DXMatrixPerspectiveOffCenterLH (l + d) (r + d) b t zn zf
        * D3DXMatrixTranslation x 0 0) 2 0
      = -((D3DXMatrixPerspectiveOffCenterLH (l + -d) (r + -d) b t zn zf
        * D3DXMatrixTranslation (-x) 0 0) 2 0) := by
  have h1 : r + d - (l + d) = r + -d - (l + -d) := by ring
  rw [perspective_mul_translation, perspective_mul_translation, h1]
  constructor
  · intro i j hij
    fin_cases i <;> fin_cases j <;> simp at hij ⊢
  · have e1 : l + d + (r + d) = 2 * d := by linear_combination hlr
    have e2 : l + -d + (r + -d) = -(2 * d) := by linear_combination hlr
    have e3 : l + d - (r + d) = l + -d - (r + -d) := by ring
    simp only [Matrix.of_apply, Matrix.cons_val', Matrix.cons_val_zero, Matrix.cons_val_two,
      Matrix.head_cons, Matrix.tail_cons, Matrix.empty_val', Matrix.cons_val_fin_one, e1, e2,
      e3]
    ring

/-! ## Eye switching and drawing -/

/-- C1: in a state whose render-target slot 0 is bound, `setDrawingSide(side)` returns, and it
returns false exactly when `side` is Right, the current eye is Left and the slot-0 render
target has no right surface; when it returns false the state and the call log are unchanged,
and when `side` is the current eye it returns true with state and log unchanged. -/
theorem setDrawingSide_guard (dev : Device) (side : RenderPosition) (s : D3DProxyDevice)
    (log : Log) (rt0 : D3D9ProxySurface)
    (h0 : s.m_activeRenderTargets.head? = some (some rt0)) :
    ∃ ok s2 log2, s.setDrawingSide dev side log = some (ok, s2, log2) ∧
      (ok = false ↔
        side = .Right ∧ s.m_currentRenderingSide = .Left ∧ rt0.getActualRight = none) ∧
      (ok = false → s2 = s ∧ log2 = log) ∧
      (side = s.m_currentRenderingSide → ok = true ∧ s2 = s ∧ log2 = log) := by
  rw [setDrawingSide_eq dev side s log rt0 h0]
  by_cases h1 : side = s.m_currentRenderingSide
  · refine ⟨true, s, log, by simp [h1], ?_, by simp, by simp⟩
    subst h1
    constructor
    · intro h; cases h
    · rintro ⟨hr, hl, _⟩
      rw [hr] at hl; cases hl
  · by_cases h2 : rt0.IsStereo = false ∧ side = .Right
    · refine ⟨false, s, log, by rw [if_neg h1, if_pos h2], ?_, by simp, fun h => absurd h h1⟩
      obtain ⟨hst, hr⟩ := h2
      have hleft : s.m_currentRenderingSide = .Left := by
        cases hs : s.m_currentRenderingSide
        · rfl
        · exact absurd (hr.trans hs.symm) h1
      have hnone : rt0.getActualRight = none := by
        simpa [D3D9ProxySurface.IsStereo, D3D9ProxySurface.getActualRight] using hst
      simp [hr, hleft, hnone]
    · refine ⟨true, _, _, by rw [if_neg h1, if_neg h2], ?_, by simp, fun h => absurd h h1⟩
      constructor
      · intro h; cases h
      · rintro ⟨hr, _, hn⟩
        exfalso
        apply h2
        refine ⟨?_, hr⟩
        simpa [D3D9ProxySurface.IsStereo, D3D9ProxySurface.getActualRight] using hn

/-- Witness of C1: a mono surface bound to slot 0, Left active, switch to Right asked. -/
theorem setDrawingSide_guard_witness :
    D3DProxyDevice.monoBound.m_activeRenderTargets.head? = some (some exampleMonoSurface) ∧
    ∃ ok s2 log2,
      D3DProxyDevice.monoBound.setDrawingSide Device.allOk .Right [] = some (ok, s2, log2) ∧
      (ok = false ↔
        RenderPosition.Right = .Right ∧
          D3DProxyDevice.monoBound.m_currentRenderingSide = .Left ∧
          exampleMonoSurface.getActualRight = none) ∧
      (ok = false → s2 = D3DProxyDevice.monoBound ∧ log2 = []) ∧
      (RenderPosition.Right = D3DProxyDevice.monoBound.m_currentRenderingSide →
        ok = true ∧ s2 = D3DProxyDevice.monoBound ∧ log2 = []) :=
  ⟨rfl, setDrawingSide_guard Device.allOk .Right D3DProxyDevice.monoBound [] exampleMonoSurface
    rfl⟩

/-- C2: with slot 0 bound, every draw operation returns, and of the underlying draws it
issues: there are exactly two, one for the active eye and one for the other eye, when the
slot-0 render target is stereo and the first draw succeeds; exactly one when the slot-0 render
target is mono and Left is active; exactly one, with the state (hence the active eye) left as
it was, when the first draw fails. A second draw is issued iff the first draw succeeded and
`switchDrawingSide()` returned true; there are never more than two. -/
theorem draw_issues_one_or_two (dev : Device) (op : DrawOp) (s : D3DProxyDevice) (log : Log)
    (rt0 : D3D9ProxySurface) (h0 : s.m_activeRenderTargets.head? = some (some rt0)) :
    ∃ hr s2 log2, s.draw dev op log = some (hr, s2, log2) ∧
      (rt0.IsStereo = true → SUCCEEDED (dev (log.length + 1) (.Draw op)) = true →
        issuedDraws log log2 =
          [⟨s.m_currentRenderingSide, .Draw op⟩, ⟨s.m_currentRenderingSide.flip, .Draw op⟩]) ∧
      (rt0.IsStereo = false → s.m_currentRenderingSide = .Left →
        issuedDraws log log2 = [⟨.Left, .Draw op⟩]) ∧
      (SUCCEEDED (dev (log.length + 1) (.Draw op)) = false →
        issuedDraws log log2 = [⟨s.m_currentRenderingSide, .Draw op⟩] ∧ s2 = s) ∧
      ((issuedDraws log log2).length = 2 ↔
        SUCCEEDED (dev (log.length + 1) (.Draw op)) = true ∧
        ∃ s3 log3, s.switchDrawingSide dev
          (log ++ [⟨s.m_currentRenderingSide, .ApplyAllDirty s.m_currentRenderingSide⟩,
            ⟨s.m_currentRenderingSide, .Draw op⟩]) = some (true, s3, log3)) ∧
      ((issuedDraws log log2).length = 1 ∨ (issuedDraws log log2).length = 2) := by
  rw [draw_eq dev op s log rt0 h0, switchDrawingSide_eq dev s _ rt0 h0]
  cases hs : SUCCEEDED (dev (log.length + 1) (.Draw op))
  · refine ⟨_, _, _, by rw [if_neg (by simp)], ?_⟩
    simp [issuedDraws_append, Event.isDraw]
  · by_cases hm : s.m_currentRenderingSide = .Left ∧ rt0.IsStereo = false
    · refine ⟨_, _, _, by rw [if_pos rfl, if_pos hm], ?_⟩
      obtain ⟨hl, hst⟩ := hm
      simp [issuedDraws_append, Event.isDraw, hl, hst]
    · refine ⟨_, _, _, by rw [if_pos rfl, if_neg hm], ?_⟩
      rw [issuedDraws_append]
      simp only [List.filter_append, switchEvents_filter_isDraw]
      have hm2 : rt0.IsStereo = false → ¬ s.m_currentRenderingSide = .Left :=
        fun h1 h2 => hm ⟨h2, h1⟩
      simp [Event.isDraw, hm]
      exact hm2

/-- Witness of C2: a stereo surface bound to slot 0 and a device that accepts every call. -/
theorem draw_issues_one_or_two_witness :
    D3DProxyDevice.stereoBound.m_activeRenderTargets.head? = some (some exampleStereoSurface) ∧
    ∃ hr s2 log2,
      D3DProxyDevice.stereoBound.draw Device.allOk (.DrawPrimitive 4 0 2) []
        = some (hr, s2, log2) ∧
      (exampleStereoSurface.IsStereo = true →
        SUCCEEDED (Device.allOk (([] : Log).length + 1) (.Draw (.DrawPrimitive 4 0 2))) = true →
        issuedDraws [] log2 =
          [⟨D3DProxyDevice.stereoBound.m_currentRenderingSide, .Draw (.DrawPrimitive 4 0 2)⟩,
           ⟨D3DProxyDevice.stereoBound.m_currentRenderingSide.flip,
             .Draw (.DrawPrimitive 4 0 2)⟩]) ∧
      (exampleStereoSurface.IsStereo = false →
        D3DProxyDevice.stereoBound.m_currentRenderingSide = .Left →
        issuedDraws [] log2 = [⟨.Left, .Draw (.DrawPrimitive 4 0 2)⟩]) ∧
      (SUCCEEDED (Device.allOk (([] : Log).length + 1) (.Draw (.DrawPrimitive 4 0 2))) = false →
        issuedDraws [] log2
          = [⟨D3DProxyDevice.stereoBound.m_currentRenderingSide, .Draw (.DrawPrimitive 4 0 2)⟩]
        ∧ s2 = D3DProxyDevice.stereoBound) ∧
      ((issuedDraws [] log2).length = 2 ↔
        SUCCEEDED (Device.allOk (([] : Log).length + 1) (.Draw (.DrawPrimitive 4 0 2))) = true ∧
        ∃ s3 log3, D3DProxyDevice.stereoBound.switchDrawingSide Device.allOk
          ([] ++ [⟨D3DProxyDevice.stereoBound.m_currentRenderingSide,
              .ApplyAllDirty D3DProxyDevice.stereoBound.m_currentRenderingSide⟩,
            ⟨D3DProxyDevice.stereoBound.m_currentRenderingSide,
              .Draw (.DrawPrimitive 4 0 2)⟩]) = some (true, s3, log3)) ∧
      ((issuedDraws [] log2).length = 1 ∨ (issuedDraws [] log2).length = 2) :=
  ⟨rfl, draw_issues_one_or_two Device.allOk (.DrawPrimitive 4 0 2) D3DProxyDevice.stereoBound []
    exampleStereoSurface rfl⟩

/-- C3: with slot 0 bound, the result a draw operation reports is the result of its first
underlying draw. When the slot-0 render target is stereo and the first draw succeeded, the
last call logged is the second-eye draw, and against any wrapped device that answers every
earlier call alike (whatever it answers to the second-eye draw) the operation reports the same
result and reaches the same state and log. -/
theorem draw_reports_first_result (dev : Device) (op : DrawOp) (s : D3DProxyDevice)
    (log : Log) (rt0 : D3D9ProxySurface)
    (h0 : s.m_activeRenderTargets.head? = some (some rt0)) :
    ∃ hr s2 log2, s.draw dev op log = some (hr, s2, log2) ∧
      hr = dev (log.length + 1) (.Draw op) ∧
      (rt0.IsStereo = true → SUCCEEDED hr = true →
        (∃ pre, log2 = pre ++ [⟨s.m_currentRenderingSide.flip, .Draw op⟩]) ∧
        ∀ dev2 : Device, (∀ k c, k + 1 < log2.length → dev2 k c = dev k c) →
          s.draw dev2 op log = some (hr, s2, log2)) := by
  rw [draw_eq dev op s log rt0 h0]
  cases hs : SUCCEEDED (dev (log.length + 1) (.Draw op))
  · refine ⟨_, _, _, by rw [if_neg (by simp)], rfl, ?_⟩
    intro _ h
    rw [hs] at h
    cases h
  · by_cases hm : s.m_currentRenderingSide = .Left ∧ rt0.IsStereo = false
    · refine ⟨_, _, _, by rw [if_pos rfl, if_pos hm], rfl, ?_⟩
      intro hst
      rw [hm.2] at hst
      cases hst
    · refine ⟨_, _, _, by rw [if_pos rfl, if_neg hm], rfl, ?_⟩
      intro _ _
      refine ⟨⟨_, (List.append_assoc _ _ _).symm⟩, ?_⟩
      intro dev2 hagree
      have hlen := switchCalls_length dev s.m_currentRenderingSide.flip s (log.length + 2)
      have hfirst : dev2 (log.length + 1) (.Draw op) = dev (log.length + 1) (.Draw op) := by
        apply hagree
        simp only [List.length_append, List.length_cons, List.length_nil, List.length_map]
        omega
      have hcalls : switchCalls dev2 s.m_currentRenderingSide.flip s (log.length + 2)
          = switchCalls dev s.m_currentRenderingSide.flip s (log.length + 2) := by
        apply switchCalls_congr
        intro k c hk
        apply hagree
        simp only [List.length_append, List.length_cons, List.length_nil, List.length_map]
        omega
      rw [draw_eq dev2 op s log rt0 h0, hfirst, hcalls, if_pos hs, if_neg hm]

/-- Witness of C3: a stereo surface bound to slot 0 and a device that rejects the call at log
position 4, which is the second-eye draw. -/
theorem draw_reports_first_result_witness :
    D3DProxyDevice.stereoBound.m_activeRenderTargets.head? = some (some exampleStereoSurface) ∧
    ∃ hr s2 log2,
      D3DProxyDevice.stereoBound.draw (Device.failingAt 4) (.DrawPrimitive 4 0 2) []
        = some (hr, s2, log2) ∧
      hr = Device.failingAt 4 (([] : Log).length + 1) (.Draw (.DrawPrimitive 4 0 2)) ∧
      (exampleStereoSurface.IsStereo = true → SUCCEEDED hr = true →
        (∃ pre, log2 = pre ++ [⟨D3DProxyDevice.stereoBound.m_currentRenderingSide.flip,
          .Draw (.DrawPrimitive 4 0 2)⟩]) ∧
        ∀ dev2 : Device, (∀ k c, k + 1 < log2.length → dev2 k c = Device.failingAt 4 k c) →
          D3DProxyDevice.stereoBound.draw dev2 (.DrawPrimitive 4 0 2) []
            = some (hr, s2, log2)) :=
  ⟨rfl, draw_reports_first_result (Device.failingAt 4) (.DrawPrimitive 4 0 2)
    D3DProxyDevice.stereoBound [] exampleStereoSurface rfl⟩

/-- C4 as stated does not hold: it is not the case that in every state reachable from device
creation every draw, clear or fill that issues two underlying operations issues the left-eye
one first. After a stereo render target is bound and one draw is made, Right is the active
eye, and the next draw issues its right-eye draw first. -/
theorem left_eye_first_refuted :
    ¬ (∀ (dev : Device) (s : D3DProxyDevice) (log : Log), Reachable dev s log →
        (∀ (op : DrawOp) (hr : HRESULT) (s2 : D3DProxyDevice) (log2 : Log),
          s.draw dev op log = some (hr, s2, log2) →
          (issuedRenders log log2).length = 2 →
          (issuedRenders log log2).map Event.side = [.Left, .Right]) ∧
        (∀ (Count pRects Flags Color : Nat) (Z : ℚ) (Stencil : Nat) (hr : HRESULT)
            (s2 : D3DProxyDevice) (log2 : Log),
          s.Clear dev Count pRects Flags Color Z Stencil log = some (hr, s2, log2) →
          (issuedRenders log log2).length = 2 →
          (issuedRenders log log2).map Event.side = [.Left, .Right]) ∧
        (∀ (pSurface : Option Handle) (pRect color : Nat) (hr : HRESULT)
            (s2 : D3DProxyDevice) (log2 : Log),
          s.ColorFill dev pSurface pRect color log = some (hr, s2, log2) →
          (issuedRenders log log2).length = 2 →
          (issuedRenders log log2).map Event.side = [.Left, .Right])) := by
  intro h
  have hr1 : Reachable Device.allOk D3DProxyDevice.stereoBound
      [⟨.Left, .SetRenderTarget 0 (some 1)⟩, ⟨.Left, .AddRef (.surface exampleStereoSurface)⟩] :=
    Reachable.setRenderTarget 0 (some exampleStereoSurface)
      (Reachable.created D3DProxyDevice.zeroed ⟨8 / 5, 3 / 20⟩ 1)
      (show D3DProxyDevice.created.SetRenderTarget Device.allOk 0 (some exampleStereoSurface) []
        = some (D3D_OK, _, _) from rfl)
  have hd1 := draw_eq_two Device.allOk (.DrawPrimitive 4 0 2) D3DProxyDevice.stereoBound
    [⟨.Left, .SetRenderTarget 0 (some 1)⟩, ⟨.Left, .AddRef (.surface exampleStereoSurface)⟩]
    exampleStereoSurface rfl rfl (by decide)
  have hr2 := Reachable.draw (.DrawPrimitive 4 0 2) hr1 hd1
  have key : ∀ (s : D3DProxyDevice) (log : Log), Reachable Device.allOk s log →
      s.m_activeRenderTargets.head? = some (some exampleStereoSurface) →
      s.m_currentRenderingSide = .Right → False := by
    intro s log hreach h0 hside
    have hd2 := draw_eq_two Device.allOk (.DrawPrimitive 4 0 2) s log exampleStereoSurface h0
      rfl (by simp [hside])
    have hsides := (h _ _ _ hreach).1 (.DrawPrimitive 4 0 2) _ _ _ hd2
    rw [issuedRenders_append] at hsides
    simp only [List.filter_append, switchEvents_filter_isRender] at hsides
    revert hsides
    simp [Event.isRender, hside, RenderPosition.flip]
  exact key _ _ hr2 rfl rfl

/-- C4, amended: with slot 0 bound, every draw, clear or fill returns, and when it issues two
underlying operations the first is issued for the eye that is active on entry and the second for
the other eye. So the left-eye operation comes first when Left is active on entry and the
right-eye operation comes first when Right is active on entry. -/
theorem active_eye_first (dev : Device) (s : D3DProxyDevice) (log : Log)
    (rt0 : D3D9ProxySurface) (h0 : s.m_activeRenderTargets.head? = some (some rt0)) :
    (∀ op : DrawOp, ∃ hr s2 log2, s.draw dev op log = some (hr, s2, log2) ∧
      ((issuedRenders log log2).length = 2 →
        issuedRenders log log2
          = [⟨s.m_currentRenderingSide, .Draw op⟩,
             ⟨s.m_currentRenderingSide.flip, .Draw op⟩])) ∧
    (∀ (Count pRects Flags Color : Nat) (Z : ℚ) (Stencil : Nat), ∃ hr s2 log2,
      s.Clear dev Count pRects Flags Color Z Stencil log = some (hr, s2, log2) ∧
      ((issuedRenders log log2).length = 2 →
        issuedRenders log log2
          = [⟨s.m_currentRenderingSide, .Clear Count pRects Flags Color Z Stencil⟩,
             ⟨s.m_currentRenderingSide.flip, .Clear Count pRects Flags Color Z Stencil⟩])) ∧
    (∀ (pSurface : Option Handle) (pRect color : Nat), ∃ hr s2 log2,
      s.ColorFill dev pSurface pRect color log = some (hr, s2, log2) ∧
      ((issuedRenders log log2).length = 2 →
        issuedRenders log log2
          = [⟨s.m_currentRenderingSide, .ColorFill pSurface pRect color⟩,
             ⟨s.m_currentRenderingSide.flip, .ColorFill pSurface pRect color⟩])) :=
  ⟨fun op => draw_renders dev op s log rt0 h0,
   fun Count pRects Flags Color Z Stencil =>
     issueForBothSides_renders dev (.Clear Count pRects Flags Color Z Stencil) s log rt0 h0 rfl,
   fun pSurface pRect color =>
     issueForBothSides_renders dev (.ColorFill pSurface pRect color) s log rt0 h0 rfl⟩

/-- Witness of the amended C4: a device with a stereo slot 0 on which Right is active. -/
theorem active_eye_first_witness :
    (switchedState .Right D3DProxyDevice.stereoBound).m_activeRenderTargets.head?
      = some (some exampleStereoSurface) ∧
    ∃ hr s2 log2,
      (switchedState .Right D3DProxyDevice.stereoBound).draw Device.allOk
        (.DrawPrimitive 4 0 2) [] = some (hr, s2, log2) ∧
      ((issuedRenders [] log2).length = 2 →
        issuedRenders [] log2
          = [⟨(switchedState .Right D3DProxyDevice.stereoBound).m_currentRenderingSide,
               .Draw (.DrawPrimitive 4 0 2)⟩,
             ⟨(switchedState .Right D3DProxyDevice.stereoBound).m_currentRenderingSide.flip,
               .Draw (.DrawPrimitive 4 0 2)⟩]) :=
  ⟨rfl, (active_eye_first Device.allOk (switchedState .Right D3DProxyDevice.stereoBound) []
    exampleStereoSurface rfl).1 (.DrawPrimitive 4 0 2)⟩

/-- C5: with slot 0 bound, when `side` differs from the active eye and the slot-0 guard
passes, `setDrawingSide(side)` returns true, the active eye becomes `side`, and the calls
logged are, in this order: `SetRenderTarget(i, surface of slot i for side)` for every slot
that is not null; `SetViewport(m_LastViewportSet)` iff one of these rebinds was answered
`D3D_OK` and the viewport-is-default flag is false; `SetDepthStencilSurface` with the bound
depth-stencil's surface for `side` if one is bound; `SetTexture(stage, instance for side)` for
every bound stereo texture and nothing for a null or mono entry; `SetTransform` with the
stored view, respectively projection, matrix of `side` when the respective flag is set; and
last the flush of the stereo shader constants of `side`. -/
theorem setDrawingSide_switches (dev : Device) (side : RenderPosition) (s : D3DProxyDevice)
    (log : Log) (rt0 : D3D9ProxySurface)
    (h0 : s.m_activeRenderTargets.head? = some (some rt0))
    (hne : side ≠ s.m_currentRenderingSide)
    (hguard : side = .Right → rt0.IsStereo = true) :
    (∃ s2, s2.m_currentRenderingSide = side ∧
      s.setDrawingSide dev side log = some (true, s2, log ++ List.map (Event.mk side)
        (renderTargetRebinds side 0 s.m_activeRenderTargets
        ++ (if anyAnsweredOk dev log.length (renderTargetRebinds side 0 s.m_activeRenderTargets)
              && !s.m_bActiveViewportIsDefault
            then [DeviceCall.SetViewport s.m_LastViewportSet] else [])
        ++ (match s.m_pActiveStereoDepthStencil with
            | some ds => [DeviceCall.SetDepthStencilSurface (ds.actualFor side)]
            | none => [])
        ++ textureRebinds side s.m_activeTextureStages
        ++ (if s.m_bViewTransformSet
            then [DeviceCall.SetTransform .D3DTS_VIEW (s.storedView side)] else [])
        ++ (if s.m_bProjectionTransformSet
            then [DeviceCall.SetTransform .D3DTS_PROJECTION (s.storedProjection side)] else [])
        ++ [DeviceCall.ApplyAllStereoConstants side]))) ∧
    (∀ c, c ∈ renderTargetRebinds side 0 s.m_activeRenderTargets ↔
      ∃ i rt, s.m_activeRenderTargets[i]? = some (some rt) ∧
        c = .SetRenderTarget i (rt.actualFor side)) ∧
    (anyAnsweredOk dev log.length (renderTargetRebinds side 0 s.m_activeRenderTargets) = true ↔
      ∃ k c, (renderTargetRebinds side 0 s.m_activeRenderTargets)[k]? = some c ∧
        dev (log.length + k) c = D3D_OK) ∧
    (∀ c, c ∈ textureRebinds side s.m_activeTextureStages ↔
      ∃ stage tex, (stage, some tex) ∈ s.m_activeTextureStages ∧
        tex.m_pActualTextureRight ≠ none ∧
        c = .SetTexture stage (tex.actualFor side)) := by
  refine ⟨⟨switchedState side s, rfl, ?_⟩, mem_renderTargetRebinds side _,
    anyAnsweredOk_iff dev _ _, mem_textureRebinds side _⟩
  have hg : ¬ (rt0.IsStereo = false ∧ side = .Right) := by
    rintro ⟨h1, h2⟩
    rw [hguard h2] at h1
    cases h1
  rw [setDrawingSide_eq dev side s log rt0 h0, if_neg hne, if_neg hg]
  rfl

/-- Witness of C5: the switch to Right on a device with a stereo slot 0, a depth-stencil, a
mono and a stereo texture, a non-default viewport and a view transform. -/
theorem setDrawingSide_switches_witness :
    D3DProxyDevice.richBound.m_activeRenderTargets.head? = some (some exampleStereoSurface) ∧
    RenderPosition.Right ≠ D3DProxyDevice.richBound.m_currentRenderingSide ∧
    (RenderPosition.Right = .Right → exampleStereoSurface.IsStereo = true) ∧
    ∃ s2, s2.m_currentRenderingSide = .Right ∧
      D3DProxyDevice.richBound.setDrawingSide Device.allOk .Right []
        = some (true, s2, [] ++ List.map (Event.mk .Right)
        (renderTargetRebinds .Right 0 D3DProxyDevice.richBound.m_activeRenderTargets
        ++ (if anyAnsweredOk Device.allOk ([] : Log).length
                (renderTargetRebinds .Right 0 D3DProxyDevice.richBound.m_activeRenderTargets)
              && !D3DProxyDevice.richBound.m_bActiveViewportIsDefault
            then [DeviceCall.SetViewport D3DProxyDevice.richBound.m_LastViewportSet] else [])
        ++ (match D3DProxyDevice.richBound.m_pActiveStereoDepthStencil with
            | some ds => [DeviceCall.SetDepthStencilSurface (ds.actualFor .Right)]
            | none => [])
        ++ textureRebinds .Right D3DProxyDevice.richBound.m_activeTextureStages
        ++ (if D3DProxyDevice.richBound.m_bViewTransformSet
            then [DeviceCall.SetTransform .D3DTS_VIEW
              (D3DProxyDevice.richBound.storedView .Right)] else [])
        ++ (if D3DProxyDevice.richBound.m_bProjectionTransformSet
            then [DeviceCall.SetTransform .D3DTS_PROJECTION
              (D3DProxyDevice.richBound.storedProjection .Right)] else [])
        ++ [DeviceCall.ApplyAllStereoConstants .Right])) :=
  ⟨rfl, by decide, fun _ => rfl,
    (setDrawingSide_switches Device.allOk .Right D3DProxyDevice.richBound []
      exampleStereoSurface rfl (by decide) (fun _ => rfl)).1⟩

/-! ## Copies between wrapped resources -/

/-- C6: for `UpdateSurface`, `UpdateTexture`, `StretchRect` and `GetRenderTargetData` with
source and destination not null: the first call logged copies source-left to destination-left
and its answer is the result of the operation; if it succeeded and the destination is stereo,
exactly one more copy is logged, into destination-right, from source-left when the source is
mono and from source-right when the source is stereo; if it succeeded and the destination is
mono, or if it failed, nothing more is logged. The answer to the second copy is not used. -/
theorem copies_left_then_right (dev : Device) (s : D3DProxyDevice) (log : Log) :
    (∀ (src dst : D3D9ProxySurface) (pSourceRect pDestPoint : Nat),
      s.UpdateSurface dev (some src) pSourceRect (some dst) pDestPoint log =
        (dev log.length (.UpdateSurface src.getActualLeft pSourceRect dst.getActualLeft
            pDestPoint),
         log ++ [⟨s.m_currentRenderingSide,
              .UpdateSurface src.getActualLeft pSourceRect dst.getActualLeft pDestPoint⟩]
           ++ (if SUCCEEDED (dev log.length (.UpdateSurface src.getActualLeft pSourceRect
                 dst.getActualLeft pDestPoint)) = true ∧ dst.IsStereo = true
               then [⟨s.m_currentRenderingSide,
                 .UpdateSurface (if src.IsStereo = true then src.getActualRight
                   else src.getActualLeft) pSourceRect dst.getActualRight pDestPoint⟩]
               else []))) ∧
    (∀ (src dst : ProxyTexture),
      s.UpdateTexture dev (some src) (some dst) log =
        (dev log.length (.UpdateTexture (src.actualFor .Left) (dst.actualFor .Left)),
         log ++ [⟨s.m_currentRenderingSide,
              .UpdateTexture (src.actualFor .Left) (dst.actualFor .Left)⟩]
           ++ (if SUCCEEDED (dev log.length
                 (.UpdateTexture (src.actualFor .Left) (dst.actualFor .Left))) = true
                 ∧ dst.m_pActualTextureRight ≠ none
               then [⟨s.m_currentRenderingSide,
                 .UpdateTexture (if src.m_pActualTextureRight ≠ none then src.actualFor .Right
                   else src.actualFor .Left) (dst.actualFor .Right)⟩]
               else []))) ∧
    (∀ (src dst : D3D9ProxySurface) (pSourceRect pDestRect Filter : Nat),
      s.StretchRect dev (some src) pSourceRect (some dst) pDestRect Filter log =
        (dev log.length (.StretchRect src.getActualLeft pSourceRect dst.getActualLeft
            pDestRect Filter),
         log ++ [⟨s.m_currentRenderingSide,
              .StretchRect src.getActualLeft pSourceRect dst.getActualLeft pDestRect Filter⟩]
           ++ (if SUCCEEDED (dev log.length (.StretchRect src.getActualLeft pSourceRect
                 dst.getActualLeft pDestRect Filter)) = true ∧ dst.IsStereo = true
               then [⟨s.m_currentRenderingSide,
                 .StretchRect (if src.IsStereo = true then src.getActualRight
                   else src.getActualLeft) pSourceRect dst.getActualRight pDestRect Filter⟩]
               else []))) ∧
    (∀ (src dst : D3D9ProxySurface),
      s.GetRenderTargetData dev (some src) (some dst) log =
        (dev log.length (.GetRenderTargetData src.getActualLeft dst.getActualLeft),
         log ++ [⟨s.m_currentRenderingSide,
              .GetRenderTargetData src.getActualLeft dst.getActualLeft⟩]
           ++ (if SUCCEEDED (dev log.length
                 (.GetRenderTargetData src.getActualLeft dst.getActualLeft)) = true
                 ∧ dst.IsStereo = true
               then [⟨s.m_currentRenderingSide,
                 .GetRenderTargetData (if src.IsStereo = true then src.getActualRight
                   else src.getActualLeft) dst.getActualRight⟩]
               else []))) := by
  refine ⟨?_, ?_, ?_, ?_⟩
  · intro src dst pSourceRect pDestPoint
    simp only [D3DProxyDevice.UpdateSurface, D3DProxyDevice.copyBothSides,
      D3D9ProxySurface.IsStereo, D3D9ProxySurface.getActualRight,
      D3D9ProxySurface.getActualLeft]
    cases SUCCEEDED (dev log.length _) <;> cases src.m_pActualSurfaceRight <;>
      cases dst.m_pActualSurfaceRight <;> simp
  · intro src dst
    simp only [D3DProxyDevice.UpdateTexture, D3DProxyDevice.copyBothSides, UnWrapTexture,
      ProxyTexture.actualFor]
    cases SUCCEEDED (dev log.length _) <;> cases src.m_pActualTextureRight <;>
      cases dst.m_pActualTextureRight <;> simp
  · intro src dst pSourceRect pDestRect Filter
    simp only [D3DProxyDevice.StretchRect, D3DProxyDevice.copyBothSides,
      D3D9ProxySurface.IsStereo, D3D9ProxySurface.getActualRight,
      D3D9ProxySurface.getActualLeft]
    cases SUCCEEDED (dev log.length _) <;> cases src.m_pActualSurfaceRight <;>
      cases dst.m_pActualSurfaceRight <;> simp
  · intro src dst
    simp only [D3DProxyDevice.GetRenderTargetData, D3DProxyDevice.copyBothSides,
      D3D9ProxySurface.IsStereo, D3D9ProxySurface.getActualRight,
      D3D9ProxySurface.getActualLeft]
    cases SUCCEEDED (dev log.length _) <;> cases src.m_pActualSurfaceRight <;>
      cases dst.m_pActualSurfaceRight <;> simp

/-! ## View adjustment -/

/-- C7 as stated does not hold in the HMD stereo modes: with stereo mode 26, a lens offset of
3/20, aspect ratio 8/5 and convergence 2 (above the near-clip distance 1), the left projection
after `UpdateProjectionMatrices` is not the off-centre perspective matrix whose clip planes
are shifted by `((IPD/2) * nearClipDistance / c) * (|l| + |r|) * LEFT_CONSTANT`. -/
theorem projection_shift_refuted :
    (8 / 5 : ℚ) ≠ 0 ∧
    ViewAdjustment.nearClippingPlaneDistance < ViewAdjustment.riftExample.convergence ∧
    (ViewAdjustment.riftExample.UpdateProjectionMatrices (8 / 5)).projectLeft
      ≠ D3DXMatrixPerspectiveOffCenterLH
          (ViewAdjustment.riftExample.l
            + ViewAdjustment.riftExample.frustumAsymmetry * LEFT_CONSTANT)
          (ViewAdjustment.riftExample.r
            + ViewAdjustment.riftExample.frustumAsymmetry * LEFT_CONSTANT)
          (ViewAdjustment.riftExample.UpdateProjectionMatrices (8 / 5)).b
          (ViewAdjustment.riftExample.UpdateProjectionMatrices (8 / 5)).t
          ViewAdjustment.riftExample.n ViewAdjustment.riftExample.f := by
  have hconv : ViewAdjustment.riftExample.convergence = 2 := rfl
  have hc : ViewAdjustment.nearClippingPlaneDistance
      < ViewAdjustment.riftExample.convergence := by
    rw [hconv, ViewAdjustment.nearClippingPlaneDistance]
    norm_num
  refine ⟨by norm_num, hc, ?_⟩
  have hlens : ViewAdjustment.riftExample.lensShift = 3 / 20 := rfl
  rw [updateProjectionMatrices_projectLeft _ _ hc, perspective_mul_translation,
    (updateProjectionMatrices_tb _ _).1, (updateProjectionMatrices_tb _ _).2, hlens]
  intro h
  have h20 := congrFun (congrFun h 2) 0
  simp [D3DXMatrixPerspectiveOffCenterLH, LEFT_CONSTANT] at h20

/-- C7, amended: for the frustum values of the constructor, every non-zero aspect ratio, every
IPD and every stored convergence above the near-clip distance, after `UpdateProjectionMatrices`
each eye's projection is the off-centre perspective matrix with the clip planes shifted by
`((IPD/2) * nearClipDistance / c) * (|l| + |r|) * eyeConstant`, multiplied by the X-translation
by `lensShift * eyeConstant`, where `lensShift` is `lensXCenterOffset` in the HMD stereo modes
(25, 26, 27) and 0 otherwise (so that outside the HMD modes the projection is that shifted
perspective matrix itself). In every mode it is an off-centre perspective matrix with the same
near, far, top, bottom and width, the clip planes shifted by
`(((IPD/2) * nearClipDistance / c) * (|l| + |r|) - lensShift / 2) * eyeConstant`; the two eyes
agree in every entry except the horizontal off-centre term (row 3, column 1), which has opposite
sign in the two eyes; top differs from bottom; and `LEFT_CONSTANT = -RIGHT_CONSTANT`. -/
theorem projection_pair (va : ViewAdjustment) (a : ℚ) (hfr : va.hasCtorFrustum) (ha : a ≠ 0)
    (hc : ViewAdjustment.nearClippingPlaneDistance < va.convergence) :
    (va.UpdateProjectionMatrices a).t = (1 / 2) / a ∧
    (va.UpdateProjectionMatrices a).b = -(1 / 2) / a ∧
    (va.UpdateProjectionMatrices a).t ≠ (va.UpdateProjectionMatrices a).b ∧
    (va.UpdateProjectionMatrices a).projectLeft
      = D3DXMatrixPerspectiveOffCenterLH (va.l + va.frustumAsymmetry * LEFT_CONSTANT)
          (va.r + va.frustumAsymmetry * LEFT_CONSTANT)
          (va.UpdateProjectionMatrices a).b (va.UpdateProjectionMatrices a).t va.n va.f
        * D3DXMatrixTranslation (va.lensShift * LEFT_CONSTANT) 0 0 ∧
    (va.UpdateProjectionMatrices a).projectRight
      = D3DXMatrixPerspectiveOffCenterLH (va.l + va.frustumAsymmetry * RIGHT_CONSTANT)
          (va.r + va.frustumAsymmetry * RIGHT_CONSTANT)
          (va.UpdateProjectionMatrices a).b (va.UpdateProjectionMatrices a).t va.n va.f
        * D3DXMatrixTranslation (va.lensShift * RIGHT_CONSTANT) 0 0 ∧
    (ViewAdjustment.isRiftStereoType va.stereoType = false → va.lensShift = 0 ∧
      (va.UpdateProjectionMatrices a).projectLeft
        = D3DXMatrixPerspectiveOffCenterLH (va.l + va.frustumAsymmetry * LEFT_CONSTANT)
            (va.r + va.frustumAsymmetry * LEFT_CONSTANT)
            (va.UpdateProjectionMatrices a).b (va.UpdateProjectionMatrices a).t va.n va.f ∧
      (va.UpdateProjectionMatrices a).projectRight
        = D3DXMatrixPerspectiveOffCenterLH (va.l + va.frustumAsymmetry * RIGHT_CONSTANT)
            (va.r + va.frustumAsymmetry * RIGHT_CONSTANT)
            (va.UpdateProjectionMatrices a).b (va.UpdateProjectionMatrices a).t va.n va.f) ∧
    (va.UpdateProjectionMatrices a).projectLeft
      = D3DXMatrixPerspectiveOffCenterLH
          (va.l + (va.frustumAsymmetry - va.lensShift / 2) * LEFT_CONSTANT)
          (va.r + (va.frustumAsymmetry - va.lensShift / 2) * LEFT_CONSTANT)
          (va.UpdateProjectionMatrices a).b (va.UpdateProjectionMatrices a).t va.n va.f ∧
    (va.UpdateProjectionMatrices a).projectRight
      = D3DXMatrixPerspectiveOffCenterLH
          (va.l + (va.frustumAsymmetry - va.lensShift / 2) * RIGHT_CONSTANT)
          (va.r + (va.frustumAsymmetry - va.lensShift / 2) * RIGHT_CONSTANT)
          (va.UpdateProjectionMatrices a).b (va.UpdateProjectionMatrices a).t va.n va.f ∧
    (∀ i j : Fin 4, (i, j) ≠ (2, 0) →
      (va.UpdateProjectionMatrices a).projectLeft i j
        = (va.UpdateProjectionMatrices a).projectRight i j) ∧
    (va.UpdateProjectionMatrices a).projectLeft 2 0
      = -((va.UpdateProjectionMatrices a).projectRight 2 0) ∧
    LEFT_CONSTANT = -RIGHT_CONSTANT := by
  obtain ⟨hn, hf, hl, hr⟩ := hfr
  have hlr : va.l - va.r = -1 := by rw [hl, hr]; norm_num
  have hlr0 : va.l + va.r = 0 := by rw [hl, hr]; norm_num
  have hL := updateProjectionMatrices_projectLeft va a hc
  have hR := updateProjectionMatrices_projectRight va a hc
  obtain ⟨ht, hb⟩ := updateProjectionMatrices_tb va a
  have hLR : LEFT_CONSTANT = -RIGHT_CONSTANT := by
    simp only [LEFT_CONSTANT, RIGHT_CONSTANT]
  have hentries := perspective_translation_entries va.l va.r (-(1 / 2) / a) ((1 / 2) / a)
    va.n va.f (va.frustumAsymmetry * LEFT_CONSTANT) (va.lensShift * LEFT_CONSTANT) hlr0
  have hRneg : va.frustumAsymmetry * RIGHT_CONSTANT = -(va.frustumAsymmetry * LEFT_CONSTANT) := by
    rw [hLR]; ring
  have hRneg2 : va.lensShift * RIGHT_CONSTANT = -(va.lensShift * LEFT_CONSTANT) := by
    rw [hLR]; ring
  rw [ht, hb, hL, hR]
  refine ⟨rfl, rfl, ?_, rfl, rfl, ?_, ?_, ?_, ?_, ?_, hLR⟩
  · intro h
    have h2 : (1 / 2 : ℚ) / a - -(1 / 2) / a = 1 / a := by
      rw [div_sub_div_same]
      norm_num
    rw [h, sub_self] at h2
    exact one_div_ne_zero ha h2.symm
  · intro hmode
    have h0 : va.lensShift = 0 := by
      simp only [ViewAdjustment.lensShift, hmode, Bool.false_eq_true, if_false]
    refine ⟨h0, ?_, ?_⟩ <;> rw [h0, zero_mul, translation_zero, mul_one]
  · have e : va.frustumAsymmetry * LEFT_CONSTANT - va.lensShift * LEFT_CONSTANT / 2
        = (va.frustumAsymmetry - va.lensShift / 2) * LEFT_CONSTANT := by ring
    rw [perspective_shift _ _ _ _ _ _ _ _ hlr, e]
  · have e : va.frustumAsymmetry * RIGHT_CONSTANT - va.lensShift * RIGHT_CONSTANT / 2
        = (va.frustumAsymmetry - va.lensShift / 2) * RIGHT_CONSTANT := by ring
    rw [perspective_shift _ _ _ _ _ _ _ _ hlr, e]
  · rw [hRneg, hRneg2]
    exact hentries.1
  · rw [hRneg, hRneg2]
    exact hentries.2

/-- Witness of the amended C7: the constructed object in HMD mode 26 with convergence 2. -/
theorem projection_pair_witness :
    ViewAdjustment.riftExample.hasCtorFrustum ∧ (8 / 5 : ℚ) ≠ 0 ∧
    ViewAdjustment.nearClippingPlaneDistance < ViewAdjustment.riftExample.convergence ∧
    (ViewAdjustment.riftExample.UpdateProjectionMatrices (8 / 5)).projectLeft
      = D3DXMatrixPerspectiveOffCenterLH
          (ViewAdjustment.riftExample.l + (ViewAdjustment.riftExample.frustumAsymmetry
            - ViewAdjustment.riftExample.lensShift / 2) * LEFT_CONSTANT)
          (ViewAdjustment.riftExample.r + (ViewAdjustment.riftExample.frustumAsymmetry
            - ViewAdjustment.riftExample.lensShift / 2) * LEFT_CONSTANT)
          (ViewAdjustment.riftExample.UpdateProjectionMatrices (8 / 5)).b
          (ViewAdjustment.riftExample.UpdateProjectionMatrices (8 / 5)).t
          ViewAdjustment.riftExample.n ViewAdjustment.riftExample.f ∧
    (ViewAdjustment.riftExample.UpdateProjectionMatrices (8 / 5)).projectLeft 2 0
      = -((ViewAdjustment.riftExample.UpdateProjectionMatrices (8 / 5)).projectRight 2 0) :=
  have hfr : ViewAdjustment.riftExample.hasCtorFrustum := ⟨rfl, rfl, rfl, rfl⟩
  have ha : (8 / 5 : ℚ) ≠ 0 := by norm_num
  have hc : ViewAdjustment.nearClippingPlaneDistance
      < ViewAdjustment.riftExample.convergence := by
    have hconv : ViewAdjustment.riftExample.convergence = 2 := rfl
    rw [hconv, ViewAdjustment.nearClippingPlaneDistance]
    norm_num
  ⟨hfr, ha, hc,
    (projection_pair ViewAdjustment.riftExample (8 / 5) hfr ha hc).2.2.2.2.2.2.1,
    (projection_pair ViewAdjustment.riftExample (8 / 5) hfr ha hc).2.2.2.2.2.2.2.2.2.1⟩

/-- C9: `SeparationInWorldUnits()` is `(IPD/2) * worldScale`, so doubling the IPD or doubling
the world scale doubles it; `SeparationIPDAdjustment()` is
`((IPD - IPD_DEFAULT)/2) * worldScale`, which is 0 for every world scale when the IPD is the
default; with IPD 0.064 and world scale 1 the separation is 0.032 and the adjustment is 0. -/
theorem separation_linear (va : ViewAdjustment) :
    va.SeparationInWorldUnits = (va.ipd / 2) * va.metersToWorldMultiplier ∧
    ({ va with ipd := 2 * va.ipd } : ViewAdjustment).SeparationInWorldUnits
      = 2 * va.SeparationInWorldUnits ∧
    ({ va with metersToWorldMultiplier := 2 * va.metersToWorldMultiplier } :
      ViewAdjustment).SeparationInWorldUnits = 2 * va.SeparationInWorldUnits ∧
    va.SeparationIPDAdjustment = ((va.ipd - IPD_DEFAULT) / 2) * va.metersToWorldMultiplier ∧
    ({ va with ipd := IPD_DEFAULT } : ViewAdjustment).SeparationIPDAdjustment = 0 ∧
    ({ va with ipd := 64 / 1000, metersToWorldMultiplier := 1 } :
      ViewAdjustment).SeparationInWorldUnits = 32 / 1000 ∧
    ({ va with ipd := 64 / 1000, metersToWorldMultiplier := 1 } :
      ViewAdjustment).SeparationIPDAdjustment = 0 := by
  refine ⟨rfl, ?_, ?_, rfl, ?_, ?_, ?_⟩
  · simp only [ViewAdjustment.SeparationInWorldUnits]; ring
  · simp only [ViewAdjustment.SeparationInWorldUnits]; ring
  · simp only [ViewAdjustment.SeparationIPDAdjustment, sub_self, zero_div, zero_mul]
  · simp only [ViewAdjustment.SeparationInWorldUnits]; norm_num
  · simp only [ViewAdjustment.SeparationIPDAdjustment, IPD_DEFAULT]; norm_num

/-- C10: `ChangeWorldScale(d)` stores and returns the old world scale plus `d` clamped to
`[0.0001, 1000000]`, and `ChangeConvergence(d)` stores and returns the old convergence plus `d`
clamped to `[minConvergence, maxConvergence]` (the bounds being ordered, as the constructor
sets them); the stored value lies within the bounds for every old value and every `d`, and a
second call with delta 0 gives the same state and result as the first. -/
theorem change_clamps (va : ViewAdjustment) (d : ℚ)
    (hb : va.minConvergence ≤ va.maxConvergence) :
    (va.ChangeWorldScale d).2 = max (1 / 10000) (min 1000000 (va.metersToWorldMultiplier + d)) ∧
    (va.ChangeWorldScale d).1
      = { va with metersToWorldMultiplier := (va.ChangeWorldScale d).2 } ∧
    1 / 10000 ≤ (va.ChangeWorldScale d).1.metersToWorldMultiplier ∧
    (va.ChangeWorldScale d).1.metersToWorldMultiplier ≤ 1000000 ∧
    (va.ChangeConvergence d).2
      = max va.minConvergence (min va.maxConvergence (va.convergence + d)) ∧
    (va.ChangeConvergence d).1 = { va with convergence := (va.ChangeConvergence d).2 } ∧
    va.minConvergence ≤ (va.ChangeConvergence d).1.convergence ∧
    (va.ChangeConvergence d).1.convergence ≤ va.maxConvergence ∧
    (va.ChangeWorldScale 0).1.ChangeWorldScale 0 = va.ChangeWorldScale 0 ∧
    (va.ChangeConvergence 0).1.ChangeConvergence 0 = va.ChangeConvergence 0 := by
  have hw : (1 / 10000 : ℚ) ≤ 1000000 := by norm_num
  have hws := clamp_bounds (va.metersToWorldMultiplier + d) (1 / 10000) 1000000 hw
  have hcs := clamp_bounds (va.convergence + d) va.minConvergence va.maxConvergence hb
  have hws0 := clamp_bounds (va.metersToWorldMultiplier + 0) (1 / 10000) 1000000 hw
  have hcs0 := clamp_bounds (va.convergence + 0) va.minConvergence va.maxConvergence hb
  refine ⟨clamp_eq_max_min _ _ _ hw, rfl, hws.1, hws.2, clamp_eq_max_min _ _ _ hb, rfl,
    hcs.1, hcs.2, ?_, ?_⟩
  · simp only [ViewAdjustment.ChangeWorldScale, add_zero] at hws0 ⊢
    rw [clamp_of_mem _ _ _ hws0.1 hws0.2]
  · simp only [ViewAdjustment.ChangeConvergence, add_zero] at hcs0 ⊢
    rw [clamp_of_mem _ _ _ hcs0.1 hcs0.2]

/-- Witness of C10: the constructed object, whose bounds are -10 and 10, with a delta of 100. -/
theorem change_clamps_witness :
    ViewAdjustment.created.minConvergence ≤ ViewAdjustment.created.maxConvergence ∧
    ViewAdjustment.created.minConvergence
      ≤ (ViewAdjustment.created.ChangeConvergence 100).1.convergence ∧
    (ViewAdjustment.created.ChangeConvergence 100).1.convergence
      ≤ ViewAdjustment.created.maxConvergence ∧
    (ViewAdjustment.created.ChangeWorldScale 100).1.metersToWorldMultiplier ≤ 1000000 :=
  have hmin : ViewAdjustment.created.minConvergence = -10 := rfl
  have hmax : ViewAdjustment.created.maxConvergence = 10 := rfl
  have hb : ViewAdjustment.created.minConvergence ≤ ViewAdjustment.created.maxConvergence := by
    rw [hmin, hmax]
    norm_num
  ⟨hb, (change_clamps ViewAdjustment.created 100 hb).2.2.2.2.2.2.1,
    (change_clamps ViewAdjustment.created 100 hb).2.2.2.2.2.2.2.1,
    (change_clamps ViewAdjustment.created 100 hb).2.2.2.1⟩

/-! ## Lemmas on the convergence -/

theorem updateProjectionMatrices_fields (va : ViewAdjustment) (a : ℚ) :
    (va.UpdateProjectionMatrices a).convergence
      = (if va.convergence ≤ ViewAdjustment.nearClippingPlaneDistance
          then ViewAdjustment.nearClippingPlaneDistance + 1 / 1000 else va.convergence) ∧
    (va.UpdateProjectionMatrices a).ipd = va.ipd ∧
    (va.UpdateProjectionMatrices a).l = va.l ∧
    (va.UpdateProjectionMatrices a).r = va.r ∧
    (va.UpdateProjectionMatrices a).minConvergence = va.minConvergence ∧
    (va.UpdateProjectionMatrices a).maxConvergence = va.maxConvergence := by
  unfold ViewAdjustment.UpdateProjectionMatrices
  split_ifs <;> exact ⟨rfl, rfl, rfl, rfl, rfl, rfl⟩

theorem updateProjectionMatrices_convergence_gt (va : ViewAdjustment) (a : ℚ) :
    ViewAdjustment.nearClippingPlaneDistance < (va.UpdateProjectionMatrices a).convergence := by
  rw [(updateProjectionMatrices_fields va a).1]
  unfold ViewAdjustment.nearClippingPlaneDistance
  split_ifs with h
  · norm_num
  · exact not_le.1 h

theorem updateProjectionMatrices_projections (va : ViewAdjustment) (a : ℚ) :
    (va.UpdateProjectionMatrices a).projectLeft
      = D3DXMatrixPerspectiveOffCenterLH
          (va.l + (va.UpdateProjectionMatrices a).frustumAsymmetry * LEFT_CONSTANT)
          (va.r + (va.UpdateProjectionMatrices a).frustumAsymmetry * LEFT_CONSTANT)
          (-(1 / 2) / a) ((1 / 2) / a) va.n va.f
        * D3DXMatrixTranslation (va.lensShift * LEFT_CONSTANT) 0 0 ∧
    (va.UpdateProjectionMatrices a).projectRight
      = D3DXMatrixPerspectiveOffCenterLH
          (va.l + (va.UpdateProjectionMatrices a).frustumAsymmetry * RIGHT_CONSTANT)
          (va.r + (va.UpdateProjectionMatrices a).frustumAsymmetry * RIGHT_CONSTANT)
          (-(1 / 2) / a) ((1 / 2) / a) va.n va.f
        * D3DXMatrixTranslation (va.lensShift * RIGHT_CONSTANT) 0 0 := by
  obtain ⟨hc, hi, hl, hr, -⟩ := updateProjectionMatrices_fields va a
  have hshift : ∀ k : ℚ, va.ipd / 2 * ViewAdjustment.nearClippingPlaneDistance
      / (va.UpdateProjectionMatrices a).convergence
      * k / ViewAdjustment.physicalScreenSizeInMeters * ((|va.l| + |va.r|) / 1)
      = (va.UpdateProjectionMatrices a).frustumAsymmetry * k := by
    intro k
    simp only [ViewAdjustment.frustumAsymmetry, ViewAdjustment.physicalScreenSizeInMeters, hi, hl,
      hr]
    ring
  rw [hc] at hshift
  have hL := hshift LEFT_CONSTANT
  have hR := hshift RIGHT_CONSTANT
  constructor
  · rw [← hL]
    unfold ViewAdjustment.UpdateProjectionMatrices
    simp only [ViewAdjustment.lensShift]
    split_ifs <;> first | rfl | simp only [zero_mul, translation_zero, mul_one]
  · rw [← hR]
    unfold ViewAdjustment.UpdateProjectionMatrices
    simp only [ViewAdjustment.lensShift]
    split_ifs <;> first | rfl | simp only [zero_mul, translation_zero, mul_one]

theorem frustumAsymmetry_bound (va : ViewAdjustment)
    (hc : ViewAdjustment.nearClippingPlaneDistance < va.convergence) :
    |va.frustumAsymmetry| ≤ |va.ipd / 2| * (|va.l| + |va.r|) := by
  unfold ViewAdjustment.frustumAsymmetry ViewAdjustment.nearClippingPlaneDistance at *
  have hpos : (0 : ℚ) < va.convergence := by linarith
  have hs : (0 : ℚ) ≤ |va.l| + |va.r| := add_nonneg (abs_nonneg _) (abs_nonneg _)
  rw [abs_mul, abs_of_nonneg hs, mul_one, abs_div, abs_of_pos hpos]
  apply mul_le_mul_of_nonneg_right _ hs
  rw [div_le_iff₀ hpos]
  nlinarith [abs_nonneg (va.ipd / 2)]

theorem ctor_convergence (raw : ViewAdjustment) (displayInfo : HMDisplayInfo)
    (metersToWorldUnits : ℚ) (enableRoll : Bool) :
    (ViewAdjustment.ctor raw displayInfo metersToWorldUnits enableRoll).convergence
      = 1 + 1 / 1000 ∧
    (ViewAdjustment.ctor raw displayInfo metersToWorldUnits enableRoll).minConvergence = -10 ∧
    (ViewAdjustment.ctor raw displayInfo metersToWorldUnits enableRoll).maxConvergence = 10 := by
  unfold ViewAdjustment.ctor
  simp only [ViewAdjustment.ComputeViewTransforms]
  obtain ⟨hc, -, -, -, hmin, hmax⟩ := updateProjectionMatrices_fields
    { raw with
      hmdInfo := displayInfo,
      metersToWorldMultiplier := metersToWorldUnits,
      rollEnabled := enableRoll,
      bulletLabyrinth := false,
      convergence := 0,
      minConvergence := -10,
      maxConvergence := 10,
      ipd := IPD_DEFAULT,
      n := 1 / 10,
      f := 10,
      l := -(1 / 2),
      r := 1 / 2,
      squash := 1,
      gui3DDepth := 0,
      hudDistance := 0,
      hud3DDepth := 0,
      matProjection := D3DXMatrixIdentity,
      matProjectionInv := D3DXMatrixIdentity,
      leftShiftProjection := D3DXMatrixIdentity,
      rightShiftProjection := D3DXMatrixIdentity,
      projectLeft := D3DXMatrixIdentity,
      projectRight := D3DXMatrixIdentity,
      transformLeft := D3DXMatrixIdentity,
      transformRight := D3DXMatrixIdentity,
      matViewProjTransformRight := D3DXMatrixIdentity,
      matViewProjTransformLeft := D3DXMatrixIdentity,
      matGatheredLeft := D3DXMatrixIdentity,
      matGatheredRight := D3DXMatrixIdentity } displayInfo.screenAspectRatio
  refine ⟨?_, hmin, hmax⟩
  rw [hc, ViewAdjustment.nearClippingPlaneDistance]
  norm_num

/-! ## Lemmas on reference counts and on the two maps -/

theorem refBalance_append (a b : Log) (r : Resource) :
    refBalance (a ++ b) r = refBalance a r + refBalance b r := by
  simp [refBalance, List.map_append, List.sum_append]

theorem refBalance_nil (r : Resource) : refBalance [] r = 0 := rfl

theorem refBalance_releaseIfSet {α : Type} (side : RenderPosition) (wrap : α → Resource)
    (p : Option α) (r : Resource) :
    refBalance (D3DProxyDevice.releaseIfSet side wrap p) r = -(holds wrap p r : Int) := by
  cases p with
  | none => simp [D3DProxyDevice.releaseIfSet, refBalance, holds]
  | some x =>
      by_cases h : wrap x = r <;>
        simp [D3DProxyDevice.releaseIfSet, refBalance, holds, Event.refDelta, h]

theorem refBalance_addRefIfSet {α : Type} (side : RenderPosition) (wrap : α → Resource)
    (p : Option α) (r : Resource) :
    refBalance (D3DProxyDevice.addRefIfSet side wrap p) r = (holds wrap p r : Int) := by
  cases p with
  | none => simp [D3DProxyDevice.addRefIfSet, refBalance, holds]
  | some x =>
      by_cases h : wrap x = r <;>
        simp [D3DProxyDevice.addRefIfSet, refBalance, holds, Event.refDelta, h]

theorem refBalance_call (side : RenderPosition) (c : DeviceCall) (r : Resource)
    (h1 : ∀ x, c ≠ .AddRef x) (h2 : ∀ x, c ≠ .Release x) :
    refBalance [⟨side, c⟩] r = 0 := by
  cases c <;> first | rfl | exact absurd rfl (h1 _) | exact absurd rfl (h2 _)

theorem refBalance_release_addRef {α : Type} (side : RenderPosition) (wrap : α → Resource)
    (p : Option α) (log : Log) (c : DeviceCall) (r : Resource)
    (h1 : ∀ x, c ≠ .AddRef x) (h2 : ∀ x, c ≠ .Release x) :
    refBalance (log ++ [⟨side, c⟩] ++ D3DProxyDevice.releaseIfSet side wrap p
      ++ D3DProxyDevice.addRefIfSet side wrap p) r = refBalance log r := by
  simp only [refBalance_append, refBalance_releaseIfSet, refBalance_addRefIfSet,
    refBalance_call side c r h1 h2]
  omega

theorem holds_map {α : Type} (wrap : α → Resource) (p : Option α) (r : Resource) :
    holds id (p.map wrap) r = holds wrap p r := by
  cases p <;> simp [holds]

theorem holds_none {α : Type} (wrap : α → Resource) (r : Resource) :
    holds wrap none r = 0 := rfl

theorem join_some_eq {α : Type} (x : Option α) : (some x).join = x := rfl

theorem join_none_eq {α : Type} : (none : Option (Option α)).join = none := rfl

theorem releasesOf_append (r : Resource) (a b : Log) :
    releasesOf r (a ++ b) = releasesOf r a + releasesOf r b := by
  simp [releasesOf, List.countP_append]

theorem addRefsOf_append (r : Resource) (a b : Log) :
    addRefsOf r (a ++ b) = addRefsOf r a + addRefsOf r b := by
  simp [addRefsOf, List.countP_append]

theorem releasesOf_releaseIfSet {α : Type} (side : RenderPosition) (wrap : α → Resource)
    (p : Option α) (r : Resource) :
    releasesOf r (D3DProxyDevice.releaseIfSet side wrap p) = holds wrap p r ∧
    addRefsOf r (D3DProxyDevice.releaseIfSet side wrap p) = 0 := by
  cases p with
  | none => exact ⟨rfl, rfl⟩
  | some x =>
      by_cases h : wrap x = r <;>
        simp [D3DProxyDevice.releaseIfSet, releasesOf, addRefsOf, holds, h]

theorem releasesOf_call (side : RenderPosition) (c : DeviceCall) (r : Resource)
    (h1 : ∀ x, c ≠ .AddRef x) (h2 : ∀ x, c ≠ .Release x) :
    releasesOf r [⟨side, c⟩] = 0 ∧ addRefsOf r [⟨side, c⟩] = 0 := by
  cases c <;> first | exact ⟨rfl, rfl⟩ | exact absurd rfl (h1 _) | exact absurd rfl (h2 _)

theorem releasesOf_releaseRenderTargets (side : RenderPosition)
    (slots : List (Option D3D9ProxySurface)) (r : Resource) :
    releasesOf r (D3DProxyDevice.releaseRenderTargets side slots)
      = (slots.map (fun o => holds Resource.surface o r)).sum ∧
    addRefsOf r (D3DProxyDevice.releaseRenderTargets side slots) = 0 := by
  induction slots with
  | nil => exact ⟨rfl, rfl⟩
  | cons o t ih =>
      have h := releasesOf_releaseIfSet side Resource.surface o r
      unfold D3DProxyDevice.releaseRenderTargets at ih ⊢
      simp only [List.flatMap_cons, releasesOf_append, addRefsOf_append, List.map_cons,
        List.sum_cons, h.1, h.2, ih.1, ih.2, and_self]

theorem releasesOf_releaseMapEntries {α : Type} (side : RenderPosition) (wrap : α → Resource)
    (m : List (Nat × Option α)) (r : Resource) :
    releasesOf r (D3DProxyDevice.releaseMapEntries side wrap m)
      = (m.map (fun p => holds wrap p.2 r)).sum ∧
    addRefsOf r (D3DProxyDevice.releaseMapEntries side wrap m) = 0 := by
  induction m with
  | nil => exact ⟨rfl, rfl⟩
  | cons o t ih =>
      have h := releasesOf_releaseIfSet side wrap o.2 r
      unfold D3DProxyDevice.releaseMapEntries at ih ⊢
      simp only [List.flatMap_cons, releasesOf_append, addRefsOf_append, List.map_cons,
        List.sum_cons, h.1, h.2, ih.1, ih.2, and_self]

theorem releasesOf_releaseSwapChains (side : RenderPosition)
    (chains : List D3D9ProxySwapChain) (r : Resource) :
    releasesOf r (D3DProxyDevice.releaseSwapChains side chains)
      = (chains.map (fun c => holds Resource.swapChain (some c) r)).sum ∧
    addRefsOf r (D3DProxyDevice.releaseSwapChains side chains) = 0 := by
  induction chains with
  | nil => exact ⟨rfl, rfl⟩
  | cons c t ih =>
      unfold D3DProxyDevice.releaseSwapChains at ih ⊢
      have h := releasesOf_releaseIfSet side Resource.swapChain (some c) r
      simp only [D3DProxyDevice.releaseIfSet, Option.map_some', Option.toList] at h
      rw [List.map_cons, ← List.singleton_append, releasesOf_append, addRefsOf_append, h.1,
        h.2, ih.1, ih.2]
      exact ⟨rfl, rfl⟩

theorem sum_map_set {α : Type} (f : α → Nat) (l : List α) (i : Nat) (x y : α)
    (h : l[i]? = some y) :
    ((l.set i x).map f).sum + f y = (l.map f).sum + f x := by
  induction l generalizing i with
  | nil => simp at h
  | cons a t ih =>
      cases i with
      | zero =>
          simp only [List.getElem?_cons_zero, Option.some.injEq] at h
          subst h
          simp only [List.set_cons_zero, List.map_cons, List.sum_cons]
          omega
      | succ j =>
          simp only [List.getElem?_cons_succ] at h
          have := ih j h
          simp only [List.set_cons_succ, List.map_cons, List.sum_cons]
          omega

theorem sum_map_replicate_none (n : Nat) (r : Resource) :
    ((List.replicate n (none : Option D3D9ProxySurface)).map
      (fun o => holds Resource.surface o r)).sum = 0 := by
  induction n with
  | zero => rfl
  | succ k ih => simp only [List.replicate_succ, List.map_cons, List.sum_cons, ih, holds_none]

theorem lookup_mapErase {α : Type} (m : List (Nat × α)) (k : Nat) :
    (D3DProxyDevice.mapErase m k).lookup k = none := by
  induction m with
  | nil => rfl
  | cons a t ih =>
      obtain ⟨a1, a2⟩ := a
      by_cases h : a1 = k
      · subst h
        simpa [D3DProxyDevice.mapErase] using ih
      · have hk : (k == a1) = false := by simpa using fun e => h e.symm
        simp only [D3DProxyDevice.mapErase, List.filter_cons, bne_iff_ne, ne_eq, h,
          not_false_eq_true, decide_True, if_true, if_false, List.lookup_cons, hk]
        simpa [D3DProxyDevice.mapErase] using ih

theorem lookup_eq_none_iff {α : Type} (m : List (Nat × α)) (k : Nat) :
    m.lookup k = none ↔ k ∉ m.map Prod.fst := by
  induction m with
  | nil => simp
  | cons a t ih =>
      obtain ⟨a1, a2⟩ := a
      by_cases h : k = a1
      · subst h
        simp [List.lookup_cons]
      · have hk : (k == a1) = false := by simpa using h
        simp [List.lookup_cons, hk, ih, h]

theorem mapErase_of_lookup_none {α : Type} (m : List (Nat × α)) (k : Nat)
    (h : m.lookup k = none) : D3DProxyDevice.mapErase m k = m := by
  rw [lookup_eq_none_iff] at h
  unfold D3DProxyDevice.mapErase
  rw [List.filter_eq_self]
  intro p hp
  simp only [bne_iff_ne, ne_eq]
  intro e
  exact h (List.mem_map.2 ⟨p, hp, e⟩)

theorem sum_map_mapErase {α : Type} (f : α → Nat) (m : List (Nat × α)) (k : Nat) (v : α)
    (hnd : (m.map Prod.fst).Nodup) (hl : m.lookup k = some v) :
    ((D3DProxyDevice.mapErase m k).map (fun p => f p.2)).sum + f v
      = (m.map (fun p => f p.2)).sum := by
  induction m with
  | nil => simp at hl
  | cons a t ih =>
      obtain ⟨a1, a2⟩ := a
      simp only [List.map_cons, List.nodup_cons] at hnd
      by_cases h : k = a1
      · subst h
        simp only [List.lookup_cons, beq_self_eq_true, Option.some.injEq] at hl
        subst hl
        have hnone : t.lookup k = none := (lookup_eq_none_iff t k).2 hnd.1
        have ht := mapErase_of_lookup_none t k hnone
        unfold D3DProxyDevice.mapErase at ht ⊢
        simp only [List.filter_cons, bne_self_eq_false, Bool.false_eq_true, if_true, if_false, ht,
          List.map_cons, List.sum_cons]
        omega
      · have hk : (k == a1) = false := by simpa using h
        simp only [List.lookup_cons, hk] at hl
        have := ih hnd.2 hl
        have hne : (a1 != k) = true := by simpa using fun e => h e.symm
        unfold D3DProxyDevice.mapErase at this ⊢
        simp only [List.filter_cons, hne, if_true, if_false, List.map_cons, List.sum_cons]
        omega

theorem keys_mapErase {α : Type} (m : List (Nat × α)) (k : Nat)
    (hnd : (m.map Prod.fst).Nodup) : ((D3DProxyDevice.mapErase m k).map Prod.fst).Nodup := by
  unfold D3DProxyDevice.mapErase
  exact hnd.sublist ((List.filter_sublist m).map Prod.fst)

theorem keys_append {α : Type} (m : List (Nat × α)) (k : Nat) (v : α)
    (hnd : (m.map Prod.fst).Nodup) (hl : m.lookup k = none) :
    ((m ++ [(k, v)]).map Prod.fst).Nodup := by
  rw [lookup_eq_none_iff] at hl
  rw [List.map_append, List.nodup_append]
  refine ⟨hnd, by simp, ?_⟩
  intro a ha hb
  simp only [List.map_cons, List.map_nil, List.mem_singleton] at hb
  subst hb
  exact hl ha

theorem mapInsert_of_lookup_none {α : Type} (m : List (Nat × α)) (k : Nat) (v : α)
    (hl : m.lookup k = none) : D3DProxyDevice.mapInsert m k v = (m ++ [(k, v)], true) := by
  simp [D3DProxyDevice.mapInsert, hl]

theorem lookup_append_singleton {α : Type} (m : List (Nat × α)) (k j : Nat) (v : α) :
    (m ++ [(k, v)]).lookup j
      = match m.lookup j with
        | some x => some x
        | none => if j = k then some v else none := by
  induction m with
  | nil =>
      by_cases h : j = k
      · subst h; simp [List.lookup]
      · have hb : (j == k) = false := by simpa using h
        simp [List.lookup, hb, h]
  | cons a t ih =>
      obtain ⟨a1, a2⟩ := a
      by_cases h : j = a1
      · subst h; simp [List.lookup_cons]
      · have hb : (j == a1) = false := by simpa using h
        simp only [List.cons_append, List.lookup_cons, hb, ih]

theorem lookup_mapErase_ne {α : Type} (m : List (Nat × α)) (k j : Nat) (h : j ≠ k) :
    (D3DProxyDevice.mapErase m k).lookup j = m.lookup j := by
  induction m with
  | nil => rfl
  | cons a t ih =>
      obtain ⟨a1, a2⟩ := a
      unfold D3DProxyDevice.mapErase at ih ⊢
      by_cases h1 : a1 = k
      · subst h1
        have hb : (j == a1) = false := by simpa using h
        simp only [List.filter_cons, bne_self_eq_false, Bool.false_eq_true, if_false,
          List.lookup_cons, hb, ih]
      · have hne : (a1 != k) = true := by simpa using h1
        simp only [List.filter_cons, hne, if_true, List.lookup_cons, ih]

theorem lookup_rebind {α : Type} (m : List (Nat × α)) (k j : Nat) (v : α) :
    (D3DProxyDevice.mapErase m k ++ [(k, v)]).lookup j
      = if j = k then some v else m.lookup j := by
  rw [lookup_append_singleton]
  by_cases h : j = k
  · subst h
    simp [lookup_mapErase]
  · rw [lookup_mapErase_ne m k j h, if_neg h]
    cases m.lookup j <;> simp [h]

/-! ## Lemmas on the binding setters -/

theorem setRenderTarget_eq (dev : Device) (i : Nat) (p : Option D3D9ProxySurface)
    (s : D3DProxyDevice) (log : Log) :
    s.SetRenderTarget dev i p log
      = if p = none ∧ i = 0 then some (D3DERR_INVALIDCALL, s, log)
        else if dev log.length
            (.SetRenderTarget i (p.bind fun rt => rt.actualFor s.m_currentRenderingSide))
              = D3D_OK then
          (s.m_activeRenderTargets[i]?).map fun pOld =>
            (D3D_OK,
              { s with
                m_bActiveViewportIsDefault := true,
                m_activeRenderTargets := s.m_activeRenderTargets.set i p },
              log ++ [⟨s.m_currentRenderingSide,
                  .SetRenderTarget i (p.bind fun rt => rt.actualFor s.m_currentRenderingSide)⟩]
                ++ D3DProxyDevice.releaseIfSet s.m_currentRenderingSide .surface pOld
                ++ D3DProxyDevice.addRefIfSet s.m_currentRenderingSide .surface p)
        else
          some (dev log.length
              (.SetRenderTarget i (p.bind fun rt => rt.actualFor s.m_currentRenderingSide)),
            s,
            log ++ [⟨s.m_currentRenderingSide,
              .SetRenderTarget i (p.bind fun rt => rt.actualFor s.m_currentRenderingSide)⟩]) := by
  unfold D3DProxyDevice.SetRenderTarget
  cases p with
  | none =>
      by_cases hi : i = 0
      · subst hi
        have hne : ¬ (D3DERR_INVALIDCALL = D3D_OK) := by decide
        simp only [if_true, and_self, if_neg hne]
      · simp only [hi, if_false, and_false, Option.none_bind]
        by_cases hok : dev log.length (.SetRenderTarget i none) = D3D_OK
        · rw [if_pos hok, if_pos hok]
          cases hold : s.m_activeRenderTargets[i]? with
          | none => rfl
          | some pOld =>
              simp only [Option.map_some', hok, D3DProxyDevice.releaseIfSet,
                D3DProxyDevice.addRefIfSet]
        · rw [if_neg hok, if_neg hok]
  | some rt =>
      simp only [reduceCtorEq, false_and, if_false, Option.some_bind]
      generalize s.m_currentRenderingSide = side
      cases side <;> simp only [D3D9ProxySurface.actualFor] <;>
        split_ifs with hok <;> first
          | rfl
          | (cases hold : s.m_activeRenderTargets[i]? with
              | none => rfl
              | some pOld =>
                  simp only [Option.map_some', hok, D3DProxyDevice.releaseIfSet,
                    D3DProxyDevice.addRefIfSet])

theorem applySetter_effect (dev : Device) (c : SetterCall) (s s2 : D3DProxyDevice)
    (log log2 : Log) (hr : HRESULT) (hcap : s.m_pCapturingStateTo = none)
    (hk : s.keysDistinct) (h : s.applySetter dev c log = some (hr, s2, log2)) :
    s2.m_pCapturingStateTo = none ∧ s2.keysDistinct ∧
    ∀ r : Resource,
      if c.succeeded hr then
        refBalance log2 r + holds id (s.oldResource c) r
            = refBalance log r + holds id c.newResource r ∧
          s2.slotCount r + holds id (s.oldResource c) r
            = s.slotCount r + holds id c.newResource r
      else refBalance log2 r = refBalance log r ∧ s2.slotCount r = s.slotCount r := by
  cases c with
  | SetIndices p =>
      simp only [D3DProxyDevice.applySetter, Option.some.injEq, D3DProxyDevice.SetIndices,
        hcap] at h
      split_ifs at h with hs <;> simp only [Prod.mk.injEq] at h <;> obtain ⟨rfl, rfl, rfl⟩ := h
      · refine ⟨rfl, hk, fun r => ?_⟩
        simp only [SetterCall.succeeded, hs, if_true, refBalance_append,
          refBalance_releaseIfSet, refBalance_addRefIfSet, D3DProxyDevice.slotCount,
          SetterCall.newResource, D3DProxyDevice.oldResource, holds_map]
        rw [refBalance_call _ _ _ (by intro x; simp) (by intro x; simp)]
        constructor <;> omega
      · refine ⟨hcap, hk, fun r => ?_⟩
        simp only [SetterCall.succeeded, hs, refBalance_append]
        rw [refBalance_call _ _ _ (by intro x; simp) (by intro x; simp)]
        simp
  | SetVertexDeclaration p =>
      simp only [D3DProxyDevice.applySetter, Option.some.injEq,
        D3DProxyDevice.SetVertexDeclaration, hcap] at h
      split_ifs at h with hs <;> simp only [Prod.mk.injEq] at h <;> obtain ⟨rfl, rfl, rfl⟩ := h
      · refine ⟨rfl, hk, fun r => ?_⟩
        simp only [SetterCall.succeeded, hs, if_true, refBalance_append,
          refBalance_releaseIfSet, refBalance_addRefIfSet, D3DProxyDevice.slotCount,
          SetterCall.newResource, D3DProxyDevice.oldResource, holds_map]
        rw [refBalance_call _ _ _ (by intro x; simp) (by intro x; simp)]
        constructor <;> omega
      · refine ⟨hcap, hk, fun r => ?_⟩
        simp only [SetterCall.succeeded, hs, refBalance_append]
        rw [refBalance_call _ _ _ (by intro x; simp) (by intro x; simp)]
        simp
  | SetVertexShader p =>
      simp only [D3DProxyDevice.applySetter, Option.some.injEq,
        D3DProxyDevice.SetVertexShader, hcap] at h
      split_ifs at h with hs <;> simp only [Prod.mk.injEq] at h <;> obtain ⟨rfl, rfl, rfl⟩ := h
      · refine ⟨rfl, hk, fun r => ?_⟩
        simp only [SetterCall.succeeded, hs, if_true, refBalance_append,
          refBalance_releaseIfSet, refBalance_addRefIfSet, D3DProxyDevice.slotCount,
          SetterCall.newResource, D3DProxyDevice.oldResource, holds_map]
        rw [refBalance_call _ _ _ (by intro x; simp) (by intro x; simp),
          refBalance_call _ _ _ (by intro x; simp) (by intro x; simp)]
        constructor <;> omega
      · refine ⟨hcap, hk, fun r => ?_⟩
        simp only [SetterCall.succeeded, hs, refBalance_append]
        rw [refBalance_call _ _ _ (by intro x; simp) (by intro x; simp)]
        simp
  | SetPixelShader p =>
      simp only [D3DProxyDevice.applySetter, Option.some.injEq,
        D3DProxyDevice.SetPixelShader, hcap] at h
      split_ifs at h with hs <;> simp only [Prod.mk.injEq] at h <;> obtain ⟨rfl, rfl, rfl⟩ := h
      · refine ⟨rfl, hk, fun r => ?_⟩
        simp only [SetterCall.succeeded, hs, if_true, refBalance_append,
          refBalance_releaseIfSet, refBalance_addRefIfSet, D3DProxyDevice.slotCount,
          SetterCall.newResource, D3DProxyDevice.oldResource, holds_map]
        rw [refBalance_call _ _ _ (by intro x; simp) (by intro x; simp),
          refBalance_call _ _ _ (by intro x; simp) (by intro x; simp)]
        constructor <;> omega
      · refine ⟨hcap, hk, fun r => ?_⟩
        simp only [SetterCall.succeeded, hs, refBalance_append]
        rw [refBalance_call _ _ _ (by intro x; simp) (by intro x; simp)]
        simp
  | SetDepthStencilSurface p =>
      simp only [D3DProxyDevice.applySetter, Option.some.injEq,
        D3DProxyDevice.SetDepthStencilSurface] at h
      split_ifs at h with hs <;> simp only [Prod.mk.injEq] at h <;> obtain ⟨rfl, rfl, rfl⟩ := h
      · refine ⟨hcap, hk, fun r => ?_⟩
        simp only [SetterCall.succeeded, hs, if_true, refBalance_append,
          refBalance_releaseIfSet, refBalance_addRefIfSet, D3DProxyDevice.slotCount,
          SetterCall.newResource, D3DProxyDevice.oldResource, holds_map]
        rw [refBalance_call _ _ _ (by intro x; simp) (by intro x; simp)]
        constructor <;> omega
      · refine ⟨hcap, hk, fun r => ?_⟩
        simp only [SetterCall.succeeded, hs, refBalance_append]
        rw [refBalance_call _ _ _ (by intro x; simp) (by intro x; simp)]
        simp
  | SetTexture Stage p =>
      simp only [D3DProxyDevice.applySetter, Option.some.injEq,
        D3DProxyDevice.SetTexture, hcap] at h
      cases hl : s.m_activeTextureStages.lookup Stage with
      | none =>
          simp only [hl, mapInsert_of_lookup_none _ _ _ hl, if_true] at h
          split_ifs at h with hs <;> simp only [Prod.mk.injEq] at h <;>
            obtain ⟨rfl, rfl, rfl⟩ := h
          · refine ⟨rfl, ⟨keys_append _ _ _ hk.1 hl, hk.2⟩, fun r => ?_⟩
            simp only [SetterCall.succeeded, hs, if_true, refBalance_append,
              refBalance_addRefIfSet, D3DProxyDevice.slotCount,
              SetterCall.newResource, D3DProxyDevice.oldResource, holds_map, hl,
              List.map_append, List.sum_append, List.map_cons, List.map_nil, List.sum_cons,
              List.sum_nil, join_some_eq, join_none_eq, holds_none]
            rw [refBalance_call _ _ _ (by intro x; simp) (by intro x; simp)]
            constructor <;> omega
          · refine ⟨hcap, hk, fun r => ?_⟩
            simp only [SetterCall.succeeded, hs, refBalance_append]
            rw [refBalance_call _ _ _ (by intro x; simp) (by intro x; simp)]
            simp
      | some pOld =>
          simp only [hl, mapInsert_of_lookup_none _ _ _ (lookup_mapErase _ _), if_true] at h
          split_ifs at h with hs <;> simp only [Prod.mk.injEq] at h <;>
            obtain ⟨rfl, rfl, rfl⟩ := h
          · refine ⟨rfl, ⟨keys_append _ _ _ (keys_mapErase _ _ hk.1) (lookup_mapErase _ _), hk.2⟩, fun r => ?_⟩
            have hsum := sum_map_mapErase (fun o => holds Resource.texture o r) _ _ _
              hk.1 hl
            simp only [] at hsum
            simp only [SetterCall.succeeded, hs, if_true, refBalance_append,
              refBalance_releaseIfSet,
              refBalance_addRefIfSet, D3DProxyDevice.slotCount,
              SetterCall.newResource, D3DProxyDevice.oldResource, holds_map, hl,
              List.map_append, List.sum_append, List.map_cons, List.map_nil, List.sum_cons,
              List.sum_nil, join_some_eq, join_none_eq, holds_none]
            rw [refBalance_call _ _ _ (by intro x; simp) (by intro x; simp)]
            constructor <;> omega
          · refine ⟨hcap, hk, fun r => ?_⟩
            simp only [SetterCall.succeeded, hs, refBalance_append]
            rw [refBalance_call _ _ _ (by intro x; simp) (by intro x; simp)]
            simp
  | SetStreamSource n p off stride =>
      simp only [D3DProxyDevice.applySetter, Option.some.injEq,
        D3DProxyDevice.SetStreamSource, hcap] at h
      cases hl : s.m_activeVertexBuffers.lookup n with
      | none =>
          simp only [hl, mapInsert_of_lookup_none _ _ _ hl, if_true] at h
          split_ifs at h with hs <;> simp only [Prod.mk.injEq] at h <;>
            obtain ⟨rfl, rfl, rfl⟩ := h
          · refine ⟨rfl, ⟨hk.1, keys_append _ _ _ hk.2 hl⟩, fun r => ?_⟩
            simp only [SetterCall.succeeded, hs, if_true, refBalance_append,
              refBalance_addRefIfSet, D3DProxyDevice.slotCount,
              SetterCall.newResource, D3DProxyDevice.oldResource, holds_map, hl,
              List.map_append, List.sum_append, List.map_cons, List.map_nil, List.sum_cons,
              List.sum_nil, join_some_eq, join_none_eq, holds_none]
            rw [refBalance_call _ _ _ (by intro x; simp) (by intro x; simp)]
            constructor <;> omega
          · refine ⟨hcap, hk, fun r => ?_⟩
            simp only [SetterCall.succeeded, hs, refBalance_append]
            rw [refBalance_call _ _ _ (by intro x; simp) (by intro x; simp)]
            simp
      | some pOld =>
          simp only [hl, mapInsert_of_lookup_none _ _ _ (lookup_mapErase _ _), if_true] at h
          split_ifs at h with hs hsame <;> simp only [Prod.mk.injEq] at h <;>
            obtain ⟨rfl, rfl, rfl⟩ := h
          · refine ⟨hcap, hk, fun r => ?_⟩
            simp only [SetterCall.succeeded, hs, if_true, refBalance_append,
              SetterCall.newResource, D3DProxyDevice.oldResource, holds_map, hl,
              join_some_eq, hsame]
            rw [refBalance_call _ _ _ (by intro x; simp) (by intro x; simp)]
            constructor <;> first | rfl | omega | simp
          · refine ⟨rfl, ⟨hk.1, keys_append _ _ _ (keys_mapErase _ _ hk.2) (lookup_mapErase _ _)⟩, fun r => ?_⟩
            have hsum := sum_map_mapErase (fun o => holds Resource.vertexBuffer o r) _ _ _
              hk.2 hl
            simp only [] at hsum
            simp only [SetterCall.succeeded, hs, if_true, refBalance_append,
              refBalance_releaseIfSet,
              refBalance_addRefIfSet, D3DProxyDevice.slotCount,
              SetterCall.newResource, D3DProxyDevice.oldResource, holds_map, hl,
              List.map_append, List.sum_append, List.map_cons, List.map_nil, List.sum_cons,
              List.sum_nil, join_some_eq, join_none_eq, holds_none]
            rw [refBalance_call _ _ _ (by intro x; simp) (by intro x; simp)]
            constructor <;> omega
          · refine ⟨hcap, hk, fun r => ?_⟩
            simp only [SetterCall.succeeded, hs, refBalance_append]
            rw [refBalance_call _ _ _ (by intro x; simp) (by intro x; simp)]
            simp
  | SetRenderTarget i p =>
      simp only [D3DProxyDevice.applySetter, setRenderTarget_eq] at h
      split_ifs at h with h0 hok
      · simp only [Option.some.injEq, Prod.mk.injEq] at h
        obtain ⟨rfl, rfl, rfl⟩ := h
        refine ⟨hcap, hk, fun r => ?_⟩
        have hne : ¬ (D3DERR_INVALIDCALL = D3D_OK) := by decide
        simp [SetterCall.succeeded, hne]
      · cases hold : s.m_activeRenderTargets[i]? with
        | none => simp [hold] at h
        | some pOld =>
            simp only [hold, Option.map_some', Option.some.injEq, Prod.mk.injEq] at h
            obtain ⟨rfl, rfl, rfl⟩ := h
            refine ⟨hcap, hk, fun r => ?_⟩
            have hsum := sum_map_set (fun o => holds Resource.surface o r) _ i p pOld hold
            simp only [] at hsum
            simp only [SetterCall.succeeded, decide_True, if_true, refBalance_append,
              refBalance_releaseIfSet, refBalance_addRefIfSet, D3DProxyDevice.slotCount,
              SetterCall.newResource, D3DProxyDevice.oldResource, holds_map, hold,
              join_some_eq]
            rw [refBalance_call _ _ _ (by intro x; simp) (by intro x; simp)]
            constructor <;> omega
      · simp only [Option.some.injEq, Prod.mk.injEq] at h
        obtain ⟨rfl, rfl, rfl⟩ := h
        refine ⟨hcap, hk, fun r => ?_⟩
        simp only [SetterCall.succeeded, hok, decide_False, refBalance_append]
        rw [refBalance_call _ _ _ (by intro x; simp) (by intro x; simp)]
        simp

theorem applySetter_balanced (dev : Device) (c : SetterCall) (s s2 : D3DProxyDevice)
    (log log2 : Log) (hr : HRESULT) (hcap : s.m_pCapturingStateTo = none)
    (hk : s.keysDistinct) (hb : Balanced s log)
    (h : s.applySetter dev c log = some (hr, s2, log2)) :
    s2.m_pCapturingStateTo = none ∧ s2.keysDistinct ∧ Balanced s2 log2 := by
  obtain ⟨h1, h2, h3⟩ := applySetter_effect dev c s s2 log log2 hr hcap hk h
  refine ⟨h1, h2, fun r => ?_⟩
  have hr3 := h3 r
  have hbr := hb r
  split_ifs at hr3
  · omega
  · omega

theorem runSetters_balanced (dev : Device) (cs : List SetterCall) :
    ∀ (s s2 : D3DProxyDevice) (log log2 : Log), s.m_pCapturingStateTo = none →
      s.keysDistinct → Balanced s log → runSetters dev cs s log = some (s2, log2) →
      s2.m_pCapturingStateTo = none ∧ s2.keysDistinct ∧ Balanced s2 log2 := by
  induction cs with
  | nil =>
      intro s s2 log log2 hcap hk hb h
      simp only [runSetters, Option.some.injEq, Prod.mk.injEq] at h
      obtain ⟨rfl, rfl⟩ := h
      exact ⟨hcap, hk, hb⟩
  | cons c cs ih =>
      intro s s2 log log2 hcap hk hb h
      simp only [runSetters] at h
      cases hstep : s.applySetter dev c log with
      | none => simp [hstep] at h
      | some res =>
          obtain ⟨hr, s1, log1⟩ := res
          simp only [hstep] at h
          obtain ⟨h1, h2, h3⟩ := applySetter_balanced dev c s s1 log log1 hr hcap hk hb hstep
          exact ih s1 s2 log1 log2 h1 h2 h3 h

theorem balanced_ctor (raw : D3DProxyDevice) (defaultInfo : HMDisplayInfo)
    (maxRenderTargets : Nat) :
    (D3DProxyDevice.ctor raw defaultInfo maxRenderTargets).m_pCapturingStateTo = none ∧
    (D3DProxyDevice.ctor raw defaultInfo maxRenderTargets).keysDistinct ∧
    Balanced (D3DProxyDevice.ctor raw defaultInfo maxRenderTargets) [] := by
  refine ⟨rfl, ⟨List.nodup_nil, List.nodup_nil⟩, fun r => ?_⟩
  simp only [refBalance_nil, D3DProxyDevice.slotCount, D3DProxyDevice.ctor,
    sum_map_replicate_none, holds_none, List.map_nil, List.sum_nil]
  rfl

theorem applySetter_isSome (dev : Device) (c : SetterCall) (s : D3DProxyDevice) (log : Log)
    (h : ∀ i p, c = .SetRenderTarget i p → i < s.m_activeRenderTargets.length) :
    (s.applySetter dev c log).isSome = true := by
  cases c with
  | SetRenderTarget i p =>
      obtain ⟨pOld, hold⟩ : ∃ pOld, s.m_activeRenderTargets[i]? = some pOld :=
        ⟨_, List.getElem?_eq_getElem (h i p rfl)⟩
      simp only [D3DProxyDevice.applySetter, setRenderTarget_eq, hold, Option.map_some']
      split_ifs <;> rfl
  | _ => rfl

theorem setRenderTarget_isSome (dev : Device) (i : Nat) (p : Option D3D9ProxySurface)
    (s : D3DProxyDevice) (log : Log) (h : i < s.m_activeRenderTargets.length) :
    (s.SetRenderTarget dev i p log).isSome = true :=
  applySetter_isSome dev (.SetRenderTarget i p) s log
    (fun j q e => by cases e; exact h)

theorem withCapture_self (s : D3DProxyDevice) (sb : D3D9ProxyStateBlock)
    (h : s.m_pCapturingStateTo = some sb) : s.withCapture sb = s := by
  cases s
  simp only at h
  subst h
  rfl

theorem setTransform_capture (dev : Device) (s : D3DProxyDevice) (log : Log)
    (sb : D3D9ProxyStateBlock) (hcap : s.m_pCapturingStateTo = some sb)
    (State : D3DTRANSFORMSTATETYPE) (pMatrix : Option D3DXMATRIX)
    (hState : State = .D3DTS_VIEW ∨ State = .D3DTS_PROJECTION) :
    ∃ sb2, s.SetTransform dev State pMatrix log
      = (dev log.length
          (.SetTransform State (s.derivedTransform State pMatrix s.m_currentRenderingSide)),
          s.withCapture sb2,
          log ++ [⟨s.m_currentRenderingSide,
            .SetTransform State
              (s.derivedTransform State pMatrix s.m_currentRenderingSide)⟩]) := by
  obtain ⟨side⟩ := s
  simp only at hcap
  subst hcap
  rcases hState with rfl | rfl <;> cases pMatrix with
  | none => cases side <;> exact ⟨_, rfl⟩
  | some M =>
      by_cases hM : M = 1 <;> cases side <;>
        simp only [D3DProxyDevice.SetTransform, D3DProxyDevice.derivedTransform,
          D3DProxyDevice.eyeAdjustmentFor, D3DXMatrixIsIdentity, D3DXMatrixIdentity, hM,
          decide_True, decide_False, if_true, if_false, Bool.false_eq_true] <;>
        exact ⟨_, rfl⟩

/-! ## Lemmas on teardown and restore -/

theorem releaseEverything_state (s : D3DProxyDevice) (log : Log) :
    (s.ReleaseEverything log).1.bindingsEmpty ∧
    (s.ReleaseEverything log).1.hudFont = none ∧
    (s.ReleaseEverything log).1.m_activeRenderTargets.length
      = s.m_activeRenderTargets.length := by
  refine ⟨⟨?_, rfl, rfl, rfl, rfl, rfl, rfl, rfl, rfl⟩, rfl, ?_⟩
  · intro o ho
    simp only [D3DProxyDevice.ReleaseEverything, List.mem_map] at ho
    obtain ⟨_, _, rfl⟩ := ho
    rfl
  · simp [D3DProxyDevice.ReleaseEverything]

theorem releaseEverything_log (s : D3DProxyDevice) (log : Log) :
    ∃ evs, (s.ReleaseEverything log).2 = log ++ evs ∧
      ∀ r, releasesOf r evs = s.heldCount r ∧ addRefsOf r evs = 0 := by
  refine ⟨D3DProxyDevice.releaseIfSet s.m_currentRenderingSide .font s.hudFont
     ++ [⟨s.m_currentRenderingSide, .ReleaseResources⟩]
     ++ D3DProxyDevice.releaseIfSet s.m_currentRenderingSide (fun _ => Resource.stateBlock)
          s.m_pCapturingStateTo
     ++ D3DProxyDevice.releaseRenderTargets s.m_currentRenderingSide s.m_activeRenderTargets
     ++ D3DProxyDevice.releaseMapEntries s.m_currentRenderingSide .texture
          s.m_activeTextureStages
     ++ D3DProxyDevice.releaseMapEntries s.m_currentRenderingSide .vertexBuffer
          s.m_activeVertexBuffers
     ++ D3DProxyDevice.releaseIfSet s.m_currentRenderingSide .surface
          s.m_pActiveStereoDepthStencil
     ++ D3DProxyDevice.releaseIfSet s.m_currentRenderingSide .indexBuffer s.m_pActiveIndicies
     ++ D3DProxyDevice.releaseIfSet s.m_currentRenderingSide .pixelShader
          s.m_pActivePixelShader
     ++ D3DProxyDevice.releaseIfSet s.m_currentRenderingSide .vertexShader
          s.m_pActiveVertexShader
     ++ D3DProxyDevice.releaseIfSet s.m_currentRenderingSide .vertexDeclaration
          s.m_pActiveVertexDeclaration, ?_, ?_⟩
  · have hsb : (if s.m_pCapturingStateTo.isSome
          then [(⟨s.m_currentRenderingSide, .Release .stateBlock⟩ : Event)] else [])
        = D3DProxyDevice.releaseIfSet s.m_currentRenderingSide (fun _ => Resource.stateBlock)
            s.m_pCapturingStateTo := by
      cases s.m_pCapturingStateTo <;> rfl
    simp only [D3DProxyDevice.ReleaseEverything, hsb, List.append_assoc]
  · intro r
    simp only [releasesOf_append, addRefsOf_append,
      (releasesOf_releaseIfSet _ _ _ r).1, (releasesOf_releaseIfSet _ _ _ r).2,
      (releasesOf_releaseRenderTargets _ _ r).1, (releasesOf_releaseRenderTargets _ _ r).2,
      (releasesOf_releaseMapEntries _ _ _ r).1, (releasesOf_releaseMapEntries _ _ _ r).2,
      (releasesOf_call _ .ReleaseResources r (by intro x; simp) (by intro x; simp)).1,
      (releasesOf_call _ .ReleaseResources r (by intro x; simp) (by intro x; simp)).2,
      D3DProxyDevice.heldCount, D3DProxyDevice.slotCount]
    constructor <;> first | rfl | omega | simp

theorem reset_failed (dev : Device) (ans : RestoreAnswers) (pPresentationParameters : Nat)
    (s : D3DProxyDevice) (log : Log)
    (hfail : ∀ k, dev k (.Reset pPresentationParameters) ≠ D3D_OK) :
    ∃ s2 evs,
      s.Reset dev ans pPresentationParameters log
        = some (dev (log ++ evs).length (.Reset pPresentationParameters), s2,
            log ++ evs ++ [⟨s.m_currentRenderingSide, .Reset pPresentationParameters⟩]) ∧
      s2.bindingsEmpty ∧ s2.m_activeSwapChains = [] ∧
      (∀ r, releasesOf r evs
          = s.heldCount r
            + (s.m_activeSwapChains.map (fun c => holds Resource.swapChain (some c) r)).sum ∧
        addRefsOf r evs = 0) := by
  obtain ⟨evs, hevs, hcount⟩ := releaseEverything_log s
    (if s.stereoView then log ++ [⟨s.m_currentRenderingSide, .StereoViewReleaseEverything⟩]
      else log)
  obtain ⟨hempty, -, -⟩ := releaseEverything_state s
    (if s.stereoView then log ++ [⟨s.m_currentRenderingSide, .StereoViewReleaseEverything⟩]
      else log)
  refine ⟨{ (s.ReleaseEverything (if s.stereoView
        then log ++ [⟨s.m_currentRenderingSide, .StereoViewReleaseEverything⟩]
        else log)).1 with m_bInBeginEndStateBlock := false, m_activeSwapChains := [] },
    (if s.stereoView then [⟨s.m_currentRenderingSide, .StereoViewReleaseEverything⟩] else [])
      ++ evs ++ D3DProxyDevice.releaseSwapChains s.m_currentRenderingSide s.m_activeSwapChains,
    ?_, hempty, rfl, ?_⟩
  · have hlog : (s.ReleaseEverything (if s.stereoView
          then log ++ [⟨s.m_currentRenderingSide, .StereoViewReleaseEverything⟩]
          else log)).2
          ++ D3DProxyDevice.releaseSwapChains s.m_currentRenderingSide s.m_activeSwapChains
        = log ++ ((if s.stereoView
              then [⟨s.m_currentRenderingSide, .StereoViewReleaseEverything⟩] else [])
            ++ evs
            ++ D3DProxyDevice.releaseSwapChains s.m_currentRenderingSide
                s.m_activeSwapChains) := by
      rw [hevs]
      split_ifs <;> simp only [List.append_assoc, List.nil_append]
    unfold D3DProxyDevice.Reset
    simp only [hlog]
    rw [if_neg (hfail _)]
  · intro r
    have hsc := releasesOf_releaseSwapChains s.m_currentRenderingSide s.m_activeSwapChains r
    have hpre : releasesOf r (if s.stereoView
          then [(⟨s.m_currentRenderingSide, .StereoViewReleaseEverything⟩ : Event)] else []) = 0 ∧
        addRefsOf r (if s.stereoView
          then [(⟨s.m_currentRenderingSide, .StereoViewReleaseEverything⟩ : Event)] else [])
          = 0 := by
      split_ifs <;> exact ⟨rfl, rfl⟩
    simp only [releasesOf_append, addRefsOf_append, hsc.1, hsc.2, hpre.1, hpre.2,
      (hcount r).1, (hcount r).2, and_true]
    omega

theorem setRenderTarget_leftSelected (dev : Device) (i : Nat) (p : Option D3D9ProxySurface)
    (s s2 : D3DProxyDevice) (log log2 : Log) (hr : HRESULT) (hl : s.leftSelected)
    (h : s.SetRenderTarget dev i p log = some (hr, s2, log2)) :
    s2.leftSelected ∧ s2.stereoView = s.stereoView := by
  rw [setRenderTarget_eq] at h
  split_ifs at h
  · simp only [Option.some.injEq, Prod.mk.injEq] at h
    obtain ⟨-, rfl, -⟩ := h
    exact ⟨hl, rfl⟩
  · cases hold : s.m_activeRenderTargets[i]? with
    | none => simp [hold] at h
    | some pOld =>
        simp only [hold, Option.map_some', Option.some.injEq, Prod.mk.injEq] at h
        obtain ⟨-, rfl, -⟩ := h
        exact ⟨hl, rfl⟩
  · simp only [Option.some.injEq, Prod.mk.injEq] at h
    obtain ⟨-, rfl, -⟩ := h
    exact ⟨hl, rfl⟩

theorem setDepthStencilSurface_leftSelected (dev : Device) (p : Option D3D9ProxySurface)
    (s : D3DProxyDevice) (log : Log) (hl : s.leftSelected) :
    (s.SetDepthStencilSurface dev p log).2.1.leftSelected ∧
    (s.SetDepthStencilSurface dev p log).2.1.stereoView = s.stereoView := by
  unfold D3DProxyDevice.SetDepthStencilSurface
  simp only []
  split_ifs <;> exact ⟨hl, rfl⟩

theorem onCreateOrRestore_leftSelected (dev : Device) (ans : RestoreAnswers)
    (s s2 : D3DProxyDevice) (log log2 : Log)
    (h : s.OnCreateOrRestore dev ans log = some (s2, log2)) :
    s2.leftSelected ∧ s2.stereoView = true := by
  unfold D3DProxyDevice.OnCreateOrRestore at h
  simp only [] at h
  split_ifs at h with h1 h2
  split at h
  · simp at h
  · rename_i chain0 hchain
    split at h
    · simp at h
    · rename_i hr3 s3 log3 hsrt
      have hs3 := setRenderTarget_leftSelected dev 0 _ _ s3 _ log3 hr3 ⟨rfl, rfl, rfl, rfl⟩ hsrt
      split at h
      · simp at h
      · rename_i bb hbb
        split at h
        · simp at h
        · rename_i s8 log8 hafter
          split_ifs at h with hsv
          simp only [Option.some.injEq, Prod.mk.injEq] at h
          obtain ⟨rfl, -⟩ := h
          refine ⟨?_, hsv⟩
          split_ifs at hafter with hds
          · split at hafter
            · simp at hafter
            · simp only [Option.some.injEq, Prod.mk.injEq] at hafter
              obtain ⟨rfl, -⟩ := hafter
              exact (setDepthStencilSurface_leftSelected dev ans.pTemp
                { s3 with m_LastViewportSet := ans.viewport } _ hs3.1).1
          · simp only [Option.some.injEq, Prod.mk.injEq] at hafter
            obtain ⟨rfl, -⟩ := hafter
            exact hs3.1

theorem onCreateOrRestore_returns (dev : Device) (ans : RestoreAnswers) (s : D3DProxyDevice)
    (log : Log) (bb pTemp : D3D9ProxySurface)
    (hsc : FAILED (dev log.length (.GetSwapChain 0)) = false)
    (hchains : s.m_activeSwapChains = [])
    (hrt : 0 < s.m_activeRenderTargets.length)
    (hbb : ans.pWrappedBackBuffer = some bb) (hTemp : ans.pTemp = some pTemp)
    (hsv : s.stereoView = true) :
    ∃ s2 log2, s.OnCreateOrRestore dev ans log = some (s2, log2) := by
  unfold D3DProxyDevice.OnCreateOrRestore
  simp only [hsc, hchains, hbb, hTemp, List.length_nil, ne_eq, not_true_eq_false,
    if_false, Bool.false_eq_true, List.nil_append, List.head?_cons]
  split
  · rename_i hnone
    have hsome := setRenderTarget_isSome dev 0 (some bb)
      { s with
        m_currentRenderingSide := .Left,
        m_pCurrentMatViewTransform := .Left,
        m_pCurrentView := .Left,
        m_pCurrentProjection := .Left,
        m_activeSwapChains := [⟨ans.pActualPrimarySwapChain, some bb⟩] }
      (log ++ [⟨.Left, .GetSwapChain 0⟩]) hrt
    rw [hnone] at hsome
    exact absurd hsome (by simp)
  · rename_i hr3 s3 log3 hsrt
    have hs3 := setRenderTarget_leftSelected dev 0 _ _ s3 _ log3 hr3 ⟨rfl, rfl, rfl, rfl⟩ hsrt
    have hsv3 : s3.stereoView = true := hs3.2.trans hsv
    split
    · rename_i hnone
      split_ifs at hnone
    · rename_i s8 log8 hafter
      have hsv8 : s8.stereoView = true := by
        split_ifs at hafter with hds
        · simp only [Option.some.injEq, Prod.mk.injEq] at hafter
          obtain ⟨rfl, -⟩ := hafter
          exact (setDepthStencilSurface_leftSelected dev (some pTemp)
            { s3 with m_LastViewportSet := ans.viewport } _ hs3.1).2.trans hsv3
        · simp only [Option.some.injEq, Prod.mk.injEq] at hafter
          obtain ⟨rfl, -⟩ := hafter
          exact hsv3
      rw [if_pos hsv8]
      exact ⟨_, _, rfl⟩

theorem reset_ok_leftSelected (dev : Device) (ans : RestoreAnswers)
    (pPresentationParameters : Nat) (s s2 : D3DProxyDevice) (log log2 : Log)
    (h : s.Reset dev ans pPresentationParameters log = some (D3D_OK, s2, log2)) :
    s2.leftSelected := by
  unfold D3DProxyDevice.Reset at h
  simp only [] at h
  generalize (if s.stereoView = true
    then log ++ [(⟨s.m_currentRenderingSide, .StereoViewReleaseEverything⟩ : Event)]
    else log) = log1 at h
  split_ifs at h with hok
  · split at h
    · simp at h
    · rename_i s4 log4 hrestore
      split_ifs at h
      simp only [Option.some.injEq, Prod.mk.injEq] at h
      obtain ⟨-, rfl, -⟩ := h
      exact (onCreateOrRestore_leftSelected dev ans _ _ _ _ hrestore).1
  · simp only [Option.some.injEq, Prod.mk.injEq] at h
    exact absurd h.1 hok

theorem reset_returns (dev : Device) (ans : RestoreAnswers) (pPresentationParameters : Nat)
    (s : D3DProxyDevice) (log : Log) (bb pTemp : D3D9ProxySurface)
    (hreset : ∀ k, dev k (.Reset pPresentationParameters) = D3D_OK)
    (hsc : ∀ k, FAILED (dev k (.GetSwapChain 0)) = false)
    (hrt : 0 < s.m_activeRenderTargets.length)
    (hbb : ans.pWrappedBackBuffer = some bb) (hTemp : ans.pTemp = some pTemp)
    (hsv : s.stereoView = true) :
    ∃ s2 log2, s.Reset dev ans pPresentationParameters log = some (D3D_OK, s2, log2) := by
  have hlen := (releaseEverything_state s
    (if s.stereoView then log ++ [⟨s.m_currentRenderingSide, .StereoViewReleaseEverything⟩]
      else log)).2.2
  obtain ⟨s4, log4, hrestore⟩ := onCreateOrRestore_returns dev ans
    { (s.ReleaseEverything (if s.stereoView
        then log ++ [⟨s.m_currentRenderingSide, .StereoViewReleaseEverything⟩]
        else log)).1 with m_bInBeginEndStateBlock := false, m_activeSwapChains := [] }
    ((s.ReleaseEverything (if s.stereoView
        then log ++ [⟨s.m_currentRenderingSide, .StereoViewReleaseEverything⟩]
        else log)).2
      ++ D3DProxyDevice.releaseSwapChains s.m_currentRenderingSide s.m_activeSwapChains
      ++ [⟨s.m_currentRenderingSide, .Reset pPresentationParameters⟩])
    bb pTemp (hsc _) rfl (by rw [← hlen] at hrt; exact hrt) hbb hTemp hsv
  have hsv4 := (onCreateOrRestore_leftSelected dev ans _ _ _ _ hrestore).2
  unfold D3DProxyDevice.Reset
  simp only [hreset, if_true, hrestore, hsv4]
  exact ⟨_, _, rfl⟩

/-! ## Convergence -/

/-- C11: for every stored convergence and every IPD, after `UpdateProjectionMatrices` the
stored convergence is `nearClippingPlaneDistance + 0.001` when it was at most the near-clip
distance (1) before the call (equality included) and is unchanged otherwise; it is strictly
greater than the near-clip distance and so not zero; and the eye projections are built with the
frustum asymmetry `((IPD/2) * nearClipDistance / convergence) * (|l| + |r|)` taken at that
stored value, whose absolute value is at most `|IPD/2| * (|l| + |r|)`. -/
theorem updateProjectionMatrices_guards_convergence (va : ViewAdjustment) (a : ℚ) :
    (va.UpdateProjectionMatrices a).convergence
      = (if va.convergence ≤ ViewAdjustment.nearClippingPlaneDistance
          then ViewAdjustment.nearClippingPlaneDistance + 1 / 1000 else va.convergence) ∧
    ViewAdjustment.nearClippingPlaneDistance < (va.UpdateProjectionMatrices a).convergence ∧
    (va.UpdateProjectionMatrices a).convergence ≠ 0 ∧
    (va.UpdateProjectionMatrices a).projectLeft
      = D3DXMatrixPerspectiveOffCenterLH
          (va.l + (va.UpdateProjectionMatrices a).frustumAsymmetry * LEFT_CONSTANT)
          (va.r + (va.UpdateProjectionMatrices a).frustumAsymmetry * LEFT_CONSTANT)
          (-(1 / 2) / a) ((1 / 2) / a) va.n va.f
        * D3DXMatrixTranslation (va.lensShift * LEFT_CONSTANT) 0 0 ∧
    (va.UpdateProjectionMatrices a).projectRight
      = D3DXMatrixPerspectiveOffCenterLH
          (va.l + (va.UpdateProjectionMatrices a).frustumAsymmetry * RIGHT_CONSTANT)
          (va.r + (va.UpdateProjectionMatrices a).frustumAsymmetry * RIGHT_CONSTANT)
          (-(1 / 2) / a) ((1 / 2) / a) va.n va.f
        * D3DXMatrixTranslation (va.lensShift * RIGHT_CONSTANT) 0 0 ∧
    |(va.UpdateProjectionMatrices a).frustumAsymmetry| ≤ |va.ipd / 2| * (|va.l| + |va.r|) := by
  have hgt := updateProjectionMatrices_convergence_gt va a
  obtain ⟨hc, hi, hl, hr, -⟩ := updateProjectionMatrices_fields va a
  refine ⟨hc, hgt, ?_, (updateProjectionMatrices_projections va a).1,
    (updateProjectionMatrices_projections va a).2, ?_⟩
  · intro h0
    rw [h0, ViewAdjustment.nearClippingPlaneDistance] at hgt
    norm_num at hgt
  · have hb := frustumAsymmetry_bound _ hgt
    rwa [hi, hl, hr] at hb

/-- C12 as stated does not hold: `Load` stores the configured convergence as it is. After
loading a configuration with convergence 1/2 into a constructed `ViewAdjustment` the stored
convergence is not greater than the near-clip distance, after loading convergence 20 it is
above `maxConvergence`, and `ChangeConvergence(-5)` on a constructed `ViewAdjustment` leaves a
convergence that is not greater than the near-clip distance. -/
theorem convergence_invariant_refuted :
    ¬ (ViewAdjustment.nearClippingPlaneDistance
        < (ViewAdjustment.created.Load false 1 (1 / 2) (64 / 1000) 0).convergence) ∧
    ¬ ((ViewAdjustment.created.Load false 1 20 (64 / 1000) 0).convergence
        ≤ (ViewAdjustment.created.Load false 1 20 (64 / 1000) 0).maxConvergence) ∧
    ¬ (ViewAdjustment.nearClippingPlaneDistance
        < (ViewAdjustment.created.ChangeConvergence (-5)).1.convergence) := by
  obtain ⟨hc, hmin, hmax⟩ := ctor_convergence ViewAdjustment.zeroed ⟨8 / 5, 3 / 20⟩ 1 false
  refine ⟨?_, ?_, ?_⟩
  · show ¬ ((1 : ℚ) < 1 / 2)
    norm_num
  · show ¬ ((20 : ℚ) ≤ ViewAdjustment.created.maxConvergence)
    rw [ViewAdjustment.created, hmax]
    norm_num
  · show ¬ ((1 : ℚ) < clamp (ViewAdjustment.created.convergence + -5)
      ViewAdjustment.created.minConvergence ViewAdjustment.created.maxConvergence)
    rw [ViewAdjustment.created, hc, hmin, hmax, clamp]
    norm_num

/-- C12, amended: with the bounds the constructor sets (`minConvergence = -10`,
`maxConvergence = 10`, which no method changes): after construction the convergence is 1.001;
after `ResetConvergence` it is 3; after `ChangeConvergence(toAdd)` it is the old value plus
`toAdd` clamped into `[-10, 10]`; after `Load` it is the configured value, whatever that is;
and after `UpdateProjectionMatrices` it is strictly greater than the near-clip distance, and
within `[-10, 10]` if it was before. -/
theorem convergence_bounds (raw va : ViewAdjustment) (displayInfo : HMDisplayInfo)
    (metersToWorldUnits : ℚ) (enableRoll cfgRollEnabled : Bool)
    (toAdd cfgWorldScaleFactor cfgConvergence cfgIpd aspectRatio : ℚ) (cfgStereoMode : Int)
    (hmin : va.minConvergence = -10) (hmax : va.maxConvergence = 10) :
    -- construction
    ((ViewAdjustment.ctor raw displayInfo metersToWorldUnits enableRoll).convergence
        = 1 + 1 / 1000 ∧
      (ViewAdjustment.ctor raw displayInfo metersToWorldUnits enableRoll).minConvergence
        = -10 ∧
      (ViewAdjustment.ctor raw displayInfo metersToWorldUnits enableRoll).maxConvergence
        = 10) ∧
    -- ResetConvergence
    (va.ResetConvergence.convergence = 3 ∧ va.ResetConvergence.minConvergence = -10 ∧
      va.ResetConvergence.maxConvergence = 10) ∧
    -- ChangeConvergence
    ((va.ChangeConvergence toAdd).1.convergence = max (-10) (min 10 (va.convergence + toAdd)) ∧
      -10 ≤ (va.ChangeConvergence toAdd).1.convergence ∧
      (va.ChangeConvergence toAdd).1.convergence ≤ 10 ∧
      (va.ChangeConvergence toAdd).1.minConvergence = -10 ∧
      (va.ChangeConvergence toAdd).1.maxConvergence = 10) ∧
    -- Load
    ((va.Load cfgRollEnabled cfgWorldScaleFactor cfgConvergence cfgIpd
        cfgStereoMode).convergence = cfgConvergence ∧
      (va.Load cfgRollEnabled cfgWorldScaleFactor cfgConvergence cfgIpd
        cfgStereoMode).minConvergence = -10 ∧
      (va.Load cfgRollEnabled cfgWorldScaleFactor cfgConvergence cfgIpd
        cfgStereoMode).maxConvergence = 10) ∧
    -- UpdateProjectionMatrices
    (ViewAdjustment.nearClippingPlaneDistance
        < (va.UpdateProjectionMatrices aspectRatio).convergence ∧
      (va.UpdateProjectionMatrices aspectRatio).minConvergence = -10 ∧
      (va.UpdateProjectionMatrices aspectRatio).maxConvergence = 10 ∧
      (-10 ≤ va.convergence → va.convergence ≤ 10 →
        -10 ≤ (va.UpdateProjectionMatrices aspectRatio).convergence ∧
        (va.UpdateProjectionMatrices aspectRatio).convergence ≤ 10)) := by
  obtain ⟨hc, -, -, -, hmin2, hmax2⟩ := updateProjectionMatrices_fields va aspectRatio
  refine ⟨ctor_convergence raw displayInfo metersToWorldUnits enableRoll,
    ⟨rfl, hmin, hmax⟩, ?_, ⟨rfl, hmin, hmax⟩,
    ⟨updateProjectionMatrices_convergence_gt va aspectRatio, hmin2.trans hmin, hmax2.trans hmax,
      ?_⟩⟩
  · have hrw : (va.ChangeConvergence toAdd).1.convergence
        = clamp (va.convergence + toAdd) (-10) 10 := by
      show clamp (va.convergence + toAdd) va.minConvergence va.maxConvergence = _
      rw [hmin, hmax]
    have hb := clamp_bounds (va.convergence + toAdd) (-10) 10 (by norm_num)
    refine ⟨?_, ?_, ?_, hmin, hmax⟩
    · rw [hrw, clamp_eq_max_min _ _ _ (by norm_num)]
    · rw [hrw]; exact hb.1
    · rw [hrw]; exact hb.2
  · intro h1 h2
    rw [hc, ViewAdjustment.nearClippingPlaneDistance]
    split_ifs <;> constructor <;> first | assumption | norm_num

/-- Witness of the amended C12: a constructed `ViewAdjustment`, `ChangeConvergence(20)` and
the load of a configuration with convergence 1/2. -/
theorem convergence_bounds_witness :
    ViewAdjustment.created.minConvergence = -10 ∧
    ViewAdjustment.created.maxConvergence = 10 ∧
    -10 ≤ (ViewAdjustment.created.ChangeConvergence 20).1.convergence ∧
    (ViewAdjustment.created.ChangeConvergence 20).1.convergence ≤ 10 ∧
    (ViewAdjustment.created.Load false 1 (1 / 2) (64 / 1000) 0).convergence = 1 / 2 :=
  have hmin := (ctor_convergence ViewAdjustment.zeroed ⟨8 / 5, 3 / 20⟩ 1 false).2.1
  have hmax := (ctor_convergence ViewAdjustment.zeroed ⟨8 / 5, 3 / 20⟩ 1 false).2.2
  have h := convergence_bounds ViewAdjustment.zeroed ViewAdjustment.created ⟨8 / 5, 3 / 20⟩ 1
    false false 20 1 (1 / 2) (64 / 1000) (8 / 5) 0 hmin hmax
  ⟨hmin, hmax, h.2.2.1.2.1, h.2.2.1.2.2.1, h.2.2.2.1.1⟩

/-! ## Binding of resources -/

/-- C13: for a slot `i` of the table and a non-null `rt`, `SetRenderTarget(i, rt)` returns
after issuing the single device call `SetRenderTarget(i, surface of rt for the active eye)`
(`getActualLeft()` when Left is active, `getActualRight()` when Right is active). If the device
answers `D3D_OK`, slot `i` records `rt`, the other slots are unchanged, the
viewport-is-default flag is true, the old content of the slot is released and `rt` gets one
`AddRef()`; otherwise the state is unchanged and nothing but the device call is logged. -/
theorem setRenderTarget_binds (dev : Device) (i : Nat) (rt : D3D9ProxySurface)
    (s : D3DProxyDevice) (log : Log) (hi : i < s.m_activeRenderTargets.length) :
    rt.actualFor .Left = rt.getActualLeft ∧ rt.actualFor .Right = rt.getActualRight ∧
    (dev log.length (.SetRenderTarget i (rt.actualFor s.m_currentRenderingSide)) = D3D_OK →
      s.SetRenderTarget dev i (some rt) log
        = some (D3D_OK,
            { s with
              m_bActiveViewportIsDefault := true,
              m_activeRenderTargets := s.m_activeRenderTargets.set i (some rt) },
            log ++ [⟨s.m_currentRenderingSide,
                .SetRenderTarget i (rt.actualFor s.m_currentRenderingSide)⟩]
              ++ D3DProxyDevice.releaseIfSet s.m_currentRenderingSide .surface
                  (s.m_activeRenderTargets[i]?).join
              ++ [⟨s.m_currentRenderingSide, .AddRef (.surface rt)⟩]) ∧
      (s.m_activeRenderTargets.set i (some rt))[i]? = some (some rt) ∧
      ∀ j, j ≠ i → (s.m_activeRenderTargets.set i (some rt))[j]? = s.m_activeRenderTargets[j]?) ∧
    (dev log.length (.SetRenderTarget i (rt.actualFor s.m_currentRenderingSide)) ≠ D3D_OK →
      s.SetRenderTarget dev i (some rt) log
        = some (dev log.length (.SetRenderTarget i (rt.actualFor s.m_currentRenderingSide)), s,
            log ++ [⟨s.m_currentRenderingSide,
              .SetRenderTarget i (rt.actualFor s.m_currentRenderingSide)⟩])) := by
  refine ⟨rfl, rfl, fun hok => ⟨?_, ?_, ?_⟩, fun hok => ?_⟩
  · rw [setRenderTarget_eq]
    simp only [reduceCtorEq, false_and, if_false, Option.some_bind, if_pos hok]
    obtain ⟨pOld, hold⟩ : ∃ pOld, s.m_activeRenderTargets[i]? = some pOld :=
      ⟨_, List.getElem?_eq_getElem hi⟩
    simp only [hold, Option.map_some', join_some_eq, D3DProxyDevice.addRefIfSet,
      Option.toList]
  · simp [List.getElem?_set, hi]
  · intro j hj
    rw [List.getElem?_set_ne (Ne.symm hj)]
  · rw [setRenderTarget_eq]
    simp only [reduceCtorEq, false_and, if_false, Option.some_bind, if_neg hok]

/-- Witness of C13: binding the stereo example surface to slot 0 while Right is active hands
its right instance to the device. -/
theorem setRenderTarget_binds_witness :
    0 < D3DProxyDevice.rightActive.m_activeRenderTargets.length ∧
    Device.allOk ([] : Log).length
      (.SetRenderTarget 0
        (exampleStereoSurface.actualFor D3DProxyDevice.rightActive.m_currentRenderingSide))
      = D3D_OK ∧
    D3DProxyDevice.rightActive.SetRenderTarget Device.allOk 0 (some exampleStereoSurface) []
      = some (D3D_OK,
          { D3DProxyDevice.rightActive with
            m_bActiveViewportIsDefault := true,
            m_activeRenderTargets :=
              D3DProxyDevice.rightActive.m_activeRenderTargets.set 0
                (some exampleStereoSurface) },
          [⟨.Right, .SetRenderTarget 0 (some 2)⟩,
           ⟨.Right, .Release (.surface exampleStereoSurface)⟩,
           ⟨.Right, .AddRef (.surface exampleStereoSurface)⟩]) :=
  ⟨by decide, rfl,
    ((setRenderTarget_binds Device.allOk 0 exampleStereoSurface D3DProxyDevice.rightActive []
      (by decide)).2.2.1 rfl).1⟩

/-- C14, evaluated where the code departs from it: from a constructed device four
successful setter calls reach the state `mixedBound`; a draw in that state switches to Right and
hands a null surface to the device for the mono render target in slot 1 and for the mono
depth-stencil; with Right active `SetDepthStencilSurface` and `SetRenderTarget` hand a null
surface to the device for a mono surface, while `SetTexture` hands over the left instance of a
mono texture. -/
theorem mono_surface_right_eye :
    -- the state `mixedBound` is reached from construction by four successful setter calls
    runSetters Device.allOk
        [.SetRenderTarget 0 (some exampleStereoSurface),
         .SetRenderTarget 1 (some exampleMonoTarget),
         .SetDepthStencilSurface (some exampleMonoDepthStencil),
         .SetTexture 0 (some exampleMonoTexture)]
        (D3DProxyDevice.ctor D3DProxyDevice.zeroed ⟨8 / 5, 3 / 20⟩ 2) []
      = some (D3DProxyDevice.mixedBound,
          [⟨.Left, .SetRenderTarget 0 (some 1)⟩, ⟨.Left, .AddRef (.surface exampleStereoSurface)⟩,
           ⟨.Left, .SetRenderTarget 1 (some 10)⟩, ⟨.Left, .AddRef (.surface exampleMonoTarget)⟩,
           ⟨.Left, .SetDepthStencilSurface (some 6)⟩,
           ⟨.Left, .AddRef (.surface exampleMonoDepthStencil)⟩,
           ⟨.Left, .SetTexture 0 (some 3)⟩, ⟨.Left, .AddRef (.texture exampleMonoTexture)⟩]) ∧
    -- a draw in that state switches to Right and hands null to the device for slot 1 and for
    -- the depth-stencil
    D3DProxyDevice.mixedBound.draw Device.allOk (.DrawPrimitive 4 0 2) []
      = some (D3D_OK, switchedState .Right D3DProxyDevice.mixedBound,
          [⟨.Left, .ApplyAllDirty .Left⟩, ⟨.Left, .Draw (.DrawPrimitive 4 0 2)⟩,
           ⟨.Right, .SetRenderTarget 0 (some 2)⟩, ⟨.Right, .SetRenderTarget 1 none⟩,
           ⟨.Right, .SetDepthStencilSurface none⟩, ⟨.Right, .ApplyAllStereoConstants .Right⟩,
           ⟨.Right, .Draw (.DrawPrimitive 4 0 2)⟩]) ∧
    -- with Right active, binding a mono depth-stencil hands null to the device
    D3DProxyDevice.rightActive.SetDepthStencilSurface Device.allOk
        (some exampleMonoDepthStencil) []
      = (D3D_OK,
          { D3DProxyDevice.rightActive with
            m_pActiveStereoDepthStencil := some exampleMonoDepthStencil },
          [⟨.Right, .SetDepthStencilSurface none⟩,
           ⟨.Right, .AddRef (.surface exampleMonoDepthStencil)⟩]) ∧
    -- with Right active, binding a mono render target hands null to the device
    D3DProxyDevice.rightActive.SetRenderTarget Device.allOk 1 (some exampleMonoTarget) []
      = some (D3D_OK,
          { D3DProxyDevice.rightActive with
            m_bActiveViewportIsDefault := true,
            m_activeRenderTargets := [some exampleStereoSurface, some exampleMonoTarget] },
          [⟨.Right, .SetRenderTarget 1 none⟩, ⟨.Right, .AddRef (.surface exampleMonoTarget)⟩]) ∧
    -- with Right active, binding a mono texture hands its left instance to the device
    D3DProxyDevice.rightActive.SetTexture Device.allOk 0 (some exampleMonoTexture) []
      = (D3D_OK,
          { D3DProxyDevice.rightActive with
            m_activeTextureStages := [(0, some exampleMonoTexture)] },
          [⟨.Right, .SetTexture 0 (some 3)⟩, ⟨.Right, .AddRef (.texture exampleMonoTexture)⟩]) :=
  ⟨rfl, rfl, rfl, rfl, rfl⟩

/-- C15: a null source or a null destination in `UpdateSurface`, `UpdateTexture`,
`StretchRect` and `GetRenderTargetData`, a null destination buffer in `ProcessVertices` and a
null render target for slot 0 in `SetRenderTarget` give `D3DERR_INVALIDCALL` with the call log
and the state unchanged. A null render target for a slot `i` other than 0 of the table is
handed to the device as `SetRenderTarget(i, NULL)`, whose answer is the result: on `D3D_OK` the
slot is cleared, otherwise the state is unchanged. -/
theorem null_arguments_rejected (dev : Device) (s : D3DProxyDevice) (log : Log) :
    (∀ (pSourceSurface pDestinationSurface : Option D3D9ProxySurface) (pSourceRect pDestPoint : Nat),
      pSourceSurface = none ∨ pDestinationSurface = none →
      s.UpdateSurface dev pSourceSurface pSourceRect pDestinationSurface pDestPoint log
        = (D3DERR_INVALIDCALL, log)) ∧
    (∀ (pSourceTexture pDestinationTexture : Option ProxyTexture),
      pSourceTexture = none ∨ pDestinationTexture = none →
      s.UpdateTexture dev pSourceTexture pDestinationTexture log = (D3DERR_INVALIDCALL, log)) ∧
    (∀ (pSourceSurface pDestSurface : Option D3D9ProxySurface) (pSourceRect pDestRect Filter : Nat),
      pSourceSurface = none ∨ pDestSurface = none →
      s.StretchRect dev pSourceSurface pSourceRect pDestSurface pDestRect Filter log
        = (D3DERR_INVALIDCALL, log)) ∧
    (∀ (pRenderTarget pDestSurface : Option D3D9ProxySurface),
      pRenderTarget = none ∨ pDestSurface = none →
      s.GetRenderTargetData dev pRenderTarget pDestSurface log = (D3DERR_INVALIDCALL, log)) ∧
    (∀ (SrcStartIndex DestIndex VertexCount Flags : Nat)
        (pVertexDecl : Option BaseDirect3DVertexDeclaration9),
      s.ProcessVertices dev SrcStartIndex DestIndex VertexCount none pVertexDecl Flags log
        = (D3DERR_INVALIDCALL, s, log)) ∧
    s.SetRenderTarget dev 0 none log = some (D3DERR_INVALIDCALL, s, log) ∧
    (∀ i : Nat, i ≠ 0 → i < s.m_activeRenderTargets.length →
      ∃ s2 evs,
        s.SetRenderTarget dev i none log
          = some (dev log.length (.SetRenderTarget i none), s2,
              log ++ [⟨s.m_currentRenderingSide, .SetRenderTarget i none⟩] ++ evs) ∧
        (dev log.length (.SetRenderTarget i none) = D3D_OK →
          s2.m_activeRenderTargets = s.m_activeRenderTargets.set i none) ∧
        (dev log.length (.SetRenderTarget i none) ≠ D3D_OK → s2 = s ∧ evs = [])) := by
  refine ⟨?_, ?_, ?_, ?_, fun _ _ _ _ _ => rfl, ?_, ?_⟩
  · rintro (_ | a) (_ | b) r p (h | h) <;> first | rfl | exact absurd h (by simp)
  · rintro (_ | a) (_ | b) (h | h) <;> first | rfl | exact absurd h (by simp)
  · rintro (_ | a) (_ | b) r p f (h | h) <;> first | rfl | exact absurd h (by simp)
  · rintro (_ | a) (_ | b) (h | h) <;> first | rfl | exact absurd h (by simp)
  · rw [setRenderTarget_eq]
    simp
  · intro i hi hlt
    obtain ⟨pOld, hold⟩ : ∃ pOld, s.m_activeRenderTargets[i]? = some pOld :=
      ⟨_, List.getElem?_eq_getElem hlt⟩
    rw [setRenderTarget_eq]
    simp only [hi, and_false, if_false, Option.none_bind, hold, Option.map_some']
    by_cases hok : dev log.length (.SetRenderTarget i none) = D3D_OK
    · rw [if_pos hok]
      refine ⟨{ s with
          m_bActiveViewportIsDefault := true,
          m_activeRenderTargets := s.m_activeRenderTargets.set i none },
        D3DProxyDevice.releaseIfSet s.m_currentRenderingSide .surface pOld
        ++ D3DProxyDevice.addRefIfSet s.m_currentRenderingSide .surface none, ?_, ?_, ?_⟩
      · rw [hok, List.append_assoc]
      · intro _; rfl
      · intro h; exact absurd hok h
    · rw [if_neg hok]
      exact ⟨s, [], by rw [List.append_nil], fun h => absurd h hok, fun _ => ⟨rfl, rfl⟩⟩

/-- Witness of C15: a `StretchRect` with a null source. -/
theorem null_arguments_rejected_witness :
    ((none : Option D3D9ProxySurface) = none ∨ some exampleStereoSurface = none) ∧
    D3DProxyDevice.rightActive.StretchRect Device.allOk none 0 (some exampleStereoSurface) 0 0
        [⟨.Right, .ApplyAllDirty .Right⟩]
      = (D3DERR_INVALIDCALL, [⟨.Right, .ApplyAllDirty .Right⟩]) :=
  ⟨Or.inl rfl,
    (null_arguments_rejected Device.allOk D3DProxyDevice.rightActive
      [⟨.Right, .ApplyAllDirty .Right⟩]).2.2.1 none (some exampleStereoSurface) 0 0 0
      (Or.inl rfl)⟩

/-- C17: while the capture target is not null, `SetTexture`, `SetStreamSource`,
`SetIndices`, `SetVertexShader`, `SetPixelShader`, `SetVertexDeclaration`, `SetViewport` and
`SetTransform` for the view and the projection return with exactly one more log entry, their
device call, whose answer is the result; for the two transforms the matrix handed to the device
is the one derived for the active eye. The new state differs from the old one in the capture
target only, so the texture and stream maps, index buffer, shaders, declaration, last
viewport, viewport-is-default flag, stored matrices and their flags are unchanged. -/
theorem capture_diverts_setters (dev : Device) (s : D3DProxyDevice) (log : Log)
    (sb : D3D9ProxyStateBlock) (hcap : s.m_pCapturingStateTo = some sb) :
    (∀ (Stage : Nat) (pTexture : Option ProxyTexture), ∃ h sb2,
      s.SetTexture dev Stage pTexture log
        = (dev log.length (.SetTexture Stage h), s.withCapture sb2,
            log ++ [⟨s.m_currentRenderingSide, .SetTexture Stage h⟩])) ∧
    (∀ (StreamNumber : Nat) (pStreamData : Option BaseDirect3DVertexBuffer9)
        (OffsetInBytes Stride : Nat), ∃ h sb2,
      s.SetStreamSource dev StreamNumber pStreamData OffsetInBytes Stride log
        = (dev log.length (.SetStreamSource StreamNumber h OffsetInBytes Stride),
            s.withCapture sb2,
            log ++ [⟨s.m_currentRenderingSide,
              .SetStreamSource StreamNumber h OffsetInBytes Stride⟩])) ∧
    (∀ pIndexData : Option BaseDirect3DIndexBuffer9, ∃ h sb2,
      s.SetIndices dev pIndexData log
        = (dev log.length (.SetIndices h), s.withCapture sb2,
            log ++ [⟨s.m_currentRenderingSide, .SetIndices h⟩])) ∧
    (∀ pShader : Option D3D9ProxyVertexShader, ∃ h sb2,
      s.SetVertexShader dev pShader log
        = (dev log.length (.SetVertexShader h), s.withCapture sb2,
            log ++ [⟨s.m_currentRenderingSide, .SetVertexShader h⟩])) ∧
    (∀ pShader : Option D3D9ProxyPixelShader, ∃ h sb2,
      s.SetPixelShader dev pShader log
        = (dev log.length (.SetPixelShader h), s.withCapture sb2,
            log ++ [⟨s.m_currentRenderingSide, .SetPixelShader h⟩])) ∧
    (∀ pDecl : Option BaseDirect3DVertexDeclaration9, ∃ h sb2,
      s.SetVertexDeclaration dev pDecl log
        = (dev log.length (.SetVertexDeclaration h), s.withCapture sb2,
            log ++ [⟨s.m_currentRenderingSide, .SetVertexDeclaration h⟩])) ∧
    (∀ (getDesc : D3D9ProxySurface → D3DSURFACE_DESC) (SMALL_FLOAT SLIGHTLY_LESS_THAN_ONE : ℚ)
        (pViewport : D3DVIEWPORT9), ∃ sb2,
      s.SetViewport dev getDesc SMALL_FLOAT SLIGHTLY_LESS_THAN_ONE pViewport log
        = some (dev log.length (.SetViewport pViewport), s.withCapture sb2,
            log ++ [⟨s.m_currentRenderingSide, .SetViewport pViewport⟩])) ∧
    (∀ (State : D3DTRANSFORMSTATETYPE) (pMatrix : Option D3DXMATRIX),
      State = .D3DTS_VIEW ∨ State = .D3DTS_PROJECTION → ∃ sb2,
      s.SetTransform dev State pMatrix log
        = (dev log.length
            (.SetTransform State (s.derivedTransform State pMatrix s.m_currentRenderingSide)),
            s.withCapture sb2,
            log ++ [⟨s.m_currentRenderingSide,
              .SetTransform State
                (s.derivedTransform State pMatrix s.m_currentRenderingSide)⟩])) ∧
    (∀ sb2 : D3D9ProxyStateBlock,
      (s.withCapture sb2).m_activeTextureStages = s.m_activeTextureStages ∧
      (s.withCapture sb2).m_activeVertexBuffers = s.m_activeVertexBuffers ∧
      (s.withCapture sb2).m_pActiveIndicies = s.m_pActiveIndicies ∧
      (s.withCapture sb2).m_pActiveVertexShader = s.m_pActiveVertexShader ∧
      (s.withCapture sb2).m_pActivePixelShader = s.m_pActivePixelShader ∧
      (s.withCapture sb2).m_pActiveVertexDeclaration = s.m_pActiveVertexDeclaration ∧
      (s.withCapture sb2).m_LastViewportSet = s.m_LastViewportSet ∧
      (s.withCapture sb2).m_bActiveViewportIsDefault = s.m_bActiveViewportIsDefault ∧
      (s.withCapture sb2).m_leftView = s.m_leftView ∧
      (s.withCapture sb2).m_rightView = s.m_rightView ∧
      (s.withCapture sb2).m_leftProjection = s.m_leftProjection ∧
      (s.withCapture sb2).m_rightProjection = s.m_rightProjection ∧
      (s.withCapture sb2).m_bViewTransformSet = s.m_bViewTransformSet ∧
      (s.withCapture sb2).m_bProjectionTransformSet = s.m_bProjectionTransformSet ∧
      (s.withCapture sb2).m_pCurrentView = s.m_pCurrentView ∧
      (s.withCapture sb2).m_pCurrentProjection = s.m_pCurrentProjection ∧
      (s.withCapture sb2).m_activeRenderTargets = s.m_activeRenderTargets ∧
      (s.withCapture sb2).m_pActiveStereoDepthStencil = s.m_pActiveStereoDepthStencil ∧
      (s.withCapture sb2).m_currentRenderingSide = s.m_currentRenderingSide ∧
      (s.withCapture sb2).m_pCapturingStateTo = some sb2) := by
  have hself := withCapture_self s sb hcap
  refine ⟨?_, ?_, ?_, ?_, ?_, ?_, ?_, ?_, fun sb2 => ⟨rfl, rfl, rfl, rfl, rfl, rfl, rfl, rfl,
    rfl, rfl, rfl, rfl, rfl, rfl, rfl, rfl, rfl, rfl, rfl, rfl⟩⟩
  · intro Stage pTexture
    simp only [D3DProxyDevice.SetTexture, hcap]
    split_ifs with hs
    · exact ⟨_, _, rfl⟩
    · exact ⟨_, sb, by rw [hself]⟩
  · intro StreamNumber pStreamData OffsetInBytes Stride
    simp only [D3DProxyDevice.SetStreamSource, hcap]
    split_ifs with hs
    · exact ⟨_, _, rfl⟩
    · exact ⟨_, sb, by rw [hself]⟩
  · intro pIndexData
    simp only [D3DProxyDevice.SetIndices, hcap]
    split_ifs with hs
    · exact ⟨_, _, rfl⟩
    · exact ⟨_, sb, by rw [hself]⟩
  · intro pShader
    simp only [D3DProxyDevice.SetVertexShader, hcap]
    split_ifs with hs
    · exact ⟨_, _, rfl⟩
    · exact ⟨_, sb, by rw [hself]⟩
  · intro pShader
    simp only [D3DProxyDevice.SetPixelShader, hcap]
    split_ifs with hs
    · exact ⟨_, _, rfl⟩
    · exact ⟨_, sb, by rw [hself]⟩
  · intro pDecl
    simp only [D3DProxyDevice.SetVertexDeclaration, hcap]
    split_ifs with hs
    · exact ⟨_, _, rfl⟩
    · exact ⟨_, sb, by rw [hself]⟩
  · intro getDesc SMALL_FLOAT SLIGHTLY_LESS_THAN_ONE pViewport
    simp only [D3DProxyDevice.SetViewport, hcap]
    split_ifs with hs
    · exact ⟨_, rfl⟩
    · exact ⟨sb, by rw [hself]⟩
  · intro State pMatrix hState
    exact setTransform_capture dev s log sb hcap State pMatrix hState

/-- Witness of C17: a `SetTexture` on the device `capturing`, whose capture was opened by a
successful `BeginStateBlock`. -/
theorem capture_diverts_setters_witness :
    D3DProxyDevice.capturing.m_pCapturingStateTo
      = some ⟨none, .Cap_Type_Selected, true, []⟩ ∧
    ∃ h sb2,
      D3DProxyDevice.capturing.SetTexture Device.allOk 1 none []
        = (Device.allOk ([] : Log).length (.SetTexture 1 h),
            D3DProxyDevice.capturing.withCapture sb2,
            [] ++ [⟨D3DProxyDevice.capturing.m_currentRenderingSide, .SetTexture 1 h⟩]) :=
  ⟨rfl, (capture_diverts_setters Device.allOk D3DProxyDevice.capturing []
    ⟨none, .Cap_Type_Selected, true, []⟩ rfl).1 1 none⟩

/-! ## Teardown and restore -/

/-- C18: after `ReleaseEverything` no binding slot holds a resource (every render-target
slot is null, the two maps are empty, depth-stencil, index buffer, shaders, declaration and
capture target are null), and the log has grown by entries among which every resource has as
many `Release()` calls as there were slots, HUD font or capture target holding it, and no
`AddRef()`. A `Reset` on a device that does not answer `D3D_OK` to the reset returns that
answer with the bindings and the swap-chain list empty; all the releases (those of the swap
chains included) are logged before the device call `Reset`, which is the last entry. -/
theorem releaseEverything_empties (s : D3DProxyDevice) (log : Log) :
    (s.ReleaseEverything log).1.bindingsEmpty ∧
    (∃ evs, (s.ReleaseEverything log).2 = log ++ evs ∧
      ∀ r, releasesOf r evs = s.heldCount r ∧ addRefsOf r evs = 0) ∧
    (∀ (dev : Device) (ans : RestoreAnswers) (pPresentationParameters : Nat),
      (∀ k, dev k (.Reset pPresentationParameters) ≠ D3D_OK) →
      ∃ s2 evs,
        s.Reset dev ans pPresentationParameters log
          = some (dev (log ++ evs).length (.Reset pPresentationParameters), s2,
              log ++ evs ++ [⟨s.m_currentRenderingSide, .Reset pPresentationParameters⟩]) ∧
        s2.bindingsEmpty ∧ s2.m_activeSwapChains = [] ∧
        (∀ r, releasesOf r evs
            = s.heldCount r
              + (s.m_activeSwapChains.map (fun c => holds Resource.swapChain (some c) r)).sum ∧
          addRefsOf r evs = 0)) :=
  ⟨(releaseEverything_state s log).1, releaseEverything_log s log,
    fun dev ans pPresentationParameters hfail =>
      reset_failed dev ans pPresentationParameters s log hfail⟩

/-- Witness of C18: a `Reset` of the device `richBound` against a device that rejects it. -/
theorem releaseEverything_empties_witness :
    (∀ k, Device.failingReset k (.Reset 0) ≠ D3D_OK) ∧
    ∃ s2 evs,
      D3DProxyDevice.richBound.Reset Device.failingReset exampleRestoreAnswers 0 []
        = some (Device.failingReset ([] ++ evs).length (.Reset 0), s2,
            [] ++ evs ++ [⟨D3DProxyDevice.richBound.m_currentRenderingSide, .Reset 0⟩]) ∧
      s2.bindingsEmpty ∧ s2.m_activeSwapChains = [] ∧
      (∀ r, releasesOf r evs
          = D3DProxyDevice.richBound.heldCount r
            + (D3DProxyDevice.richBound.m_activeSwapChains.map
                (fun c => holds Resource.swapChain (some c) r)).sum ∧
        addRefsOf r evs = 0) :=
  ⟨fun _ => show D3DERR_INVALIDCALL ≠ D3D_OK by decide,
    (releaseEverything_empties D3DProxyDevice.richBound []).2.2 Device.failingReset
      exampleRestoreAnswers 0 (fun _ => show D3DERR_INVALIDCALL ≠ D3D_OK by decide)⟩

/-- C19: the constructor selects Left (active eye, current view, projection and adjustment
matrix). Whenever `OnCreateOrRestore` returns, Left is selected, whatever was selected before;
it returns when the swap chain can be fetched, no swap chain is left over, the table has a slot
0, the back buffer and the new depth-stencil are not null and a stereo view is attached. A
`Reset` that returns `D3D_OK` leaves Left selected, and it does return `D3D_OK` under the same
conditions when the device accepts the reset. -/
theorem left_after_create_or_restore (dev : Device) (ans : RestoreAnswers) :
    (∀ (raw : D3DProxyDevice) (defaultInfo : HMDisplayInfo) (maxRenderTargets : Nat),
      (D3DProxyDevice.ctor raw defaultInfo maxRenderTargets).leftSelected) ∧
    (∀ (s s2 : D3DProxyDevice) (log log2 : Log),
      s.OnCreateOrRestore dev ans log = some (s2, log2) → s2.leftSelected) ∧
    (∀ (s : D3DProxyDevice) (log : Log) (bb pTemp : D3D9ProxySurface),
      FAILED (dev log.length (.GetSwapChain 0)) = false → s.m_activeSwapChains = [] →
      0 < s.m_activeRenderTargets.length → ans.pWrappedBackBuffer = some bb →
      ans.pTemp = some pTemp → s.stereoView = true →
      ∃ s2 log2, s.OnCreateOrRestore dev ans log = some (s2, log2) ∧ s2.leftSelected) ∧
    (∀ (pPresentationParameters : Nat) (s s2 : D3DProxyDevice) (log log2 : Log),
      s.Reset dev ans pPresentationParameters log = some (D3D_OK, s2, log2) →
      s2.leftSelected) ∧
    (∀ (pPresentationParameters : Nat) (s : D3DProxyDevice) (log : Log)
        (bb pTemp : D3D9ProxySurface),
      (∀ k, dev k (.Reset pPresentationParameters) = D3D_OK) →
      (∀ k, FAILED (dev k (.GetSwapChain 0)) = false) →
      0 < s.m_activeRenderTargets.length → ans.pWrappedBackBuffer = some bb →
      ans.pTemp = some pTemp → s.stereoView = true →
      ∃ s2 log2, s.Reset dev ans pPresentationParameters log = some (D3D_OK, s2, log2) ∧
        s2.leftSelected) := by
  refine ⟨fun _ _ _ => ⟨rfl, rfl, rfl, rfl⟩,
    fun s s2 log log2 h => (onCreateOrRestore_leftSelected dev ans s s2 log log2 h).1,
    ?_, fun pp s s2 log log2 h => reset_ok_leftSelected dev ans pp s s2 log log2 h, ?_⟩
  · intro s log bb pTemp hsc hchains hrt hbb hTemp hsv
    obtain ⟨s2, log2, h⟩ := onCreateOrRestore_returns dev ans s log bb pTemp hsc hchains hrt
      hbb hTemp hsv
    exact ⟨s2, log2, h, (onCreateOrRestore_leftSelected dev ans s s2 log log2 h).1⟩
  · intro pp s log bb pTemp hreset hsc hrt hbb hTemp hsv
    obtain ⟨s2, log2, h⟩ := reset_returns dev ans pp s log bb pTemp hreset hsc hrt hbb hTemp
      hsv
    exact ⟨s2, log2, h, reset_ok_leftSelected dev ans pp s s2 log log2 h⟩

/-- Witness of C19: `OnCreateOrRestore` on a device on which Right is the active eye. -/
theorem left_after_create_or_restore_witness :
    D3DProxyDevice.restorable.m_currentRenderingSide = .Right ∧
    FAILED (Device.allOk ([] : Log).length (.GetSwapChain 0)) = false ∧
    D3DProxyDevice.restorable.m_activeSwapChains = [] ∧
    0 < D3DProxyDevice.restorable.m_activeRenderTargets.length ∧
    exampleRestoreAnswers.pWrappedBackBuffer = some exampleStereoSurface ∧
    exampleRestoreAnswers.pTemp = some ⟨22, some 23⟩ ∧
    D3DProxyDevice.restorable.stereoView = true ∧
    ∃ s2 log2,
      D3DProxyDevice.restorable.OnCreateOrRestore Device.allOk exampleRestoreAnswers []
        = some (s2, log2) ∧
      s2.leftSelected :=
  ⟨rfl, rfl, rfl, by decide, rfl, rfl, rfl,
    (left_after_create_or_restore Device.allOk exampleRestoreAnswers).2.2.1
      D3DProxyDevice.restorable [] exampleStereoSurface ⟨22, some 23⟩ rfl rfl (by decide) rfl
      rfl rfl⟩

/-- The effect of a `SetTexture`, `SetStreamSource` or `SetIndices` outside a capture, in
terms of the result of the method: when it is a success, binding null leaves the slot holding
no resource and lowers the open references of the resource the slot held by one, and binding
what the slot already holds leaves the binding table and the open references of every resource
as they were. -/
theorem rebind_effect (dev : Device) (s : D3DProxyDevice) (log : Log)
    (hcap : s.m_pCapturingStateTo = none) :
    -- SetTexture
    (∀ (Stage : Nat) (pTexture : Option ProxyTexture),
      SUCCEEDED (s.SetTexture dev Stage pTexture log).1 = true →
      (pTexture = none →
        (s.SetTexture dev Stage pTexture log).2.1.m_activeTextureStages.lookup Stage
          = some none ∧
        ∀ r, refBalance (s.SetTexture dev Stage pTexture log).2.2 r
          = refBalance log r - holds id (s.oldResource (.SetTexture Stage pTexture)) r) ∧
      (s.m_activeTextureStages.lookup Stage = some pTexture →
        (∀ j, (s.SetTexture dev Stage pTexture log).2.1.m_activeTextureStages.lookup j
          = s.m_activeTextureStages.lookup j) ∧
        (s.SetTexture dev Stage pTexture log).2.1
          = { s with m_activeTextureStages :=
                (s.SetTexture dev Stage pTexture log).2.1.m_activeTextureStages } ∧
        ∀ r, refBalance (s.SetTexture dev Stage pTexture log).2.2 r = refBalance log r)) ∧
    -- SetStreamSource
    (∀ (StreamNumber : Nat) (pStreamData : Option BaseDirect3DVertexBuffer9)
        (OffsetInBytes Stride : Nat),
      SUCCEEDED (s.SetStreamSource dev StreamNumber pStreamData OffsetInBytes Stride log).1
        = true →
      (pStreamData = none →
        (s.SetStreamSource dev StreamNumber pStreamData OffsetInBytes
            Stride log).2.1.m_activeVertexBuffers.lookup StreamNumber = some none ∧
        ∀ r, refBalance (s.SetStreamSource dev StreamNumber pStreamData OffsetInBytes
            Stride log).2.2 r
          = refBalance log r
            - holds id (s.oldResource
                (.SetStreamSource StreamNumber pStreamData OffsetInBytes Stride)) r) ∧
      (s.m_activeVertexBuffers.lookup StreamNumber = some pStreamData →
        (s.SetStreamSource dev StreamNumber pStreamData OffsetInBytes Stride log).2.1 = s ∧
        ∀ r, refBalance (s.SetStreamSource dev StreamNumber pStreamData OffsetInBytes
            Stride log).2.2 r = refBalance log r)) ∧
    -- SetIndices
    (∀ pIndexData : Option BaseDirect3DIndexBuffer9,
      SUCCEEDED (s.SetIndices dev pIndexData log).1 = true →
      (pIndexData = none →
        (s.SetIndices dev pIndexData log).2.1.m_pActiveIndicies = none ∧
        ∀ r, refBalance (s.SetIndices dev pIndexData log).2.2 r
          = refBalance log r - holds id (s.oldResource (.SetIndices pIndexData)) r) ∧
      (s.m_pActiveIndicies = pIndexData →
        (s.SetIndices dev pIndexData log).2.1 = s ∧
        ∀ r, refBalance (s.SetIndices dev pIndexData log).2.2 r = refBalance log r)) := by
  cases s
  simp only at hcap
  subst hcap
  refine ⟨?_, ?_, ?_⟩
  · intro Stage pTexture hs
    rename_i texs _ _ _ _ _ _ _ _ _ _ _ _ _ _ _ _ _ _ _ _ _
    simp only [D3DProxyDevice.SetTexture] at hs ⊢
    cases hl : texs.lookup Stage with
    | none =>
        simp only [hl, mapInsert_of_lookup_none _ _ _ hl, if_true] at hs ⊢
        split_ifs at hs ⊢ with hd
        · refine ⟨fun hnull => ⟨?_, fun r => ?_⟩, fun hsame => ?_⟩
          · subst hnull
            simp only [lookup_append_singleton, hl, if_true]
          · subst hnull
            simp only [refBalance_append, refBalance_addRefIfSet,
              D3DProxyDevice.oldResource, holds_map, holds_none, hl, join_none_eq]
            rw [refBalance_call _ _ _ (by intro x; simp) (by intro x; simp)]
            simp [holds]
          · exact absurd hsame (by simp)
        · exact absurd hs hd
    | some pOld =>
        simp only [hl, mapInsert_of_lookup_none _ _ _ (lookup_mapErase _ _), if_true] at hs ⊢
        split_ifs at hs ⊢ with hd
        · refine ⟨fun hnull => ⟨?_, fun r => ?_⟩, fun hsame => ⟨fun j => ?_, rfl, fun r => ?_⟩⟩
          · subst hnull
            simp only [lookup_rebind, if_true]
          · subst hnull
            simp only [refBalance_append, refBalance_releaseIfSet, refBalance_addRefIfSet,
              D3DProxyDevice.oldResource, holds_map, holds_none, hl, join_some_eq]
            rw [refBalance_call _ _ _ (by intro x; simp) (by intro x; simp)]
            omega
          · simp only [Option.some.injEq] at hsame
            subst hsame
            simp only [lookup_rebind]
            split_ifs with hj
            · subst hj; exact hl.symm
            · rfl
          · simp only [Option.some.injEq] at hsame
            subst hsame
            exact refBalance_release_addRef _ _ _ _ _ r (by intro x; simp) (by intro x; simp)
        · exact absurd hs hd
  · intro StreamNumber pStreamData OffsetInBytes Stride hs
    rename_i vbs _ _ _ _ _ _ _ _
    simp only [D3DProxyDevice.SetStreamSource] at hs ⊢
    cases hl : vbs.lookup StreamNumber with
    | none =>
        simp only [hl, mapInsert_of_lookup_none _ _ _ hl, if_true] at hs ⊢
        split_ifs at hs ⊢ with hd
        · refine ⟨fun hnull => ⟨?_, fun r => ?_⟩, fun hsame => ?_⟩
          · subst hnull
            simp only [lookup_append_singleton, hl, if_true]
          · subst hnull
            simp only [refBalance_append, refBalance_addRefIfSet,
              D3DProxyDevice.oldResource, holds_map, holds_none, hl, join_none_eq]
            rw [refBalance_call _ _ _ (by intro x; simp) (by intro x; simp)]
            simp [holds]
          · exact absurd hsame (by simp)
        · exact absurd hs hd
    | some pOld =>
        simp only [hl, mapInsert_of_lookup_none _ _ _ (lookup_mapErase _ _), if_true] at hs ⊢
        split_ifs at hs ⊢ with hd hsame2
        · refine ⟨fun hnull => ⟨?_, fun r => ?_⟩, fun hsame => ⟨rfl, fun r => ?_⟩⟩
          · subst hnull
            subst hsame2
            exact hl
          · subst hnull
            subst hsame2
            simp only [refBalance_append, D3DProxyDevice.oldResource, holds_map, holds_none,
              hl, join_some_eq]
            rw [refBalance_call _ _ _ (by intro x; simp) (by intro x; simp)]
            simp
          · simp only [refBalance_append]
            rw [refBalance_call _ _ _ (by intro x; simp) (by intro x; simp)]
            simp
        · refine ⟨fun hnull => ⟨?_, fun r => ?_⟩, fun hsame => ?_⟩
          · subst hnull
            simp only [lookup_rebind, if_true]
          · subst hnull
            simp only [refBalance_append, refBalance_releaseIfSet, refBalance_addRefIfSet,
              D3DProxyDevice.oldResource, holds_map, holds_none, hl, join_some_eq]
            rw [refBalance_call _ _ _ (by intro x; simp) (by intro x; simp)]
            omega
          · simp only [Option.some.injEq] at hsame
            exact absurd hsame hsame2
        · exact absurd hs hd
  · intro pIndexData hs
    simp only [D3DProxyDevice.SetIndices] at hs ⊢
    split_ifs at hs ⊢ with hd
    · refine ⟨fun hnull => ⟨hnull, fun r => ?_⟩, fun hsame => ⟨?_, fun r => ?_⟩⟩
      · subst hnull
        simp only [refBalance_append, refBalance_releaseIfSet, refBalance_addRefIfSet,
          D3DProxyDevice.oldResource, holds_map, holds_none]
        rw [refBalance_call _ _ _ (by intro x; simp) (by intro x; simp)]
        omega
      · subst hsame
        rfl
      · subst hsame
        exact refBalance_release_addRef _ _ _ _ _ r (by intro x; simp) (by intro x; simp)
    · exact absurd hs hd

/-! ## Lemmas on clears and translations -/

theorem translation_injective (x y : ℚ)
    (h : D3DXMatrixTranslation x 0 0 = D3DXMatrixTranslation y 0 0) : x = y := by
  have := congrFun (congrFun h 3) 0
  simpa [D3DXMatrixTranslation] using this

theorem clearOrFill_eq (dev : Device) (op : ClearOp) (s : D3DProxyDevice) (log : Log) :
    s.clearOrFill dev op log = s.issueForBothSides dev op.call log := by
  cases op <;> rfl

theorem clearOp_isRender (op : ClearOp) (side : RenderPosition) :
    (Event.mk side op.call).isRender = true ∧ (Event.mk side op.call).isFlush = false := by
  cases op <;> exact ⟨rfl, rfl⟩

theorem issuedFlushes_append (log evs : Log) :
    issuedFlushes log (log ++ evs) = evs.filter Event.isFlush := by
  simp [issuedFlushes]

theorem switchEvents_filter_isFlush (dev : Device) (side : RenderPosition)
    (s : D3DProxyDevice) (pos : Nat) :
    ((switchCalls dev side s pos).map (Event.mk side)).filter Event.isFlush = [] := by
  rw [List.filter_eq_nil_iff]
  intro e he
  obtain ⟨c, hc, rfl⟩ := List.mem_map.1 he
  simp only [switchCalls, List.mem_append, renderTargetRebinds, textureRebinds,
    List.mem_filterMap, Option.map_eq_some', Option.bind_eq_some, List.mem_singleton] at hc
  rcases hc with (((((h | h) | h) | h) | h) | h) | h
  · obtain ⟨_, _, _, _, rfl⟩ := h; simp [Event.isFlush]
  · split_ifs at h
    · simp only [List.mem_singleton] at h; subst h; simp [Event.isFlush]
    · simp at h
  · cases hds : s.m_pActiveStereoDepthStencil <;> rw [hds] at h <;> simp at h
    subst h; simp [Event.isFlush]
  · obtain ⟨_, _, _, _, h2⟩ := h
    split_ifs at h2
    simp only [Option.some.injEq] at h2
    subst h2; simp [Event.isFlush]
  · split_ifs at h
    · simp only [List.mem_singleton] at h; subst h; simp [Event.isFlush]
    · simp at h
  · split_ifs at h
    · simp only [List.mem_singleton] at h; subst h; simp [Event.isFlush]
    · simp at h
  · subst h; simp [Event.isFlush]

theorem flip_flip (side : RenderPosition) : side.flip.flip = side := by
  cases side <;> rfl

/-! ## Setters of the world scale and the convergence -/

/-- C21: `ChangeWorldScale` and `ChangeConvergence` recompute nothing. The state after
`ChangeWorldScale(d)` is the old state with only the world-scale multiplier replaced by the
returned value, the state after `ChangeConvergence(d)` is the old state with only the stored
convergence replaced by the returned value, and every matrix member (projection, inverse, eye
projections, view transforms, adjustment matrices, gathered, roll, squash, HUD and GUI
matrices) is the same after either call as before it. The new value is read by the next
recompute: `ComputeViewTransforms` builds the left view transform from the new world scale,
and `UpdateProjectionMatrices` starts from the new convergence. -/
theorem change_recomputes_nothing (va : ViewAdjustment) (d : ℚ) :
    (va.ChangeWorldScale d).1
      = { va with metersToWorldMultiplier := (va.ChangeWorldScale d).2 } ∧
    (va.ChangeWorldScale d).1.matrices = va.matrices ∧
    (va.ChangeConvergence d).1 = { va with convergence := (va.ChangeConvergence d).2 } ∧
    (va.ChangeConvergence d).1.matrices = va.matrices ∧
    (va.ChangeWorldScale d).1.ComputeViewTransforms.transformLeft
      = (if va.rollEnabled then D3DXMatrixMultiply va.rollMatrix else id)
          (D3DXMatrixTranslation (va.ipd / 2 * (va.ChangeWorldScale d).2 * LEFT_CONSTANT) 0 0) ∧
    ((va.ChangeConvergence d).1.UpdateProjectionMatrices 1).convergence
      = (if (va.ChangeConvergence d).2 ≤ 1 then 1 + 1 / 1000 else (va.ChangeConvergence d).2) := by
  refine ⟨rfl, rfl, rfl, rfl, ?_, ?_⟩
  · cases h : va.rollEnabled <;>
      simp [ViewAdjustment.ComputeViewTransforms, ViewAdjustment.ChangeWorldScale, h,
        ViewAdjustment.SeparationInWorldUnits]
  · exact (updateProjectionMatrices_fields _ 1).1

/-! ## Clears, fills and vertex processing -/

/-- C22: with slot 0 bound, `Clear` and `ColorFill` return, and they issue the underlying
operation once for the active eye, as the first call they make; the reported result is the
answer to that first call. When it failed, nothing else is done: the state is unchanged and no
further call is logged. When it succeeded, `switchDrawingSide()` is attempted right after it;
if the switch returns false nothing more is issued; if it returns true the same operation is
issued once more, for the other eye, as the last call, and against any wrapped device that
answers every earlier call alike (whatever it answers to that second operation) the method
reports the same result and reaches the same state and log. No flush of the dirty shader
registers is among the calls made. -/
theorem clear_issues_once_or_twice (dev : Device) (op : ClearOp) (s : D3DProxyDevice)
    (log : Log) (rt0 : D3D9ProxySurface)
    (h0 : s.m_activeRenderTargets.head? = some (some rt0)) :
    ∃ hr s2 log2, s.clearOrFill dev op log = some (hr, s2, log2) ∧
      hr = dev log.length op.call ∧
      (∃ rest, log2 = log ++ ⟨s.m_currentRenderingSide, op.call⟩ :: rest) ∧
      (SUCCEEDED hr = false →
        s2 = s ∧ log2 = log ++ [⟨s.m_currentRenderingSide, op.call⟩]) ∧
      (SUCCEEDED hr = true →
        ∃ switched log3,
          s.switchDrawingSide dev (log ++ [⟨s.m_currentRenderingSide, op.call⟩])
            = some (switched, s2, log3) ∧
          (switched = false → log2 = log3 ∧
            issuedRenders log log2 = [⟨s.m_currentRenderingSide, op.call⟩]) ∧
          (switched = true →
            log2 = log3 ++ [⟨s.m_currentRenderingSide.flip, op.call⟩] ∧
            issuedRenders log log2
              = [⟨s.m_currentRenderingSide, op.call⟩, ⟨s.m_currentRenderingSide.flip, op.call⟩] ∧
            ∀ dev2 : Device, (∀ k c, k + 1 < log2.length → dev2 k c = dev k c) →
              s.clearOrFill dev2 op log = some (hr, s2, log2))) ∧
      issuedFlushes log log2 = [] := by
  have hr1 := (clearOp_isRender op s.m_currentRenderingSide).1
  have hf1 := (clearOp_isRender op s.m_currentRenderingSide).2
  have hr2 := (clearOp_isRender op s.m_currentRenderingSide.flip).1
  have hf2 := (clearOp_isRender op s.m_currentRenderingSide.flip).2
  rw [clearOrFill_eq, issueForBothSides_eq dev op.call s log rt0 h0,
    switchDrawingSide_eq dev s _ rt0 h0]
  cases hs : SUCCEEDED (dev log.length op.call)
  · refine ⟨_, _, _, by rw [if_neg (by simp)], rfl, ⟨[], rfl⟩, fun _ => ⟨rfl, rfl⟩, ?_, ?_⟩
    · intro h; rw [hs] at h; cases h
    · rw [issuedFlushes_append]
      simp [hf1]
  · by_cases hm : s.m_currentRenderingSide = .Left ∧ rt0.IsStereo = false
    · refine ⟨_, _, _, by rw [if_pos rfl, if_pos hm], rfl, ⟨[], rfl⟩, ?_, ?_, ?_⟩
      · intro h; rw [hs] at h; cases h
      · intro _
        refine ⟨false, _, (by rw [if_pos hm]), fun _ => ⟨rfl, ?_⟩, fun h => (by cases h)⟩
        rw [issuedRenders_append]
        simp [hr1]
      · rw [issuedFlushes_append]
        simp [hf1]
    · refine ⟨_, _, _, by rw [if_pos rfl, if_neg hm], rfl,
        ⟨_, by rw [List.append_assoc, List.append_assoc]; rfl⟩, ?_, ?_, ?_⟩
      · intro h; rw [hs] at h; cases h
      · intro _
        have hsw : (if s.m_currentRenderingSide = .Left ∧ rt0.IsStereo = false then
              some (false, s, log ++ [Event.mk s.m_currentRenderingSide op.call])
            else some (true, switchedState s.m_currentRenderingSide.flip s,
              log ++ [Event.mk s.m_currentRenderingSide op.call]
                ++ (switchCalls dev s.m_currentRenderingSide.flip s
                    (log ++ [Event.mk s.m_currentRenderingSide op.call]).length).map
                  (Event.mk s.m_currentRenderingSide.flip)))
            = some (true, switchedState s.m_currentRenderingSide.flip s,
              log ++ [Event.mk s.m_currentRenderingSide op.call]
                ++ (switchCalls dev s.m_currentRenderingSide.flip s (log.length + 1)).map
                  (Event.mk s.m_currentRenderingSide.flip)) := by
          rw [if_neg hm]
          simp only [List.length_append, List.length_singleton]
        refine ⟨true, _, hsw, fun h => (by cases h), fun _ => ⟨rfl, ?_, ?_⟩⟩
        · rw [List.append_assoc, List.append_assoc, issuedRenders_append]
          simp only [List.filter_append, switchEvents_filter_isRender]
          simp [hr1, hr2]
        · intro dev2 hagree
          have hlen := switchCalls_length dev s.m_currentRenderingSide.flip s (log.length + 1)
          have hfirst : dev2 log.length op.call = dev log.length op.call := by
            apply hagree
            simp only [List.length_append, List.length_cons, List.length_nil, List.length_map]
            omega
          have hcalls : switchCalls dev2 s.m_currentRenderingSide.flip s (log.length + 1)
              = switchCalls dev s.m_currentRenderingSide.flip s (log.length + 1) := by
            apply switchCalls_congr
            intro k c hk
            apply hagree
            simp only [List.length_append, List.length_cons, List.length_nil, List.length_map]
            omega
          rw [clearOrFill_eq, issueForBothSides_eq dev2 op.call s log rt0 h0, hfirst, hcalls,
            if_pos hs, if_neg hm]
      · rw [List.append_assoc, List.append_assoc, issuedFlushes_append]
        simp only [List.filter_append, switchEvents_filter_isFlush]
        simp [hf1, hf2]

/-- Witness of C22: a `Clear` on a device with a stereo surface in slot 0, against a wrapped
device that rejects the call at log position 3, which is the second-eye clear. -/
theorem clear_issues_once_or_twice_witness :
    D3DProxyDevice.stereoBound.m_activeRenderTargets.head? = some (some exampleStereoSurface) ∧
    ∃ hr s2 log2,
      D3DProxyDevice.stereoBound.clearOrFill (Device.failingAt 3) (.Clear 0 0 7 0 1 0) []
        = some (hr, s2, log2) ∧
      hr = Device.failingAt 3 ([] : Log).length (ClearOp.call (.Clear 0 0 7 0 1 0)) ∧
      issuedFlushes [] log2 = [] := by
  obtain ⟨hr, s2, log2, h1, h2, -, -, -, h6⟩ :=
    clear_issues_once_or_twice (Device.failingAt 3) (.Clear 0 0 7 0 1 0)
      D3DProxyDevice.stereoBound [] exampleStereoSurface rfl
  exact ⟨rfl, hr, s2, log2, h1, h2, h6⟩

/-- C23 as stated does not hold: with a stereo surface in slot 0, Left active and a wrapped
device that accepts every call, `ProcessVertices` with a destination buffer succeeds, yet it
logs only the flush and one underlying call for the left eye and leaves the state (hence the
active eye) as it was, although `switchDrawingSide()` at that point would succeed and switch
to Right. -/
theorem processVertices_switch_refuted :
    D3DProxyDevice.stereoBound.m_activeRenderTargets.head? = some (some exampleStereoSurface) ∧
    exampleStereoSurface.IsStereo = true ∧
    D3DProxyDevice.stereoBound.ProcessVertices Device.allOk 0 0 3 (some exampleVertexBuffer)
        none 0 []
      = (D3D_OK, D3DProxyDevice.stereoBound,
          [⟨.Left, .ApplyAllDirty .Left⟩, ⟨.Left, .ProcessVertices 0 0 3 (some 8) none 0⟩]) ∧
    SUCCEEDED D3D_OK = true ∧
    (D3DProxyDevice.stereoBound.switchDrawingSide Device.allOk
        [⟨.Left, .ApplyAllDirty .Left⟩, ⟨.Left, .ProcessVertices 0 0 3 (some 8) none 0⟩]).map
      (fun r => (r.1, r.2.1.m_currentRenderingSide)) = some (true, .Right) := by
  refine ⟨rfl, rfl, rfl, rfl, ?_⟩
  rw [switchDrawingSide_eq Device.allOk D3DProxyDevice.stereoBound _ exampleStereoSurface rfl]
  rfl

/-- C23, amended: `ProcessVertices` with a destination buffer flushes the dirty shader
registers of the active eye and then issues the underlying call exactly once, for the active
eye, with the actual buffer and the actual vertex declaration (null when none is given); it
reports the answer to that call, whatever it is, and leaves the whole state, hence the active
eye, unchanged: no `switchDrawingSide()` is attempted and no second call is issued. Without a
destination buffer it reports `D3DERR_INVALIDCALL` and does nothing. -/
theorem processVertices_issues_once (dev : Device) (SrcStartIndex DestIndex VertexCount : Nat)
    (pDestBuffer : BaseDirect3DVertexBuffer9)
    (pVertexDecl : Option BaseDirect3DVertexDeclaration9) (Flags : Nat)
    (s : D3DProxyDevice) (log : Log) :
    s.ProcessVertices dev SrcStartIndex DestIndex VertexCount (some pDestBuffer) pVertexDecl
        Flags log
      = (dev (log.length + 1)
          (.ProcessVertices SrcStartIndex DestIndex VertexCount (some pDestBuffer.m_pActual)
            (pVertexDecl.map fun d => d.m_pActual) Flags),
        s,
        log ++ [⟨s.m_currentRenderingSide, .ApplyAllDirty s.m_currentRenderingSide⟩,
          ⟨s.m_currentRenderingSide,
            .ProcessVertices SrcStartIndex DestIndex VertexCount (some pDestBuffer.m_pActual)
              (pVertexDecl.map fun d => d.m_pActual) Flags⟩]) ∧
    s.ProcessVertices dev SrcStartIndex DestIndex VertexCount none pVertexDecl Flags log
      = (D3DERR_INVALIDCALL, s, log) := by
  cases pVertexDecl <;>
    simp [D3DProxyDevice.ProcessVertices, BaseDirect3DVertexBuffer9.getActual,
      BaseDirect3DVertexDeclaration9.getActual]

/-! ## Slot indices outside the render-target table -/

/-- C24: on a constructed device with one render-target slot, `GetRenderTarget(1)` reports
`D3DERR_INVALIDCALL` and touches nothing, but `SetRenderTarget(1, surface)` issues the device
call `SetRenderTarget(1, left surface)`: when the device rejects it the method reports the
answer of the device with that call logged, and when the device accepts it the method
accesses the slot table at index 1, outside the table, which the embedding gives as no
result. -/
theorem setRenderTarget_index_unchecked :
    D3DProxyDevice.created.m_activeRenderTargets.length = 1 ∧
    D3DProxyDevice.created.GetRenderTarget 1 1 []
      = some (D3DERR_INVALIDCALL, none, D3DProxyDevice.created, []) ∧
    D3DProxyDevice.created.SetRenderTarget (Device.failingAt 0) 1 (some exampleStereoSurface) []
      = some (D3DERR_INVALIDCALL, D3DProxyDevice.created,
          [⟨.Left, .SetRenderTarget 1 (some 1)⟩]) ∧
    D3DProxyDevice.created.SetRenderTarget Device.allOk 1 (some exampleStereoSurface) []
      = none := by
  refine ⟨rfl, rfl, ?_, ?_⟩
  · rw [setRenderTarget_eq]
    rfl
  · rw [setRenderTarget_eq]
    rfl

/-! ## Transforms outside a capture scope -/

/-- C25: `SetTransform` while no state block is capturing. For the view state with a null or
identity matrix, the stored left and right view matrices become the identity and the flag
`m_bViewTransformSet` becomes false; with any other matrix `M` they become
`M * LeftViewTransform()` and `M * RightViewTransform()` and the flag becomes true. The
projection state does the same with `LeftShiftProjection()`, `RightShiftProjection()` and the
projection flag. In each of these cases the current matrix is the one of the active eye and
the one call made hands the device the stored matrix of the active eye. For every other
transform state the call is passed on with the supplied matrix (or null) and the state is
unchanged. The reported result is the answer of the device. -/
theorem setTransform_stores_eye_matrices (dev : Device) (s : D3DProxyDevice) (log : Log)
    (hcap : s.m_pCapturingStateTo = none) (M : D3DXMATRIX) (hM : M ≠ 1)
    (pNone : Option D3DXMATRIX) (hNone : pNone = none ∨ pNone = some 1) (n : Nat)
    (pMatrix : Option D3DXMATRIX) :
    -- view state, null or identity matrix
    (∃ s2, s2 = { s with
          m_bViewTransformSet := false, m_leftView := 1, m_rightView := 1,
          m_pCurrentView := s.m_currentRenderingSide } ∧
      s.SetTransform dev .D3DTS_VIEW pNone log
        = (dev log.length (.SetTransform .D3DTS_VIEW (s2.storedView s.m_currentRenderingSide)),
            s2,
            log ++ [⟨s.m_currentRenderingSide,
              .SetTransform .D3DTS_VIEW (s2.storedView s.m_currentRenderingSide)⟩])) ∧
    -- view state, any other matrix
    (∃ s2, s2 = { s with
          m_bViewTransformSet := true,
          m_leftView := M * s.m_spShaderViewAdjustment.LeftViewTransform,
          m_rightView := M * s.m_spShaderViewAdjustment.RightViewTransform,
          m_pCurrentView := s.m_currentRenderingSide } ∧
      s.SetTransform dev .D3DTS_VIEW (some M) log
        = (dev log.length (.SetTransform .D3DTS_VIEW (s2.storedView s.m_currentRenderingSide)),
            s2,
            log ++ [⟨s.m_currentRenderingSide,
              .SetTransform .D3DTS_VIEW (s2.storedView s.m_currentRenderingSide)⟩])) ∧
    -- projection state, null or identity matrix
    (∃ s2, s2 = { s with
          m_bProjectionTransformSet := false, m_leftProjection := 1, m_rightProjection := 1,
          m_pCurrentProjection := s.m_currentRenderingSide } ∧
      s.SetTransform dev .D3DTS_PROJECTION pNone log
        = (dev log.length
            (.SetTransform .D3DTS_PROJECTION (s2.storedProjection s.m_currentRenderingSide)),
            s2,
            log ++ [⟨s.m_currentRenderingSide,
              .SetTransform .D3DTS_PROJECTION
                (s2.storedProjection s.m_currentRenderingSide)⟩])) ∧
    -- projection state, any other matrix
    (∃ s2, s2 = { s with
          m_bProjectionTransformSet := true,
          m_leftProjection := M * s.m_spShaderViewAdjustment.LeftShiftProjection,
          m_rightProjection := M * s.m_spShaderViewAdjustment.RightShiftProjection,
          m_pCurrentProjection := s.m_currentRenderingSide } ∧
      s.SetTransform dev .D3DTS_PROJECTION (some M) log
        = (dev log.length
            (.SetTransform .D3DTS_PROJECTION (s2.storedProjection s.m_currentRenderingSide)),
            s2,
            log ++ [⟨s.m_currentRenderingSide,
              .SetTransform .D3DTS_PROJECTION
                (s2.storedProjection s.m_currentRenderingSide)⟩])) ∧
    -- every other transform state
    s.SetTransform dev (.D3DTS_OTHER n) pMatrix log
      = (dev log.length
          (match pMatrix with
           | some A => .SetTransform (.D3DTS_OTHER n) A
           | none => .SetTransformNull (.D3DTS_OTHER n)),
          s,
          log ++ [⟨s.m_currentRenderingSide,
            match pMatrix with
            | some A => .SetTransform (.D3DTS_OTHER n) A
            | none => .SetTransformNull (.D3DTS_OTHER n)⟩]) := by
  obtain ⟨side⟩ := s
  simp only at hcap
  subst hcap
  refine ⟨⟨_, rfl, ?_⟩, ⟨_, rfl, ?_⟩, ⟨_, rfl, ?_⟩, ⟨_, rfl, ?_⟩, rfl⟩
  · rcases hNone with rfl | rfl <;> cases side <;>
      simp [D3DProxyDevice.SetTransform, D3DXMatrixIsIdentity, D3DXMatrixIdentity,
        D3DProxyDevice.storedView]
  · cases side <;>
      simp [D3DProxyDevice.SetTransform, D3DXMatrixIsIdentity, D3DXMatrixIdentity, hM,
        D3DProxyDevice.storedView]
  · rcases hNone with rfl | rfl <;> cases side <;>
      simp [D3DProxyDevice.SetTransform, D3DXMatrixIsIdentity, D3DXMatrixIdentity,
        D3DProxyDevice.storedProjection]
  · cases side <;>
      simp [D3DProxyDevice.SetTransform, D3DXMatrixIsIdentity, D3DXMatrixIdentity, hM,
        D3DProxyDevice.storedProjection]

/-- Witness of C25: the X-translation by 1 set as view matrix on a device with a stereo
surface in slot 0 and no capture active. -/
theorem setTransform_stores_eye_matrices_witness :
    D3DProxyDevice.stereoBound.m_pCapturingStateTo = none ∧
    D3DXMatrixTranslation 1 0 0 ≠ 1 ∧
    ((none : Option D3DXMATRIX) = none ∨ (none : Option D3DXMATRIX) = some 1) ∧
    (D3DProxyDevice.stereoBound.SetTransform Device.allOk .D3DTS_VIEW
        (some (D3DXMatrixTranslation 1 0 0)) []).2.1.m_bViewTransformSet = true ∧
    (D3DProxyDevice.stereoBound.SetTransform Device.allOk .D3DTS_VIEW
        (some (D3DXMatrixTranslation 1 0 0)) []).2.1.m_leftView
      = D3DXMatrixTranslation 1 0 0
          * D3DProxyDevice.stereoBound.m_spShaderViewAdjustment.LeftViewTransform := by
  have hM : D3DXMatrixTranslation 1 0 0 ≠ 1 := by
    intro h
    have h2 := translation_injective 1 0 (h.trans translation_zero.symm)
    norm_num at h2
  obtain ⟨s2, hs2, hrun⟩ :=
    (setTransform_stores_eye_matrices Device.allOk D3DProxyDevice.stereoBound [] rfl
      (D3DXMatrixTranslation 1 0 0) hM none (Or.inl rfl) 0 none).2.1
  refine ⟨rfl, hM, Or.inl rfl, ?_, ?_⟩
  · rw [hrun, hs2]
  · rw [hrun, hs2]

/-! ## HUD and GUI depth matrices -/

/-- C26: `ChangeHUD3DDepth(d)` sets the unshifted left HUD depth matrix to the X-translation
by `-d` and the right one to the X-translation by `d`, whereas `ComputeViewTransforms` sets
the left one to the X-translation by `hud3DDepth` and the right one by `-hud3DDepth`. So after
`ChangeHUD3DDepth(d)` a call of `ComputeViewTransforms` yields the translations by `d` and
`-d`, which for every `d` other than 0 differ from the matrices `ChangeHUD3DDepth` built. The
shifted HUD depth matrices are left as `ChangeHUD3DDepth` built them, and the GUI depth
matrices as `ChangeGUI3DDepth(g)` built them, whichever of the two setters ran first. -/
theorem hud_depth_signs (va : ViewAdjustment) (d g : ℚ) :
    (va.ChangeHUD3DDepth d).matLeftHud3DDepth = D3DXMatrixTranslation (-d) 0 0 ∧
    (va.ChangeHUD3DDepth d).matRightHud3DDepth = D3DXMatrixTranslation d 0 0 ∧
    va.ComputeViewTransforms.matLeftHud3DDepth = D3DXMatrixTranslation va.hud3DDepth 0 0 ∧
    va.ComputeViewTransforms.matRightHud3DDepth = D3DXMatrixTranslation (-va.hud3DDepth) 0 0 ∧
    (va.ChangeHUD3DDepth d).ComputeViewTransforms.matLeftHud3DDepth
      = D3DXMatrixTranslation d 0 0 ∧
    (va.ChangeHUD3DDepth d).ComputeViewTransforms.matRightHud3DDepth
      = D3DXMatrixTranslation (-d) 0 0 ∧
    (d ≠ 0 →
      (va.ChangeHUD3DDepth d).ComputeViewTransforms.matLeftHud3DDepth
        ≠ (va.ChangeHUD3DDepth d).matLeftHud3DDepth ∧
      (va.ChangeHUD3DDepth d).ComputeViewTransforms.matRightHud3DDepth
        ≠ (va.ChangeHUD3DDepth d).matRightHud3DDepth) ∧
    (va.ChangeHUD3DDepth d).ComputeViewTransforms.matLeftHud3DDepthShifted
      = (va.ChangeHUD3DDepth d).matLeftHud3DDepthShifted ∧
    (va.ChangeHUD3DDepth d).ComputeViewTransforms.matRightHud3DDepthShifted
      = (va.ChangeHUD3DDepth d).matRightHud3DDepthShifted ∧
    ((va.ChangeGUI3DDepth g).ChangeHUD3DDepth d).ComputeViewTransforms.matLeftGui3DDepth
      = (va.ChangeGUI3DDepth g).matLeftGui3DDepth ∧
    ((va.ChangeGUI3DDepth g).ChangeHUD3DDepth d).ComputeViewTransforms.matRightGui3DDepth
      = (va.ChangeGUI3DDepth g).matRightGui3DDepth ∧
    ((va.ChangeHUD3DDepth d).ChangeGUI3DDepth g).ComputeViewTransforms.matLeftGui3DDepth
      = ((va.ChangeHUD3DDepth d).ChangeGUI3DDepth g).matLeftGui3DDepth ∧
    ((va.ChangeHUD3DDepth d).ChangeGUI3DDepth g).ComputeViewTransforms.matRightGui3DDepth
      = ((va.ChangeHUD3DDepth d).ChangeGUI3DDepth g).matRightGui3DDepth := by
  refine ⟨rfl, rfl, rfl, rfl, rfl, rfl, ?_, rfl, rfl, rfl, rfl, rfl, rfl⟩
  intro hd
  constructor
  · intro h
    have h2 : d = -d := translation_injective d (-d) h
    apply hd; linarith
  · intro h
    have h2 : -d = d := translation_injective (-d) d h
    apply hd; linarith

/-- Witness of C26: HUD depth 1 on a constructed `ViewAdjustment`. -/
theorem hud_depth_signs_witness :
    (1 : ℚ) ≠ 0 ∧
    (ViewAdjustment.created.ChangeHUD3DDepth 1).ComputeViewTransforms.matLeftHud3DDepth
      ≠ (ViewAdjustment.created.ChangeHUD3DDepth 1).matLeftHud3DDepth :=
  ⟨by norm_num, ((hud_depth_signs ViewAdjustment.created 1 0).2.2.2.2.2.2.1 (by norm_num)).1⟩

/-! ## The active eye after an operation -/

/-- C28: with slot 0 bound, a draw, clear or fill that issues its operation twice leaves the
active eye flipped, not restored. Starting with Left active and a stereo surface in slot 0,
a successful draw returns with Right active, and a second successful draw then returns with
Left active. With Right active `switchDrawingSide()` returns true and makes Left active,
whether the surface in slot 0 is stereo or mono. Two consecutive `switchDrawingSide()` calls
that both return true end on the eye the first one started from. -/
theorem issuing_twice_flips_eye (dev : Device) (s : D3DProxyDevice) (log : Log)
    (rt0 : D3D9ProxySurface) (h0 : s.m_activeRenderTargets.head? = some (some rt0)) :
    (∀ (op : DrawOp) (hr : HRESULT) (s2 : D3DProxyDevice) (log2 : Log),
      s.draw dev op log = some (hr, s2, log2) → (issuedRenders log log2).length = 2 →
      s2.m_currentRenderingSide = s.m_currentRenderingSide.flip) ∧
    (∀ (op : ClearOp) (hr : HRESULT) (s2 : D3DProxyDevice) (log2 : Log),
      s.clearOrFill dev op log = some (hr, s2, log2) → (issuedRenders log log2).length = 2 →
      s2.m_currentRenderingSide = s.m_currentRenderingSide.flip) ∧
    (s.m_currentRenderingSide = .Left → rt0.IsStereo = true →
      ∀ op op2 : DrawOp, SUCCEEDED (dev (log.length + 1) (.Draw op)) = true →
        ∃ hr s2 log2, s.draw dev op log = some (hr, s2, log2) ∧
          s2.m_currentRenderingSide = .Right ∧
          (SUCCEEDED (dev (log2.length + 1) (.Draw op2)) = true →
            ∃ hr3 s3 log3, s2.draw dev op2 log2 = some (hr3, s3, log3) ∧
              s3.m_currentRenderingSide = .Left)) ∧
    (s.m_currentRenderingSide = .Right →
      ∃ s2 log2, s.switchDrawingSide dev log = some (true, s2, log2) ∧
        s2.m_currentRenderingSide = .Left) ∧
    (∀ (s2 : D3DProxyDevice) (log2 : Log) (s3 : D3DProxyDevice) (log3 : Log),
      s.switchDrawingSide dev log = some (true, s2, log2) →
      s2.switchDrawingSide dev log2 = some (true, s3, log3) →
      s2.m_currentRenderingSide = s.m_currentRenderingSide.flip ∧
      s3.m_currentRenderingSide = s.m_currentRenderingSide) := by
  refine ⟨?_, ?_, ?_, ?_, ?_⟩
  · intro op hr s2 log2 hrun hlen
    rw [draw_eq dev op s log rt0 h0] at hrun
    split_ifs at hrun with hs hm
    · simp only [Option.some.injEq, Prod.mk.injEq] at hrun
      obtain ⟨-, -, rfl⟩ := hrun
      simp [issuedRenders_append, Event.isRender] at hlen
    · simp only [Option.some.injEq, Prod.mk.injEq] at hrun
      obtain ⟨-, rfl, -⟩ := hrun
      rfl
    · simp only [Option.some.injEq, Prod.mk.injEq] at hrun
      obtain ⟨-, -, rfl⟩ := hrun
      simp [issuedRenders_append, Event.isRender] at hlen
  · intro op hr s2 log2 hrun hlen
    have hr1 := (clearOp_isRender op s.m_currentRenderingSide).1
    rw [clearOrFill_eq, issueForBothSides_eq dev op.call s log rt0 h0] at hrun
    split_ifs at hrun with hs hm
    · simp only [Option.some.injEq, Prod.mk.injEq] at hrun
      obtain ⟨-, -, rfl⟩ := hrun
      simp [issuedRenders_append, hr1] at hlen
    · simp only [Option.some.injEq, Prod.mk.injEq] at hrun
      obtain ⟨-, rfl, -⟩ := hrun
      rfl
    · simp only [Option.some.injEq, Prod.mk.injEq] at hrun
      obtain ⟨-, -, rfl⟩ := hrun
      simp [issuedRenders_append, hr1] at hlen
  · intro hl hst op op2 hs
    have hm : ¬ (s.m_currentRenderingSide = .Left ∧ rt0.IsStereo = false) := by
      rw [hst]; simp
    refine ⟨_, _, _, draw_eq_two dev op s log rt0 h0 hs hm, ?_, ?_⟩
    · rw [hl]; rfl
    · intro hs2
      have hm2 : ¬ ((switchedState s.m_currentRenderingSide.flip s).m_currentRenderingSide
          = .Left ∧ rt0.IsStereo = false) := by
        rw [hst]; simp
      refine ⟨_, _, _, draw_eq_two dev op2 (switchedState s.m_currentRenderingSide.flip s) _
        rt0 h0 hs2 hm2, ?_⟩
      rw [hl]; rfl
  · intro hr
    rw [switchDrawingSide_eq dev s log rt0 h0, if_neg (by rw [hr]; simp)]
    refine ⟨_, _, rfl, ?_⟩
    rw [hr]; rfl
  · intro s2 log2 s3 log3 h1 h2
    rw [switchDrawingSide_eq dev s log rt0 h0] at h1
    split_ifs at h1 with hm
    · simp at h1
    · simp only [Option.some.injEq, Prod.mk.injEq, true_and] at h1
      obtain ⟨rfl, -⟩ := h1
      rw [switchDrawingSide_eq dev (switchedState s.m_currentRenderingSide.flip s) log2 rt0
        h0] at h2
      split_ifs at h2 with hm2
      · simp at h2
      · simp only [Option.some.injEq, Prod.mk.injEq, true_and] at h2
        obtain ⟨rfl, -⟩ := h2
        exact ⟨rfl, flip_flip _⟩

/-- Witness of C28: two draws on a device with Left active and a stereo surface in slot 0,
against a wrapped device that accepts every call. -/
theorem issuing_twice_flips_eye_witness :
    D3DProxyDevice.stereoBound.m_activeRenderTargets.head? = some (some exampleStereoSurface) ∧
    D3DProxyDevice.stereoBound.m_currentRenderingSide = .Left ∧
    exampleStereoSurface.IsStereo = true ∧
    SUCCEEDED (Device.allOk (([] : Log).length + 1) (.Draw (.DrawPrimitive 4 0 2))) = true ∧
    ∃ hr s2 log2,
      D3DProxyDevice.stereoBound.draw Device.allOk (.DrawPrimitive 4 0 2) []
        = some (hr, s2, log2) ∧
      s2.m_currentRenderingSide = .Right ∧
      (SUCCEEDED (Device.allOk (log2.length + 1) (.Draw (.DrawPrimitive 4 0 2))) = true →
        ∃ hr3 s3 log3, s2.draw Device.allOk (.DrawPrimitive 4 0 2) log2
            = some (hr3, s3, log3) ∧
          s3.m_currentRenderingSide = .Left) :=
  ⟨rfl, rfl, rfl, rfl,
    (issuing_twice_flips_eye Device.allOk D3DProxyDevice.stereoBound [] exampleStereoSurface
      rfl).2.2.1 rfl rfl (.DrawPrimitive 4 0 2) (.DrawPrimitive 4 0 2) rfl⟩

/-! ## Getters of bound resources -/

/-- C30: the getters of bound resources leave the whole state, hence every binding, as it
was, and make no device call. `GetRenderTarget`, `GetDepthStencilSurface`, `GetTexture`,
`GetStreamSource` and `GetIndices` log exactly one `AddRef()` on the object they hand out when
it is not null, and nothing otherwise; `GetVertexShader`, `GetPixelShader` and
`GetVertexDeclaration` hand out the bound object and log nothing. `GetRenderTarget` rejects an
index at or above the capacity of the slot table, and reports `D3DERR_NOTFOUND` for an empty
slot, as `GetDepthStencilSurface` does; `GetTexture` and `GetStreamSource` reject a stage or
stream without an entry and report `D3D_OK` with a null pointer for a null entry; the other
four report `D3DERR_INVALIDCALL` when nothing is bound. -/
theorem getters_reference_counts (s : D3DProxyDevice) (log : Log)
    (capacity RenderTargetIndex Stage StreamNumber : Nat) :
    -- the five getters that add a reference
    (capacity ≤ RenderTargetIndex →
      s.GetRenderTarget capacity RenderTargetIndex log
        = some (D3DERR_INVALIDCALL, none, s, log)) ∧
    (∀ slot, RenderTargetIndex < capacity →
      s.m_activeRenderTargets[RenderTargetIndex]? = some slot →
      s.GetRenderTarget capacity RenderTargetIndex log
        = some (if slot.isSome then D3D_OK else D3DERR_NOTFOUND, slot, s,
            log ++ D3DProxyDevice.addRefIfSet s.m_currentRenderingSide .surface slot)) ∧
    s.GetDepthStencilSurface log
      = (if s.m_pActiveStereoDepthStencil.isSome then D3D_OK else D3DERR_NOTFOUND,
          s.m_pActiveStereoDepthStencil, s,
          log ++ D3DProxyDevice.addRefIfSet s.m_currentRenderingSide .surface
            s.m_pActiveStereoDepthStencil) ∧
    s.GetTexture Stage log
      = (if (s.m_activeTextureStages.lookup Stage).isSome then D3D_OK else D3DERR_INVALIDCALL,
          s.m_activeTextureStages.lookup Stage, s,
          log ++ D3DProxyDevice.addRefIfSet s.m_currentRenderingSide .texture
            (s.m_activeTextureStages.lookup Stage).join) ∧
    s.GetStreamSource StreamNumber log
      = (if (s.m_activeVertexBuffers.lookup StreamNumber).isSome then D3D_OK
          else D3DERR_INVALIDCALL,
          s.m_activeVertexBuffers.lookup StreamNumber, s,
          log ++ D3DProxyDevice.addRefIfSet s.m_currentRenderingSide .vertexBuffer
            (s.m_activeVertexBuffers.lookup StreamNumber).join) ∧
    s.GetIndices log
      = (if s.m_pActiveIndicies.isSome then D3D_OK else D3DERR_INVALIDCALL,
          s.m_pActiveIndicies, s,
          log ++ D3DProxyDevice.addRefIfSet s.m_currentRenderingSide .indexBuffer
            s.m_pActiveIndicies) ∧
    -- the three getters that add none
    s.GetVertexShader log
      = (if s.m_pActiveVertexShader.isSome then D3D_OK else D3DERR_INVALIDCALL,
          s.m_pActiveVertexShader, s, log) ∧
    s.GetPixelShader log
      = (if s.m_pActivePixelShader.isSome then D3D_OK else D3DERR_INVALIDCALL,
          s.m_pActivePixelShader, s, log) ∧
    s.GetVertexDeclaration log
      = (if s.m_pActiveVertexDeclaration.isSome then D3D_OK else D3DERR_INVALIDCALL,
          s.m_pActiveVertexDeclaration, s, log) := by
  refine ⟨?_, ?_, ?_, ?_, ?_, ?_, ?_, ?_, ?_⟩
  · intro hc
    unfold D3DProxyDevice.GetRenderTarget
    rw [if_pos hc]
  · intro slot hc hget
    unfold D3DProxyDevice.GetRenderTarget
    rw [if_neg (by omega), hget]
    cases slot <;> simp [D3DProxyDevice.addRefIfSet]
  · unfold D3DProxyDevice.GetDepthStencilSurface
    cases s.m_pActiveStereoDepthStencil <;> simp [D3DProxyDevice.addRefIfSet]
  · unfold D3DProxyDevice.GetTexture
    rcases s.m_activeTextureStages.lookup Stage with _ | _ | t <;>
      simp [D3DProxyDevice.addRefIfSet]
  · unfold D3DProxyDevice.GetStreamSource
    rcases s.m_activeVertexBuffers.lookup StreamNumber with _ | _ | t <;>
      simp [D3DProxyDevice.addRefIfSet]
  · unfold D3DProxyDevice.GetIndices
    cases s.m_pActiveIndicies <;> simp [D3DProxyDevice.addRefIfSet]
  · unfold D3DProxyDevice.GetVertexShader
    cases s.m_pActiveVertexShader <;> rfl
  · unfold D3DProxyDevice.GetPixelShader
    cases s.m_pActivePixelShader <;> rfl
  · unfold D3DProxyDevice.GetVertexDeclaration
    cases s.m_pActiveVertexDeclaration <;> rfl

/-- Witness of C30: `GetRenderTarget(0)` on a device whose slot 0 holds the stereo example
surface, with a slot table of capacity 1. -/
theorem getters_reference_counts_witness :
    (0 : Nat) < 1 ∧
    D3DProxyDevice.buffersBound.m_activeRenderTargets[0]? = some (some exampleStereoSurface) ∧
    D3DProxyDevice.buffersBound.GetRenderTarget 1 0 []
      = some (D3D_OK, some exampleStereoSurface, D3DProxyDevice.buffersBound,
          [⟨.Left, .AddRef (.surface exampleStereoSurface)⟩]) :=
  ⟨by decide, rfl,
    (getters_reference_counts D3DProxyDevice.buffersBound [] 1 0 1 0).2.1
      (some exampleStereoSurface) (by decide) rfl⟩

/-! ## Binary32 rounding -/

theorem roundTiesToEven_near (x : ℚ) : |x - roundTiesToEven x| ≤ 1 / 2 := by
  have h1 := Int.floor_le x
  have h2 := Int.lt_floor_add_one x
  unfold roundTiesToEven
  split_ifs with ha hb hc
  · rw [abs_le]; constructor <;> linarith
  · push_cast; rw [abs_le]; constructor <;> linarith
  · rw [abs_le]; constructor <;> linarith
  · push_cast; rw [abs_le]; constructor <;> linarith

theorem roundTiesToEven_eq (x : ℚ) (n : ℤ) (h : |x - n| < 1 / 2) : roundTiesToEven x = n := by
  have h1 := roundTiesToEven_near x
  rw [abs_lt] at h
  rw [abs_le] at h1
  have h3 : ((roundTiesToEven x - n : ℤ) : ℚ) < 1 := by push_cast; linarith
  have h4 : (-1 : ℚ) < ((roundTiesToEven x - n : ℤ) : ℚ) := by push_cast; linarith
  have h5 : roundTiesToEven x - n < 1 := by exact_mod_cast h3
  have h6 : -1 < roundTiesToEven x - n := by exact_mod_cast h4
  omega

theorem roundTiesToEven_intCast (n : ℤ) : roundTiesToEven (n : ℚ) = n :=
  roundTiesToEven_eq _ n (by simp)

theorem log_eq_of_bounds (x : ℚ) (e : ℤ) (h1 : (2 : ℚ) ^ e ≤ x) (h2 : x < 2 ^ (e + 1)) :
    Int.log 2 x = e := by
  have hx : 0 < x := lt_of_lt_of_le (by positivity) h1
  have ha : e ≤ Int.log 2 x := (Int.zpow_le_iff_le_log (by norm_num) hx).1 (by exact_mod_cast h1)
  have hb : Int.log 2 x < e + 1 := (Int.lt_zpow_iff_log_lt (by norm_num) hx).1 (by exact_mod_cast h2)
  omega

theorem round32_eq (q : ℚ) (e n : ℤ) (he : -126 ≤ e) (h1 : (2 : ℚ) ^ e ≤ |q|)
    (h2 : |q| < 2 ^ (e + 1)) (h : |q / 2 ^ (e - 23) - n| < 1 / 2) :
    round32 q = n * 2 ^ (e - 23) := by
  have hq : q ≠ 0 := by
    intro h0
    rw [h0, abs_zero] at h1
    exact absurd h1 (not_le.2 (by positivity))
  rw [round32, if_neg hq, exponent32, log_eq_of_bounds _ e h1 h2, max_eq_left he,
    roundTiesToEven_eq _ n h]

theorem round32_eq_pos (q : ℚ) (e n : ℤ) (he : -126 ≤ e) (h1 : (2 : ℚ) ^ e ≤ q)
    (h2 : q < 2 ^ (e + 1))
    (h3 : -(1 / 2) < q / 2 ^ (e - 23) - n) (h4 : q / 2 ^ (e - 23) - n < 1 / 2) :
    round32 q = n * 2 ^ (e - 23) := by
  have hq : 0 < q := lt_of_lt_of_le (by positivity) h1
  exact round32_eq q e n he (by rw [abs_of_pos hq]; exact h1) (by rw [abs_of_pos hq]; exact h2)
    (abs_lt.2 ⟨h3, h4⟩)

theorem round32_eq_neg (q : ℚ) (e n : ℤ) (he : -126 ≤ e) (h1 : (2 : ℚ) ^ e ≤ -q)
    (h2 : -q < 2 ^ (e + 1))
    (h3 : -(1 / 2) < q / 2 ^ (e - 23) - n) (h4 : q / 2 ^ (e - 23) - n < 1 / 2) :
    round32 q = n * 2 ^ (e - 23) := by
  have hq : q < 0 := by
    have : (0 : ℚ) < 2 ^ e := by positivity
    linarith
  exact round32_eq q e n he (by rw [abs_of_neg hq]; exact h1) (by rw [abs_of_neg hq]; exact h2)
    (abs_lt.2 ⟨h3, h4⟩)

theorem roundTiesToEven_ge (x : ℚ) (a : ℤ) (h : (a : ℚ) ≤ x) : a ≤ roundTiesToEven x := by
  have h1 := roundTiesToEven_near x
  rw [abs_le] at h1
  have h3 : ((a - 1 : ℤ) : ℚ) < (roundTiesToEven x : ℚ) := by push_cast; linarith
  have h4 : a - 1 < roundTiesToEven x := by exact_mod_cast h3
  omega

theorem roundTiesToEven_le (x : ℚ) (a : ℤ) (h : x ≤ (a : ℚ)) : roundTiesToEven x ≤ a := by
  have h1 := roundTiesToEven_near x
  rw [abs_le] at h1
  have h3 : (roundTiesToEven x : ℚ) < ((a + 1 : ℤ) : ℚ) := by push_cast; linarith
  have h4 : roundTiesToEven x < a + 1 := by exact_mod_cast h3
  omega

theorem round32_zero : round32 0 = 0 := by simp [round32]

theorem zpow_neg_126 : (2 : ℚ) ^ (-126 : ℤ) = 1 / 2 ^ 126 := by
  rw [zpow_neg, one_div]
  norm_cast

theorem zpow_neg_149 : (2 : ℚ) ^ (-126 - 23 : ℤ) = 1 / 2 ^ 149 := by
  rw [show (-126 - 23 : ℤ) = -149 by norm_num, zpow_neg, one_div]
  norm_cast

/-- The exponent of a rational in the normal range is that of its leading bit. -/
theorem exponent32_normal (q : ℚ) (hq : 1 / 2 ^ 126 ≤ |q|) :
    exponent32 q = Int.log 2 |q| ∧ -126 ≤ Int.log 2 |q| := by
  have habs : 0 < |q| := lt_of_lt_of_le (by positivity) hq
  have h : (-126 : ℤ) ≤ Int.log 2 |q| :=
    (Int.zpow_le_iff_le_log (by norm_num) habs).1 (by
      have := zpow_neg_126
      push_cast
      rw [this]
      exact hq)
  exact ⟨max_eq_left h, h⟩

/-- The exponent of a rational in the subnormal range is -126. -/
theorem exponent32_small (q : ℚ) (h0 : q ≠ 0) (hq : |q| < 1 / 2 ^ 126) :
    exponent32 q = -126 := by
  have habs : 0 < |q| := abs_pos.2 h0
  have h : Int.log 2 |q| < (-126 : ℤ) :=
    (Int.lt_zpow_iff_log_lt (by norm_num) habs).1 (by
      have := zpow_neg_126
      push_cast
      rw [this]
      exact hq)
  exact max_eq_right (le_of_lt h)

/-- What `round32` returns in the subnormal range: a multiple of `2^-149`. -/
theorem round32_small (q : ℚ) (hq : |q| < 1 / 2 ^ 126) :
    round32 q = roundTiesToEven (q * 2 ^ 149) / 2 ^ 149 := by
  by_cases h0 : q = 0
  · rw [h0, round32_zero, zero_mul]
    have := roundTiesToEven_intCast 0
    simp only [Int.cast_zero] at this
    rw [this]
    simp
  rw [round32, if_neg h0, exponent32_small q h0 hq, zpow_neg_149]
  rw [div_div_eq_mul_div, div_one, mul_one_div]

/-- What `round32` returns in the normal range. -/
theorem round32_spec (q : ℚ) (hq : 1 / 2 ^ 126 ≤ |q|) :
    ∃ (e n : ℤ), -126 ≤ e ∧ (2 : ℚ) ^ e ≤ |q| ∧ |q| < 2 ^ (e + 1) ∧
      round32 q = n * 2 ^ (e - 23) ∧
      |q / 2 ^ (e - 23) - n| ≤ 1 / 2 ∧ 2 ^ 23 ≤ |n| ∧ |n| ≤ 2 ^ 24 ∧ (0 < q → 0 < n) ∧
      (q < 0 → n < 0) := by
  have habs : 0 < |q| := lt_of_lt_of_le (by positivity) hq
  have hq0 : q ≠ 0 := abs_pos.1 habs
  obtain ⟨hexp, hL⟩ := exponent32_normal q hq
  have h1 : (2 : ℚ) ^ (Int.log 2 |q|) ≤ |q| := by
    have := @Int.zpow_log_le_self ℚ _ _ 2 |q| (by norm_num) habs
    exact_mod_cast this
  have h2 : |q| < (2 : ℚ) ^ (Int.log 2 |q| + 1) := by
    have := @Int.lt_zpow_succ_log_self ℚ _ _ 2 (by norm_num) |q|
    exact_mod_cast this
  have hr : round32 q = roundTiesToEven (q / 2 ^ (Int.log 2 |q| - 23))
      * 2 ^ (Int.log 2 |q| - 23) := by
    rw [round32, if_neg hq0, hexp]
  generalize Int.log 2 |q| = L at h1 h2 hr hL
  have hu : (0 : ℚ) < 2 ^ (L - 23) := by positivity
  have e1 : ((2 ^ 23 : ℤ) : ℚ) * 2 ^ (L - 23) = 2 ^ L := by
    rw [zpow_sub₀ (by norm_num)]
    push_cast
    field_simp
    ring
  have e2 : ((2 ^ 24 : ℤ) : ℚ) * 2 ^ (L - 23) = 2 ^ (L + 1) := by
    rw [zpow_sub₀ (by norm_num), zpow_add₀ (by norm_num)]
    push_cast
    field_simp
    ring
  have hm1 : ((2 ^ 23 : ℤ) : ℚ) ≤ |q| / 2 ^ (L - 23) := by
    rw [le_div_iff₀ hu, e1]
    exact h1
  have hm2 : |q| / 2 ^ (L - 23) ≤ ((2 ^ 24 : ℤ) : ℚ) := by
    rw [div_le_iff₀ hu, e2]
    exact le_of_lt h2
  refine ⟨L, roundTiesToEven (q / 2 ^ (L - 23)), hL, h1, h2, hr, roundTiesToEven_near _, ?_⟩
  rcases lt_or_gt_of_ne hq0 with hneg | hpos
  · rw [abs_of_neg hneg, neg_div] at hm1 hm2
    have ha : roundTiesToEven (q / 2 ^ (L - 23)) ≤ -(2 ^ 23) :=
      roundTiesToEven_le _ _ (by push_cast at hm1 ⊢; linarith)
    have hb : -(2 ^ 24) ≤ roundTiesToEven (q / 2 ^ (L - 23)) :=
      roundTiesToEven_ge _ _ (by push_cast at hm2 ⊢; linarith)
    refine ⟨?_, ?_, fun h => absurd h (not_lt.2 (le_of_lt hneg)), fun _ => by omega⟩
    · rw [abs_of_neg (by omega)]; omega
    · rw [abs_of_neg (by omega)]; omega
  · rw [abs_of_pos hpos] at hm1 hm2
    have ha : 2 ^ 23 ≤ roundTiesToEven (q / 2 ^ (L - 23)) :=
      roundTiesToEven_ge _ _ hm1
    have hb : roundTiesToEven (q / 2 ^ (L - 23)) ≤ 2 ^ 24 :=
      roundTiesToEven_le _ _ hm2
    refine ⟨?_, ?_, fun _ => by omega, fun h => absurd h (not_lt.2 (le_of_lt hpos))⟩
    · rw [abs_of_pos (by omega)]; exact ha
    · rw [abs_of_pos (by omega)]; exact hb

/-- A subnormal rational rounds to a value of magnitude at most `2^-126`. -/
theorem abs_round32_small (q : ℚ) (hq : |q| < 1 / 2 ^ 126) :
    |round32 q| ≤ 1 / 2 ^ 126 ∧ |round32 q - q| ≤ 1 / 2 ^ 150 := by
  rw [round32_small q hq]
  have hu : (0 : ℚ) < 2 ^ 149 := by positivity
  have hx : |q * 2 ^ 149| < 2 ^ 23 := by
    rw [abs_mul, abs_of_pos hu]
    have := mul_lt_mul_of_pos_right hq hu
    have e : (1 : ℚ) / 2 ^ 126 * 2 ^ 149 = 2 ^ 23 := by
      rw [show (149 : ℕ) = 126 + 23 by norm_num, pow_add]
      field_simp
    rwa [e] at this
  rw [abs_lt] at hx
  have hlo : -(2 ^ 23 : ℤ) ≤ roundTiesToEven (q * 2 ^ 149) :=
    roundTiesToEven_ge _ _ (by push_cast; linarith [hx.1])
  have hhi : roundTiesToEven (q * 2 ^ 149) ≤ (2 ^ 23 : ℤ) :=
    roundTiesToEven_le _ _ (by push_cast; linarith [hx.2])
  have hn := roundTiesToEven_near (q * 2 ^ 149)
  constructor
  · rw [abs_div, abs_of_pos hu, div_le_iff₀ hu]
    have e : (1 : ℚ) / 2 ^ 126 * 2 ^ 149 = 2 ^ 23 := by
      rw [show (149 : ℕ) = 126 + 23 by norm_num, pow_add]
      field_simp
    rw [e, abs_le]
    constructor
    · have : ((-(2 ^ 23 : ℤ) : ℤ) : ℚ) ≤ (roundTiesToEven (q * 2 ^ 149) : ℚ) := by
        exact_mod_cast hlo
      push_cast at this
      linarith
    · have : (roundTiesToEven (q * 2 ^ 149) : ℚ) ≤ ((2 ^ 23 : ℤ) : ℚ) := by
        exact_mod_cast hhi
      push_cast at this
      linarith
  · have hd : (roundTiesToEven (q * 2 ^ 149) : ℚ) / 2 ^ 149 - q
        = -((q * 2 ^ 149 - roundTiesToEven (q * 2 ^ 149)) / 2 ^ 149) := by
      field_simp
      ring
    rw [hd, abs_neg, abs_div, abs_of_pos hu, div_le_iff₀ hu]
    have e : (1 : ℚ) / 2 ^ 150 * 2 ^ 149 = 1 / 2 := by
      rw [show (150 : ℕ) = 149 + 1 by norm_num, pow_add]
      field_simp
    rw [e]
    exact hn

/-- A rational that rounds to 1 lies within half a unit in the last place of 1. -/
theorem round32_eq_one (y : ℚ) (h : round32 y = 1) :
    1 - 1 / 2 ^ 25 ≤ y ∧ y ≤ 1 + 1 / 2 ^ 24 := by
  have hnorm : 1 / 2 ^ 126 ≤ |y| := by
    by_contra hc
    have := (abs_round32_small y (not_le.1 hc)).1
    rw [h, abs_one] at this
    have h2 : (1 : ℚ) / 2 ^ 126 < 1 := by
      rw [div_lt_one (by positivity)]
      exact one_lt_pow₀ (by norm_num) (by norm_num)
    linarith
  have hy : y ≠ 0 := by
    intro h0
    rw [h0, round32_zero] at h
    exact zero_ne_one h
  obtain ⟨e, n, -, h1, h2, hr, hn, hn1, hn2, hpos, hneg⟩ := round32_spec y hnorm
  rw [hr] at h
  have hu : (0 : ℚ) < 2 ^ (e - 23) := by positivity
  have hnpos : 0 < n := by
    by_contra hc
    have hle : (n : ℚ) ≤ 0 := by exact_mod_cast not_lt.1 hc
    have := mul_nonpos_of_nonpos_of_nonneg hle (le_of_lt hu)
    linarith
  have hypos : 0 < y := by
    by_contra hc
    have := hneg (lt_of_le_of_ne (not_lt.1 hc) hy)
    omega
  rw [abs_of_pos hnpos] at hn1 hn2
  rw [abs_of_pos hypos] at h1 h2
  have hn1q : (2 ^ 23 : ℚ) ≤ n := by exact_mod_cast hn1
  have hn2q : (n : ℚ) ≤ 2 ^ 24 := by exact_mod_cast hn2
  have he1 : -1 ≤ e := by
    by_contra hc
    have hle : e - 23 ≤ -25 := by omega
    have hz : (2 : ℚ) ^ (e - 23) ≤ 2 ^ (-25 : ℤ) := zpow_le_zpow_right₀ (by norm_num) hle
    have h25 : (2 : ℚ) ^ (-25 : ℤ) = 1 / 2 ^ 25 := by norm_num [zpow_neg]
    have hmul := mul_le_mul hn2q hz (le_of_lt hu) (by positivity)
    rw [h, h25] at hmul
    norm_num at hmul
  have he2 : e ≤ 0 := by
    by_contra hc
    have hle : -22 ≤ e - 23 := by omega
    have hz : (2 : ℚ) ^ (-22 : ℤ) ≤ 2 ^ (e - 23) := zpow_le_zpow_right₀ (by norm_num) hle
    have h22 : (2 : ℚ) ^ (-22 : ℤ) = 1 / 2 ^ 22 := by norm_num [zpow_neg]
    have hmul := mul_le_mul hn1q hz (by positivity) (by positivity)
    rw [h, h22] at hmul
    norm_num at hmul
  obtain rfl | rfl : e = -1 ∨ e = 0 := by omega
  · norm_num [zpow_neg] at h hn h1 h2
    rw [abs_le] at hn
    constructor <;> norm_num <;> nlinarith
  · norm_num [zpow_neg] at h hn h1 h2
    rw [abs_le] at hn
    constructor <;> norm_num <;> nlinarith

theorem round32_min_normal : round32 (1 / 2 ^ 126) = 1 / 2 ^ 126 :=
  (round32_eq_pos _ (-126) (2 ^ 23) (le_refl _) (by norm_num [zpow_neg])
    (by norm_num [zpow_neg]) (by norm_num [zpow_neg]) (by norm_num [zpow_neg])).trans
    (by norm_num [zpow_neg])

theorem round32_neg_min_normal : round32 (-(1 / 2 ^ 126)) = -(1 / 2 ^ 126) :=
  (round32_eq_neg _ (-126) (-(2 ^ 23)) (le_refl _) (by norm_num [zpow_neg])
    (by norm_num [zpow_neg]) (by norm_num [zpow_neg]) (by norm_num [zpow_neg])).trans
    (by norm_num [zpow_neg])

/-- Rounding twice is rounding once, in the normal range. -/
theorem round32_idem_normal (q : ℚ) (hq : 1 / 2 ^ 126 ≤ |q|) :
    round32 (round32 q) = round32 q := by
  obtain ⟨e, n, he, h1, h2, hr, hn, hn1, hn2, hpos, hneg⟩ := round32_spec q hq
  rw [hr]
  have hu : (0 : ℚ) < 2 ^ (e - 23) := by positivity
  have hn1q : (2 ^ 23 : ℚ) ≤ |(n : ℚ)| := by exact_mod_cast hn1
  have hn2q : |(n : ℚ)| ≤ 2 ^ 24 := by exact_mod_cast hn2
  have e1 : (2 : ℚ) ^ 23 * 2 ^ (e - 23) = 2 ^ e := by
    rw [zpow_sub₀ (by norm_num)]
    field_simp
    ring
  have e2 : (2 : ℚ) ^ 24 * 2 ^ (e - 23) = 2 ^ (e + 1) := by
    rw [zpow_sub₀ (by norm_num), zpow_add₀ (by norm_num)]
    field_simp
    ring
  have habs : |(n : ℚ) * 2 ^ (e - 23)| = |(n : ℚ)| * 2 ^ (e - 23) := by
    rw [abs_mul, abs_of_pos hu]
  by_cases hlt : |n| < 2 ^ 24
  · have hltq : |(n : ℚ)| < 2 ^ 24 := by exact_mod_cast hlt
    refine round32_eq _ e n he ?_ ?_ ?_
    · rw [habs, ← e1]
      exact mul_le_mul_of_nonneg_right hn1q (le_of_lt hu)
    · rw [habs, ← e2]
      exact mul_lt_mul_of_pos_right hltq hu
    · rw [mul_div_assoc, div_self (ne_of_gt hu), mul_one, sub_self, abs_zero]
      norm_num
  · have heq : |n| = 2 ^ 24 := le_antisymm hn2 (not_lt.1 hlt)
    have heqq : |(n : ℚ)| = 2 ^ 24 := by exact_mod_cast heq
    have e3 : (2 : ℚ) ^ (e + 1 - 23) = 2 * 2 ^ (e - 23) := by
      rw [show e + 1 - 23 = (e - 23) + 1 by ring, zpow_add₀ (by norm_num)]
      ring
    have e4 : (2 : ℚ) ^ (e + 1 + 1) = 2 * 2 ^ (e + 1) := by
      rw [zpow_add₀ (by norm_num) (e + 1) 1]
      ring
    obtain ⟨m, hm⟩ : ∃ m : ℤ, n = 2 * m := by
      rcases abs_cases n with ⟨h, _⟩ | ⟨h, _⟩
      · exact ⟨2 ^ 23, by rw [h] at heq; rw [heq]; norm_num⟩
      · exact ⟨-(2 ^ 23), by rw [h] at heq; omega⟩
    have hfin := round32_eq ((n : ℚ) * 2 ^ (e - 23)) (e + 1) m (by omega) ?_ ?_ ?_
    · rw [hfin, e3, hm]
      push_cast
      ring
    · rw [habs, heqq, e2]
    · rw [habs, heqq, e2, e4]
      have : (0 : ℚ) < 2 ^ (e + 1) := by positivity
      linarith
    · rw [e3, hm]
      push_cast
      have : (2 * (m : ℚ) * 2 ^ (e - 23)) / (2 * 2 ^ (e - 23)) = m := by
        field_simp
        ring
      rw [this, sub_self, abs_zero]
      norm_num

/-- Rounding twice is rounding once. -/
theorem round32_idem (q : ℚ) : round32 (round32 q) = round32 q := by
  rcases le_or_lt (1 / 2 ^ 126) |q| with hq | hq
  · exact round32_idem_normal q hq
  have hb := (abs_round32_small q hq).1
  have hr := round32_small q hq
  rcases lt_or_eq_of_le hb with hlt | heq
  · rw [round32_small _ hlt]
    rw [hr]
    have hu : (2 : ℚ) ^ 149 ≠ 0 := by positivity
    rw [div_mul_cancel₀ _ hu, roundTiesToEven_intCast]
  · rcases abs_cases (round32 q) with ⟨h, _⟩ | ⟨h, _⟩
    · rw [h] at heq
      rw [heq]
      exact round32_min_normal
    · have hval : round32 q = -(1 / 2 ^ 126) := by linarith
      rw [hval]
      exact round32_neg_min_normal

/-- No binary32 value times 16031561 / 2^25 rounds to 1. -/
theorem round32_mul_ne_one (x : ℚ) (hx : round32 x = x) :
    round32 (x * (16031561 / 2 ^ 25)) ≠ 1 := by
  intro h
  obtain ⟨hlo, hhi⟩ := round32_eq_one _ h
  have hxpos : 0 < x := by
    by_contra hc
    have : x ≤ 0 := not_lt.1 hc
    nlinarith
  have hx1 : 1 ≤ x := by
    by_contra hc
    have : x < 1 := not_le.1 hc
    nlinarith
  have hnorm : 1 / 2 ^ 126 ≤ |x| := by
    rw [abs_of_pos hxpos]
    have h2 : (1 : ℚ) / 2 ^ 126 ≤ 1 := by
      rw [div_le_one (by positivity)]
      exact one_le_pow₀ (by norm_num)
    linarith
  obtain ⟨e, n, -, h1, h2, hr, -, hn1, hn2, hpos, hneg⟩ := round32_spec x hnorm
  rw [hx] at hr
  have hnpos := hpos hxpos
  rw [abs_of_pos hnpos] at hn1 hn2
  have hn1q : (2 ^ 23 : ℚ) ≤ n := by exact_mod_cast hn1
  have hn2q : (n : ℚ) ≤ 2 ^ 24 := by exact_mod_cast hn2
  have hu : (0 : ℚ) < 2 ^ (e - 23) := by positivity
  rw [hr] at hlo hhi
  have he1 : 1 ≤ e := by
    by_contra hc
    have hle : e - 23 ≤ -23 := by omega
    have hz : (2 : ℚ) ^ (e - 23) ≤ 2 ^ (-23 : ℤ) := zpow_le_zpow_right₀ (by norm_num) hle
    have h23 : (2 : ℚ) ^ (-23 : ℤ) = 1 / 2 ^ 23 := by norm_num [zpow_neg]
    have hmul := mul_le_mul hn2q hz (le_of_lt hu) (by positivity)
    rw [h23] at hmul
    nlinarith
  have he2 : e ≤ 1 := by
    by_contra hc
    have hle : -21 ≤ e - 23 := by omega
    have hz : (2 : ℚ) ^ (-21 : ℤ) ≤ 2 ^ (e - 23) := zpow_le_zpow_right₀ (by norm_num) hle
    have h21 : (2 : ℚ) ^ (-21 : ℤ) = 1 / 2 ^ 21 := by norm_num [zpow_neg]
    have hmul := mul_le_mul hn1q hz (by positivity) (by positivity)
    rw [h21] at hmul
    nlinarith
  obtain rfl : e = 1 := by omega
  norm_num [zpow_neg] at hlo hhi
  have hlo2 : (140737484161024 : ℚ) ≤ ((16031561 * n : ℤ) : ℚ) := by
    push_cast
    linarith
  have hhi2 : ((16031561 * n : ℤ) : ℚ) ≤ (140737496743936 : ℚ) := by
    push_cast
    linarith
  have hlo3 : (140737484161024 : ℤ) ≤ 16031561 * n := by exact_mod_cast hlo2
  have hhi3 : 16031561 * n ≤ (140737496743936 : ℤ) := by exact_mod_cast hhi2
  omega

/-- A rational in the normal range does not round to zero. -/
theorem round32_ne_zero (q : ℚ) (hq : 1 / 2 ^ 126 ≤ |q|) : round32 q ≠ 0 := by
  obtain ⟨e, n, -, -, -, hr, -, hn1, -, -, -⟩ := round32_spec q hq
  rw [hr]
  have hn : n ≠ 0 := by
    intro h0
    rw [h0] at hn1
    norm_num at hn1
  have hu : (0 : ℚ) < 2 ^ (e - 23) := by positivity
  exact mul_ne_zero (by exact_mod_cast hn) (ne_of_gt hu)

/-- The error of a rounding in the normal range is at most `2^-24` of the operand. -/
theorem round32_error_normal (q : ℚ) (hq : 1 / 2 ^ 126 ≤ |q|) :
    |round32 q - q| ≤ |q| / 2 ^ 24 := by
  obtain ⟨e, n, -, h1, -, hr, hn, -, -, -, -⟩ := round32_spec q hq
  have hu : (0 : ℚ) < 2 ^ (e - 23) := by positivity
  have e1 : (2 : ℚ) ^ (e - 23) = 2 ^ e / 2 ^ 23 := by
    rw [zpow_sub₀ (by norm_num)]
    norm_num
  have hd : round32 q - q = -((q / 2 ^ (e - 23) - n) * 2 ^ (e - 23)) := by
    rw [hr]
    field_simp
    ring
  rw [hd, abs_neg, abs_mul, abs_of_pos hu]
  have hmul := mul_le_mul_of_nonneg_right hn (le_of_lt hu)
  have h2e : (0 : ℚ) < 2 ^ e := by positivity
  calc |q / 2 ^ (e - 23) - n| * 2 ^ (e - 23) ≤ 1 / 2 * 2 ^ (e - 23) := hmul
    _ = 2 ^ e / 2 ^ 24 := by rw [e1]; ring
    _ ≤ |q| / 2 ^ 24 := by
        apply div_le_div_of_nonneg_right h1
        positivity

/-- The error of a rounding: at most `2^-24` of the operand, or half the subnormal spacing. -/
theorem round32_error (q : ℚ) : |round32 q - q| ≤ |q| / 2 ^ 24 + 1 / 2 ^ 150 := by
  rcases le_or_lt (1 / 2 ^ 126) |q| with hq | hq
  · have := round32_error_normal q hq
    have h2 : (0 : ℚ) ≤ 1 / 2 ^ 150 := by positivity
    linarith
  · have := (abs_round32_small q hq).2
    have h2 : (0 : ℚ) ≤ |q| / 2 ^ 24 := by positivity
    linarith

theorem abs_round32_le (q : ℚ) : |round32 q| ≤ 2 * |q| := by
  rcases le_or_lt (1 / 2 ^ 126) |q| with hq | hq
  · have h := round32_error_normal q hq
    have h2 : |round32 q| ≤ |round32 q - q| + |q| := by
      have := abs_add (round32 q - q) q
      simpa using this
    have h3 : |q| / 2 ^ 24 ≤ |q| := by
      apply div_le_self (abs_nonneg q)
      norm_num
    linarith
  · rw [round32_small q hq]
    have hu : (0 : ℚ) < 2 ^ 149 := by positivity
    rw [abs_div, abs_of_pos hu, div_le_iff₀ hu, mul_assoc, ← abs_of_pos hu, ← abs_mul,
      abs_of_pos hu]
    generalize q * 2 ^ 149 = x
    have hn := roundTiesToEven_near x
    rcases le_or_lt |x| (1 / 2) with hx | hx
    · have h0 : roundTiesToEven x = 0 := by
        rw [abs_le] at hx
        rcases lt_or_eq_of_le hx.2 with h1 | h1
        · rcases lt_or_eq_of_le hx.1 with h2 | h2
          · exact roundTiesToEven_eq x 0 (by rw [abs_lt]; push_cast; constructor <;> linarith)
          · rw [← h2]
            norm_num [roundTiesToEven]
        · rw [h1]
          norm_num [roundTiesToEven]
      rw [h0]
      simp
    · have h2 : |(roundTiesToEven x : ℚ)| ≤ |(roundTiesToEven x : ℚ) - x| + |x| := by
        have := abs_add ((roundTiesToEven x : ℚ) - x) x
        simpa using this
      rw [abs_sub_comm] at h2
      linarith

/-- Rounding keeps the sign. -/
theorem round32_nonneg (q : ℚ) (hq : 0 ≤ q) : 0 ≤ round32 q := by
  by_cases h0 : q = 0
  · rw [h0, round32_zero]
  rw [round32, if_neg h0]
  have hu : (0 : ℚ) < 2 ^ (exponent32 q - 23) := by positivity
  have hx : ((0 : ℤ) : ℚ) ≤ q / 2 ^ (exponent32 q - 23) := by
    push_cast
    exact div_nonneg hq (le_of_lt hu)
  have := roundTiesToEven_ge _ 0 hx
  have h2 : (0 : ℚ) ≤ (roundTiesToEven (q / 2 ^ (exponent32 q - 23)) : ℚ) := by
    exact_mod_cast this
  exact mul_nonneg h2 (le_of_lt hu)

theorem round32_nonpos (q : ℚ) (hq : q ≤ 0) : round32 q ≤ 0 := by
  by_cases h0 : q = 0
  · rw [h0, round32_zero]
  rw [round32, if_neg h0]
  have hu : (0 : ℚ) < 2 ^ (exponent32 q - 23) := by positivity
  have hx : q / 2 ^ (exponent32 q - 23) ≤ ((0 : ℤ) : ℚ) := by
    push_cast
    exact div_nonpos_of_nonpos_of_nonneg hq (le_of_lt hu)
  have := roundTiesToEven_le _ 0 hx
  have h2 : (roundTiesToEven (q / 2 ^ (exponent32 q - 23)) : ℚ) ≤ 0 := by
    exact_mod_cast this
  exact mul_nonpos_of_nonpos_of_nonneg h2 (le_of_lt hu)

/-! ## The projection update in binary32 -/

theorem mul32_zero (x : ℚ) : mul32 x 0 = 0 := by simp [mul32, round32_zero]
theorem zero_mul32 (x : ℚ) : mul32 0 x = 0 := by simp [mul32, round32_zero]
theorem mul32_one (x : ℚ) : mul32 x 1 = round32 x := by simp [mul32]
theorem add32_zero (x : ℚ) : add32 x 0 = round32 x := by simp [add32]
theorem zero_add32 (x : ℚ) : add32 0 x = round32 x := by simp [add32]
theorem div32_zero_left (x : ℚ) : div32 0 x = 0 := by simp [div32, round32_zero]

theorem aspect_3440_1440 : div32 3440 1440 = 10019726 / 2 ^ 22 := by
  unfold div32
  exact (round32_eq_pos _ 1 10019726 (by norm_num) (by norm_num) (by norm_num) (by norm_num)
    (by norm_num)).trans
    (by norm_num)

theorem literal_tenth : round32 (1 / 10) = 13421773 / 2 ^ 27 :=
  (round32_eq_pos _ (-4) 13421773 (by norm_num) (by norm_num) (by norm_num) (by norm_num)
    (by norm_num)).trans
    (by norm_num)

theorem top_3440_1440 : div32 (1 / 2) (div32 3440 1440) = 14046042 / 2 ^ 26 := by
  rw [aspect_3440_1440]
  unfold div32
  exact (round32_eq_pos _ (-3) 14046042 (by norm_num) (by norm_num) (by norm_num) (by norm_num)
    (by norm_num)).trans
    (by norm_num)

theorem bottom_3440_1440 : div32 (-(1 / 2)) (div32 3440 1440) = -(14046042 / 2 ^ 26) := by
  rw [aspect_3440_1440]
  unfold div32
  exact (round32_eq_neg _ (-3) (-14046042) (by norm_num) (by norm_num) (by norm_num) (by norm_num)
    (by norm_num)).trans (by norm_num)

theorem entry11_3440_1440 :
    div32 (mul32 2 (round32 (1 / 10)))
        (sub32 (div32 (1 / 2) (div32 3440 1440)) (div32 (-(1 / 2)) (div32 3440 1440)))
      = 16031561 / 2 ^ 25 := by
  rw [top_3440_1440, bottom_3440_1440, literal_tenth]
  have h1 : mul32 2 (13421773 / 2 ^ 27) = 13421773 / 2 ^ 26 := by
    unfold mul32
    exact (round32_eq_pos _ (-3) 13421773 (by norm_num) (by norm_num) (by norm_num) (by norm_num)
      (by norm_num)).trans
      (by norm_num)
  have h2 : sub32 (14046042 / 2 ^ 26) (-(14046042 / 2 ^ 26)) = 14046042 / 2 ^ 25 := by
    unfold sub32
    exact (round32_eq_pos _ (-2) 14046042 (by norm_num) (by norm_num) (by norm_num) (by norm_num)
      (by norm_num)).trans
      (by norm_num)
  rw [h1, h2]
  unfold div32
  exact (round32_eq_pos _ (-2) 16031561 (by norm_num) (by norm_num) (by norm_num) (by norm_num)
    (by norm_num)).trans
    (by norm_num)

theorem entry21_3440_1440 :
    div32 (add32 (div32 (1 / 2) (div32 3440 1440)) (div32 (-(1 / 2)) (div32 3440 1440)))
        (sub32 (div32 (-(1 / 2)) (div32 3440 1440)) (div32 (1 / 2) (div32 3440 1440))) = 0 := by
  rw [top_3440_1440, bottom_3440_1440]
  have h : add32 (14046042 / 2 ^ 26) (-(14046042 / 2 ^ 26)) = 0 := by
    simp [add32, round32_zero]
  rw [h, div32_zero_left]

theorem ctor32_frustum (inverse : D3DXMATRIX → D3DXMATRIX → D3DXMATRIX) (raw : ViewAdjustment)
    (displayInfo : HMDisplayInfo) (m : ℚ) (roll : Bool) :
    (ViewAdjustment.ctor32 inverse raw displayInfo m roll).hasCtorFrustum32 := by
  unfold ViewAdjustment.ctor32 ViewAdjustment.ComputeViewTransforms32
    ViewAdjustment.UpdateProjectionMatrices32
  simp only []
  split_ifs <;> exact ⟨rfl, rfl, rfl, rfl⟩

theorem updateProjectionMatrices32_projection
    (inverse : D3DXMATRIX → D3DXMATRIX → D3DXMATRIX) (va : ViewAdjustment) (a : ℚ) :
    (va.UpdateProjectionMatrices32 inverse a).matProjection
      = D3DXMatrixPerspectiveOffCenterLH32 va.l va.r (div32 (-(1 / 2)) a) (div32 (1 / 2) a)
          va.n va.f ∧
    (va.UpdateProjectionMatrices32 inverse a).matProjectionInv
      = inverse va.matProjectionInv (va.UpdateProjectionMatrices32 inverse a).matProjection := by
  unfold ViewAdjustment.UpdateProjectionMatrices32
  split_ifs <;> exact ⟨rfl, rfl⟩

/-- Entry (1,1) of a binary32 product with the base projection at 3440/1440. -/
theorem multiply32_entry11 (X : D3DXMATRIX) :
    D3DXMatrixMultiply32 X
        (D3DXMatrixPerspectiveOffCenterLH32 (-(1 / 2)) (1 / 2)
          (div32 (-(1 / 2)) (div32 3440 1440)) (div32 (1 / 2) (div32 3440 1440))
          (round32 (1 / 10)) 10) 1 1
      = round32 (X 1 1 * (16031561 / 2 ^ 25)) := by
  simp only [D3DXMatrixMultiply32, D3DXMatrixPerspectiveOffCenterLH32, Matrix.of_apply,
    Matrix.cons_val', Matrix.cons_val_zero, Matrix.cons_val_one, Matrix.head_cons,
    Matrix.empty_val', Matrix.cons_val_fin_one, Matrix.cons_val_two, Matrix.cons_val_three,
    Matrix.tail_cons, Matrix.head_fin_const, entry11_3440_1440, entry21_3440_1440,
    mul32_zero, zero_add32, add32_zero, round32_zero, round32_idem]
  simp only [mul32, round32_idem]

/-- C8 as stated does not hold in the arithmetic of the code: on a `ViewAdjustment`
constructed in binary32, after `UpdateProjectionMatrices` at the aspect ratio 3440/1440, no
matrix of binary32 values that `D3DXMatrixInverse` could store gives the identity as the
binary32 product `matProjectionInv * matProjection`: entry (1,1) of the product is the rounded
product of an entry of the stored matrix with `16031561 / 2^25`, which is 1 for no binary32
value. -/
theorem stored_inverse_not_exact :
    ¬ ∃ inverse : D3DXMATRIX → D3DXMATRIX → D3DXMATRIX,
      (∀ out M i j, round32 (inverse out M i j) = inverse out M i j) ∧
      D3DXMatrixMultiply32
        ((ViewAdjustment.created32 inverse).UpdateProjectionMatrices32 inverse
          (div32 3440 1440)).matProjectionInv
        ((ViewAdjustment.created32 inverse).UpdateProjectionMatrices32 inverse
          (div32 3440 1440)).matProjection = 1 := by
  rintro ⟨inverse, hrep, h⟩
  obtain ⟨hn, hf, hl, hr⟩ := ctor32_frustum inverse ViewAdjustment.zeroed
    ⟨round32 (8 / 5), round32 (3 / 20)⟩ 1 false
  have hp := updateProjectionMatrices32_projection inverse (ViewAdjustment.created32 inverse)
    (div32 3440 1440)
  rw [hp.2, hp.1] at h
  unfold ViewAdjustment.created32 at h
  rw [hn, hf, hl, hr] at h
  have h11 := congrFun (congrFun h 1) 1
  rw [multiply32_entry11] at h11
  exact round32_mul_ne_one _ (hrep _ _ 1 1) (by simpa using h11)

theorem multiply32_binary32 (A B : D3DXMATRIX) (i j : Fin 4) :
    round32 (D3DXMatrixMultiply32 A B i j) = D3DXMatrixMultiply32 A B i j := by
  simp only [D3DXMatrixMultiply32, Matrix.of_apply, add32, round32_idem]

theorem round32_half : round32 (1 / 2) = 1 / 2 :=
  (round32_eq_pos _ (-1) 8388608 (by norm_num) (by norm_num) (by norm_num) (by norm_num)
    (by norm_num)).trans (by norm_num)

theorem round32_neg_half : round32 (-(1 / 2)) = -(1 / 2) :=
  (round32_eq_neg _ (-1) (-8388608) (by norm_num) (by norm_num) (by norm_num) (by norm_num)
    (by norm_num)).trans (by norm_num)

theorem round32_one : round32 1 = 1 :=
  (round32_eq_pos _ 0 8388608 (by norm_num) (by norm_num) (by norm_num) (by norm_num)
    (by norm_num)).trans (by norm_num)

/-- C29 as stated does not hold in the arithmetic of the code: on a `ViewAdjustment`
constructed in binary32 and loaded with IPD 0, roll disabled, world scale 3, convergence 2 and
stereo mode 0, after `UpdateProjectionMatrices` at the aspect ratio 3440/1440 and
`ComputeViewTransforms`, the left adjustment matrix is not the identity, whatever matrix
`D3DXMatrixInverse` returns. -/
theorem zero_ipd_adjustment_not_identity :
    ¬ ∃ inverse : D3DXMATRIX → D3DXMATRIX → D3DXMATRIX,
      ((((ViewAdjustment.created32 inverse).Load false 3 2 0 0).UpdateProjectionMatrices32
        inverse (div32 3440 1440)).ComputeViewTransforms32).LeftAdjustmentMatrix
        = D3DXMatrixIdentity := by
  rintro ⟨inverse, h⟩
  obtain ⟨hn, hf, hl, hr⟩ := ctor32_frustum inverse ViewAdjustment.zeroed
    ⟨round32 (8 / 5), round32 (3 / 20)⟩ 1 false
  have hst : ViewAdjustment.isRiftStereoType 0 = false := by decide
  have hproj : (((ViewAdjustment.created32 inverse).Load false 3 2 0
      0).UpdateProjectionMatrices32 inverse (div32 3440 1440)).projectLeft
      = D3DXMatrixPerspectiveOffCenterLH32 (-(1 / 2)) (1 / 2)
          (div32 (-(1 / 2)) (div32 3440 1440)) (div32 (1 / 2) (div32 3440 1440))
          (round32 (1 / 10)) 10 := by
    unfold ViewAdjustment.created32
    simp only [ViewAdjustment.UpdateProjectionMatrices32, ViewAdjustment.Load, hst,
      Bool.false_eq_true, if_false, hn, hf, hl, hr, zero_div, div32_zero_left, zero_mul32,
      mul32_zero, add32_zero, round32_half, round32_neg_half, round32_zero, div32, mul32,
      zero_mul, mul_zero]
  have hadj : (((ViewAdjustment.created32 inverse).Load false 3 2 0
      0).UpdateProjectionMatrices32 inverse (div32 3440 1440)).ComputeViewTransforms32.LeftAdjustmentMatrix
      = D3DXMatrixMultiply32
          (D3DXMatrixMultiply32
            (((ViewAdjustment.created32 inverse).Load false 3 2 0
              0).UpdateProjectionMatrices32 inverse (div32 3440 1440)).matProjectionInv
            (((ViewAdjustment.created32 inverse).Load false 3 2 0
              0).UpdateProjectionMatrices32 inverse
                (div32 3440 1440)).ComputeViewTransforms32.transformLeft)
          (((ViewAdjustment.created32 inverse).Load false 3 2 0
              0).UpdateProjectionMatrices32 inverse (div32 3440 1440)).projectLeft := by
    unfold ViewAdjustment.ComputeViewTransforms32 ViewAdjustment.LeftAdjustmentMatrix
    split_ifs <;> rfl
  rw [hadj, hproj] at h
  have h11 := congrFun (congrFun h 1) 1
  rw [multiply32_entry11] at h11
  exact round32_mul_ne_one _ (multiply32_binary32 _ _ 1 1)
    (by simpa [D3DXMatrixIdentity] using h11)

theorem round32_pow27_half : div32 (2 ^ 27) 2 = 2 ^ 26 := by
  unfold div32
  exact (round32_eq_pos _ 26 8388608 (by norm_num) (by norm_num) (by norm_num) (by norm_num)
    (by norm_num)).trans (by norm_num)

/-- The clip planes of the left eye for IPD `2^27` and convergence 2 in binary32. -/
theorem wide_ipd_planes :
    add32 (-(1 / 2))
        (mul32 (div32 (mul32 (div32 (mul32 (div32 (2 ^ 27) 2) 1) 2) LEFT_CONSTANT) 1)
          (div32 (add32 |(-(1 / 2) : ℚ)| |(1 / 2 : ℚ)|) 1)) = -(2 ^ 25) ∧
    add32 (1 / 2)
        (mul32 (div32 (mul32 (div32 (mul32 (div32 (2 ^ 27) 2) 1) 2) LEFT_CONSTANT) 1)
          (div32 (add32 |(-(1 / 2) : ℚ)| |(1 / 2 : ℚ)|) 1)) = -(2 ^ 25) := by
  have e26 : round32 (2 ^ 26) = 2 ^ 26 :=
    (round32_eq_pos _ 26 8388608 (by norm_num) (by norm_num) (by norm_num) (by norm_num)
      (by norm_num)).trans (by norm_num)
  have e25 : round32 (2 ^ 25) = 2 ^ 25 :=
    (round32_eq_pos _ 25 8388608 (by norm_num) (by norm_num) (by norm_num) (by norm_num)
      (by norm_num)).trans (by norm_num)
  have e25n : round32 (-(2 ^ 25)) = -(2 ^ 25) :=
    (round32_eq_neg _ 25 (-8388608) (by norm_num) (by norm_num) (by norm_num) (by norm_num)
      (by norm_num)).trans (by norm_num)
  have hs : mul32 (div32 (mul32 (div32 (mul32 (div32 (2 ^ 27) 2) 1) 2) LEFT_CONSTANT) 1)
      (div32 (add32 |(-(1 / 2) : ℚ)| |(1 / 2 : ℚ)|) 1) = -(2 ^ 25) := by
    rw [round32_pow27_half, mul32_one, e26]
    have h1 : div32 (2 ^ 26) 2 = 2 ^ 25 := by
      unfold div32
      rw [show ((2 : ℚ) ^ 26 / 2) = 2 ^ 25 by norm_num, e25]
    have h2 : mul32 (2 ^ 25) LEFT_CONSTANT = -(2 ^ 25) := by
      unfold mul32 LEFT_CONSTANT
      rw [show ((2 : ℚ) ^ 25 * -1) = -(2 ^ 25) by norm_num, e25n]
    have h3 : div32 (-(2 ^ 25)) 1 = -(2 ^ 25) := by
      unfold div32
      rw [div_one, e25n]
    have h4 : div32 (add32 |(-(1 / 2) : ℚ)| |(1 / 2 : ℚ)|) 1 = 1 := by
      unfold div32 add32
      rw [abs_neg, abs_of_pos (by norm_num : (0 : ℚ) < 1 / 2),
        show ((1 : ℚ) / 2 + 1 / 2) = 1 by norm_num, round32_one, div_one, round32_one]
    rw [h1, h2, h3, h4, mul32_one, e25n]
  rw [hs]
  constructor
  · unfold add32
    exact (round32_eq_neg _ 25 (-8388608) (by norm_num) (by norm_num) (by norm_num) (by norm_num)
      (by norm_num)).trans (by norm_num)
  · unfold add32
    exact (round32_eq_neg _ 24 (-16777216) (by norm_num) (by norm_num) (by norm_num) (by norm_num)
      (by norm_num)).trans (by norm_num)

/-- C27 as stated does not hold: `UpdateProjectionMatrices` divides by the aspect ratio
untested, so at aspect ratio 0 its first divisor is 0; and on a constructed `ViewAdjustment`
loaded with the IPD `2^27` and convergence 2, at aspect ratio 8/5, the shifted left and right
planes of the left eye both round to `-2^25`, so the divisor `r - l` of the left projection
(entry 13 of the list of divisors) is 0. -/
theorem unguarded_divisors :
    (∀ inverse : D3DXMATRIX → D3DXMATRIX → D3DXMATRIX,
      ((ViewAdjustment.created32 inverse).updateProjectionDivisors32 0).head? = some 0) ∧
    (∀ inverse : D3DXMATRIX → D3DXMATRIX → D3DXMATRIX,
      (((ViewAdjustment.created32 inverse).Load false 1 2 (2 ^ 27)
        0).updateProjectionDivisors32 (div32 8 5))[13]? = some 0) := by
  refine ⟨fun _ => rfl, fun inverse => ?_⟩
  obtain ⟨hn, hf, hl, hr⟩ := ctor32_frustum inverse ViewAdjustment.zeroed
    ⟨round32 (8 / 5), round32 (3 / 20)⟩ 1 false
  unfold ViewAdjustment.created32
  have h2 : ¬ ((2 : ℚ) ≤ 1) := by norm_num
  simp only [ViewAdjustment.updateProjectionDivisors32, ViewAdjustment.Load, hl, hr, h2,
    if_false, D3DXMatrixPerspectiveOffCenterLH32_divisors,
    ViewAdjustment.nearClippingPlaneDistance, ViewAdjustment.physicalScreenSizeInMeters,
    wide_ipd_planes.1, wide_ipd_planes.2]
  simp [sub32, round32_zero]

theorem det_perspective32 (l r b t zn zf : ℚ) :
    (D3DXMatrixPerspectiveOffCenterLH32 l r b t zn zf).det
      = -(div32 (mul32 2 zn) (sub32 r l) * div32 (mul32 2 zn) (sub32 t b)
          * div32 (mul32 zn zf) (sub32 zn zf)) := by
  simp [D3DXMatrixPerspectiveOffCenterLH32, Matrix.det_succ_row_zero, Fin.sum_univ_succ,
    Matrix.det_fin_three, Fin.succAbove]
  ring

theorem literal_thousandth : round32 (1 / 1000) = 8589935 / 2 ^ 33 :=
  (round32_eq_pos _ (-10) 8589935 (by norm_num) (by norm_num) (by norm_num) (by norm_num)
    (by norm_num)).trans (by norm_num)

theorem guarded_convergence32 : 1 < add32 1 (round32 (1 / 1000)) := by
  rw [literal_thousandth]
  unfold add32
  have h : round32 (1 + 8589935 / 2 ^ 33) = 8396997 / 2 ^ 23 :=
    (round32_eq_pos _ 0 8396997 (by norm_num) (by norm_num) (by norm_num) (by norm_num)
      (by norm_num)).trans (by norm_num)
  rw [h]
  norm_num

theorem sub32_ne_zero (x y : ℚ) (h : 1 / 2 ^ 126 ≤ |x - y|) : sub32 x y ≠ 0 :=
  round32_ne_zero _ h

theorem two_near : mul32 2 (round32 (1 / 10)) = 13421773 / 2 ^ 26 := by
  rw [literal_tenth]
  unfold mul32
  exact (round32_eq_pos _ (-3) 13421773 (by norm_num) (by norm_num) (by norm_num) (by norm_num)
    (by norm_num)).trans (by norm_num)

theorem near_far : mul32 (round32 (1 / 10)) 10 = 1 := by
  rw [literal_tenth]
  unfold mul32
  exact (round32_eq_pos _ 0 8388608 (by norm_num) (by norm_num) (by norm_num) (by norm_num)
    (by norm_num)).trans (by norm_num)

theorem far_sub_near : sub32 10 (round32 (1 / 10)) = 10380902 / 2 ^ 20 := by
  rw [literal_tenth]
  unfold sub32
  exact (round32_eq_pos _ 3 10380902 (by norm_num) (by norm_num) (by norm_num) (by norm_num)
    (by norm_num)).trans (by norm_num)

theorem near_sub_far : sub32 (round32 (1 / 10)) 10 = -(10380902 / 2 ^ 20) := by
  rw [literal_tenth]
  unfold sub32
  exact (round32_eq_neg _ 3 (-10380902) (by norm_num) (by norm_num) (by norm_num)
    (by norm_num) (by norm_num)).trans (by norm_num)

theorem width_ctor : sub32 (1 / 2) (-(1 / 2)) = 1 ∧ sub32 (-(1 / 2)) (1 / 2) = -1 := by
  unfold sub32
  constructor
  · rw [show ((1 : ℚ) / 2 - -(1 / 2)) = 1 by norm_num]
    exact round32_one
  · exact (round32_eq_neg _ 0 (-8388608) (by norm_num) (by norm_num) (by norm_num)
      (by norm_num) (by norm_num)).trans (by norm_num)

theorem entry00_ctor :
    div32 (mul32 2 (round32 (1 / 10))) (sub32 (1 / 2) (-(1 / 2))) = 13421773 / 2 ^ 26 := by
  rw [width_ctor.1, div32, div_one]
  unfold mul32
  rw [round32_idem]
  exact two_near

theorem entry32_ctor :
    div32 (mul32 (round32 (1 / 10)) 10) (sub32 (round32 (1 / 10)) 10)
      = -(13557347 / 2 ^ 27) := by
  rw [near_far, near_sub_far]
  unfold div32
  exact (round32_eq_neg _ (-4) (-13557347) (by norm_num) (by norm_num) (by norm_num)
    (by norm_num) (by norm_num)).trans (by norm_num)

/-- The top and bottom planes for an aspect ratio of magnitude between `2^-100` and `2^100`:
both are in the normal range, far from overflow, and of opposite sign. -/
theorem top_bottom (a : ℚ) (ha1 : 1 / 2 ^ 100 ≤ |a|) (ha2 : |a| ≤ 2 ^ 100) :
    1 / 2 ^ 102 ≤ |div32 (1 / 2) a| ∧ |div32 (1 / 2) a| ≤ 2 ^ 100 ∧
    1 / 2 ^ 102 ≤ |div32 (-(1 / 2)) a| ∧ |div32 (-(1 / 2)) a| ≤ 2 ^ 100 ∧
    1 / 2 ^ 102 ≤ |div32 (1 / 2) a - div32 (-(1 / 2)) a| ∧
    |div32 (1 / 2) a - div32 (-(1 / 2)) a| ≤ 2 ^ 101 := by
  have hapos : 0 < |a| := lt_of_lt_of_le (by positivity) ha1
  have ha : a ≠ 0 := abs_pos.1 hapos
  have key : ∀ h : ℚ, |h| = 1 / 2 →
      1 / 2 ^ 102 ≤ |round32 (h / a)| ∧ |round32 (h / a)| ≤ 2 ^ 100 := by
    intro h hh
    have hq : |h / a| = 1 / (2 * |a|) := by
      rw [abs_div, hh]
      field_simp
    have hq1 : (1 : ℚ) / 2 ^ 101 ≤ 1 / (2 * |a|) := by
      apply one_div_le_one_div_of_le (by linarith : (0 : ℚ) < 2 * |a|)
      rw [pow_succ' (2 : ℚ) 100]
      linarith
    have hq2 : (1 : ℚ) / (2 * |a|) ≤ 2 ^ 99 := by
      rw [div_le_iff₀ (by linarith : (0 : ℚ) < 2 * |a|)]
      have : (2 : ℚ) ^ 99 * (2 * |a|) = 2 ^ 100 * |a| := by
        rw [pow_succ (2 : ℚ) 99, mul_assoc]
      rw [this]
      have h100 : (1 : ℚ) = 2 ^ 100 * (1 / 2 ^ 100) := by field_simp
      calc (1 : ℚ) = 2 ^ 100 * (1 / 2 ^ 100) := h100
        _ ≤ 2 ^ 100 * |a| := by
            apply mul_le_mul_of_nonneg_left ha1
            positivity
    have hnorm : (1 : ℚ) / 2 ^ 126 ≤ |h / a| := by
      rw [hq]
      refine le_trans ?_ hq1
      apply one_div_le_one_div_of_le (by positivity)
      exact pow_le_pow_right₀ (by norm_num) (by norm_num)
    have he := round32_error_normal (h / a) hnorm
    have hb := abs_round32_le (h / a)
    have h3 : |h / a| - |round32 (h / a)| ≤ |round32 (h / a) - h / a| := by
      have := abs_sub_abs_le_abs_sub (h / a) (round32 (h / a))
      rwa [abs_sub_comm (h / a)] at this
    have h4 : |h / a| / 2 ^ 24 ≤ |h / a| / 2 := by
      apply div_le_div_of_nonneg_left (abs_nonneg _) (by norm_num) (by norm_num)
    rw [hq] at he h3 h4 hb
    have e1 : (1 : ℚ) / 2 ^ 102 = 1 / 2 ^ 101 / 2 := by rw [pow_succ (2 : ℚ) 101, div_div]
    have e2 : (2 : ℚ) ^ 100 = 2 * 2 ^ 99 := pow_succ' (2 : ℚ) 99
    constructor <;> linarith
  have kt := key (1 / 2) (by rw [abs_of_pos]; norm_num)
  have kb := key (-(1 / 2)) (by rw [abs_neg, abs_of_pos]; norm_num)
  unfold div32
  refine ⟨kt.1, kt.2, kb.1, kb.2, ?_, ?_⟩
  · rcases lt_or_gt_of_ne ha with h | h
    · have h1 : (1 / 2 : ℚ) / a ≤ 0 := le_of_lt (div_neg_of_pos_of_neg (by norm_num) h)
      have h2 : 0 ≤ (-(1 / 2) : ℚ) / a := le_of_lt (div_pos_of_neg_of_neg (by norm_num) h)
      have s1 := round32_nonpos _ h1
      have s2 := round32_nonneg _ h2
      have := kt.1
      rw [abs_of_nonpos s1] at this
      rw [abs_of_nonpos (by linarith)]
      linarith
    · have h1 : 0 ≤ (1 / 2 : ℚ) / a := le_of_lt (div_pos (by norm_num) h)
      have h2 : (-(1 / 2) : ℚ) / a ≤ 0 := le_of_lt (div_neg_of_neg_of_pos (by norm_num) h)
      have s1 := round32_nonneg _ h1
      have s2 := round32_nonpos _ h2
      have := kt.1
      rw [abs_of_nonneg s1] at this
      rw [abs_of_nonneg (by linarith)]
      linarith
  · have := abs_sub (round32 ((1 / 2) / a)) (round32 ((-(1 / 2)) / a))
    have e : (2 : ℚ) ^ 101 = 2 * 2 ^ 100 := pow_succ' (2 : ℚ) 100
    linarith [kt.2, kb.2]

/-- The left and right planes shifted by at most `2^21` stay at least one half apart. -/
theorem planes_gap (s : ℚ) (hs : |s| ≤ 2 ^ 21) :
    1 / 2 ≤ add32 (1 / 2) s - add32 (-(1 / 2)) s := by
  unfold add32
  have h1 := round32_error (1 / 2 + s)
  have h2 := round32_error (-(1 / 2) + s)
  have ha : |1 / 2 + s| ≤ 1 / 2 + |s| := by
    have := abs_add (1 / 2 : ℚ) s
    rwa [abs_of_pos (by norm_num : (0 : ℚ) < 1 / 2)] at this
  have hb : |-(1 / 2) + s| ≤ 1 / 2 + |s| := by
    have := abs_add (-(1 / 2) : ℚ) s
    rwa [abs_neg, abs_of_pos (by norm_num : (0 : ℚ) < 1 / 2)] at this
  rw [abs_le] at h1 h2
  have h3 : |1 / 2 + s| / 2 ^ 24 ≤ (1 / 2 + |s|) / 2 ^ 24 :=
    div_le_div_of_nonneg_right ha (by positivity)
  have h4 : |-(1 / 2) + s| / 2 ^ 24 ≤ (1 / 2 + |s|) / 2 ^ 24 :=
    div_le_div_of_nonneg_right hb (by positivity)
  have h5 : (1 / 2 + |s|) / 2 ^ 24 ≤ (1 / 2 + 2 ^ 21) / 2 ^ 24 :=
    div_le_div_of_nonneg_right (by linarith) (by positivity)
  have h6 : (1 : ℚ) / 2 ^ 150 ≤ 1 / 2 ^ 4 := by
    apply one_div_le_one_div_of_le (by positivity)
    exact pow_le_pow_right₀ (by norm_num) (by norm_num)
  norm_num at h5
  norm_num at h6
  linarith [h1.1, h1.2, h2.1, h2.2]

theorem small_le_half : (1 : ℚ) / 2 ^ 126 ≤ 1 / 2 := by
  have : (1 : ℚ) / 2 = 1 / 2 ^ 1 := by norm_num
  rw [this]
  apply one_div_le_one_div_of_le (by positivity)
  exact pow_le_pow_right₀ (by norm_num) (by norm_num)

theorem small_le_tiny : (1 : ℚ) / 2 ^ 126 ≤ 1 / 2 ^ 102 := by
  apply one_div_le_one_div_of_le (by positivity)
  exact pow_le_pow_right₀ (by norm_num) (by norm_num)

theorem shift_bound (ipd c conv : ℚ) (hc : |c| = 1) (hconv : 1 < conv)
    (hipd : |ipd| ≤ 2 ^ 16) :
    |mul32 (div32 (mul32 (div32 (mul32 (div32 ipd 2) 1) conv) c) 1)
        (div32 (add32 |(-(1 / 2) : ℚ)| |(1 / 2 : ℚ)|) 1)| ≤ 2 ^ 21 := by
  have h4 : div32 (add32 |(-(1 / 2) : ℚ)| |(1 / 2 : ℚ)|) 1 = 1 := by
    unfold div32 add32
    rw [abs_neg, abs_of_pos (by norm_num : (0 : ℚ) < 1 / 2),
      show ((1 : ℚ) / 2 + 1 / 2) = 1 by norm_num, round32_one, div_one, round32_one]
  rw [h4]
  unfold mul32 div32
  have b1 := abs_round32_le (ipd / 2)
  have b2 := abs_round32_le (round32 (ipd / 2) * 1)
  have b3 := abs_round32_le (round32 (round32 (ipd / 2) * 1) / conv)
  have b4 := abs_round32_le (round32 (round32 (round32 (ipd / 2) * 1) / conv) * c)
  have b5 := abs_round32_le (round32 (round32 (round32 (round32 (ipd / 2) * 1) / conv) * c) / 1)
  have b6 := abs_round32_le
    (round32 (round32 (round32 (round32 (round32 (ipd / 2) * 1) / conv) * c) / 1) * 1)
  rw [abs_div, abs_of_pos (by norm_num : (0 : ℚ) < 2)] at b1
  rw [mul_one] at b2 b6
  rw [div_one] at b5
  rw [abs_mul, hc, mul_one] at b4
  have hcpos : (0 : ℚ) < conv := by linarith
  have b3' : |round32 (round32 (ipd / 2) * 1) / conv| ≤ |round32 (round32 (ipd / 2) * 1)| := by
    rw [abs_div, abs_of_pos hcpos]
    apply div_le_self (abs_nonneg _)
    linarith
  rw [mul_one] at b3 b3' b4 b5 b6 ⊢
  rw [div_one] at b6 ⊢
  rw [mul_one]
  have : (2 : ℚ) ^ 21 = 32 * 2 ^ 16 := by norm_num
  linarith

theorem updateProjectionMatrices32_fields
    (inverse : D3DXMATRIX → D3DXMATRIX → D3DXMATRIX) (va : ViewAdjustment) (a : ℚ) :
    (va.UpdateProjectionMatrices32 inverse a).convergence
      = (if va.convergence ≤ ViewAdjustment.nearClippingPlaneDistance
          then add32 ViewAdjustment.nearClippingPlaneDistance (round32 (1 / 1000))
          else va.convergence) ∧
    (va.UpdateProjectionMatrices32 inverse a).t = div32 (1 / 2) a ∧
    (va.UpdateProjectionMatrices32 inverse a).b = div32 (-(1 / 2)) a := by
  unfold ViewAdjustment.UpdateProjectionMatrices32
  split_ifs <;> exact ⟨rfl, rfl, rfl⟩

theorem guarded_convergence_gt (c : ℚ) :
    1 < (if c ≤ ViewAdjustment.nearClippingPlaneDistance
          then add32 ViewAdjustment.nearClippingPlaneDistance (round32 (1 / 1000)) else c) := by
  unfold ViewAdjustment.nearClippingPlaneDistance
  split_ifs with h
  · exact guarded_convergence32
  · exact not_le.1 h

/-- C27, amended: in binary32, for every state and every aspect ratio
`UpdateProjectionMatrices` leaves a convergence above 1 (its guard), divides by
`physicalScreenSizeInMeters = 1`, and divides by the aspect ratio as passed in. With the
frustum of the constructor, an aspect ratio of magnitude between `2^-100` and `2^100` and an
IPD of magnitude at most `2^16`, whatever the stored convergence: none of its divisions has a
zero divisor, `t` and `b` have a magnitude between `2^-102` and `2^100` (neither overflow nor
underflow), and the base projection it builds has a non-zero determinant. -/
theorem divisions_guarded (inverse : D3DXMATRIX → D3DXMATRIX → D3DXMATRIX)
    (va : ViewAdjustment) (a : ℚ) :
    1 < (va.UpdateProjectionMatrices32 inverse a).convergence ∧
    ViewAdjustment.physicalScreenSizeInMeters = 1 ∧
    (va.updateProjectionDivisors32 a).take 2 = [a, a] ∧
    (va.hasCtorFrustum32 → 1 / 2 ^ 100 ≤ |a| → |a| ≤ 2 ^ 100 → |va.ipd| ≤ 2 ^ 16 →
      (∀ x ∈ va.updateProjectionDivisors32 a, x ≠ 0) ∧
      1 / 2 ^ 102 ≤ |(va.UpdateProjectionMatrices32 inverse a).t| ∧
      |(va.UpdateProjectionMatrices32 inverse a).t| ≤ 2 ^ 100 ∧
      1 / 2 ^ 102 ≤ |(va.UpdateProjectionMatrices32 inverse a).b| ∧
      |(va.UpdateProjectionMatrices32 inverse a).b| ≤ 2 ^ 100 ∧
      (va.UpdateProjectionMatrices32 inverse a).matProjection.det ≠ 0) := by
  have hf := updateProjectionMatrices32_fields inverse va a
  refine ⟨?_, rfl, rfl, ?_⟩
  · rw [hf.1]
    exact guarded_convergence_gt _
  intro hfr ha1 ha2 hipd
  obtain ⟨hn, hff, hl, hr⟩ := hfr
  have ha : a ≠ 0 := by
    intro h0
    rw [h0, abs_zero] at ha1
    have : (0 : ℚ) < 1 / 2 ^ 100 := one_div_pos.2 (pow_pos (by norm_num) 100)
    linarith
  have hconv := guarded_convergence_gt va.convergence
  obtain ⟨ht1, ht2, hb1, hb2, hg1, hg2⟩ := top_bottom a ha1 ha2
  have htb : sub32 (div32 (1 / 2) a) (div32 (-(1 / 2)) a) ≠ 0 :=
    sub32_ne_zero _ _ (le_trans small_le_tiny hg1)
  have hg3 : 1 / 2 ^ 102 ≤ |div32 (-(1 / 2)) a - div32 (1 / 2) a| := by
    rw [abs_sub_comm]
    exact hg1
  have hbt : sub32 (div32 (-(1 / 2)) a) (div32 (1 / 2) a) ≠ 0 :=
    sub32_ne_zero _ _ (le_trans small_le_tiny hg3)
  have hlr : sub32 (1 / 2) (-(1 / 2)) ≠ 0 := by rw [width_ctor.1]; norm_num
  have hrl : sub32 (-(1 / 2)) (1 / 2) ≠ 0 := by rw [width_ctor.2]; norm_num
  have hfn : sub32 10 (round32 (1 / 10)) ≠ 0 := by rw [far_sub_near]; norm_num
  have hnf : sub32 (round32 (1 / 10)) 10 ≠ 0 := by rw [near_sub_far]; norm_num
  refine ⟨?_, ?_, ?_, ?_, ?_, ?_⟩
  · intro x hx
    unfold ViewAdjustment.updateProjectionDivisors32 at hx
    simp only [D3DXMatrixPerspectiveOffCenterLH32_divisors, hn, hff, hl, hr, List.mem_append,
      List.mem_cons, List.mem_singleton, List.not_mem_nil, or_false,
      ViewAdjustment.physicalScreenSizeInMeters] at hx
    have hsl := shift_bound va.ipd LEFT_CONSTANT _ (by unfold LEFT_CONSTANT; norm_num) hconv hipd
    have hsr := shift_bound va.ipd RIGHT_CONSTANT _ (by unfold RIGHT_CONSTANT; norm_num) hconv
      hipd
    have hpl := planes_gap _ hsl
    have hpr := planes_gap _ hsr
    have gap : ∀ u v : ℚ, 1 / 2 ≤ u - v → sub32 u v ≠ 0 ∧ sub32 v u ≠ 0 := by
      intro u v huv
      constructor
      · apply sub32_ne_zero
        rw [abs_of_pos (by linarith)]
        exact le_trans small_le_half huv
      · apply sub32_ne_zero
        rw [abs_sub_comm, abs_of_pos (by linarith)]
        exact le_trans small_le_half huv
    rcases hx with ((((rfl | rfl) | (rfl | rfl | rfl | rfl | rfl | rfl))
      | (rfl | rfl | rfl | rfl | rfl)) | (rfl | rfl | rfl | rfl | rfl | rfl))
      | (rfl | rfl | rfl | rfl | rfl | rfl)
    · exact ha
    · exact ha
    · exact hlr
    · exact htb
    · exact hrl
    · exact hbt
    · exact hfn
    · exact hnf
    · norm_num
    · exact ne_of_gt (lt_trans one_pos hconv)
    · norm_num
    · norm_num
    · norm_num
    · exact (gap _ _ hpl).1
    · exact htb
    · exact (gap _ _ hpl).2
    · exact hbt
    · exact hfn
    · exact hnf
    · exact (gap _ _ hpr).1
    · exact htb
    · exact (gap _ _ hpr).2
    · exact hbt
    · exact hfn
    · exact hnf
  · rw [hf.2.1]
    exact ht1
  · rw [hf.2.1]
    exact ht2
  · rw [hf.2.2]
    exact hb1
  · rw [hf.2.2]
    exact hb2
  · rw [(updateProjectionMatrices32_projection inverse va a).1, det_perspective32, hn, hff, hl,
      hr, entry00_ctor, entry32_ctor, two_near]
    have hd : |sub32 (div32 (1 / 2) a) (div32 (-(1 / 2)) a)| ≤ 2 ^ 102 := by
      have := abs_round32_le (div32 (1 / 2) a - div32 (-(1 / 2)) a)
      have e : (2 : ℚ) ^ 102 = 2 * 2 ^ 101 := pow_succ' (2 : ℚ) 101
      unfold sub32
      linarith
    have hdpos : 0 < |sub32 (div32 (1 / 2) a) (div32 (-(1 / 2)) a)| := abs_pos.2 htb
    have h11 : div32 (13421773 / 2 ^ 26) (sub32 (div32 (1 / 2) a) (div32 (-(1 / 2)) a)) ≠ 0 := by
      refine round32_ne_zero _ ?_
      rw [abs_div, abs_of_pos (by norm_num : (0 : ℚ) < 13421773 / 2 ^ 26)]
      rw [le_div_iff₀ hdpos]
      have h1 : (1 : ℚ) / 2 ^ 126 * |sub32 (div32 (1 / 2) a) (div32 (-(1 / 2)) a)|
          ≤ 1 / 2 ^ 126 * 2 ^ 102 :=
        mul_le_mul_of_nonneg_left hd (by positivity)
      have h2 : (1 : ℚ) / 2 ^ 126 * 2 ^ 102 = 1 / 2 ^ 24 := by
        rw [show (126 : ℕ) = 102 + 24 by norm_num, pow_add]
        field_simp
      rw [h2] at h1
      refine le_trans h1 ?_
      norm_num
    refine neg_ne_zero.2 (mul_ne_zero (mul_ne_zero ?_ h11) ?_)
    · norm_num
    · norm_num

/-! ## The adjustment matrices in binary32 -/

theorem multiply32_translation_zero (X : D3DXMATRIX)
    (hX : ∀ i j, round32 (X i j) = X i j) :
    D3DXMatrixMultiply32 X (D3DXMatrixTranslation 0 0 0) = X := by
  ext i j
  fin_cases j <;>
    simp [D3DXMatrixMultiply32, D3DXMatrixTranslation, mul32_zero, mul32_one, add32_zero,
      zero_add32, round32_idem, round32_zero, hX]

/-- C29, amended: with IPD 0, roll disabled and a stereo type other than 25, 26 and 27, for
a non-zero aspect ratio, after `UpdateProjectionMatrices` and `ComputeViewTransforms` both eye
projections equal the base projection, both view transforms are the identity, and both
adjustment matrices are one and the same matrix, the product of the stored inverse with the
base projection: in exact arithmetic for every state, and in binary32 for the frustum of the
constructor, an aspect ratio of magnitude between `2^-100` and `2^100` and an inverse routine
that returns binary32 values. That this product is the identity is not part of the
statement. -/
theorem zero_ipd_gives_mono (va : ViewAdjustment) (a : ℚ)
    (inverse : D3DXMATRIX → D3DXMATRIX → D3DXMATRIX) (_ha : a ≠ 0) (hipd : va.ipd = 0)
    (hroll : va.rollEnabled = false)
    (hst : ViewAdjustment.isRiftStereoType va.stereoType = false) :
    -- exact arithmetic
    ((va.UpdateProjectionMatrices a).ComputeViewTransforms.projectLeft
        = (va.UpdateProjectionMatrices a).ComputeViewTransforms.Projection ∧
      (va.UpdateProjectionMatrices a).ComputeViewTransforms.projectRight
        = (va.UpdateProjectionMatrices a).ComputeViewTransforms.Projection ∧
      (va.UpdateProjectionMatrices a).ComputeViewTransforms.LeftViewTransform
        = D3DXMatrixIdentity ∧
      (va.UpdateProjectionMatrices a).ComputeViewTransforms.RightViewTransform
        = D3DXMatrixIdentity ∧
      (va.UpdateProjectionMatrices a).ComputeViewTransforms.LeftAdjustmentMatrix
        = (va.UpdateProjectionMatrices a).ComputeViewTransforms.ProjectionInverse
          * (va.UpdateProjectionMatrices a).ComputeViewTransforms.Projection ∧
      (va.UpdateProjectionMatrices a).ComputeViewTransforms.RightAdjustmentMatrix
        = (va.UpdateProjectionMatrices a).ComputeViewTransforms.ProjectionInverse
          * (va.UpdateProjectionMatrices a).ComputeViewTransforms.Projection) ∧
    -- binary32 arithmetic
    (va.hasCtorFrustum32 → 1 / 2 ^ 100 ≤ |a| → |a| ≤ 2 ^ 100 →
      (∀ out M i j, round32 (inverse out M i j) = inverse out M i j) →
      (va.UpdateProjectionMatrices32 inverse a).ComputeViewTransforms32.projectLeft
        = (va.UpdateProjectionMatrices32 inverse a).ComputeViewTransforms32.Projection ∧
      (va.UpdateProjectionMatrices32 inverse a).ComputeViewTransforms32.projectRight
        = (va.UpdateProjectionMatrices32 inverse a).ComputeViewTransforms32.Projection ∧
      (va.UpdateProjectionMatrices32 inverse a).ComputeViewTransforms32.LeftViewTransform
        = D3DXMatrixIdentity ∧
      (va.UpdateProjectionMatrices32 inverse a).ComputeViewTransforms32.RightViewTransform
        = D3DXMatrixIdentity ∧
      (va.UpdateProjectionMatrices32 inverse a).ComputeViewTransforms32.LeftAdjustmentMatrix
        = D3DXMatrixMultiply32
            (va.UpdateProjectionMatrices32 inverse a).ComputeViewTransforms32.ProjectionInverse
            (va.UpdateProjectionMatrices32 inverse a).ComputeViewTransforms32.Projection ∧
      (va.UpdateProjectionMatrices32 inverse a).ComputeViewTransforms32.RightAdjustmentMatrix
        = D3DXMatrixMultiply32
            (va.UpdateProjectionMatrices32 inverse a).ComputeViewTransforms32.ProjectionInverse
            (va.UpdateProjectionMatrices32 inverse a).ComputeViewTransforms32.Projection) := by
  constructor
  · have hu : va.UpdateProjectionMatrices a
        = { va with
            t := (1 / 2) / a, b := (-(1 / 2)) / a,
            matProjection := D3DXMatrixPerspectiveOffCenterLH va.l va.r ((-(1 / 2)) / a)
              ((1 / 2) / a) va.n va.f,
            matProjectionInv := D3DXMatrixInverse va.matProjectionInv
              (D3DXMatrixPerspectiveOffCenterLH va.l va.r ((-(1 / 2)) / a) ((1 / 2) / a)
                va.n va.f),
            convergence := (va.UpdateProjectionMatrices a).convergence,
            projectLeft := D3DXMatrixPerspectiveOffCenterLH va.l va.r ((-(1 / 2)) / a)
              ((1 / 2) / a) va.n va.f,
            projectRight := D3DXMatrixPerspectiveOffCenterLH va.l va.r ((-(1 / 2)) / a)
              ((1 / 2) / a) va.n va.f } := by
      unfold ViewAdjustment.UpdateProjectionMatrices
      simp [hst, hipd]
    rw [hu]
    simp only [ViewAdjustment.ComputeViewTransforms, ViewAdjustment.Projection,
      ViewAdjustment.ProjectionInverse,
      ViewAdjustment.LeftViewTransform, ViewAdjustment.RightViewTransform,
      ViewAdjustment.LeftAdjustmentMatrix, ViewAdjustment.RightAdjustmentMatrix,
      ViewAdjustment.SeparationInWorldUnits, hipd, hroll, D3DXMatrixIdentity,
      zero_div, zero_mul, translation_zero, mul_one, Bool.false_eq_true, if_false]
    refine ⟨?_, ?_, ?_, ?_, ?_, ?_⟩ <;> trivial
  · intro hfr ha1 ha2 hrep
    clear ha1 ha2
    obtain ⟨hn, hf, hl, hr⟩ := hfr
    have hu : va.UpdateProjectionMatrices32 inverse a
        = { va with
            t := div32 (1 / 2) a, b := div32 (-(1 / 2)) a,
            matProjection := D3DXMatrixPerspectiveOffCenterLH32 va.l va.r (div32 (-(1 / 2)) a)
              (div32 (1 / 2) a) va.n va.f,
            matProjectionInv := inverse va.matProjectionInv
              (D3DXMatrixPerspectiveOffCenterLH32 va.l va.r (div32 (-(1 / 2)) a)
                (div32 (1 / 2) a) va.n va.f),
            convergence := (va.UpdateProjectionMatrices32 inverse a).convergence,
            projectLeft := D3DXMatrixPerspectiveOffCenterLH32 va.l va.r (div32 (-(1 / 2)) a)
              (div32 (1 / 2) a) va.n va.f,
            projectRight := D3DXMatrixPerspectiveOffCenterLH32 va.l va.r (div32 (-(1 / 2)) a)
              (div32 (1 / 2) a) va.n va.f } := by
      unfold ViewAdjustment.UpdateProjectionMatrices32
      simp only [hst, hipd, Bool.false_eq_true, if_false, zero_div, div32_zero_left,
        zero_mul32, mul32_zero, add32_zero, hl, hr, round32_half, round32_neg_half]
    rw [hu]
    simp only [ViewAdjustment.ComputeViewTransforms32, ViewAdjustment.Projection,
      ViewAdjustment.ProjectionInverse,
      ViewAdjustment.LeftViewTransform, ViewAdjustment.RightViewTransform,
      ViewAdjustment.LeftAdjustmentMatrix, ViewAdjustment.RightAdjustmentMatrix,
      ViewAdjustment.SeparationInWorldUnits32, hipd, hroll, D3DXMatrixIdentity,
      div32_zero_left, zero_mul32, translation_zero, Bool.false_eq_true, if_false]
    rw [← translation_zero, multiply32_translation_zero _ (hrep _ _)]
    refine ⟨?_, ?_, ?_, ?_, ?_, ?_⟩ <;> trivial

theorem inverseRounded_binary32 (out M : D3DXMATRIX) (i j : Fin 4) :
    round32 (D3DXMatrixInverseRounded out M i j) = D3DXMatrixInverseRounded out M i j := by
  simp only [D3DXMatrixInverseRounded, Matrix.of_apply, round32_idem]

theorem aspect_8_5 : div32 8 5 = 13421773 / 2 ^ 23 := by
  unfold div32
  exact (round32_eq_pos _ 0 13421773 (by norm_num) (by norm_num) (by norm_num) (by norm_num)
    (by norm_num)).trans (by norm_num)

theorem literal_ipd : round32 IPD_DEFAULT = 8589935 / 2 ^ 27 := by
  unfold IPD_DEFAULT
  exact (round32_eq_pos _ (-4) 8589935 (by norm_num) (by norm_num) (by norm_num) (by norm_num)
    (by norm_num)).trans (by norm_num)

theorem created32_ipd (inverse : D3DXMATRIX → D3DXMATRIX → D3DXMATRIX) :
    (ViewAdjustment.created32 inverse).ipd = round32 IPD_DEFAULT := by
  unfold ViewAdjustment.created32 ViewAdjustment.ctor32 ViewAdjustment.ComputeViewTransforms32
    ViewAdjustment.UpdateProjectionMatrices32
  simp only []
  split_ifs <;> rfl

theorem aspect_8_5_range : (1 : ℚ) / 2 ^ 100 ≤ |div32 8 5| ∧ |div32 8 5| ≤ 2 ^ 100 := by
  rw [aspect_8_5, abs_of_pos (by norm_num)]
  constructor
  · have h : (1 : ℚ) / 2 ^ 100 ≤ 1 / 2 ^ 0 := by
      apply one_div_le_one_div_of_le (by norm_num)
      exact pow_le_pow_right₀ (by norm_num) (by norm_num)
    refine le_trans h ?_
    norm_num
  · have h : (2 : ℚ) ^ 1 ≤ 2 ^ 100 := pow_le_pow_right₀ (by norm_num) (by norm_num)
    refine le_trans ?_ h
    norm_num

/-- C8, amended: `ComputeViewTransforms` sets each eye's adjustment matrix to
`matProjectionInv * eyeTransform * eyeProjection` (in binary32 the rounded product
`(matProjectionInv * eyeTransform) * eyeProjection`), where the eye transform is the
X-translation by `SeparationInWorldUnits() * eyeConstant`, left-multiplied by the roll matrix
iff roll is enabled, and the projections and the inverse are the stored ones, which it leaves
as `UpdateProjectionMatrices` stored them; `matProjectionInv` is what `D3DXMatrixInverse`
returned for the base projection `UpdateProjectionMatrices` had just built. That the stored
matrix is the true inverse is not part of the statement. -/
theorem adjustment_matrices (va : ViewAdjustment) (a : ℚ)
    (inverse : D3DXMATRIX → D3DXMATRIX → D3DXMATRIX) :
    (∀ v : ViewAdjustment,
      v.ComputeViewTransforms.LeftAdjustmentMatrix
        = v.matProjectionInv * v.eyeTransform LEFT_CONSTANT * v.projectLeft ∧
      v.ComputeViewTransforms.RightAdjustmentMatrix
        = v.matProjectionInv * v.eyeTransform RIGHT_CONSTANT * v.projectRight ∧
      v.ComputeViewTransforms.LeftViewTransform = v.eyeTransform LEFT_CONSTANT ∧
      v.ComputeViewTransforms.RightViewTransform = v.eyeTransform RIGHT_CONSTANT ∧
      (v.rollEnabled = true → v.eyeTransform LEFT_CONSTANT
        = v.rollMatrix * D3DXMatrixTranslation (v.SeparationInWorldUnits * LEFT_CONSTANT) 0 0
        ∧ v.eyeTransform RIGHT_CONSTANT
        = v.rollMatrix * D3DXMatrixTranslation (v.SeparationInWorldUnits * RIGHT_CONSTANT) 0 0)
      ∧
      (v.rollEnabled = false → v.eyeTransform LEFT_CONSTANT
        = D3DXMatrixTranslation (v.SeparationInWorldUnits * LEFT_CONSTANT) 0 0
        ∧ v.eyeTransform RIGHT_CONSTANT
        = D3DXMatrixTranslation (v.SeparationInWorldUnits * RIGHT_CONSTANT) 0 0) ∧
      v.ComputeViewTransforms.matProjectionInv = v.matProjectionInv ∧
      v.ComputeViewTransforms.matProjection = v.matProjection ∧
      v.ComputeViewTransforms.projectLeft = v.projectLeft ∧
      v.ComputeViewTransforms.projectRight = v.projectRight) ∧
    (∀ v : ViewAdjustment,
      v.ComputeViewTransforms32.LeftAdjustmentMatrix
        = D3DXMatrixMultiply32
            (D3DXMatrixMultiply32 v.matProjectionInv (v.eyeTransform32 LEFT_CONSTANT))
            v.projectLeft ∧
      v.ComputeViewTransforms32.RightAdjustmentMatrix
        = D3DXMatrixMultiply32
            (D3DXMatrixMultiply32 v.matProjectionInv (v.eyeTransform32 RIGHT_CONSTANT))
            v.projectRight ∧
      v.ComputeViewTransforms32.LeftViewTransform = v.eyeTransform32 LEFT_CONSTANT ∧
      v.ComputeViewTransforms32.RightViewTransform = v.eyeTransform32 RIGHT_CONSTANT ∧
      (v.rollEnabled = true → v.eyeTransform32 LEFT_CONSTANT
        = D3DXMatrixMultiply32 v.rollMatrix
            (D3DXMatrixTranslation (mul32 v.SeparationInWorldUnits32 LEFT_CONSTANT) 0 0)
        ∧ v.eyeTransform32 RIGHT_CONSTANT
        = D3DXMatrixMultiply32 v.rollMatrix
            (D3DXMatrixTranslation (mul32 v.SeparationInWorldUnits32 RIGHT_CONSTANT) 0 0))
      ∧
      (v.rollEnabled = false → v.eyeTransform32 LEFT_CONSTANT
        = D3DXMatrixTranslation (mul32 v.SeparationInWorldUnits32 LEFT_CONSTANT) 0 0
        ∧ v.eyeTransform32 RIGHT_CONSTANT
        = D3DXMatrixTranslation (mul32 v.SeparationInWorldUnits32 RIGHT_CONSTANT) 0 0) ∧
      v.ComputeViewTransforms32.matProjectionInv = v.matProjectionInv ∧
      v.ComputeViewTransforms32.matProjection = v.matProjection ∧
      v.ComputeViewTransforms32.projectLeft = v.projectLeft ∧
      v.ComputeViewTransforms32.projectRight = v.projectRight) ∧
    (va.UpdateProjectionMatrices a).matProjectionInv
      = D3DXMatrixInverse va.matProjectionInv (va.UpdateProjectionMatrices a).matProjection ∧
    (va.UpdateProjectionMatrices32 inverse a).matProjectionInv
      = inverse va.matProjectionInv (va.UpdateProjectionMatrices32 inverse a).matProjection := by
  refine ⟨fun v => ⟨rfl, rfl, rfl, rfl, ?_, ?_, rfl, rfl, rfl, rfl⟩,
    fun v => ⟨rfl, rfl, rfl, rfl, ?_, ?_, rfl, rfl, rfl, rfl⟩, ?_,
    (updateProjectionMatrices32_projection inverse va a).2⟩
  · intro h
    simp only [ViewAdjustment.eyeTransform, h, if_true, and_self]
  · intro h
    simp only [ViewAdjustment.eyeTransform, h, Bool.false_eq_true, if_false, and_self]
  · intro h
    simp only [ViewAdjustment.eyeTransform32, h, if_true, and_self]
  · intro h
    simp only [ViewAdjustment.eyeTransform32, h, Bool.false_eq_true, if_false, and_self]
  · unfold ViewAdjustment.UpdateProjectionMatrices
    split_ifs <;> rfl

/-- Witness of the amended C27: the `ViewAdjustment` constructed in binary32 (IPD 0.064), at
the aspect ratio 8/5. -/
theorem divisions_guarded_witness :
    (ViewAdjustment.created32 D3DXMatrixInverseRounded).hasCtorFrustum32 ∧
    (1 : ℚ) / 2 ^ 100 ≤ |div32 8 5| ∧ |div32 8 5| ≤ 2 ^ 100 ∧
    |(ViewAdjustment.created32 D3DXMatrixInverseRounded).ipd| ≤ 2 ^ 16 ∧
    (∀ x ∈ (ViewAdjustment.created32 D3DXMatrixInverseRounded).updateProjectionDivisors32
      (div32 8 5), x ≠ 0) ∧
    ((ViewAdjustment.created32 D3DXMatrixInverseRounded).UpdateProjectionMatrices32
      D3DXMatrixInverseRounded (div32 8 5)).matProjection.det ≠ 0 :=
  have hfr : (ViewAdjustment.created32 D3DXMatrixInverseRounded).hasCtorFrustum32 :=
    ctor32_frustum _ _ _ _ _
  have hipd : |(ViewAdjustment.created32 D3DXMatrixInverseRounded).ipd| ≤ 2 ^ 16 := by
    rw [created32_ipd, literal_ipd, abs_of_pos (by norm_num)]
    norm_num
  ⟨hfr, aspect_8_5_range.1, aspect_8_5_range.2, hipd,
    ((divisions_guarded D3DXMatrixInverseRounded
      (ViewAdjustment.created32 D3DXMatrixInverseRounded) (div32 8 5)).2.2.2 hfr
      aspect_8_5_range.1 aspect_8_5_range.2 hipd).1,
    ((divisions_guarded D3DXMatrixInverseRounded
      (ViewAdjustment.created32 D3DXMatrixInverseRounded) (div32 8 5)).2.2.2 hfr
      aspect_8_5_range.1 aspect_8_5_range.2 hipd).2.2.2.2.2⟩

theorem zeroIpdExample32_frustum (inverse : D3DXMATRIX → D3DXMATRIX → D3DXMATRIX) :
    (ViewAdjustment.zeroIpdExample32 inverse).hasCtorFrustum32 := by
  obtain ⟨hn, hf, hl, hr⟩ := ctor32_frustum inverse ViewAdjustment.zeroed
    ⟨round32 (8 / 5), round32 (3 / 20)⟩ 1 false
  exact ⟨hn, hf, hl, hr⟩

/-- Witness of the amended C29: the `ViewAdjustment` constructed in binary32 and loaded with
IPD 0, at the aspect ratio 8/5, with the rounded exact inverse as the inverse routine. -/
theorem zero_ipd_gives_mono_witness :
    (ViewAdjustment.zeroIpdExample32 D3DXMatrixInverseRounded).ipd = 0 ∧
    (ViewAdjustment.zeroIpdExample32 D3DXMatrixInverseRounded).rollEnabled = false ∧
    ViewAdjustment.isRiftStereoType
      (ViewAdjustment.zeroIpdExample32 D3DXMatrixInverseRounded).stereoType = false ∧
    (ViewAdjustment.zeroIpdExample32 D3DXMatrixInverseRounded).hasCtorFrustum32 ∧
    div32 8 5 ≠ 0 ∧ (1 : ℚ) / 2 ^ 100 ≤ |div32 8 5| ∧ |div32 8 5| ≤ 2 ^ 100 ∧
    ((ViewAdjustment.zeroIpdExample32 D3DXMatrixInverseRounded).UpdateProjectionMatrices32
      D3DXMatrixInverseRounded (div32 8 5)).ComputeViewTransforms32.LeftViewTransform
      = D3DXMatrixIdentity ∧
    ((ViewAdjustment.zeroIpdExample32 D3DXMatrixInverseRounded).UpdateProjectionMatrices32
      D3DXMatrixInverseRounded (div32 8 5)).ComputeViewTransforms32.LeftAdjustmentMatrix
      = D3DXMatrixMultiply32
          ((ViewAdjustment.zeroIpdExample32 D3DXMatrixInverseRounded).UpdateProjectionMatrices32
            D3DXMatrixInverseRounded (div32 8 5)).ComputeViewTransforms32.ProjectionInverse
          ((ViewAdjustment.zeroIpdExample32 D3DXMatrixInverseRounded).UpdateProjectionMatrices32
            D3DXMatrixInverseRounded (div32 8 5)).ComputeViewTransforms32.Projection :=
  have hfr := zeroIpdExample32_frustum D3DXMatrixInverseRounded
  have ha : div32 8 5 ≠ 0 := by rw [aspect_8_5]; norm_num
  ⟨rfl, rfl, rfl, hfr, ha, aspect_8_5_range.1, aspect_8_5_range.2,
    ((zero_ipd_gives_mono (ViewAdjustment.zeroIpdExample32 D3DXMatrixInverseRounded)
      (div32 8 5) D3DXMatrixInverseRounded ha rfl rfl rfl).2 hfr aspect_8_5_range.1
      aspect_8_5_range.2 inverseRounded_binary32).2.2.1,
    ((zero_ipd_gives_mono (ViewAdjustment.zeroIpdExample32 D3DXMatrixInverseRounded)
      (div32 8 5) D3DXMatrixInverseRounded ha rfl rfl rfl).2 hfr aspect_8_5_range.1
      aspect_8_5_range.2 inverseRounded_binary32).2.2.2.2.1⟩

/-! ## Exact counts of `Release()` and `AddRef()` in the setters -/

theorem releasesOf_addRefIfSet {α : Type} (side : RenderPosition) (wrap : α → Resource)
    (p : Option α) (r : Resource) :
    releasesOf r (D3DProxyDevice.addRefIfSet side wrap p) = 0 ∧
    addRefsOf r (D3DProxyDevice.addRefIfSet side wrap p) = holds wrap p r := by
  cases p with
  | none => exact ⟨rfl, rfl⟩
  | some x =>
      by_cases h : wrap x = r <;>
        simp [D3DProxyDevice.addRefIfSet, releasesOf, addRefsOf, holds, h]

theorem applySetter_counts (dev : Device) (c : SetterCall) (s s2 : D3DProxyDevice)
    (log log2 : Log) (hr : HRESULT) (hcap : s.m_pCapturingStateTo = none)
    (h : s.applySetter dev c log = some (hr, s2, log2)) :
    ∀ r : Resource,
      if c.succeeded hr && !s.rebindsSameBuffer c then
        releasesOf r log2 = releasesOf r log + holds id (s.oldResource c) r ∧
          addRefsOf r log2 = addRefsOf r log + holds id c.newResource r
      else releasesOf r log2 = releasesOf r log ∧ addRefsOf r log2 = addRefsOf r log := by
  cases c with
  | SetIndices p =>
      simp only [D3DProxyDevice.applySetter, Option.some.injEq, D3DProxyDevice.SetIndices,
        hcap] at h
      split_ifs at h with hs <;> simp only [Prod.mk.injEq] at h <;> obtain ⟨rfl, rfl, rfl⟩ := h
      · intro r
        simp only [SetterCall.succeeded, hs, D3DProxyDevice.rebindsSameBuffer, Bool.not_false,
          Bool.and_self, if_true, releasesOf_append, addRefsOf_append,
          (releasesOf_releaseIfSet _ _ _ r).1, (releasesOf_releaseIfSet _ _ _ r).2,
          (releasesOf_addRefIfSet _ _ _ r).1, (releasesOf_addRefIfSet _ _ _ r).2,
          SetterCall.newResource, D3DProxyDevice.oldResource, holds_map]
        rw [(releasesOf_call _ _ r (by intro x; simp) (by intro x; simp)).1,
          (releasesOf_call _ _ r (by intro x; simp) (by intro x; simp)).2]
        constructor <;> omega
      · intro r
        simp only [SetterCall.succeeded, hs, Bool.false_and, Bool.false_eq_true, if_false,
          releasesOf_append, addRefsOf_append]
        rw [(releasesOf_call _ _ r (by intro x; simp) (by intro x; simp)).1,
          (releasesOf_call _ _ r (by intro x; simp) (by intro x; simp)).2]
        constructor <;> omega
  | SetVertexDeclaration p =>
      simp only [D3DProxyDevice.applySetter, Option.some.injEq,
        D3DProxyDevice.SetVertexDeclaration, hcap] at h
      split_ifs at h with hs <;> simp only [Prod.mk.injEq] at h <;> obtain ⟨rfl, rfl, rfl⟩ := h
      · intro r
        simp only [SetterCall.succeeded, hs, D3DProxyDevice.rebindsSameBuffer, Bool.not_false,
          Bool.and_self, if_true, releasesOf_append, addRefsOf_append,
          (releasesOf_releaseIfSet _ _ _ r).1, (releasesOf_releaseIfSet _ _ _ r).2,
          (releasesOf_addRefIfSet _ _ _ r).1, (releasesOf_addRefIfSet _ _ _ r).2,
          SetterCall.newResource, D3DProxyDevice.oldResource, holds_map]
        rw [(releasesOf_call _ _ r (by intro x; simp) (by intro x; simp)).1,
          (releasesOf_call _ _ r (by intro x; simp) (by intro x; simp)).2]
        constructor <;> omega
      · intro r
        simp only [SetterCall.succeeded, hs, Bool.false_and, Bool.false_eq_true, if_false,
          releasesOf_append, addRefsOf_append]
        rw [(releasesOf_call _ _ r (by intro x; simp) (by intro x; simp)).1,
          (releasesOf_call _ _ r (by intro x; simp) (by intro x; simp)).2]
        constructor <;> omega
  | SetVertexShader p =>
      simp only [D3DProxyDevice.applySetter, Option.some.injEq,
        D3DProxyDevice.SetVertexShader, hcap] at h
      split_ifs at h with hs <;> simp only [Prod.mk.injEq] at h <;> obtain ⟨rfl, rfl, rfl⟩ := h
      · intro r
        simp only [SetterCall.succeeded, hs, D3DProxyDevice.rebindsSameBuffer, Bool.not_false,
          Bool.and_self, if_true, releasesOf_append, addRefsOf_append,
          (releasesOf_releaseIfSet _ _ _ r).1, (releasesOf_releaseIfSet _ _ _ r).2,
          (releasesOf_addRefIfSet _ _ _ r).1, (releasesOf_addRefIfSet _ _ _ r).2,
          SetterCall.newResource, D3DProxyDevice.oldResource, holds_map]
        rw [(releasesOf_call _ _ r (by intro x; simp) (by intro x; simp)).1,
          (releasesOf_call _ _ r (by intro x; simp) (by intro x; simp)).2,
          (releasesOf_call _ _ r (by intro x; simp) (by intro x; simp)).1,
          (releasesOf_call _ _ r (by intro x; simp) (by intro x; simp)).2]
        constructor <;> omega
      · intro r
        simp only [SetterCall.succeeded, hs, Bool.false_and, Bool.false_eq_true, if_false,
          releasesOf_append, addRefsOf_append]
        rw [(releasesOf_call _ _ r (by intro x; simp) (by intro x; simp)).1,
          (releasesOf_call _ _ r (by intro x; simp) (by intro x; simp)).2]
        constructor <;> omega
  | SetPixelShader p =>
      simp only [D3DProxyDevice.applySetter, Option.some.injEq,
        D3DProxyDevice.SetPixelShader, hcap] at h
      split_ifs at h with hs <;> simp only [Prod.mk.injEq] at h <;> obtain ⟨rfl, rfl, rfl⟩ := h
      · intro r
        simp only [SetterCall.succeeded, hs, D3DProxyDevice.rebindsSameBuffer, Bool.not_false,
          Bool.and_self, if_true, releasesOf_append, addRefsOf_append,
          (releasesOf_releaseIfSet _ _ _ r).1, (releasesOf_releaseIfSet _ _ _ r).2,
          (releasesOf_addRefIfSet _ _ _ r).1, (releasesOf_addRefIfSet _ _ _ r).2,
          SetterCall.newResource, D3DProxyDevice.oldResource, holds_map]
        rw [(releasesOf_call _ _ r (by intro x; simp) (by intro x; simp)).1,
          (releasesOf_call _ _ r (by intro x; simp) (by intro x; simp)).2,
          (releasesOf_call _ _ r (by intro x; simp) (by intro x; simp)).1,
          (releasesOf_call _ _ r (by intro x; simp) (by intro x; simp)).2]
        constructor <;> omega
      · intro r
        simp only [SetterCall.succeeded, hs, Bool.false_and, Bool.false_eq_true, if_false,
          releasesOf_append, addRefsOf_append]
        rw [(releasesOf_call _ _ r (by intro x; simp) (by intro x; simp)).1,
          (releasesOf_call _ _ r (by intro x; simp) (by intro x; simp)).2]
        constructor <;> omega
  | SetDepthStencilSurface p =>
      simp only [D3DProxyDevice.applySetter, Option.some.injEq,
        D3DProxyDevice.SetDepthStencilSurface] at h
      split_ifs at h with hs <;> simp only [Prod.mk.injEq] at h <;> obtain ⟨rfl, rfl, rfl⟩ := h
      · intro r
        simp only [SetterCall.succeeded, hs, D3DProxyDevice.rebindsSameBuffer, Bool.not_false,
          Bool.and_self, if_true, releasesOf_append, addRefsOf_append,
          (releasesOf_releaseIfSet _ _ _ r).1, (releasesOf_releaseIfSet _ _ _ r).2,
          (releasesOf_addRefIfSet _ _ _ r).1, (releasesOf_addRefIfSet _ _ _ r).2,
          SetterCall.newResource, D3DProxyDevice.oldResource, holds_map]
        rw [(releasesOf_call _ _ r (by intro x; simp) (by intro x; simp)).1,
          (releasesOf_call _ _ r (by intro x; simp) (by intro x; simp)).2]
        constructor <;> omega
      · intro r
        simp only [SetterCall.succeeded, hs, Bool.false_and, Bool.false_eq_true, if_false,
          releasesOf_append, addRefsOf_append]
        rw [(releasesOf_call _ _ r (by intro x; simp) (by intro x; simp)).1,
          (releasesOf_call _ _ r (by intro x; simp) (by intro x; simp)).2]
        constructor <;> omega
  | SetTexture Stage p =>
      simp only [D3DProxyDevice.applySetter, Option.some.injEq,
        D3DProxyDevice.SetTexture, hcap] at h
      cases hl : s.m_activeTextureStages.lookup Stage with
      | none =>
          simp only [hl, mapInsert_of_lookup_none _ _ _ hl, if_true] at h
          split_ifs at h with hs <;> simp only [Prod.mk.injEq] at h <;>
            obtain ⟨rfl, rfl, rfl⟩ := h
          · intro r
            simp only [SetterCall.succeeded, hs, D3DProxyDevice.rebindsSameBuffer,
              Bool.not_false, Bool.and_self, if_true, releasesOf_append, addRefsOf_append,
              (releasesOf_addRefIfSet _ _ _ r).1, (releasesOf_addRefIfSet _ _ _ r).2,
              SetterCall.newResource, D3DProxyDevice.oldResource, holds_map, hl,
              join_none_eq, holds_none]
            rw [(releasesOf_call _ _ r (by intro x; simp) (by intro x; simp)).1,
              (releasesOf_call _ _ r (by intro x; simp) (by intro x; simp)).2]
            constructor <;> rfl
          · intro r
            simp only [SetterCall.succeeded, hs, Bool.false_and, Bool.false_eq_true, if_false,
              releasesOf_append, addRefsOf_append]
            rw [(releasesOf_call _ _ r (by intro x; simp) (by intro x; simp)).1,
              (releasesOf_call _ _ r (by intro x; simp) (by intro x; simp)).2]
            constructor <;> omega
      | some pOld =>
          simp only [hl, mapInsert_of_lookup_none _ _ _ (lookup_mapErase _ _), if_true] at h
          split_ifs at h with hs <;> simp only [Prod.mk.injEq] at h <;>
            obtain ⟨rfl, rfl, rfl⟩ := h
          · intro r
            simp only [SetterCall.succeeded, hs, D3DProxyDevice.rebindsSameBuffer,
              Bool.not_false, Bool.and_self, if_true, releasesOf_append, addRefsOf_append,
              (releasesOf_releaseIfSet _ _ _ r).1, (releasesOf_releaseIfSet _ _ _ r).2,
              (releasesOf_addRefIfSet _ _ _ r).1, (releasesOf_addRefIfSet _ _ _ r).2,
              SetterCall.newResource, D3DProxyDevice.oldResource, holds_map, hl,
              join_some_eq]
            rw [(releasesOf_call _ _ r (by intro x; simp) (by intro x; simp)).1,
              (releasesOf_call _ _ r (by intro x; simp) (by intro x; simp)).2]
            constructor <;> omega
          · intro r
            simp only [SetterCall.succeeded, hs, Bool.false_and, Bool.false_eq_true, if_false,
              releasesOf_append, addRefsOf_append]
            rw [(releasesOf_call _ _ r (by intro x; simp) (by intro x; simp)).1,
              (releasesOf_call _ _ r (by intro x; simp) (by intro x; simp)).2]
            constructor <;> omega
  | SetStreamSource n p off stride =>
      simp only [D3DProxyDevice.applySetter, Option.some.injEq,
        D3DProxyDevice.SetStreamSource, hcap] at h
      cases hl : s.m_activeVertexBuffers.lookup n with
      | none =>
          simp only [hl, mapInsert_of_lookup_none _ _ _ hl, if_true] at h
          split_ifs at h with hs <;> simp only [Prod.mk.injEq] at h <;>
            obtain ⟨rfl, rfl, rfl⟩ := h
          · intro r
            simp only [SetterCall.succeeded, hs, D3DProxyDevice.rebindsSameBuffer, hl,
              reduceCtorEq, decide_False,
              Bool.not_false, Bool.and_self, if_true, releasesOf_append, addRefsOf_append,
              (releasesOf_addRefIfSet _ _ _ r).1, (releasesOf_addRefIfSet _ _ _ r).2,
              SetterCall.newResource, D3DProxyDevice.oldResource, holds_map,
              join_none_eq, holds_none]
            rw [(releasesOf_call _ _ r (by intro x; simp) (by intro x; simp)).1,
              (releasesOf_call _ _ r (by intro x; simp) (by intro x; simp)).2]
            constructor <;> rfl
          · intro r
            simp only [SetterCall.succeeded, hs, Bool.false_and, Bool.false_eq_true, if_false,
              releasesOf_append, addRefsOf_append]
            rw [(releasesOf_call _ _ r (by intro x; simp) (by intro x; simp)).1,
              (releasesOf_call _ _ r (by intro x; simp) (by intro x; simp)).2]
            constructor <;> omega
      | some pOld =>
          simp only [hl, mapInsert_of_lookup_none _ _ _ (lookup_mapErase _ _), if_true] at h
          split_ifs at h with hs hsame <;> simp only [Prod.mk.injEq] at h <;>
            obtain ⟨rfl, rfl, rfl⟩ := h
          · intro r
            simp only [SetterCall.succeeded, hs, D3DProxyDevice.rebindsSameBuffer, hl, hsame,
              decide_True, Bool.not_true, Bool.and_false, Bool.false_eq_true, if_false,
              releasesOf_append, addRefsOf_append]
            rw [(releasesOf_call _ _ r (by intro x; simp) (by intro x; simp)).1,
              (releasesOf_call _ _ r (by intro x; simp) (by intro x; simp)).2]
            constructor <;> omega
          · intro r
            have hne : ¬ (some pOld = some p) := fun hh => hsame (Option.some.inj hh)
            simp only [SetterCall.succeeded, hs, D3DProxyDevice.rebindsSameBuffer, hl, hne,
              decide_False,
              Bool.not_false, Bool.and_self, if_true, releasesOf_append, addRefsOf_append,
              (releasesOf_releaseIfSet _ _ _ r).1, (releasesOf_releaseIfSet _ _ _ r).2,
              (releasesOf_addRefIfSet _ _ _ r).1, (releasesOf_addRefIfSet _ _ _ r).2,
              SetterCall.newResource, D3DProxyDevice.oldResource, holds_map,
              join_some_eq]
            rw [(releasesOf_call _ _ r (by intro x; simp) (by intro x; simp)).1,
              (releasesOf_call _ _ r (by intro x; simp) (by intro x; simp)).2]
            constructor <;> omega
          · intro r
            simp only [SetterCall.succeeded, hs, Bool.false_and, Bool.false_eq_true, if_false,
              releasesOf_append, addRefsOf_append]
            rw [(releasesOf_call _ _ r (by intro x; simp) (by intro x; simp)).1,
              (releasesOf_call _ _ r (by intro x; simp) (by intro x; simp)).2]
            constructor <;> omega
  | SetRenderTarget i p =>
      simp only [D3DProxyDevice.applySetter, setRenderTarget_eq] at h
      split_ifs at h with h0 hok
      · simp only [Option.some.injEq, Prod.mk.injEq] at h
        obtain ⟨rfl, rfl, rfl⟩ := h
        intro r
        have hne : ¬ (D3DERR_INVALIDCALL = D3D_OK) := by decide
        simp [SetterCall.succeeded, hne]
      · cases hold : s.m_activeRenderTargets[i]? with
        | none => simp [hold] at h
        | some pOld =>
            simp only [hold, Option.map_some', Option.some.injEq, Prod.mk.injEq] at h
            obtain ⟨rfl, rfl, rfl⟩ := h
            intro r
            simp only [SetterCall.succeeded, decide_True, D3DProxyDevice.rebindsSameBuffer,
              Bool.not_false, Bool.and_self, if_true, releasesOf_append, addRefsOf_append,
              (releasesOf_releaseIfSet _ _ _ r).1, (releasesOf_releaseIfSet _ _ _ r).2,
              (releasesOf_addRefIfSet _ _ _ r).1, (releasesOf_addRefIfSet _ _ _ r).2,
              SetterCall.newResource, D3DProxyDevice.oldResource, holds_map, hold,
              join_some_eq]
            rw [(releasesOf_call _ _ r (by intro x; simp) (by intro x; simp)).1,
              (releasesOf_call _ _ r (by intro x; simp) (by intro x; simp)).2]
            constructor <;> omega
      · simp only [Option.some.injEq, Prod.mk.injEq] at h
        obtain ⟨rfl, rfl, rfl⟩ := h
        intro r
        simp only [SetterCall.succeeded, hok, decide_False, Bool.false_and, Bool.false_eq_true,
          if_false, releasesOf_append, addRefsOf_append]
        rw [(releasesOf_call _ _ r (by intro x; simp) (by intro x; simp)).1,
          (releasesOf_call _ _ r (by intro x; simp) (by intro x; simp)).2]
        constructor <;> omega

/-- C16 as stated does not hold for `SetStreamSource`: on a device whose stream 0 holds the
example vertex buffer, outside a capture, binding that buffer to stream 0 again succeeds and
logs the device call only. The slot held a resource and the newly bound resource is not null,
yet the call makes no `Release()` and no `AddRef()` on it. -/
theorem setStreamSource_rebind_counts :
    D3DProxyDevice.buffersBound.m_pCapturingStateTo = none ∧
    D3DProxyDevice.buffersBound.applySetter Device.allOk
        (.SetStreamSource 0 (some exampleVertexBuffer) 0 16) []
      = some (D3D_OK, D3DProxyDevice.buffersBound,
          [⟨.Left, .SetStreamSource 0 (some 8) 0 16⟩]) ∧
    (SetterCall.SetStreamSource 0 (some exampleVertexBuffer) 0 16).succeeded D3D_OK = true ∧
    D3DProxyDevice.buffersBound.oldResource
        (.SetStreamSource 0 (some exampleVertexBuffer) 0 16)
      = some (.vertexBuffer exampleVertexBuffer) ∧
    (SetterCall.SetStreamSource 0 (some exampleVertexBuffer) 0 16).newResource
      = some (.vertexBuffer exampleVertexBuffer) ∧
    releasesOf (.vertexBuffer exampleVertexBuffer)
      [⟨.Left, .SetStreamSource 0 (some 8) 0 16⟩] = 0 ∧
    addRefsOf (.vertexBuffer exampleVertexBuffer)
      [⟨.Left, .SetStreamSource 0 (some 8) 0 16⟩] = 0 := by
  refine ⟨rfl, ?_, rfl, rfl, rfl, rfl, rfl⟩
  simp only [D3DProxyDevice.applySetter, Option.some.injEq]
  rfl

/-- C16, amended: outside a capture, with the keys of the two maps distinct, each of the
eight setters that returns leaves the capture target null and the keys distinct, and for every
resource `r`: if the setter passed its success test, the open references on `r` and the number
of slots holding `r` both change by `+1` if `r` is the newly bound resource and by `-1` if `r`
is the resource the slot held before (no change when both are the same); if it did not pass,
neither changes. A setter that passed its test logs exactly one `Release()` on the resource
the slot held and exactly one `AddRef()` on the newly bound one, and none on any other
resource, except `SetStreamSource` called with the pointer the entry of the stream already
holds, which logs neither; a setter that did not pass logs neither. Every setter returns,
except `SetRenderTarget` for a slot outside the table. Hence a run of setter calls keeps the
open references of every resource equal to the number of slots holding it, in particular from
device construction on. -/
theorem bindings_own_one_reference (dev : Device) (s : D3DProxyDevice) (log : Log)
    (hcap : s.m_pCapturingStateTo = none) (hk : s.keysDistinct) :
    (∀ (c : SetterCall) (hr : HRESULT) (s2 : D3DProxyDevice) (log2 : Log),
      s.applySetter dev c log = some (hr, s2, log2) →
      s2.m_pCapturingStateTo = none ∧ s2.keysDistinct ∧
      ∀ r : Resource,
        (if c.succeeded hr then
          refBalance log2 r + holds id (s.oldResource c) r
              = refBalance log r + holds id c.newResource r ∧
            s2.slotCount r + holds id (s.oldResource c) r
              = s.slotCount r + holds id c.newResource r
        else refBalance log2 r = refBalance log r ∧ s2.slotCount r = s.slotCount r) ∧
        (if c.succeeded hr && !s.rebindsSameBuffer c then
          releasesOf r log2 = releasesOf r log + holds id (s.oldResource c) r ∧
            addRefsOf r log2 = addRefsOf r log + holds id c.newResource r
        else releasesOf r log2 = releasesOf r log ∧ addRefsOf r log2 = addRefsOf r log)) ∧
    (∀ c : SetterCall, (∀ i p, c = .SetRenderTarget i p → i < s.m_activeRenderTargets.length) →
      (s.applySetter dev c log).isSome = true) ∧
    (∀ (cs : List SetterCall) (s2 : D3DProxyDevice) (log2 : Log),
      Balanced s log → runSetters dev cs s log = some (s2, log2) → Balanced s2 log2) ∧
    (∀ (raw : D3DProxyDevice) (defaultInfo : HMDisplayInfo) (maxRenderTargets : Nat)
        (cs : List SetterCall) (s2 : D3DProxyDevice) (log2 : Log),
      runSetters dev cs (D3DProxyDevice.ctor raw defaultInfo maxRenderTargets) []
        = some (s2, log2) →
      Balanced s2 log2) :=
  ⟨fun c hr s2 log2 h =>
     ⟨(applySetter_effect dev c s s2 log log2 hr hcap hk h).1,
      (applySetter_effect dev c s s2 log log2 hr hcap hk h).2.1,
      fun r => ⟨(applySetter_effect dev c s s2 log log2 hr hcap hk h).2.2 r,
        applySetter_counts dev c s s2 log log2 hr hcap h r⟩⟩,
   fun c h => applySetter_isSome dev c s log h,
   fun cs s2 log2 hb h => (runSetters_balanced dev cs s s2 log log2 hcap hk hb h).2.2,
   fun raw defaultInfo maxRenderTargets cs s2 log2 h =>
     (runSetters_balanced dev cs _ s2 [] log2 (balanced_ctor raw defaultInfo maxRenderTargets).1
       (balanced_ctor raw defaultInfo maxRenderTargets).2.1
       (balanced_ctor raw defaultInfo maxRenderTargets).2.2 h).2.2⟩

/-- Witness of the amended C16: on a device whose index buffer is bound, binding the same
index buffer again logs one `Release()` and one `AddRef()` on it; and the balance after binding
a vertex buffer twice to stream 0, then a texture to stage 0 and then null to stage 0 on a
constructed device. -/
theorem bindings_own_one_reference_witness :
    D3DProxyDevice.buffersBound.m_pCapturingStateTo = none ∧
    D3DProxyDevice.buffersBound.keysDistinct ∧
    D3DProxyDevice.buffersBound.applySetter Device.allOk
        (.SetIndices (some exampleIndexBuffer)) []
      = some (D3D_OK, D3DProxyDevice.buffersBound,
          [⟨.Left, .SetIndices (some 9)⟩, ⟨.Left, .Release (.indexBuffer exampleIndexBuffer)⟩,
           ⟨.Left, .AddRef (.indexBuffer exampleIndexBuffer)⟩]) ∧
    releasesOf (.indexBuffer exampleIndexBuffer)
      [⟨.Left, .SetIndices (some 9)⟩, ⟨.Left, .Release (.indexBuffer exampleIndexBuffer)⟩,
       ⟨.Left, .AddRef (.indexBuffer exampleIndexBuffer)⟩] = 1 ∧
    addRefsOf (.indexBuffer exampleIndexBuffer)
      [⟨.Left, .SetIndices (some 9)⟩, ⟨.Left, .Release (.indexBuffer exampleIndexBuffer)⟩,
       ⟨.Left, .AddRef (.indexBuffer exampleIndexBuffer)⟩] = 1 ∧
    (∀ s2 log2,
      runSetters Device.allOk
          [.SetStreamSource 0 (some exampleVertexBuffer) 0 16,
           .SetStreamSource 0 (some exampleVertexBuffer) 0 16,
           .SetTexture 0 (some exampleStereoTexture),
           .SetTexture 0 none]
          D3DProxyDevice.created []
        = some (s2, log2) →
      Balanced s2 log2) :=
  have hrun : D3DProxyDevice.buffersBound.applySetter Device.allOk
        (.SetIndices (some exampleIndexBuffer)) []
      = some (D3D_OK, D3DProxyDevice.buffersBound,
          [⟨.Left, .SetIndices (some 9)⟩, ⟨.Left, .Release (.indexBuffer exampleIndexBuffer)⟩,
           ⟨.Left, .AddRef (.indexBuffer exampleIndexBuffer)⟩]) := rfl
  have hc := (((bindings_own_one_reference Device.allOk D3DProxyDevice.buffersBound [] rfl
    (by decide)).1 _ _ _ _ hrun).2.2 (.indexBuffer exampleIndexBuffer)).2
  ⟨rfl, by decide, hrun, hc.1, hc.2,
    fun s2 log2 h =>
      (bindings_own_one_reference Device.allOk D3DProxyDevice.created [] rfl
        (by decide)).2.2.2 D3DProxyDevice.zeroed ⟨8 / 5, 3 / 20⟩ 1 _ s2 log2 h⟩

/-! ## The device call of the buffer setters -/

theorem setTexture_result (dev : Device) (s : D3DProxyDevice) (log : Log) (Stage : Nat)
    (pTexture : Option ProxyTexture) :
    (s.SetTexture dev Stage pTexture log).1 = dev log.length (s.setTextureCall Stage pTexture) ∧
    ∃ rest, (s.SetTexture dev Stage pTexture log).2.2
      = log ++ [⟨s.m_currentRenderingSide, s.setTextureCall Stage pTexture⟩] ++ rest := by
  cases pTexture <;>
  · simp only [D3DProxyDevice.SetTexture, D3DProxyDevice.setTextureCall]
    generalize DeviceCall.SetTexture Stage _ = call
    by_cases hs : SUCCEEDED (dev log.length call) = true
    · simp only [hs, if_true]
      cases hcap : s.m_pCapturingStateTo with
      | some sb =>
          dsimp only
          exact ⟨by trivial, [], by simp⟩
      | none =>
          dsimp only
          cases hl : s.m_activeTextureStages.lookup Stage with
          | none =>
              simp only [mapInsert_of_lookup_none _ _ _ hl, if_true]
              exact ⟨by trivial, _, rfl⟩
          | some pOld =>
              simp only [mapInsert_of_lookup_none _ _ _ (lookup_mapErase _ _), if_true]
              exact ⟨by trivial, _, by rw [List.append_assoc]⟩
    · simp only [hs, Bool.false_eq_true, if_false]
      exact ⟨by trivial, [], by simp⟩

theorem setStreamSource_result (dev : Device) (s : D3DProxyDevice) (log : Log)
    (StreamNumber : Nat) (pStreamData : Option BaseDirect3DVertexBuffer9)
    (OffsetInBytes Stride : Nat) :
    (s.SetStreamSource dev StreamNumber pStreamData OffsetInBytes Stride log).1
      = dev log.length
          (D3DProxyDevice.setStreamSourceCall StreamNumber pStreamData OffsetInBytes Stride) ∧
    ∃ rest, (s.SetStreamSource dev StreamNumber pStreamData OffsetInBytes Stride log).2.2
      = log ++ [⟨s.m_currentRenderingSide,
          D3DProxyDevice.setStreamSourceCall StreamNumber pStreamData OffsetInBytes Stride⟩]
        ++ rest := by
  cases pStreamData <;>
  · simp only [D3DProxyDevice.SetStreamSource, D3DProxyDevice.setStreamSourceCall]
    generalize DeviceCall.SetStreamSource StreamNumber _ OffsetInBytes Stride = call
    by_cases hs : SUCCEEDED (dev log.length call) = true
    · simp only [hs, if_true]
      cases hcap : s.m_pCapturingStateTo with
      | some sb =>
          dsimp only
          exact ⟨by trivial, [], by simp⟩
      | none =>
          dsimp only
          cases hl : s.m_activeVertexBuffers.lookup StreamNumber with
          | none =>
              simp only [mapInsert_of_lookup_none _ _ _ hl, if_true]
              exact ⟨by trivial, _, rfl⟩
          | some pOld =>
              simp only [mapInsert_of_lookup_none _ _ _ (lookup_mapErase _ _), if_true]
              split_ifs with hsame
              · exact ⟨by trivial, [], by simp⟩
              · exact ⟨by trivial, _, by rw [List.append_assoc]⟩
    · simp only [hs, Bool.false_eq_true, if_false]
      exact ⟨by trivial, [], by simp⟩

theorem setIndices_result (dev : Device) (s : D3DProxyDevice) (log : Log)
    (pIndexData : Option BaseDirect3DIndexBuffer9) :
    (s.SetIndices dev pIndexData log).1
      = dev log.length (D3DProxyDevice.setIndicesCall pIndexData) ∧
    ∃ rest, (s.SetIndices dev pIndexData log).2.2
      = log ++ [⟨s.m_currentRenderingSide, D3DProxyDevice.setIndicesCall pIndexData⟩]
        ++ rest := by
  cases pIndexData <;>
  · simp only [D3DProxyDevice.SetIndices, D3DProxyDevice.setIndicesCall]
    generalize DeviceCall.SetIndices _ = call
    by_cases hs : SUCCEEDED (dev log.length call) = true
    · simp only [hs, if_true]
      cases hcap : s.m_pCapturingStateTo with
      | some sb =>
          dsimp only
          exact ⟨by trivial, [], by simp⟩
      | none =>
          dsimp only
          exact ⟨by trivial, _, by rw [List.append_assoc]⟩
    · simp only [hs, Bool.false_eq_true, if_false]
      exact ⟨by trivial, [], by simp⟩

/-- C20: outside a capture, `SetTexture`, `SetStreamSource` and `SetIndices` first pass one
call to the wrapped device (`setTextureCall`, `setStreamSourceCall`, `setIndicesCall`), and
when the device answers that call with a success: the method returns that answer, so it
succeeds; binding null leaves the slot holding no resource and lowers the open references of
the resource the slot held by one; binding what the slot already holds leaves the binding
table as it was (for the texture map: every stage looks up as before and nothing else in the
state changes; for the stream map and the index buffer: the state is unchanged) and leaves the
open references of every resource as they were. -/
theorem rebind_is_noop (dev : Device) (s : D3DProxyDevice) (log : Log)
    (hcap : s.m_pCapturingStateTo = none) :
    -- SetTexture
    (∀ (Stage : Nat) (pTexture : Option ProxyTexture),
      (∃ rest, (s.SetTexture dev Stage pTexture log).2.2
        = log ++ [⟨s.m_currentRenderingSide, s.setTextureCall Stage pTexture⟩] ++ rest) ∧
      (SUCCEEDED (dev log.length (s.setTextureCall Stage pTexture)) = true →
        (s.SetTexture dev Stage pTexture log).1
          = dev log.length (s.setTextureCall Stage pTexture) ∧
        SUCCEEDED (s.SetTexture dev Stage pTexture log).1 = true ∧
        (pTexture = none →
          (s.SetTexture dev Stage pTexture log).2.1.m_activeTextureStages.lookup Stage
            = some none ∧
          ∀ r, refBalance (s.SetTexture dev Stage pTexture log).2.2 r
            = refBalance log r - holds id (s.oldResource (.SetTexture Stage pTexture)) r) ∧
        (s.m_activeTextureStages.lookup Stage = some pTexture →
          (∀ j, (s.SetTexture dev Stage pTexture log).2.1.m_activeTextureStages.lookup j
            = s.m_activeTextureStages.lookup j) ∧
          (s.SetTexture dev Stage pTexture log).2.1
            = { s with m_activeTextureStages :=
                  (s.SetTexture dev Stage pTexture log).2.1.m_activeTextureStages } ∧
          ∀ r, refBalance (s.SetTexture dev Stage pTexture log).2.2 r = refBalance log r))) ∧
    -- SetStreamSource
    (∀ (StreamNumber : Nat) (pStreamData : Option BaseDirect3DVertexBuffer9)
        (OffsetInBytes Stride : Nat),
      (∃ rest, (s.SetStreamSource dev StreamNumber pStreamData OffsetInBytes Stride log).2.2
        = log ++ [⟨s.m_currentRenderingSide,
            D3DProxyDevice.setStreamSourceCall StreamNumber pStreamData OffsetInBytes Stride⟩]
          ++ rest) ∧
      (SUCCEEDED (dev log.length
          (D3DProxyDevice.setStreamSourceCall StreamNumber pStreamData OffsetInBytes Stride))
          = true →
        (s.SetStreamSource dev StreamNumber pStreamData OffsetInBytes Stride log).1
          = dev log.length
              (D3DProxyDevice.setStreamSourceCall StreamNumber pStreamData OffsetInBytes
                Stride) ∧
        SUCCEEDED (s.SetStreamSource dev StreamNumber pStreamData OffsetInBytes Stride log).1
          = true ∧
        (pStreamData = none →
          (s.SetStreamSource dev StreamNumber pStreamData OffsetInBytes
              Stride log).2.1.m_activeVertexBuffers.lookup StreamNumber = some none ∧
          ∀ r, refBalance (s.SetStreamSource dev StreamNumber pStreamData OffsetInBytes
              Stride log).2.2 r
            = refBalance log r
              - holds id (s.oldResource
                  (.SetStreamSource StreamNumber pStreamData OffsetInBytes Stride)) r) ∧
        (s.m_activeVertexBuffers.lookup StreamNumber = some pStreamData →
          (s.SetStreamSource dev StreamNumber pStreamData OffsetInBytes Stride log).2.1 = s ∧
          ∀ r, refBalance (s.SetStreamSource dev StreamNumber pStreamData OffsetInBytes
              Stride log).2.2 r = refBalance log r))) ∧
    -- SetIndices
    (∀ pIndexData : Option BaseDirect3DIndexBuffer9,
      (∃ rest, (s.SetIndices dev pIndexData log).2.2
        = log ++ [⟨s.m_currentRenderingSide, D3DProxyDevice.setIndicesCall pIndexData⟩]
          ++ rest) ∧
      (SUCCEEDED (dev log.length (D3DProxyDevice.setIndicesCall pIndexData)) = true →
        (s.SetIndices dev pIndexData log).1
          = dev log.length (D3DProxyDevice.setIndicesCall pIndexData) ∧
        SUCCEEDED (s.SetIndices dev pIndexData log).1 = true ∧
        (pIndexData = none →
          (s.SetIndices dev pIndexData log).2.1.m_pActiveIndicies = none ∧
          ∀ r, refBalance (s.SetIndices dev pIndexData log).2.2 r
            = refBalance log r - holds id (s.oldResource (.SetIndices pIndexData)) r) ∧
        (s.m_pActiveIndicies = pIndexData →
          (s.SetIndices dev pIndexData log).2.1 = s ∧
          ∀ r, refBalance (s.SetIndices dev pIndexData log).2.2 r = refBalance log r))) := by
  have hold := rebind_effect dev s log hcap
  refine ⟨fun Stage pTexture => ?_, fun n p off stride => ?_, fun p => ?_⟩
  · have hres := setTexture_result dev s log Stage pTexture
    refine ⟨hres.2, fun hdev => ?_⟩
    have hs : SUCCEEDED (s.SetTexture dev Stage pTexture log).1 = true := by
      rw [hres.1]; exact hdev
    exact ⟨hres.1, hs, hold.1 Stage pTexture hs⟩
  · have hres := setStreamSource_result dev s log n p off stride
    refine ⟨hres.2, fun hdev => ?_⟩
    have hs : SUCCEEDED (s.SetStreamSource dev n p off stride log).1 = true := by
      rw [hres.1]; exact hdev
    exact ⟨hres.1, hs, hold.2.1 n p off stride hs⟩
  · have hres := setIndices_result dev s log p
    refine ⟨hres.2, fun hdev => ?_⟩
    have hs : SUCCEEDED (s.SetIndices dev p log).1 = true := by
      rw [hres.1]; exact hdev
    exact ⟨hres.1, hs, hold.2.2 p hs⟩

/-- Witness of C20: on a device with a stereo texture on stage 1, a vertex buffer on stream 0
and an index buffer, each bound again through its setter, and null bound to stage 1. -/
theorem rebind_is_noop_witness :
    D3DProxyDevice.buffersBound.m_pCapturingStateTo = none ∧
    -- SetTexture on stage 1, which holds the stereo texture
    SUCCEEDED (Device.allOk ([] : Log).length
      (D3DProxyDevice.buffersBound.setTextureCall 1 (some exampleStereoTexture))) = true ∧
    D3DProxyDevice.buffersBound.m_activeTextureStages.lookup 1
      = some (some exampleStereoTexture) ∧
    SUCCEEDED (D3DProxyDevice.buffersBound.SetTexture Device.allOk 1
      (some exampleStereoTexture) []).1 = true ∧
    (∀ j, (D3DProxyDevice.buffersBound.SetTexture Device.allOk 1
        (some exampleStereoTexture) []).2.1.m_activeTextureStages.lookup j
      = D3DProxyDevice.buffersBound.m_activeTextureStages.lookup j) ∧
    (∀ r, refBalance (D3DProxyDevice.buffersBound.SetTexture Device.allOk 1
      (some exampleStereoTexture) []).2.2 r = refBalance [] r) ∧
    -- SetTexture with null on stage 1
    (D3DProxyDevice.buffersBound.SetTexture Device.allOk 1
      none []).2.1.m_activeTextureStages.lookup 1 = some none ∧
    -- SetStreamSource on stream 0, which holds the vertex buffer
    SUCCEEDED (Device.allOk ([] : Log).length
      (D3DProxyDevice.setStreamSourceCall 0 (some exampleVertexBuffer) 0 16)) = true ∧
    D3DProxyDevice.buffersBound.m_activeVertexBuffers.lookup 0
      = some (some exampleVertexBuffer) ∧
    SUCCEEDED (D3DProxyDevice.buffersBound.SetStreamSource Device.allOk 0
      (some exampleVertexBuffer) 0 16 []).1 = true ∧
    (D3DProxyDevice.buffersBound.SetStreamSource Device.allOk 0
      (some exampleVertexBuffer) 0 16 []).2.1 = D3DProxyDevice.buffersBound ∧
    (∀ r, refBalance (D3DProxyDevice.buffersBound.SetStreamSource Device.allOk 0
      (some exampleVertexBuffer) 0 16 []).2.2 r = refBalance [] r) ∧
    -- SetIndices with the index buffer that is bound
    SUCCEEDED (Device.allOk ([] : Log).length
      (D3DProxyDevice.setIndicesCall (some exampleIndexBuffer))) = true ∧
    D3DProxyDevice.buffersBound.m_pActiveIndicies = some exampleIndexBuffer ∧
    SUCCEEDED (D3DProxyDevice.buffersBound.SetIndices Device.allOk
      (some exampleIndexBuffer) []).1 = true ∧
    (D3DProxyDevice.buffersBound.SetIndices Device.allOk (some exampleIndexBuffer) []).2.1
      = D3DProxyDevice.buffersBound ∧
    (∀ r, refBalance (D3DProxyDevice.buffersBound.SetIndices Device.allOk
      (some exampleIndexBuffer) []).2.2 r = refBalance [] r) :=
  have h := rebind_is_noop Device.allOk D3DProxyDevice.buffersBound [] rfl
  ⟨rfl, rfl, rfl,
    ((h.1 1 (some exampleStereoTexture)).2 rfl).2.1,
    (((h.1 1 (some exampleStereoTexture)).2 rfl).2.2.2 rfl).1,
    (((h.1 1 (some exampleStereoTexture)).2 rfl).2.2.2 rfl).2.2,
    ((((h.1 1 none).2 rfl).2.2.1 rfl).1),
    rfl, rfl,
    ((h.2.1 0 (some exampleVertexBuffer) 0 16).2 rfl).2.1,
    (((h.2.1 0 (some exampleVertexBuffer) 0 16).2 rfl).2.2.2 rfl).1,
    (((h.2.1 0 (some exampleVertexBuffer) 0 16).2 rfl).2.2.2 rfl).2,
    rfl, rfl,
    ((h.2.2 (some exampleIndexBuffer)).2 rfl).2.1,
    (((h.2.2 (some exampleIndexBuffer)).2 rfl).2.2.2 rfl).1,
    (((h.2.2 (some exampleIndexBuffer)).2 rfl).2.2.2 rfl).2⟩

end Vireio
